import Mathlib

/-!
# Changed-page tracking: a shallow embedding of `log/log0online.c`

The development follows the C source function by function.

* `ulint` and `ib_uint64_t` are 64-bit unsigned words.  They are embedded as `Nat`, and every
  operation that can leave the 64-bit range is reduced modulo `2 ^ 64` explicitly.
* A `byte` is a `Fin 256`; a bitmap block (`byte[MODIFIED_PAGE_BLOCK_SIZE]`) is a `Page`,
  a list of bytes of length 4096.
* A failed `ut_a` assertion and `exit(1)` end the process: functions that contain one return
  an `Option`, and `none` stands for "the process was terminated".
-/

namespace Log0Online

/-! ## Bytes, blocks and the block layout -/

/-- A byte of memory or of a file. -/
abbrev byte := Fin 256

/-- The C conversion `(byte) n`: the low eight bits of a word. -/
def to_byte (n : Nat) : byte := ⟨n % 256, Nat.mod_lt n (by decide)⟩

/-- The bitmap file block size in bytes. -/
abbrev MODIFIED_PAGE_BLOCK_SIZE : Nat := 4096

/-- Offset of the flag that is 1 in the last block of a write, 0 otherwise. -/
abbrev MODIFIED_PAGE_IS_LAST_BLOCK : Nat := 0
/-- Offset of the starting tracked LSN of this and other blocks of the same write. -/
abbrev MODIFIED_PAGE_START_LSN : Nat := 4
/-- Offset of the ending tracked LSN of this and other blocks of the same write. -/
abbrev MODIFIED_PAGE_END_LSN : Nat := 12
/-- Offset of the space id of the tracked pages of the block. -/
abbrev MODIFIED_PAGE_SPACE_ID : Nat := 20
/-- Offset of the page id of the first tracked page of the block. -/
abbrev MODIFIED_PAGE_1ST_PAGE_ID : Nat := 24
/-- Offset of the unused bytes that align the start of the bitmap. -/
abbrev MODIFIED_PAGE_BLOCK_UNUSED_1 : Nat := 28
/-- Offset of the bitmap itself. -/
abbrev MODIFIED_PAGE_BLOCK_BITMAP : Nat := 32
/-- Offset of the unused bytes that align the end of the bitmap. -/
abbrev MODIFIED_PAGE_BLOCK_UNUSED_2 : Nat := MODIFIED_PAGE_BLOCK_SIZE - 8
/-- Offset of the checksum of the block. -/
abbrev MODIFIED_PAGE_BLOCK_CHECKSUM : Nat := MODIFIED_PAGE_BLOCK_SIZE - 4

/-- Length of the bitmap data in a block in bytes. -/
abbrev MODIFIED_PAGE_BLOCK_BITMAP_LEN : Nat :=
  MODIFIED_PAGE_BLOCK_UNUSED_2 - MODIFIED_PAGE_BLOCK_BITMAP

/-- Length of the bitmap data in a block in page ids. -/
abbrev MODIFIED_PAGE_BLOCK_ID_COUNT : Nat := MODIFIED_PAGE_BLOCK_BITMAP_LEN * 8

/-- The value `(ulint) -1` on a 64-bit machine. -/
abbrev ULINT_UNDEFINED : Nat := 2 ^ 64 - 1

/-- A buffer of `MODIFIED_PAGE_BLOCK_SIZE` bytes: one bitmap block, in memory or read from a
file. -/
structure Page where
  /-- The bytes of the block, byte 0 first. -/
  bytes : List byte
  /-- The buffer is exactly one block long. -/
  size_eq : bytes.length = MODIFIED_PAGE_BLOCK_SIZE
deriving DecidableEq

/-- The C expression `page[i]`. -/
def Page.get (p : Page) (i : Nat) : byte := p.bytes.getD i 0

/-- The C assignment `page[i] = b`. -/
def Page.set (p : Page) (i : Nat) (b : byte) : Page :=
  ⟨p.bytes.set i b, by rw [List.length_set]; exact p.size_eq⟩

/-- A block of zero bytes, the result of `memset(node, 0, SIZEOF_NODE(tree))`. -/
def Page.zero : Page := ⟨List.replicate MODIFIED_PAGE_BLOCK_SIZE 0, List.length_replicate _ _⟩

/-- The block held by a buffer that was filled from a list of bytes; missing bytes read as
zero. -/
def Page.ofList (l : List byte) : Page :=
  ⟨(l ++ List.replicate MODIFIED_PAGE_BLOCK_SIZE 0).take MODIFIED_PAGE_BLOCK_SIZE, by
    rw [List.length_take, List.length_append, List.length_replicate]; omega⟩

/-- Modelled from the spec: `mach_read_from_4` of `mach0data`, which is not part of the
sources at hand.  The spec fixes it: all multi-byte integers are big-endian.  It reads the four
bytes at `b + off`, most significant byte first. -/
def mach_read_from_4 (b : Page) (off : Nat) : Nat :=
  ((b.get off).val <<< 24) ||| ((b.get (off + 1)).val <<< 16)
    ||| ((b.get (off + 2)).val <<< 8) ||| (b.get (off + 3)).val

/-- Modelled from the spec: `mach_write_to_4` of `mach0data` (big-endian, see
`mach_read_from_4`).  It stores the low 32 bits of `n` in the four bytes at `b + off`. -/
def mach_write_to_4 (b : Page) (off : Nat) (n : Nat) : Page :=
  (((b.set off (to_byte (n >>> 24))).set (off + 1) (to_byte (n >>> 16))).set
    (off + 2) (to_byte (n >>> 8))).set (off + 3) (to_byte n)

/-- Modelled from the spec: `mach_read_from_8` of `mach0data`: the big-endian 64-bit value
at `b + off`, read as two 32-bit halves. -/
def mach_read_from_8 (b : Page) (off : Nat) : Nat :=
  (mach_read_from_4 b off <<< 32) ||| mach_read_from_4 b (off + 4)

/-- Modelled from the spec: `mach_write_to_8` of `mach0data`: stores the 64-bit value `n` at
`b + off` as two big-endian 32-bit halves. -/
def mach_write_to_8 (b : Page) (off : Nat) (n : Nat) : Page :=
  mach_write_to_4 (mach_write_to_4 b off (n >>> 32)) (off + 4) n

/-- The macro `IS_BIT_SET(bitmap, num)`, with `bitmap = page + base`: the byte that holds bit
`num`, masked with `1UL << (num & 7)`.  The result is non-zero iff the bit is set. -/
def IS_BIT_SET (page : Page) (base : Nat) (num : Nat) : Nat :=
  (page.get (base + (num >>> 3))).val &&& (1 <<< (num &&& 7))

/-! ## The comparison function of the tree of modified pages -/

/-- Comparison of two tree keys, `(space, block_start_page)` pairs stored at the offsets of
the space id and of the first page id of a block.  Returns -1, 0 or 1. -/
def log_online_compare_bmp_keys (p1 p2 : Page) : Int :=
  let k1_space := mach_read_from_4 p1 MODIFIED_PAGE_SPACE_ID
  let k2_space := mach_read_from_4 p2 MODIFIED_PAGE_SPACE_ID
  if k1_space = k2_space then
    let k1_start_page := mach_read_from_4 p1 MODIFIED_PAGE_1ST_PAGE_ID
    let k2_start_page := mach_read_from_4 p2 MODIFIED_PAGE_1ST_PAGE_ID
    if k1_start_page < k2_start_page then -1
    else if k1_start_page > k2_start_page then 1 else 0
  else if k1_space < k2_space then -1 else 1

/-! ## The red-black tree of `ut0rbt`, seen through its in-order sequence -/

/-- Modelled from the spec: the tree `ib_rbt_t` of `ut0rbt`, which is not part of the sources
at hand.  The spec describes the modified-page set as an ordered mapping keyed by
`(space_id, block_start_page_id)`; the tree is represented by the sequence of its node values
in traversal order (`rbt_first`, `rbt_next`, ..., `rbt_last`). -/
abbrev ib_rbt_t := List Page

/-- Modelled from the spec: the search result `ib_rbt_bound_t` of `ut0rbt`: the place in the
traversal order where the search stopped and the result of the last comparison. -/
structure ib_rbt_bound_t where
  /-- Number of nodes that precede the node (or the gap) where the search stopped. -/
  last : Nat
  /-- Result of the last comparison; 0 iff a node with the searched key was found. -/
  result : Int
deriving DecidableEq

/-- Modelled from the spec: `rbt_search` of `ut0rbt`: look the key up with the comparison
function of the tree.  The search passes the nodes that compare smaller than the key and stops
at the first node that does not; the result is 0 iff that node carries the key. -/
def rbt_search : ib_rbt_t → Page → ib_rbt_bound_t
  | [], _ => ⟨0, 1⟩
  | node :: rest, key =>
    let c := log_online_compare_bmp_keys key node
    if c > 0 then
      let r := rbt_search rest key
      ⟨r.last + 1, r.result⟩
    else if c = 0 then ⟨0, 0⟩
    else ⟨0, -1⟩

/-- Modelled from the spec: `rbt_add_preallocated_node` of `ut0rbt`: link the node into the
tree at the place found by `rbt_search`. -/
def rbt_add_preallocated_node (tree : ib_rbt_t) (pos : ib_rbt_bound_t) (node : Page) :
    ib_rbt_t :=
  tree.take pos.last ++ node :: tree.drop pos.last

/-! ## The state of the subsystem -/

/-- A bitmap file that is open for reading or writing (`log_online_bitmap_file_t`).  The OS
handle is the path the file was opened by. -/
structure log_online_bitmap_file_t where
  /-- Name with full path. -/
  name : List Char
  /-- Handle. -/
  file : List Char
  /-- Size of the file. -/
  size : Nat
  /-- Offset of the next read, or count of already-read bytes. -/
  offset : Nat
deriving DecidableEq

/-- Log parsing and bitmap output data structure.  The read buffer is local to one read of a
log segment and is not kept; the parse buffer is kept as the list of the bytes between
`parse_buf` and `parse_buf_end`. -/
structure log_bitmap_struct where
  /-- The bytes of the parse buffer that precede `parse_buf_end`. -/
  parse_buf : List byte
  /-- The current bitmap file. -/
  out : log_online_bitmap_file_t
  /-- The bitmap file sequence number. -/
  out_seq_num : Nat
  /-- The LSN of the next unparsed record and the start of the next LSN interval to be
  parsed. -/
  start_lsn : Nat
  /-- The end of the LSN interval to be parsed, equal to the next checkpoint LSN at the time
  of parse. -/
  end_lsn : Nat
  /-- The LSN of the next unparsed record in the current parse. -/
  next_parse_lsn : Nat
  /-- The current modified page set. -/
  modified_pages : ib_rbt_t
  /-- Freed nodes of the tree, kept for later reuse; the head is the next node to reuse. -/
  page_free_list : List Page
deriving DecidableEq

/-! ## Setting a bit -/

/-- The two statements `mach_write_to_4(p + MODIFIED_PAGE_SPACE_ID, space);`
`mach_write_to_4(p + MODIFIED_PAGE_1ST_PAGE_ID, block_start_page);` that fill in the key fields
of the search buffer and of a new node. -/
def write_bmp_key (p : Page) (space block_start_page : Nat) : Page :=
  mach_write_to_4 (mach_write_to_4 p MODIFIED_PAGE_SPACE_ID space)
    MODIFIED_PAGE_1ST_PAGE_ID block_start_page

/-- The statement `page_ptr[MODIFIED_PAGE_BLOCK_BITMAP + block_pos] |= (1U << bit_pos);`. -/
def page_or_bit (page_ptr : Page) (block_pos bit_pos : Nat) : Page :=
  page_ptr.set (MODIFIED_PAGE_BLOCK_BITMAP + block_pos)
    (to_byte ((page_ptr.get (MODIFIED_PAGE_BLOCK_BITMAP + block_pos)).val ||| (1 <<< bit_pos)))

/-- Set a bit for a tracked page in the bitmap.  Expands the bitmap tree as necessary.
`page_ptr` points into the node at place `tree_search_pos.last` of the tree. -/
def log_online_set_page_bit (s : log_bitmap_struct) (space page_no : Nat) :
    Option log_bitmap_struct :=
  if space = ULINT_UNDEFINED then none
  else if page_no = ULINT_UNDEFINED then none
  else
    let block_start_page := page_no / MODIFIED_PAGE_BLOCK_ID_COUNT * MODIFIED_PAGE_BLOCK_ID_COUNT
    let block_pos :=
      if block_start_page ≠ 0 then page_no % block_start_page / 8 else page_no / 8
    let bit_pos := page_no % 8
    -- the search key: only the two key fields of the local buffer are written and read
    let search_page := write_bmp_key Page.zero space block_start_page
    let tree_search_pos := rbt_search s.modified_pages search_page
    let s :=
      if tree_search_pos.result = 0 then s
      else
        -- a node from the free list if there is one, a new node otherwise; memset clears it
        let new_node := write_bmp_key Page.zero space block_start_page
        { s with
          page_free_list := s.page_free_list.tail
          modified_pages :=
            rbt_add_preallocated_node s.modified_pages tree_search_pos new_node }
    let page_ptr := s.modified_pages.getD tree_search_pos.last Page.zero
    some { s with
      modified_pages :=
        s.modified_pages.set tree_search_pos.last (page_or_bit page_ptr block_pos bit_pos) }

/-! ## The block checksum -/

/-- One round of the loop of `log_online_calc_checksum` on the byte `b`; the state is the
pair `(sum, sh)`. -/
def log_online_calc_checksum_step (st : Nat × Nat) (b : Nat) : Nat × Nat :=
  let sum := st.1 &&& 0x7FFFFFFF
  let sum := (sum + b) % 2 ^ 64
  let sum := (sum + (b <<< st.2) % 2 ^ 64) % 2 ^ 64
  let sh := st.2 + 1
  (sum, if sh > 24 then 0 else sh)

/-- Calculate a bitmap block checksum: the loop runs over `i = 0, ..., 4091`. -/
def log_online_calc_checksum (block : Page) : Nat :=
  ((List.range MODIFIED_PAGE_BLOCK_CHECKSUM).foldl
    (fun st i => log_online_calc_checksum_step st (block.get i).val) (1, 0)).1

/-- The reference loop of the specification, on unbounded naturals: the pair `(sum, sh)` after
the bytes `block[0], ..., block[i - 1]` have been added.  Initially `sum = 1` and `sh = 0`;
each byte `b` gives `sum = (sum & 0x7FFFFFFF) + b + (b << sh)` and then `sh = sh + 1` if
`sh < 24` and `sh = 0` otherwise. -/
def calc_checksum_reference_loop (block : Page) : Nat → Nat × Nat
  | 0 => (1, 0)
  | i + 1 =>
    let st := calc_checksum_reference_loop block i
    let b := (block.get i).val
    ((st.1 &&& 0x7FFFFFFF) + b + (b <<< st.2), if st.2 < 24 then st.2 + 1 else 0)

/-- The checksum of the specification: the sum of the reference loop after the bytes
`0 .. 4091`. -/
def calc_checksum_reference (block : Page) : Nat :=
  (calc_checksum_reference_loop block 4092).1

/-! ## The host engine and the operating system

The constants, configuration variables and callbacks of the host engine are declared in
headers and modules that are not part of the sources at hand.  They are parameters of the
embedding. -/

/-- The constants, the configuration variables and the callbacks of the host engine that
`log0online.c` uses.  Their values are not fixed here. -/
structure Env where
  /-- The data directory, the prefix of every path that is printed with a directory part. -/
  srv_data_home : List Char
  /-- The size at which the bitmap file is rotated. -/
  srv_max_bitmap_file_size : Nat
  /-- Size of a buffer that holds a file name. -/
  FN_REFLEN : Nat
  /-- The first LSN of a new log. -/
  LOG_START_LSN : Nat
  /-- Size of the header of a log block. -/
  LOG_BLOCK_HDR_SIZE : Nat
  /-- Size of the trailer of a log block. -/
  LOG_BLOCK_TRL_SIZE : Nat
  /-- Size of a log block. -/
  OS_FILE_LOG_BLOCK_SIZE : Nat
  /-- The largest page size. -/
  UNIV_PAGE_SIZE_MAX : Nat
  /-- Size of the parse buffer. -/
  RECV_PARSING_BUF_SIZE : Nat
  /-- Record type: end of a multi-record mini-transaction. -/
  MLOG_MULTI_REC_END : Nat
  /-- Record type: dummy record used to pad a log block. -/
  MLOG_DUMMY_RECORD : Nat
  /-- Record type: creation of a file. -/
  MLOG_FILE_CREATE : Nat
  /-- Record type: renaming of a file. -/
  MLOG_FILE_RENAME : Nat
  /-- Record type: deletion of a file. -/
  MLOG_FILE_DELETE : Nat
  /-- Record type: creation of a file, with flags. -/
  MLOG_FILE_CREATE2 : Nat
  /-- Record type: the current LSN (only with `UNIV_LOG_LSN_DEBUG`). -/
  MLOG_LSN : Nat
  /-- Whether the code is compiled with `UNIV_LOG_LSN_DEBUG`. -/
  UNIV_LOG_LSN_DEBUG : Bool
  /-- The space id of the doublewrite buffer. -/
  TRX_DOUBLEWRITE_SPACE : Nat
  /-- The callback `log_block_checksum_is_ok_or_old_format` on a log block. -/
  log_block_checksum_is_ok_or_old_format : List byte → Bool
  /-- The callback `log_block_get_data_len` on a log block. -/
  log_block_get_data_len : List byte → Nat
  /-- The callback `recv_parse_log_rec(ptr, end, &type, &space, &page_no, &body)` on the
  bytes between `ptr` and `end`: the length of the record (0 if it is incomplete), its type,
  space id and page number. -/
  recv_parse_log_rec : List byte → Nat × Nat × Nat × Nat
  /-- The callback `recv_calc_lsn_on_data_add(lsn, len)`. -/
  recv_calc_lsn_on_data_add : Nat → Nat → Nat

/-- The largest of the tracked LSNs that cannot be a record LSN:
`MIN_TRACKED_LSN = LOG_START_LSN + LOG_BLOCK_HDR_SIZE`. -/
def MIN_TRACKED_LSN (env : Env) : Nat := env.LOG_START_LSN + env.LOG_BLOCK_HDR_SIZE

/-- The size of one read of the log: `FOLLOW_SCAN_SIZE = 4 * UNIV_PAGE_SIZE_MAX`. -/
def FOLLOW_SCAN_SIZE (env : Env) : Nat := 4 * env.UNIV_PAGE_SIZE_MAX

/-- The log system `log_sys` of the host engine, as far as this module reads and writes it. -/
structure log_t where
  /-- The log sequence number. -/
  lsn : Nat
  /-- The LSN of the latest checkpoint. -/
  last_checkpoint_lsn : Nat
  /-- The capacity of a log group. -/
  log_group_capacity : Nat
  /-- The LSN up to which the changed pages have been tracked; written only by
  `log_set_tracked_lsn`. -/
  tracked_lsn : Nat
  /-- The log groups. -/
  log_groups : List Nat
  /-- The content of the log: what `log_group_read_log_seg(LOG_RECOVER, buf, group, start_lsn,
  end_lsn)` stores in the read buffer. -/
  log_group_read_log_seg : Nat → Nat → Nat → List byte

/-- The type of a directory entry. -/
inductive os_file_type_t where
  | OS_FILE_TYPE_UNKNOWN
  | OS_FILE_TYPE_FILE
  | OS_FILE_TYPE_DIR
  | OS_FILE_TYPE_LINK
deriving DecidableEq

/-- What `os_file_readdir_next_file` reports about a directory entry. -/
structure os_file_stat_t where
  /-- Name of the entry, without the directory. -/
  name : List Char
  /-- Type of the entry. -/
  type : os_file_type_t
  /-- Size of the file. -/
  size : Nat
deriving DecidableEq

/-- Modelled from the spec: an entry of the data directory together with the content of the
file.  Directory and file I/O belong to the operating system layer `os0file`, which is not part
of the sources at hand. -/
structure os_dir_entry where
  /-- Name of the entry, without the directory. -/
  name : List Char
  /-- Type of the entry. -/
  type : os_file_type_t
  /-- The bytes of the file. -/
  data : List byte
deriving DecidableEq

/-- Modelled from the spec: one call of `os_file_write`, as the operating system saw it. -/
structure os_write_call where
  /-- The handle the call was made on. -/
  file : List Char
  /-- The buffer that was passed. -/
  buf : List byte
  /-- The argument `offset`: the least significant 32 bits of the file offset. -/
  offset : Nat
  /-- The argument `offset_high`: the most significant 32 bits of the file offset. -/
  offset_high : Nat
  /-- Whether the call succeeded. -/
  success : Bool
deriving DecidableEq

/-- Modelled from the spec: the operating system as the module sees it: the data directory,
the failures that the next fallible calls will meet, and a record of the writes. -/
structure os_state where
  /-- The entries of the data directory `srv_data_home`, in the order in which
  `os_file_readdir_next_file` enumerates them. -/
  files : List os_dir_entry
  /-- The outcome of the coming fallible calls, first call first: `true` makes the call fail.
  Calls beyond the end of the list do not fail. -/
  faults : List Bool
  /-- The calls of `os_file_write` so far, oldest first. -/
  writes : List os_write_call
deriving DecidableEq

/-- Modelled from the spec: whether the next fallible call fails, and the state after the
call has consumed its outcome. -/
def os_next_fault (os : os_state) : Bool × os_state :=
  match os.faults with
  | [] => (false, os)
  | f :: rest => (f, { os with faults := rest })

/-- Modelled from the spec: the name of the directory entry that a path denotes.  A path
either carries the directory part `srv_data_home` or is relative to the data directory, which
is the working directory. -/
def os_entry_name (env : Env) (path : List Char) : List Char :=
  if env.srv_data_home.isPrefixOf path then path.drop env.srv_data_home.length else path

/-- Modelled from the spec: the content of the file that a path denotes, if the file exists. -/
def os_file_data (env : Env) (os : os_state) (path : List Char) : Option (List byte) :=
  (os.files.find? (fun e => e.name = os_entry_name env path)).map (fun e => e.data)

/-- Modelled from the spec: replace the content of the file that a path denotes. -/
def os_file_set_data (env : Env) (os : os_state) (path : List Char) (data : List byte) :
    os_state :=
  { os with
    files := os.files.map
      (fun e => if e.name = os_entry_name env path then { e with data := data } else e) }

/-- Modelled from the spec: the bytes of a file after `buf` has been written at position
`pos`; a gap between the end of the file and `pos` reads as zeros. -/
def os_write_at (data : List byte) (pos : Nat) (buf : List byte) : List byte :=
  (data ++ List.replicate (pos - data.length) 0).take pos ++ buf
    ++ data.drop (pos + buf.length)

/-- Modelled from the spec: `os_file_write(name, file, buf, offset, offset_high, n)`.  The
file position is `offset + (offset_high << 32)`, computed in the 64-bit type `off_t`.  A failed
call leaves the file as it was. -/
def os_file_write (env : Env) (os : os_state) (file : List Char) (buf : List byte)
    (offset offset_high : Nat) : Bool × os_state :=
  let (fault, os) := os_next_fault os
  match (if fault then none else os_file_data env os file) with
  | none => (false, { os with writes := os.writes ++ [⟨file, buf, offset, offset_high, false⟩] })
  | some data =>
    let pos := (offset + offset_high * 2 ^ 32) % 2 ^ 64
    let os := os_file_set_data env os file (os_write_at data pos buf)
    (true, { os with writes := os.writes ++ [⟨file, buf, offset, offset_high, true⟩] })

/-- Modelled from the spec: `os_file_flush(file, FALSE)`. -/
def os_file_flush (os : os_state) : Bool × os_state :=
  let (fault, os) := os_next_fault os
  (!fault, os)

/-- Modelled from the spec: `os_file_read(file, buf, offset, offset_high, n)`: the `n` bytes at
position `offset + (offset_high << 32)`, or nothing if the call fails or the file is too
short. -/
def os_file_read (env : Env) (os : os_state) (file : List Char) (offset offset_high n : Nat) :
    Option (List byte) × os_state :=
  let (fault, os) := os_next_fault os
  match (if fault then none else os_file_data env os file) with
  | none => (none, os)
  | some data =>
    let pos := (offset + offset_high * 2 ^ 32) % 2 ^ 64
    if pos + n ≤ data.length then (some ((data.drop pos).take n), os) else (none, os)

/-- Modelled from the spec: `os_file_set_eof_at(file, new_len)`: truncate or extend the file
to `new_len` bytes. -/
def os_file_set_eof_at (env : Env) (os : os_state) (file : List Char) (new_len : Nat) :
    Bool × os_state :=
  let (fault, os) := os_next_fault os
  match (if fault then none else os_file_data env os file) with
  | none => (false, os)
  | some data =>
    (true, os_file_set_data env os file
      ((data ++ List.replicate (new_len - data.length) 0).take new_len))

/-- Modelled from the spec: `os_file_create(key, name, OS_FILE_OVERWRITE, ...)`: create the
file, or truncate it to length 0 if it exists.  The handle is the path. -/
def os_file_create (env : Env) (os : os_state) (name : List Char) : Bool × os_state :=
  let (fault, os) := os_next_fault os
  if fault then (false, os)
  else
    match os_file_data env os name with
    | some _ => (true, os_file_set_data env os name [])
    | none =>
      (true, { os with
        files := os.files ++ [⟨os_entry_name env name, os_file_type_t.OS_FILE_TYPE_FILE, []⟩] })

/-- Modelled from the spec: `os_file_create_simple_no_error_handling(key, name, OS_FILE_OPEN,
access, &success)`: open an existing file.  The handle is the path. -/
def os_file_open (env : Env) (os : os_state) (name : List Char) : Bool × os_state :=
  let (fault, os) := os_next_fault os
  if fault then (false, os) else ((os_file_data env os name).isSome, os)

/-- Modelled from the spec: `os_file_get_size` on an open file. -/
def os_file_get_size (env : Env) (os : os_state) (file : List Char) : Nat :=
  ((os_file_data env os file).getD []).length

/-- Modelled from the spec: the entries that `os_file_readdir_next_file` reports for the data
directory, in enumeration order. -/
def os_file_readdir (os : os_state) : List os_file_stat_t :=
  os.files.map (fun e => ⟨e.name, e.type, e.data.length⟩)

/-- Modelled from the spec: `os_file_opendir`; the result tells whether the directory was
opened. -/
def os_file_opendir (os : os_state) : Bool × os_state :=
  let (fault, os) := os_next_fault os
  (!fault, os)

/-- Modelled from the spec: `os_file_closedir`; the result is `true` on failure, like the
non-zero return value of the C function. -/
def os_file_closedir (os : os_state) : Bool × os_state :=
  os_next_fault os

/-! ## Bitmap file names -/

/-- File name stem for bitmap files. -/
def bmp_file_name_stem : List Char := "ib_modified_log_".toList

/-- Modelled from the spec: the digits that `printf` prints for `%lu` and `%llu`, least
significant digit last; `fuel` bounds the number of digits. -/
def print_decimal_loop : Nat → Nat → List Char → List Char
  | 0, _, acc => acc
  | fuel + 1, n, acc =>
    let acc := Char.ofNat (48 + n % 10) :: acc
    if n / 10 = 0 then acc else print_decimal_loop fuel (n / 10) acc

/-- Modelled from the spec: the output of `printf` for `%lu` and `%llu`. -/
def print_decimal (n : Nat) : List Char := print_decimal_loop (n + 1) n []

/-- Format a bitmap output file name to `log_bmp_sys->out.name`, with the template
`"%s%s%lu_%llu.xdb"`: the directory, the stem, the file sequence number and the start LSN.
`ut_snprintf` keeps at most `FN_REFLEN - 1` characters. -/
def log_online_make_bitmap_name (env : Env) (s : log_bitmap_struct) (start_lsn : Nat) :
    log_bitmap_struct :=
  { s with
    out := { s.out with
      name := (env.srv_data_home ++ bmp_file_name_stem ++ print_decimal s.out_seq_num
        ++ ['_'] ++ print_decimal start_lsn ++ ".xdb".toList).take (env.FN_REFLEN - 1) } }

/-- Create a new empty bitmap output file.  A failure ends the process (`exit(1)`). -/
def log_online_start_bitmap_file (env : Env) (os : os_state) (s : log_bitmap_struct) :
    Option (os_state × log_bitmap_struct) :=
  let (success, os) := os_file_create env os s.out.name
  if !success then none
  else some (os, { s with out := { s.out with file := s.out.name, offset := 0 } })

/-- Close the current bitmap output file and create the next one. -/
def log_online_rotate_bitmap_file (env : Env) (os : os_state) (s : log_bitmap_struct)
    (next_file_start_lsn : Nat) : Option (os_state × log_bitmap_struct) :=
  -- os_file_close(log_bmp_sys->out.file) leaves nothing to track
  let s := { s with out_seq_num := (s.out_seq_num + 1) % 2 ^ 64 }
  let s := log_online_make_bitmap_name env s next_file_start_lsn
  log_online_start_bitmap_file env os s

/-- Modelled from the spec: the white-space characters that `sscanf` skips before a number. -/
def c_isspace (c : Char) : Bool :=
  c.toNat = 32 || (9 ≤ c.toNat && c.toNat ≤ 13)

/-- Modelled from the spec: the decimal digits. -/
def c_isdigit (c : Char) : Bool := 48 ≤ c.toNat && c.toNat ≤ 57

/-- Modelled from the spec: the conversion `%[a-z_]` of `sscanf`: the longest run of lower-case
letters and underscores at the start of the input, and the rest of the input.  The conversion
fails on an empty run. -/
def sscanf_set_a_z_underscore (input : List Char) : List Char × List Char :=
  input.span (fun c => (97 ≤ c.toNat && c.toNat ≤ 122) || c.toNat = 95)

/-- Modelled from the spec: the conversions `%lu` and `%llu` of `sscanf` into a 64-bit object:
white space is skipped, a sign is optional, at least one digit is needed.  As with `strtoul`, a
value that does not fit yields `2 ^ 64 - 1` and a minus sign negates modulo `2 ^ 64`.  The
result is the value and the rest of the input. -/
def sscanf_unsigned (input : List Char) : Option (Nat × List Char) :=
  let input := input.dropWhile c_isspace
  let signed : Bool × List Char :=
    match input with
    | c :: rest => if c.toNat = 45 then (true, rest) else if c.toNat = 43 then (false, rest)
      else (false, input)
    | [] => (false, input)
  let digits := signed.2.span c_isdigit
  if digits.1 = [] then none
  else
    let v := digits.1.foldl (fun acc c => acc * 10 + (c.toNat - 48)) 0
    if v ≥ 2 ^ 64 then some (2 ^ 64 - 1, digits.2)
    else some (if signed.1 then (2 ^ 64 - v) % 2 ^ 64 else v, digits.2)

/-- Check the name of a given file if it is a changed page bitmap file and return the file
sequence number and the start LSN name components if it is: the entry is a file or a link,
`sscanf(name, "%[a-z_]%lu_%llu.xdb", stem, &seq_num, &start_lsn)` converts three items, and the
stem is `bmp_file_name_stem`.  `none` stands for `FALSE`. -/
def log_online_is_bitmap_file (file_info : os_file_stat_t) : Option (Nat × Nat) :=
  if file_info.type = os_file_type_t.OS_FILE_TYPE_FILE
      ∨ file_info.type = os_file_type_t.OS_FILE_TYPE_LINK then
    let stem := sscanf_set_a_z_underscore file_info.name
    if stem.1 = [] then none
    else
      match sscanf_unsigned stem.2 with
      | none => none
      | some (bitmap_file_seq_num, rest) =>
        match rest with
        | [] => none
        | c :: rest =>
          if c.toNat ≠ 95 then none
          else
            match sscanf_unsigned rest with
            | none => none
            | some (bitmap_file_start_lsn, _) =>
              if stem.1 = bmp_file_name_stem then
                some (bitmap_file_seq_num, bitmap_file_start_lsn)
              else none
  else none

/-! ## Writing the bitmap -/

/-- Write, flush one bitmap block to disk and advance the output position if successful. -/
def log_online_write_bitmap_page (env : Env) (os : os_state) (s : log_bitmap_struct)
    (block : Page) : os_state × log_bitmap_struct :=
  let (success, os) := os_file_write env os s.out.file block.bytes
    (s.out.offset &&& 0xFFFFFFFF) ((s.out.offset <<< 32) % 2 ^ 64)
  if !success then (os, s)
  else
    let (success, os) := os_file_flush os
    if !success then (os, s)
    else
      (os, { s with
        out := { s.out with offset := (s.out.offset + MODIFIED_PAGE_BLOCK_SIZE) % 2 ^ 64 } })

/-- What the loop of `log_online_write_bitmap` stores in a node before the node is written:
the last-block flag on the last node, the LSN interval, and the checksum. -/
def log_online_write_bitmap_fill (s : log_bitmap_struct) (page : Page) (is_last_node : Bool) :
    Page :=
  let page := if is_last_node then mach_write_to_4 page MODIFIED_PAGE_IS_LAST_BLOCK 1 else page
  let page := mach_write_to_8 page MODIFIED_PAGE_START_LSN s.start_lsn
  let page := mach_write_to_8 page MODIFIED_PAGE_END_LSN s.end_lsn
  mach_write_to_4 page MODIFIED_PAGE_BLOCK_CHECKSUM (log_online_calc_checksum page)

/-- The loop of `log_online_write_bitmap` from the node `bmp_tree_node` on; the argument is the
list of the nodes from `bmp_tree_node` to the last node of the tree.  Each node is filled in,
written, and pushed on the free list. -/
def log_online_write_bitmap_loop (env : Env) :
    os_state → log_bitmap_struct → List Page → os_state × log_bitmap_struct
  | os, s, [] => (os, s)
  | os, s, bmp_tree_node :: rest =>
    let page := log_online_write_bitmap_fill s bmp_tree_node rest.isEmpty
    let r := log_online_write_bitmap_page env os s page
    let s := { r.2 with page_free_list := page :: r.2.page_free_list }
    log_online_write_bitmap_loop env r.1 s rest

/-- Append the current changed page bitmap to the bitmap file.  Clears the bitmap tree and
recycles its nodes to the free list. -/
def log_online_write_bitmap (env : Env) (os : os_state) (s : log_bitmap_struct) :
    Option (os_state × log_bitmap_struct) :=
  let rotated :=
    if s.out.offset ≥ env.srv_max_bitmap_file_size then
      log_online_rotate_bitmap_file env os s s.start_lsn
    else some (os, s)
  match rotated with
  | none => none
  | some (os, s) =>
    let r := log_online_write_bitmap_loop env os s s.modified_pages
    some (r.1, { r.2 with modified_pages := [] })

/-! ## Reading a bitmap block -/

/-- The outcome of `log_online_read_bitmap_page`. -/
structure read_bitmap_page_result where
  /-- The return value: `true` if the page was read, `false` on an I/O error. -/
  success : Bool
  /-- The operating system after the call. -/
  os : os_state
  /-- The file with its offset advanced. -/
  bitmap_file : log_online_bitmap_file_t
  /-- The page buffer. -/
  page : Page
  /-- The output parameter `checksum_ok`. -/
  checksum_ok : Bool

/-- Read one bitmap data page and check it for corruption.  `page` and `checksum_ok` are the
values of the output parameters before the call; a failed read leaves them as they are.  A
failed assertion ends the process. -/
def log_online_read_bitmap_page (env : Env) (os : os_state)
    (bitmap_file : log_online_bitmap_file_t) (page : Page) (checksum_ok : Bool) :
    Option read_bitmap_page_result :=
  let offset_low := bitmap_file.offset &&& 0xFFFFFFFF
  let offset_high := bitmap_file.offset >>> 32
  if ¬ (bitmap_file.size ≥ MODIFIED_PAGE_BLOCK_SIZE) then none
  else if ¬ (bitmap_file.offset ≤ bitmap_file.size - MODIFIED_PAGE_BLOCK_SIZE) then none
  else if ¬ (bitmap_file.offset % MODIFIED_PAGE_BLOCK_SIZE = 0) then none
  else
    match os_file_read env os bitmap_file.file offset_low offset_high
        MODIFIED_PAGE_BLOCK_SIZE with
    | (none, os) => some ⟨false, os, bitmap_file, page, checksum_ok⟩
    | (some buf, os) =>
      let bitmap_file :=
        { bitmap_file with offset := (bitmap_file.offset + MODIFIED_PAGE_BLOCK_SIZE) % 2 ^ 64 }
      let page := Page.ofList buf
      let checksum := mach_read_from_4 page MODIFIED_PAGE_BLOCK_CHECKSUM
      let actual_checksum := log_online_calc_checksum page
      some ⟨true, os, bitmap_file, page, checksum = actual_checksum⟩

/-- The state of the loop of `log_online_read_last_tracked_lsn`. -/
structure read_last_tracked_lsn_state where
  /-- The operating system. -/
  os : os_state
  /-- The subsystem; the loop moves `out.offset`. -/
  s : log_bitmap_struct
  /-- The local page buffer. -/
  page : Page
  /-- The local `is_last_page`. -/
  is_last_page : Nat
  /-- The local `checksum_ok`. -/
  checksum_ok : Bool
  /-- The local `read_offset`. -/
  read_offset : Nat

/-- The loop of `log_online_read_last_tracked_lsn`:
`while (!checksum_ok && read_offset > 0 && !is_last_page)`.  Every round moves `read_offset`
back by one block, so `fuel` rounds suffice when `fuel` exceeds `read_offset / 4096`. -/
def log_online_read_last_tracked_lsn_loop (env : Env) :
    Nat → read_last_tracked_lsn_state → Option read_last_tracked_lsn_state
  | 0, _ => none
  | fuel + 1, st =>
    if !st.checksum_ok && decide (st.read_offset > 0) && decide (st.is_last_page = 0) then
      let read_offset := (st.read_offset + 2 ^ 64 - MODIFIED_PAGE_BLOCK_SIZE) % 2 ^ 64
      let s := { st.s with out := { st.s.out with offset := read_offset } }
      match log_online_read_bitmap_page env st.os s.out st.page st.checksum_ok with
      | none => none
      | some r =>
        let s := { s with out := r.bitmap_file }
        if !r.success then
          -- checksum_ok = FALSE; result = 0; break
          some ⟨r.os, s, r.page, st.is_last_page, false, read_offset⟩
        else
          let is_last_page :=
            if r.checksum_ok then mach_read_from_4 r.page MODIFIED_PAGE_IS_LAST_BLOCK
            else st.is_last_page
          log_online_read_last_tracked_lsn_loop env fuel
            ⟨r.os, s, r.page, is_last_page, r.checksum_ok, read_offset⟩
    else some st

/-- Get the last tracked fully LSN from the bitmap file by reading backwards until a correct
end page is found.  Detects incomplete writes and corrupted data.  Sets the start output
position for the written bitmap data.  Returns the last fully tracked LSN. -/
def log_online_read_last_tracked_lsn (env : Env) (os : os_state) (s : log_bitmap_struct) :
    Option (Nat × os_state × log_bitmap_struct) :=
  match log_online_read_last_tracked_lsn_loop env (s.out.offset / MODIFIED_PAGE_BLOCK_SIZE + 1)
      ⟨os, s, Page.zero, 0, false, s.out.offset⟩ with
  | none => none
  | some st =>
    let result :=
      if st.checksum_ok && decide (st.is_last_page ≠ 0) then
        mach_read_from_8 st.page MODIFIED_PAGE_END_LSN
      else 0
    -- truncate the output file to discard the corrupted bitmap data, if any
    let (success, os) := os_file_set_eof_at env st.os st.s.out.file st.s.out.offset
    some (if !success then 0 else result, os, st.s)

/-! ## Following the redo log -/

/-- Safely write the `log_sys->tracked_lsn` value. -/
def log_set_tracked_lsn (log_sys : log_t) (tracked_lsn : Nat) : log_t :=
  { log_sys with tracked_lsn := tracked_lsn }

/-- For the given minilog record type determine if the record has (space; page) associated
with it. -/
def log_online_rec_has_page (env : Env) (type : Nat) : Bool :=
  decide (type ≠ env.MLOG_MULTI_REC_END) && decide (type ≠ env.MLOG_DUMMY_RECORD)

/-- Check if a page field for a given log record type actually contains a page id.  It does
not for file operations and `MLOG_LSN`. -/
def log_online_rec_page_means_page (env : Env) (type : Nat) : Bool :=
  log_online_rec_has_page env type
    && (!env.UNIV_LOG_LSN_DEBUG || decide (type ≠ env.MLOG_LSN))
    && decide (type ≠ env.MLOG_FILE_CREATE)
    && decide (type ≠ env.MLOG_FILE_RENAME)
    && decide (type ≠ env.MLOG_FILE_DELETE)
    && decide (type ≠ env.MLOG_FILE_CREATE2)

/-- The loop of `log_online_parse_redo_log`; `ptr` is the list of the bytes between `ptr` and
`end`, and `len` is the local of this name.  A record that the parser reports longer than the
rest of the buffer would move `ptr` past `end`; this is embedded as a termination.  Every
round consumes at least one byte, so `fuel` rounds suffice when `fuel` exceeds the length of
`ptr`. -/
def log_online_parse_redo_log_loop (env : Env) :
    Nat → log_bitmap_struct → List byte → Nat → Option (log_bitmap_struct × Nat)
  | 0, _, _, _ => none
  | fuel + 1, s, ptr, len =>
    if ptr ≠ [] ∧ s.next_parse_lsn < s.end_lsn then
      let rec_ := env.recv_parse_log_rec ptr
      let len := rec_.1
      let type := rec_.2.1
      let space := rec_.2.2.1
      let page_no := rec_.2.2.2
      if len > 0 then
        let marked :=
          if log_online_rec_page_means_page env type ∧ space ≠ env.TRX_DOUBLEWRITE_SPACE then
            if ¬ (len ≥ 3) then none else log_online_set_page_bit s space page_no
          else some s
        match marked with
        | none => none
        | some s =>
          if len > ptr.length then none
          else
            log_online_parse_redo_log_loop env fuel
              { s with next_parse_lsn := env.recv_calc_lsn_on_data_add s.next_parse_lsn len }
              (ptr.drop len) len
      else
        -- incomplete log record: shift it to the beginning of the parse buffer, ptr = end
        some ({ s with parse_buf := ptr }, len)
    else some (s, len)

/-- Parse the log data in the parse buffer for the (space, page) pairs and add them to the
modified page set as necessary.  Removes the fully-parsed records from the buffer.  If an
incomplete record is found, moves it to the end of the buffer. -/
def log_online_parse_redo_log (env : Env) (s : log_bitmap_struct) : Option log_bitmap_struct :=
  match log_online_parse_redo_log_loop env (s.parse_buf.length + 1) s s.parse_buf 0 with
  | none => none
  | some (s, len) => if len > 0 then some { s with parse_buf := [] } else some s

/-- Check the log block checksum. -/
def log_online_is_valid_log_seg (env : Env) (log_block : List byte) : Bool :=
  env.log_block_checksum_is_ok_or_old_format log_block

/-- Copy new log data to the parse buffer while skipping log block header, trailer and already
parsed data.  `log_block` is the list of the bytes of the read buffer from the block on.  A
copy from beyond the read buffer and a parse buffer that grows beyond its size end the
process. -/
def log_online_add_to_parse_buf (env : Env) (s : log_bitmap_struct) (log_block : List byte)
    (data_len skip_len : Nat) : Option log_bitmap_struct :=
  let start_offset := if skip_len ≠ 0 then skip_len else env.LOG_BLOCK_HDR_SIZE
  let end_offset :=
    if data_len = env.OS_FILE_LOG_BLOCK_SIZE then data_len - env.LOG_BLOCK_TRL_SIZE
    else data_len
  let actual_data_len := if end_offset ≥ start_offset then end_offset - start_offset else 0
  if start_offset + actual_data_len > log_block.length ∧ actual_data_len ≠ 0 then none
  else
    let s := { s with
      parse_buf := s.parse_buf ++ (log_block.drop start_offset).take actual_data_len }
    if ¬ (s.parse_buf.length ≤ env.RECV_PARSING_BUF_SIZE) then none else some s

/-- Parse the log block: first copies the read log data to the parse buffer while skipping log
block header, trailer and already parsed data.  Then it actually parses the log to add to the
modified page bitmap. -/
def log_online_parse_redo_log_block (env : Env) (s : log_bitmap_struct)
    (log_block : List byte) (skip_already_parsed_len : Nat) : Option log_bitmap_struct :=
  let block_data_len := env.log_block_get_data_len log_block
  match log_online_add_to_parse_buf env s log_block block_data_len skip_already_parsed_len with
  | none => none
  | some s => log_online_parse_redo_log env s

/-- The loop of `log_online_follow_log_seg` over the blocks of the read buffer; `log_block` is
the offset of the current block in the read buffer and `log_block_end` the offset of the end
of the data.  `fuel` bounds the number of rounds. -/
def log_online_follow_log_seg_loop (env : Env) (read_buf : List byte) (log_block_end : Nat) :
    Nat → log_bitmap_struct → Nat → Nat → Option log_bitmap_struct
  | 0, _, _, _ => none
  | fuel + 1, s, log_block, block_start_lsn =>
    if log_block < log_block_end ∧ s.next_parse_lsn < s.end_lsn then
      if !log_online_is_valid_log_seg env (read_buf.drop log_block) then some s
      else
        let skip :=
          if block_start_lsn ≤ s.next_parse_lsn
              ∧ (block_start_lsn + env.OS_FILE_LOG_BLOCK_SIZE) % 2 ^ 64 > s.next_parse_lsn then
            some (s.next_parse_lsn - block_start_lsn)
          else if ¬ (block_start_lsn > s.next_parse_lsn) then none
          else some 0
        match skip with
        | none => none
        | some skip_already_parsed_len =>
          match log_online_parse_redo_log_block env s (read_buf.drop log_block)
              skip_already_parsed_len with
          | none => none
          | some s =>
            log_online_follow_log_seg_loop env read_buf log_block_end fuel s
              (log_block + env.OS_FILE_LOG_BLOCK_SIZE)
              ((block_start_lsn + env.OS_FILE_LOG_BLOCK_SIZE) % 2 ^ 64)
    else some s

/-- Read and parse one redo log chunk and update the modified page bitmap.  The loop advances
by one log block per round. -/
def log_online_follow_log_seg (env : Env) (log_sys : log_t) (s : log_bitmap_struct)
    (group block_start_lsn block_end_lsn : Nat) : Option log_bitmap_struct :=
  let log_block_end := (block_end_lsn + 2 ^ 64 - block_start_lsn) % 2 ^ 64
  let read_buf := log_sys.log_group_read_log_seg group block_start_lsn block_end_lsn
  log_online_follow_log_seg_loop env read_buf log_block_end (log_block_end + 1) s 0
    block_start_lsn

/-- The `do ... while` loop of `log_online_follow_log_group`.  `fuel` bounds the number of
rounds. -/
def log_online_follow_log_group_loop (env : Env) (log_sys : log_t) (group : Nat) :
    Nat → log_bitmap_struct → Nat → Option log_bitmap_struct
  | 0, _, _ => none
  | fuel + 1, s, block_start_lsn =>
    let block_end_lsn := (block_start_lsn + FOLLOW_SCAN_SIZE env) % 2 ^ 64
    match log_online_follow_log_seg env log_sys s group block_start_lsn block_end_lsn with
    | none => none
    | some s =>
      if ¬ (s.next_parse_lsn
          ≤ (block_end_lsn + env.LOG_BLOCK_HDR_SIZE + env.LOG_BLOCK_TRL_SIZE) % 2 ^ 64) then none
      else if block_end_lsn < s.end_lsn then
        log_online_follow_log_group_loop env log_sys group fuel s block_end_lsn
      else some s

/-- Read and parse the redo log in a given group in `FOLLOW_SCAN_SIZE`-sized chunks and update
the modified page bitmap.  Every round of the loop moves the chunk forward, so that it takes at
most `end_lsn + 1` rounds unless `block_end_lsn` wraps around `2 ^ 64`; a loop that takes more
rounds is embedded as one that does not return. -/
def log_online_follow_log_group (env : Env) (log_sys : log_t) (s : log_bitmap_struct)
    (group contiguous_lsn : Nat) : Option log_bitmap_struct :=
  let s := { s with next_parse_lsn := s.start_lsn, parse_buf := [] }
  match log_online_follow_log_group_loop env log_sys group (s.end_lsn + 1) s contiguous_lsn with
  | none => none
  | some s =>
    -- assert that the last read log record is a full one
    if ¬ (s.parse_buf = []) then none else some s

/-- The loop of `log_online_follow_redo_log` over the log groups. -/
def log_online_follow_log_groups (env : Env) (log_sys : log_t) (contiguous_start_lsn : Nat) :
    log_bitmap_struct → List Nat → Option log_bitmap_struct
  | s, [] => some s
  | s, group :: rest =>
    match log_online_follow_log_group env log_sys s group contiguous_start_lsn with
    | none => none
    | some s => log_online_follow_log_groups env log_sys contiguous_start_lsn s rest

/-- Modelled from the spec: `ut_uint64_align_down` of `ut0byte`, which is not part of the
sources at hand: the spec has `contiguous := start_lsn` rounded down to the log block size. -/
def ut_uint64_align_down (n align_no : Nat) : Nat := n - n % align_no

/-- Read and parse the redo log up to last checkpoint LSN to build the changed page bitmap
which is then written to disk. -/
def log_online_follow_redo_log (env : Env) (os : os_state) (log_sys : log_t)
    (s : log_bitmap_struct) : Option (os_state × log_t × log_bitmap_struct) :=
  -- grab the LSN of the last checkpoint, we will parse up to it
  let s := { s with end_lsn := log_sys.last_checkpoint_lsn }
  if s.end_lsn = s.start_lsn then some (os, log_sys, s)
  else if log_sys.log_groups = [] then none
  else
    let contiguous_start_lsn := ut_uint64_align_down s.start_lsn env.OS_FILE_LOG_BLOCK_SIZE
    match log_online_follow_log_groups env log_sys contiguous_start_lsn s
        log_sys.log_groups with
    | none => none
    | some s =>
      match log_online_write_bitmap env os s with
      | none => none
      | some (os, s) =>
        let s := { s with start_lsn := s.end_lsn }
        some (os, log_set_tracked_lsn log_sys s.start_lsn, s)

/-! ## Startup -/

/-- Check if the missing, if any, LSN interval can be read and tracked using the current LSN
value, the LSN value where the tracking stopped, and the log group capacity.  `none` stands for
`exit(1)`. -/
def log_online_can_track_missing (env : Env) (log_sys : log_t)
    (last_tracked_lsn tracking_start_lsn : Nat) : Option Bool :=
  let last_tracked_lsn := max last_tracked_lsn (MIN_TRACKED_LSN env)
  if last_tracked_lsn > tracking_start_lsn then none
  else
    some (decide (last_tracked_lsn = tracking_start_lsn)
      || decide ((log_sys.lsn + 2 ^ 64 - last_tracked_lsn) % 2 ^ 64
          ≤ log_sys.log_group_capacity))

/-- Diagnose a gap in tracked LSN range on server startup due to crash or very fast shutdown
and try to close it by tracking the data immediately, if possible. -/
def log_online_track_missing_on_startup (env : Env) (os : os_state) (log_sys : log_t)
    (s : log_bitmap_struct) (last_tracked_lsn tracking_start_lsn : Nat) :
    Option (os_state × log_t × log_bitmap_struct) :=
  match log_online_can_track_missing env log_sys last_tracked_lsn tracking_start_lsn with
  | none => none
  | some true =>
    let s := { s with start_lsn := max last_tracked_lsn (MIN_TRACKED_LSN env) }
    let log_sys := log_set_tracked_lsn log_sys s.start_lsn
    log_online_follow_redo_log env os log_sys s
  | some false =>
    let s := { s with start_lsn := tracking_start_lsn, end_lsn := tracking_start_lsn }
    some (os, log_set_tracked_lsn log_sys s.start_lsn, s)

/-- The body of the loop of `log_online_read_init` over the directory entries: keep the bitmap
file of non-zero size with the largest sequence number seen so far.  The state is
`out_seq_num`, `last_file_start_lsn` and `out.name`. -/
def log_online_read_init_scan (env : Env) (st : Nat × Nat × List Char)
    (bitmap_dir_file_info : os_file_stat_t) : Nat × Nat × List Char :=
  match log_online_is_bitmap_file bitmap_dir_file_info with
  | none => st
  | some (file_seq_num, file_start_lsn) =>
    if file_seq_num > st.1 ∧ bitmap_dir_file_info.size > 0 then
      (file_seq_num, file_start_lsn, bitmap_dir_file_info.name.take (env.FN_REFLEN - 1))
    else st

/-- The last two statements of `log_online_read_init`: start tracking from
`tracking_start_lsn`. -/
def log_online_read_init_finish (os : os_state) (log_sys : log_t) (s : log_bitmap_struct)
    (tracking_start_lsn : Nat) : os_state × log_t × log_bitmap_struct :=
  let s := { s with start_lsn := tracking_start_lsn }
  (os, log_set_tracked_lsn log_sys tracking_start_lsn, s)

/-- Initialize the online log following subsystem.  The argument `s` stands for the freshly
allocated structure: the fields that the function does not write keep the values of `s`. -/
def log_online_read_init (env : Env) (os : os_state) (log_sys : log_t)
    (s : log_bitmap_struct) : Option (os_state × log_t × log_bitmap_struct) :=
  let tracking_start_lsn := max log_sys.last_checkpoint_lsn (MIN_TRACKED_LSN env)
  -- enumerate the existing bitmap files
  let (opened, os) := os_file_opendir os
  if !opened then none
  else
    let scan := (os_file_readdir os).foldl (log_online_read_init_scan env)
      (0, MIN_TRACKED_LSN env, [])
    let s := { s with out := { s.out with name := scan.2.2 }, out_seq_num := scan.1 }
    let last_file_start_lsn := scan.2.1
    let (failed, os) := os_file_closedir os
    if failed then none
    else
      let s :=
        if s.out_seq_num = 0 then
          log_online_make_bitmap_name env { s with out_seq_num := 1 } 0
        else s
      let s := { s with modified_pages := [], page_free_list := [] }
      let (success, os) := os_file_open env os s.out.name
      let s := { s with out := { s.out with file := s.out.name } }
      if !success then
        -- new file, tracking from scratch
        match log_online_start_bitmap_file env os s with
        | none => none
        | some (os, s) => some (log_online_read_init_finish os log_sys s tracking_start_lsn)
      else
        -- read the last tracked LSN from the last file
        let size := os_file_get_size env os s.out.file
        let s := { s with out := { s.out with size := size, offset := size } }
        let s :=
          if s.out.offset % MODIFIED_PAGE_BLOCK_SIZE ≠ 0 then
            { s with
              out := { s.out with
                offset := s.out.offset - s.out.offset % MODIFIED_PAGE_BLOCK_SIZE } }
          else s
        match log_online_read_last_tracked_lsn env os s with
        | none => none
        | some (last_tracked_lsn, os, s) =>
          let last_tracked_lsn :=
            if last_tracked_lsn = 0 then last_file_start_lsn else last_tracked_lsn
          -- start a new file; choose the LSN value in its name
          match log_online_can_track_missing env log_sys last_tracked_lsn
              tracking_start_lsn with
          | none => none
          | some can_track =>
            match log_online_rotate_bitmap_file env os s
                (if can_track then last_tracked_lsn else tracking_start_lsn) with
            | none => none
            | some (os, s) =>
              if last_tracked_lsn < tracking_start_lsn then
                log_online_track_missing_on_startup env os log_sys s last_tracked_lsn
                  tracking_start_lsn
              else
                some (log_online_read_init_finish os log_sys s tracking_start_lsn)

/-- The states of the whole system, operating system, log system and subsystem, that can be
reached once the subsystem is initialised: `log_online_read_init` has returned, then
`log_online_follow_redo_log` is called any number of times, and between the calls the
operating system and the engine change in any way that leaves `tracked_lsn` alone, which only
this module writes. -/
inductive Reachable (env : Env) : os_state → log_t → log_bitmap_struct → Prop where
  | init (os : os_state) (log_sys : log_t) (s : log_bitmap_struct) (os' : os_state)
      (log_sys' : log_t) (s' : log_bitmap_struct) :
      log_online_read_init env os log_sys s = some (os', log_sys', s') →
      Reachable env os' log_sys' s'
  | follow (os : os_state) (log_sys : log_t) (s : log_bitmap_struct) (os' : os_state)
      (log_sys' : log_t) (s' : log_bitmap_struct) :
      Reachable env os log_sys s →
      log_online_follow_redo_log env os log_sys s = some (os', log_sys', s') →
      Reachable env os' log_sys' s'
  | engine (os : os_state) (log_sys : log_t) (s : log_bitmap_struct) (os' : os_state)
      (log_sys' : log_t) :
      Reachable env os log_sys s → log_sys'.tracked_lsn = log_sys.tracked_lsn →
      Reachable env os' log_sys' s

/-! ## The bitmap file range -/

/-- One entry of the array `files` of `log_online_bitmap_file_range_t`. -/
structure log_online_bitmap_file_range_entry where
  /-- Name of the file. -/
  name : List Char
  /-- Starting LSN of the data in the file. -/
  start_lsn : Nat
  /-- Sequence number of the file. -/
  seq_num : Nat
deriving DecidableEq

/-- The range of bitmap files that covers an LSN interval (`log_online_bitmap_file_range_t`).
The list `files` is empty when the pointer is `NULL`. -/
structure log_online_bitmap_file_range_t where
  /-- Number of array slots. -/
  count : Nat
  /-- The array of the files, a zero-filled slot for a file that is missing. -/
  files : List log_online_bitmap_file_range_entry
deriving DecidableEq

/-- The locals of the first pass of `log_online_setup_bitmap_file_range`. -/
structure bitmap_file_range_pass1 where
  /-- The field `bitmap_files->count`. -/
  count : Nat
  /-- The local `first_file_seq_num`. -/
  first_file_seq_num : Nat
  /-- The local `first_file_start_lsn`. -/
  first_file_start_lsn : Nat
deriving DecidableEq

/-- The body of the loop of the first pass, for one directory entry. -/
def log_online_setup_bitmap_file_range_pass1 (range_start range_end : Nat)
    (st : bitmap_file_range_pass1) (bitmap_dir_file_info : os_file_stat_t) :
    bitmap_file_range_pass1 :=
  match log_online_is_bitmap_file bitmap_dir_file_info with
  | none => st
  | some (file_seq_num, file_start_lsn) =>
    if file_start_lsn ≥ range_end then st
    else if file_start_lsn ≥ range_start ∨ file_start_lsn = st.first_file_start_lsn
        ∨ st.first_file_start_lsn > range_start then
      -- a file that falls into the range
      { count := (st.count + 1) % 2 ^ 64
        first_file_start_lsn :=
          if file_start_lsn < st.first_file_start_lsn then file_start_lsn
          else st.first_file_start_lsn
        first_file_seq_num :=
          if file_seq_num < st.first_file_seq_num then file_seq_num
          else st.first_file_seq_num }
    else if file_start_lsn > st.first_file_start_lsn then
      -- a file that has LSN closer to the range start but smaller than it
      { st with first_file_start_lsn := file_start_lsn, first_file_seq_num := file_seq_num }
    else st

/-- The body of the loop of the second pass, for one directory entry.  `strncpy` keeps at most
`FN_REFLEN - 1` characters of the name.  An access outside the array is undefined behaviour; it
is embedded as a termination of the process. -/
def log_online_setup_bitmap_file_range_pass2 (env : Env) (range_end first_file_seq_num
    first_file_start_lsn : Nat) (files : Option (List log_online_bitmap_file_range_entry))
    (bitmap_dir_file_info : os_file_stat_t) :
    Option (List log_online_bitmap_file_range_entry) :=
  match files with
  | none => none
  | some files =>
    match log_online_is_bitmap_file bitmap_dir_file_info with
    | none => some files
    | some (file_seq_num, file_start_lsn) =>
      if file_start_lsn ≥ range_end ∨ file_start_lsn < first_file_start_lsn then some files
      else
        let array_pos := (file_seq_num + 2 ^ 64 - first_file_seq_num) % 2 ^ 64
        match files[array_pos]? with
        | none => none
        | some slot =>
          if file_seq_num > slot.seq_num then
            some (files.set array_pos
              ⟨bitmap_dir_file_info.name.take (env.FN_REFLEN - 1), file_start_lsn,
                file_seq_num⟩)
          else some files

/-- List the bitmap files in `srv_data_home` and set up their range that contains the
specified LSN interval.  The result is the return value, the operating system and the range;
`none` stands for a failed assertion. -/
def log_online_setup_bitmap_file_range (env : Env) (os : os_state)
    (range_start range_end : Nat) :
    Option (Bool × os_state × log_online_bitmap_file_range_t) :=
  -- 1st pass: size the info array
  let (opened, os) := os_file_opendir os
  if !opened then some (false, os, ⟨0, []⟩)
  else
    let st := (os_file_readdir os).foldl
      (log_online_setup_bitmap_file_range_pass1 range_start range_end)
      ⟨0, 2 ^ 64 - 1, 2 ^ 64 - 1⟩
    if ¬ (st.first_file_seq_num ≠ 2 ^ 64 - 1 ∨ st.count = 0) then none
    else
      let (failed, os) := os_file_closedir os
      if failed then some (false, os, ⟨st.count, []⟩)
      else if st.count = 0 then some (true, os, ⟨0, []⟩)
      else
        -- 2nd pass: get the file names in the file_seq_num order
        let (opened, os) := os_file_opendir os
        if !opened then some (false, os, ⟨st.count, []⟩)
        else
          let files := (os_file_readdir os).foldl
            (log_online_setup_bitmap_file_range_pass2 env range_end st.first_file_seq_num
              st.first_file_start_lsn)
            (some (List.replicate st.count ⟨[], 0, 0⟩))
          match files with
          | none => none
          | some files =>
            let (failed, os) := os_file_closedir os
            if failed then some (false, os, ⟨st.count, []⟩)
            else some (true, os, ⟨st.count, files⟩)

/-! ## The bitmap iterator -/

/-- Open a bitmap file for reading.  The name is given without the directory, which is assumed
to be `srv_data_home`. -/
def log_online_open_bitmap_file_read_only (env : Env) (os : os_state) (name : List Char)
    (bitmap_file : log_online_bitmap_file_t) : Bool × os_state × log_online_bitmap_file_t :=
  let path := (env.srv_data_home ++ name).take (env.FN_REFLEN - 1)
  let (success, os) := os_file_open env os path
  if !success then (false, os, { bitmap_file with name := path, file := path })
  else (true, os, ⟨path, path, os_file_get_size env os path, 0⟩)

/-- Diagnose one or both of the following situations if we read close to the end of a bitmap
file: the remainder of the file is less than one page (a warning), and no more full pages can
be read but the last read page did not have the last-in-run flag set (an error).  Returns
`false` for the error. -/
def log_online_diagnose_bitmap_eof (bitmap_file : log_online_bitmap_file_t)
    (last_page_in_run : Nat) : Bool :=
  if bitmap_file.size < MODIFIED_PAGE_BLOCK_SIZE
      ∨ bitmap_file.offset > bitmap_file.size - MODIFIED_PAGE_BLOCK_SIZE then
    if last_page_in_run = 0 then false else true
  else true

/-- The bitmap iterator (`log_bitmap_iterator_t`). -/
structure log_bitmap_iterator_t where
  /-- The bitmap files of the LSN range. -/
  in_files : log_online_bitmap_file_range_t
  /-- The index of the current file in `in_files`. -/
  in_i : Nat
  /-- The current file, the field `in` of the C structure. -/
  in_file : log_online_bitmap_file_t
  /-- The current bitmap block. -/
  page : Page
  /-- The bit offset inside the current bitmap block. -/
  bit_offset : Nat
  /-- Start LSN of the current bitmap block. -/
  start_lsn : Nat
  /-- End LSN of the current bitmap block. -/
  end_lsn : Nat
  /-- Space id of the current block. -/
  space_id : Nat
  /-- Id of the first page of the current block. -/
  first_page_id : Nat
  /-- The last-block flag of the block read last. -/
  last_page_in_run : Nat
  /-- Non-zero if the current page was changed. -/
  changed : Nat
deriving DecidableEq

/-- Initialize the log bitmap iterator for a given range.  The argument `i` is the
uninitialised iterator; its page buffer stands for the fresh allocation.  The result is the
return value, the operating system and the iterator; `none` stands for a failed assertion. -/
def log_online_bitmap_iterator_init (env : Env) (os : os_state) (i : log_bitmap_iterator_t)
    (min_lsn max_lsn : Nat) : Option (Bool × os_state × log_bitmap_iterator_t) :=
  match log_online_setup_bitmap_file_range env os min_lsn max_lsn with
  | none => none
  | some (false, os, in_files) => some (false, os, { i with in_files := in_files })
  | some (true, os, in_files) =>
    let i := { i with in_files := in_files }
    if ¬ (i.in_files.count > 0) then none
    else
      -- open the 1st bitmap file
      let i := { i with in_i := 0 }
      match i.in_files.files[i.in_i]? with
      | none => none
      | some file =>
        let (opened, os, in_file) :=
          log_online_open_bitmap_file_read_only env os file.name i.in_file
        let i := { i with in_file := in_file }
        if !opened then
          some (false, os, { i with
            in_i := i.in_files.count
            in_files := { i.in_files with files := [] } })
        else
          some (true, os, { i with
            bit_offset := MODIFIED_PAGE_BLOCK_BITMAP_LEN
            start_lsn := 0
            end_lsn := 0
            space_id := 0
            first_page_id := 0
            last_page_in_run := 1
            changed := 0 })

/-- The loops of `log_online_bitmap_iterator_next` that find the next block with a good
checksum.  One round either advances to the next file, when the current file has no full page
left, or reads one page.  `fuel` bounds the number of rounds. -/
def log_online_bitmap_iterator_next_block (env : Env) :
    Nat → os_state → log_bitmap_iterator_t → Option (Bool × os_state × log_bitmap_iterator_t)
  | 0, _, _ => none
  | fuel + 1, os, i =>
    if i.in_file.size < MODIFIED_PAGE_BLOCK_SIZE
        ∨ i.in_file.offset > i.in_file.size - MODIFIED_PAGE_BLOCK_SIZE then
      -- advance file; the value of log_online_diagnose_bitmap_eof is not used
      let i := { i with in_i := (i.in_i + 1) % 2 ^ 64 }
      if i.in_i = i.in_files.count then some (false, os, i)
      else
        match i.in_files.files[i.in_i]? with
        | none => none
        | some file =>
          if file.seq_num = 0 then some (false, os, i)
          else
            let (opened, os, in_file) :=
              log_online_open_bitmap_file_read_only env os file.name i.in_file
            let i := { i with in_file := in_file }
            if !opened then some (false, os, i)
            else log_online_bitmap_iterator_next_block env fuel os i
    else
      match log_online_read_bitmap_page env os i.in_file i.page false with
      | none => none
      | some r =>
        let i := { i with in_file := r.bitmap_file, page := r.page }
        if !r.success then some (false, r.os, i)
        else if !r.checksum_ok then log_online_bitmap_iterator_next_block env fuel r.os i
        else
          some (true, r.os, { i with
            start_lsn := mach_read_from_8 i.page MODIFIED_PAGE_START_LSN
            end_lsn := mach_read_from_8 i.page MODIFIED_PAGE_END_LSN
            space_id := mach_read_from_4 i.page MODIFIED_PAGE_SPACE_ID
            first_page_id := mach_read_from_4 i.page MODIFIED_PAGE_1ST_PAGE_ID
            last_page_in_run := mach_read_from_4 i.page MODIFIED_PAGE_IS_LAST_BLOCK
            bit_offset := 0
            changed := IS_BIT_SET i.page MODIFIED_PAGE_BLOCK_BITMAP 0 })

/-- A number of rounds that the loops of `log_online_bitmap_iterator_next` cannot exceed: every
round reads a block of the current file or of a later file of the range, or opens a file of
the range. -/
def log_online_bitmap_iterator_next_fuel (os : os_state) (i : log_bitmap_iterator_t) : Nat :=
  i.in_file.size / MODIFIED_PAGE_BLOCK_SIZE + 2
    + (i.in_files.count + 1)
      * ((os.files.map (fun e => e.data.length / MODIFIED_PAGE_BLOCK_SIZE + 1)).sum + 1)

/-- Iterates through bits of saved bitmap blocks.  Sequentially reads blocks from bitmap
file(s) and iterates through their bits.  Ignores blocks with wrong checksum.  Returns `true`
if the iteration is successful, `false` if all bits are iterated; `none` stands for a failed
assertion. -/
def log_online_bitmap_iterator_next (env : Env) (os : os_state) (i : log_bitmap_iterator_t) :
    Option (Bool × os_state × log_bitmap_iterator_t) :=
  if i.bit_offset < MODIFIED_PAGE_BLOCK_BITMAP_LEN then
    let i := { i with bit_offset := i.bit_offset + 1 }
    some (true, os, { i with changed := IS_BIT_SET i.page MODIFIED_PAGE_BLOCK_BITMAP i.bit_offset })
  else
    log_online_bitmap_iterator_next_block env (log_online_bitmap_iterator_next_fuel os i) os i

/-- The result of the `n`-th call of `log_online_bitmap_iterator_next` in a row, for `n ≥ 1`,
provided that the calls before it returned `true`; the 0-th result is the initial iterator. -/
def log_online_bitmap_iterator_nth (env : Env) (os : os_state) (i : log_bitmap_iterator_t) :
    Nat → Option (Bool × os_state × log_bitmap_iterator_t)
  | 0 => some (true, os, i)
  | n + 1 =>
    match log_online_bitmap_iterator_nth env os i n with
    | some (true, os, i) => log_online_bitmap_iterator_next env os i
    | _ => none

/-! ## Notions used to state the properties of a flush -/

/-- The buffers of the calls of `os_file_write` that were made between two states of the
operating system, as blocks, oldest first. -/
def written_blocks (before after : os_state) : List Page :=
  (after.writes.drop before.writes.length).map (fun c => Page.ofList c.buf)

/-- A run of calls of `log_online_set_page_bit`, one for each `(space, page_no)` of the
list. -/
def log_online_set_page_bits (s : log_bitmap_struct) :
    List (Nat × Nat) → Option log_bitmap_struct
  | [] => some s
  | (space, page_no) :: rest =>
    match log_online_set_page_bit s space page_no with
    | none => none
    | some s => log_online_set_page_bits s rest

/-- A state of the subsystem with an empty modified-page set and an empty output file
`ib_modified_log_1_0.xdb`, about to track from LSN 8204. -/
def bmp_sys_example : log_bitmap_struct where
  parse_buf := []
  out := ⟨"ib_modified_log_1_0.xdb".toList, "ib_modified_log_1_0.xdb".toList, 0, 0⟩
  out_seq_num := 1
  start_lsn := 8204
  end_lsn := 8204
  next_parse_lsn := 8204
  modified_pages := []
  page_free_list := []

/-- The key of a block: its space id and its first page id. -/
def bmp_key (p : Page) : Nat × Nat :=
  (mach_read_from_4 p MODIFIED_PAGE_SPACE_ID, mach_read_from_4 p MODIFIED_PAGE_1ST_PAGE_ID)

/-- The strict lexicographic order on keys: the space id first, then the first page id. -/
def bmp_key_lt (a b : Nat × Nat) : Prop := a.1 < b.1 ∨ (a.1 = b.1 ∧ a.2 < b.2)

/-- The blocks that the loop of `log_online_write_bitmap` hands to
`log_online_write_bitmap_page` for the nodes from `bmp_tree_node` on, in this order. -/
def log_online_write_bitmap_blocks (s : log_bitmap_struct) : List Page → List Page
  | [] => []
  | bmp_tree_node :: rest =>
    log_online_write_bitmap_fill s bmp_tree_node rest.isEmpty
      :: log_online_write_bitmap_blocks s rest

/-- The constants of the host engine in a common build (512-byte log blocks, 16 KiB pages),
with a toy record format for the log: a record is three bytes, its type, its space id and its
page number; a log block is always full and its checksum is always good. -/
def env_example : Env where
  srv_data_home := "./".toList
  srv_max_bitmap_file_size := 104857600
  FN_REFLEN := 512
  LOG_START_LSN := 8192
  LOG_BLOCK_HDR_SIZE := 12
  LOG_BLOCK_TRL_SIZE := 4
  OS_FILE_LOG_BLOCK_SIZE := 512
  UNIV_PAGE_SIZE_MAX := 16384
  RECV_PARSING_BUF_SIZE := 2097152
  MLOG_MULTI_REC_END := 31
  MLOG_DUMMY_RECORD := 32
  MLOG_FILE_CREATE := 33
  MLOG_FILE_RENAME := 34
  MLOG_FILE_DELETE := 35
  MLOG_FILE_CREATE2 := 47
  MLOG_LSN := 28
  UNIV_LOG_LSN_DEBUG := false
  TRX_DOUBLEWRITE_SPACE := 4294967264
  log_block_checksum_is_ok_or_old_format := fun _ => true
  log_block_get_data_len := fun _ => 512
  recv_parse_log_rec := fun buf =>
    match buf with
    | type :: space :: page_no :: _ => (3, type.val, space.val, page_no.val)
    | _ => (0, 0, 0, 0)
  recv_calc_lsn_on_data_add := fun lsn len => lsn + len

/-- The block that a flush of `bmp_sys_example` writes for the only page 5 of space 7. -/
def block_example : Page :=
  log_online_write_bitmap_fill bmp_sys_example (page_or_bit (write_bmp_key Page.zero 7 0) 0 5)
    true

/-- A data directory whose only file `ib_modified_log_1_0.xdb` holds `block_example`. -/
def os_block_example : os_state where
  files := [⟨"ib_modified_log_1_0.xdb".toList, os_file_type_t.OS_FILE_TYPE_FILE,
    block_example.bytes⟩]
  faults := []
  writes := []

/-- A data directory whose only file `ib_modified_log_1_0.xdb` is empty. -/
def os_example : os_state where
  files := [⟨"ib_modified_log_1_0.xdb".toList, os_file_type_t.OS_FILE_TYPE_FILE, []⟩]
  faults := []
  writes := []

/-- The block that ends the flush of the LSN interval from 8204 to 9000: page 5 of space 7,
with the last-block flag. -/
def terminator_block_example : Page :=
  log_online_write_bitmap_fill { bmp_sys_example with start_lsn := 8204, end_lsn := 9000 }
    (page_or_bit (write_bmp_key Page.zero 7 0) 0 5) true

/-- The first of the two blocks of the flush of the LSN interval from 9000 to 9500: page 5 of
space 7, without the last-block flag. -/
def interrupted_block_example : Page :=
  log_online_write_bitmap_fill { bmp_sys_example with start_lsn := 9000, end_lsn := 9500 }
    (page_or_bit (write_bmp_key Page.zero 7 0) 0 5) false

/-- A data directory after a crash in the middle of a flush: the only file holds the
terminator of the earlier flush and then the first block of the interrupted flush. -/
def os_interrupted_example : os_state where
  files := [⟨"ib_modified_log_1_0.xdb".toList, os_file_type_t.OS_FILE_TYPE_FILE,
    terminator_block_example.bytes ++ interrupted_block_example.bytes⟩]
  faults := []
  writes := []

/-- The subsystem as `log_online_read_init` leaves it before it reads the last tracked LSN
from the file of `os_interrupted_example`: the file is open and the offset is its size. -/
def bmp_sys_recovery_example : log_bitmap_struct :=
  { bmp_sys_example with
    out := ⟨"ib_modified_log_1_0.xdb".toList, "ib_modified_log_1_0.xdb".toList, 8192, 8192⟩ }

/-- An iterator before `log_online_bitmap_iterator_init`: nothing in it is meaningful yet. -/
def iterator_example : log_bitmap_iterator_t where
  in_files := ⟨0, []⟩
  in_i := 0
  in_file := ⟨[], [], 0, 0⟩
  page := Page.zero
  bit_offset := 0
  start_lsn := 0
  end_lsn := 0
  space_id := 0
  first_page_id := 0
  last_page_in_run := 0
  changed := 0

/-- A log system whose last checkpoint is at LSN 8207, three bytes after the first record LSN
8204, with one log group; every byte of the log reads 7, so that the log holds a record for
page 7 of space 7 at LSN 8204. -/
def log_sys_example : log_t where
  lsn := 8207
  last_checkpoint_lsn := 8207
  log_group_capacity := 1000000
  tracked_lsn := 8204
  log_groups := [0]
  log_group_read_log_seg := fun _ start_lsn end_lsn => List.replicate (end_lsn - start_lsn) 7

/-- The data directory of `os_example` when the next fallible call of the operating system is
going to fail. -/
def os_failing_example : os_state := { os_example with faults := [true] }

/-- The subsystem `bmp_sys_example` once the log of `log_sys_example` is followed up to the
checkpoint at LSN 8207: the set holds the block of page 7 of space 7. -/
def bmp_sys_followed_example : log_bitmap_struct :=
  { bmp_sys_example with
    end_lsn := 8207
    next_parse_lsn := 8207
    modified_pages := [page_or_bit (write_bmp_key Page.zero 7 0) 0 7] }

/-- An empty data directory. -/
def os_empty_example : os_state where
  files := []
  faults := []
  writes := []

/-- The log system of a new database before its first checkpoint: `last_checkpoint_lsn` is
`LOG_START_LSN`, 8192, below `MIN_TRACKED_LSN`, 8204, where the first record is. -/
def log_sys_fresh_example : log_t :=
  { log_sys_example with
    lsn := 8204
    last_checkpoint_lsn := 8192
    tracked_lsn := 0 }

/-- The structure that `log_online_read_init` allocates, before it is initialised. -/
def bmp_sys_fresh_example : log_bitmap_struct :=
  { bmp_sys_example with
    out := ⟨[], [], 0, 0⟩
    out_seq_num := 0
    start_lsn := 0 }

/-- The subsystem after `log_online_read_init` on an empty data directory: the output file is
`./ib_modified_log_1_0.xdb` and tracking starts at LSN 8204. -/
def bmp_sys_started_example : log_bitmap_struct :=
  { bmp_sys_example with
    out := ⟨"./ib_modified_log_1_0.xdb".toList, "./ib_modified_log_1_0.xdb".toList, 0, 0⟩ }

/-- The block that a flush of `bmp_sys_followed_example` offers to the operating system: page
7 of space 7, the LSN interval from 8204 to 8207, the last-block flag. -/
def block_followed_example : Page :=
  log_online_write_bitmap_fill bmp_sys_followed_example
    (page_or_bit (write_bmp_key Page.zero 7 0) 0 7) true

/-- The data directory of `os_example` after the flush of `bmp_sys_followed_example`. -/
def os_written_example : os_state where
  files := [⟨"ib_modified_log_1_0.xdb".toList, os_file_type_t.OS_FILE_TYPE_FILE,
    block_followed_example.bytes⟩]
  faults := []
  writes := [⟨"ib_modified_log_1_0.xdb".toList, block_followed_example.bytes, 0, 0, true⟩]

/-- The subsystem after `log_online_follow_redo_log` has followed the log of
`log_sys_example` from `bmp_sys_example` and has written the block. -/
def bmp_sys_written_example : log_bitmap_struct :=
  { bmp_sys_followed_example with
    out := ⟨"ib_modified_log_1_0.xdb".toList, "ib_modified_log_1_0.xdb".toList, 0, 4096⟩
    start_lsn := 8207
    modified_pages := []
    page_free_list := [block_followed_example] }

/-- The data directory of `os_failing_example` after the flush of `bmp_sys_followed_example`:
the write has failed and the file is still empty. -/
def os_write_failed_example : os_state where
  files := [⟨"ib_modified_log_1_0.xdb".toList, os_file_type_t.OS_FILE_TYPE_FILE, []⟩]
  faults := []
  writes := [⟨"ib_modified_log_1_0.xdb".toList, block_followed_example.bytes, 0, 0, false⟩]

/-- The subsystem after `log_online_follow_redo_log` has followed the log of
`log_sys_example` from `bmp_sys_example` and the write of the block has failed. -/
def bmp_sys_write_failed_example : log_bitmap_struct :=
  { bmp_sys_followed_example with
    start_lsn := 8207
    modified_pages := []
    page_free_list := [block_followed_example] }

/-- The last part of `log_online_read_init` on the path that has opened the last bitmap file
and has read `last_tracked_lsn` from it: start a new file, with the LSN in its name chosen by
whether the missing interval can be tracked, and either track the missing interval or start at
`tracking_start_lsn`. -/
def log_online_read_init_track (env : Env) (os : os_state) (log_sys : log_t)
    (s : log_bitmap_struct) (last_tracked_lsn tracking_start_lsn : Nat) :
    Option (os_state × log_t × log_bitmap_struct) :=
  match log_online_can_track_missing env log_sys last_tracked_lsn tracking_start_lsn with
  | none => none
  | some can_track =>
    match log_online_rotate_bitmap_file env os s
        (if can_track then last_tracked_lsn else tracking_start_lsn) with
    | none => none
    | some (os, s) =>
      if last_tracked_lsn < tracking_start_lsn then
        log_online_track_missing_on_startup env os log_sys s last_tracked_lsn
          tracking_start_lsn
      else
        some (log_online_read_init_finish os log_sys s tracking_start_lsn)

/-- The first part of `log_online_read_init`, from the enumeration of the data directory to
the opening of the last bitmap file.  The result is `none` when the directory cannot be opened
or closed, which ends the process.  Otherwise it tells whether the file was opened and gives
the operating system, the subsystem and `last_file_start_lsn` at this point; when the file was
opened, the size and the offset are set and the offset is rounded down to a whole number of
blocks: this is the state in which `log_online_read_last_tracked_lsn` is called. -/
def log_online_read_init_open (env : Env) (os : os_state) (s : log_bitmap_struct) :
    Option (Bool × os_state × log_bitmap_struct × Nat) :=
  -- enumerate the existing bitmap files
  let (opened, os) := os_file_opendir os
  if !opened then none
  else
    let scan := (os_file_readdir os).foldl (log_online_read_init_scan env)
      (0, MIN_TRACKED_LSN env, [])
    let s := { s with out := { s.out with name := scan.2.2 }, out_seq_num := scan.1 }
    let last_file_start_lsn := scan.2.1
    let (failed, os) := os_file_closedir os
    if failed then none
    else
      let s :=
        if s.out_seq_num = 0 then
          log_online_make_bitmap_name env { s with out_seq_num := 1 } 0
        else s
      let s := { s with modified_pages := [], page_free_list := [] }
      let (success, os) := os_file_open env os s.out.name
      let s := { s with out := { s.out with file := s.out.name } }
      if !success then some (false, os, s, last_file_start_lsn)
      else
        let size := os_file_get_size env os s.out.file
        let s := { s with out := { s.out with size := size, offset := size } }
        let s :=
          if s.out.offset % MODIFIED_PAGE_BLOCK_SIZE ≠ 0 then
            { s with
              out := { s.out with
                offset := s.out.offset - s.out.offset % MODIFIED_PAGE_BLOCK_SIZE } }
          else s
        some (true, os, s, last_file_start_lsn)

/-- The name that `log_online_make_bitmap_name` formats for a sequence number and a start
LSN. -/
def bmp_file_name (env : Env) (seq_num start_lsn : Nat) : List Char :=
  (env.srv_data_home ++ bmp_file_name_stem ++ print_decimal seq_num ++ ['_']
    ++ print_decimal start_lsn ++ ".xdb".toList).take (env.FN_REFLEN - 1)

/-- One flush as `log_online_follow_redo_log` makes it once the log is parsed up to `end_lsn`
and the modified-page set is `pages`: `log_online_write_bitmap`, then `start_lsn` becomes
`end_lsn`. -/
def log_online_flush (env : Env) (os : os_state) (s : log_bitmap_struct) (pages : List Page)
    (end_lsn : Nat) : Option (os_state × log_bitmap_struct) :=
  match log_online_write_bitmap env os { s with modified_pages := pages, end_lsn := end_lsn } with
  | none => none
  | some (os, s) => some (os, { s with start_lsn := s.end_lsn })

/-- A sequence of flushes, one for each page set and end LSN of the list.  The result holds
the sequence number and the name of the output file after each flush. -/
def log_online_flushes (env : Env) :
    os_state → log_bitmap_struct → List (List Page × Nat) →
      Option (os_state × log_bitmap_struct × List (Nat × List Char))
  | os, s, [] => some (os, s, [])
  | os, s, (pages, end_lsn) :: rest =>
    match log_online_flush env os s pages end_lsn with
    | none => none
    | some (os, s) =>
      match log_online_flushes env os s rest with
      | none => none
      | some (os', s', used) => some (os', s', (s.out_seq_num, s.out.name) :: used)

/-- A data directory whose only file `ib_modified_log_1_0.xdb` holds the terminator block
`terminator_block_example` and, after it, 2048 bytes of garbage. -/
def os_tail_example : os_state where
  files := [⟨"ib_modified_log_1_0.xdb".toList, os_file_type_t.OS_FILE_TYPE_FILE,
    terminator_block_example.bytes ++ List.replicate 2048 255⟩]
  faults := []
  writes := []

/-- The log system of a database whose last checkpoint is at `MIN_TRACKED_LSN`, 8204. -/
def log_sys_started_example : log_t :=
  { log_sys_example with
    lsn := 8204
    last_checkpoint_lsn := 8204
    tracked_lsn := 0 }

/-- A data directory with the bitmap files of the start LSNs 0 and 1500, enumerated in this
order. -/
def os_range_example : os_state where
  files := [⟨"ib_modified_log_1_0.xdb".toList, os_file_type_t.OS_FILE_TYPE_FILE, []⟩,
    ⟨"ib_modified_log_2_1500.xdb".toList, os_file_type_t.OS_FILE_TYPE_FILE, []⟩]
  faults := []
  writes := []

/-- The same data directory, enumerated in the other order. -/
def os_range_reversed_example : os_state where
  files := [⟨"ib_modified_log_2_1500.xdb".toList, os_file_type_t.OS_FILE_TYPE_FILE, []⟩,
    ⟨"ib_modified_log_1_0.xdb".toList, os_file_type_t.OS_FILE_TYPE_FILE, []⟩]
  faults := []
  writes := []

/-- The block `block_example` with a stored checksum that is off by one. -/
def corrupt_block_example : Page :=
  mach_write_to_4 block_example MODIFIED_PAGE_BLOCK_CHECKSUM
    ((log_online_calc_checksum block_example + 1) % 2 ^ 32)

/-- A data directory whose only file `ib_modified_log_1_0.xdb` holds the corrupt block
`corrupt_block_example` and, after it, the block `block_example`. -/
def os_corrupt_example : os_state where
  files := [⟨"ib_modified_log_1_0.xdb".toList, os_file_type_t.OS_FILE_TYPE_FILE,
    corrupt_block_example.bytes ++ block_example.bytes⟩]
  faults := []
  writes := []

/-- A data directory with two bitmap files: the first one ends with the block
`interrupted_block_example`, which does not end a run, and the second one holds
`block_example`. -/
def os_incomplete_run_example : os_state where
  files := [⟨"ib_modified_log_1_0.xdb".toList, os_file_type_t.OS_FILE_TYPE_FILE,
    interrupted_block_example.bytes⟩,
    ⟨"ib_modified_log_2_9500.xdb".toList, os_file_type_t.OS_FILE_TYPE_FILE,
      block_example.bytes⟩]
  faults := []
  writes := []

/-- The constants of `env_example` with a maximum bitmap file size of two blocks. -/
def env_small_example : Env := { env_example with srv_max_bitmap_file_size := 8192 }

/-- The iterator while it reports the bit `bit_offset` of the block `page` that it has loaded
from the file `in_file`: the fields of the block are those of `page`. -/
def log_bitmap_iterator_at (i : log_bitmap_iterator_t) (in_file : log_online_bitmap_file_t)
    (page : Page) (bit_offset : Nat) : log_bitmap_iterator_t :=
  { i with
    in_file := in_file
    page := page
    start_lsn := mach_read_from_8 page MODIFIED_PAGE_START_LSN
    end_lsn := mach_read_from_8 page MODIFIED_PAGE_END_LSN
    space_id := mach_read_from_4 page MODIFIED_PAGE_SPACE_ID
    first_page_id := mach_read_from_4 page MODIFIED_PAGE_1ST_PAGE_ID
    last_page_in_run := mach_read_from_4 page MODIFIED_PAGE_IS_LAST_BLOCK
    bit_offset := bit_offset
    changed := IS_BIT_SET page MODIFIED_PAGE_BLOCK_BITMAP bit_offset }

/-- A log system with a small log group capacity: the current LSN is 9000, the last checkpoint
is at LSN 8300 and the capacity is 1000. -/
def log_sys_small_capacity_example : log_t :=
  { log_sys_example with lsn := 9000, last_checkpoint_lsn := 8300, log_group_capacity := 1000 }

/-- A data directory with two bitmap files of one byte each that share the sequence number 3,
with the start LSNs 100 and 200, enumerated in this order. -/
def os_tie_example : os_state where
  files := [⟨"ib_modified_log_3_100.xdb".toList, os_file_type_t.OS_FILE_TYPE_FILE, [0]⟩,
    ⟨"ib_modified_log_3_200.xdb".toList, os_file_type_t.OS_FILE_TYPE_FILE, [0]⟩]
  faults := []
  writes := []

/-- The same data directory, enumerated in the other order. -/
def os_tie_reversed_example : os_state where
  files := [⟨"ib_modified_log_3_200.xdb".toList, os_file_type_t.OS_FILE_TYPE_FILE, [0]⟩,
    ⟨"ib_modified_log_3_100.xdb".toList, os_file_type_t.OS_FILE_TYPE_FILE, [0]⟩]
  faults := []
  writes := []

/-- The bit addressing of the specification: with
`block_start_page = (page_no / 32448) * 32448` and `bit_index = page_no - block_start_page`,
the bit `bit_index % 8` of the byte `bit_index / 8` of the bitmap is set, in the block of the
key `(space, block_start_page)`.  The search for the block and its insertion into the set are
those of `log_online_set_page_bit`. -/
def set_page_bit_reference (s : log_bitmap_struct) (space page_no : Nat) :
    Option log_bitmap_struct :=
  if space = ULINT_UNDEFINED then none
  else if page_no = ULINT_UNDEFINED then none
  else
    let block_start_page := page_no / MODIFIED_PAGE_BLOCK_ID_COUNT * MODIFIED_PAGE_BLOCK_ID_COUNT
    let bit_index := page_no - block_start_page
    let search_page := write_bmp_key Page.zero space block_start_page
    let tree_search_pos := rbt_search s.modified_pages search_page
    let s :=
      if tree_search_pos.result = 0 then s
      else
        let new_node := write_bmp_key Page.zero space block_start_page
        { s with
          page_free_list := s.page_free_list.tail
          modified_pages :=
            rbt_add_preallocated_node s.modified_pages tree_search_pos new_node }
    let page_ptr := s.modified_pages.getD tree_search_pos.last Page.zero
    some { s with
      modified_pages :=
        s.modified_pages.set tree_search_pos.last
          (page_or_bit page_ptr (bit_index / 8) (bit_index % 8)) }

/-- The subsystem `bmp_sys_example` when the offset of the output file is 4096. -/
def bmp_sys_at_4096_example : log_bitmap_struct :=
  { bmp_sys_example with out := { bmp_sys_example.out with offset := 4096 } }

/-- The subsystem `bmp_sys_example` when the offset of the output file is `2 ^ 32`. -/
def bmp_sys_at_4g_example : log_bitmap_struct :=
  { bmp_sys_example with out := { bmp_sys_example.out with offset := 4294967296 } }

/-- A data directory with the bitmap files of the sequence numbers 1 and 3: the file of the
sequence number 2 is missing. -/
def os_gap_example : os_state where
  files := [⟨"ib_modified_log_1_0.xdb".toList, os_file_type_t.OS_FILE_TYPE_FILE, []⟩,
    ⟨"ib_modified_log_3_1500.xdb".toList, os_file_type_t.OS_FILE_TYPE_FILE, []⟩]
  faults := []
  writes := []

/-- The state of an iterator between two calls of `log_online_bitmap_iterator_next`, as
`log_online_bitmap_iterator_init` and the calls that return `TRUE` leave it: the offset of the
current file is a whole number of blocks, the array of the range has `count` slots, the index
of the current file is inside the array, and the sizes and the count are 64-bit values. -/
def bitmap_iterator_ok (os : os_state) (i : log_bitmap_iterator_t) : Prop :=
  i.in_file.offset % MODIFIED_PAGE_BLOCK_SIZE = 0 ∧ i.in_file.size < 2 ^ 64
    ∧ i.in_files.files.length = i.in_files.count ∧ i.in_i < i.in_files.count
    ∧ i.in_files.count < 2 ^ 64 ∧ ∀ e ∈ os.files, e.data.length < 2 ^ 64

/-- A bound on the number of rounds of the loops of `log_online_bitmap_iterator_next` from a
state of the iterator: one round for each block that is left in the current file, one for the
end of the current file, and for each later file of the range one round for each of its blocks
and one for its end. -/
def bitmap_iterator_rounds (env : Env) (os : os_state) (i : log_bitmap_iterator_t) : Nat :=
  (i.in_file.size / MODIFIED_PAGE_BLOCK_SIZE - i.in_file.offset / MODIFIED_PAGE_BLOCK_SIZE) + 1
    + ((i.in_files.files.drop (i.in_i + 1)).map (fun f =>
        os_file_get_size env os ((env.srv_data_home ++ f.name).take (env.FN_REFLEN - 1))
          / MODIFIED_PAGE_BLOCK_SIZE + 1)).sum

/-- The part of the subsystem that parsing the log leaves alone: the LSN interval and the
output file. -/
def same_frame (s s' : log_bitmap_struct) : Prop :=
  s'.start_lsn = s.start_lsn ∧ s'.end_lsn = s.end_lsn ∧ s'.out = s.out
    ∧ s'.out_seq_num = s.out_seq_num

/-! ## Bytes of a block -/

theorem Page.get_set_eq (p : Page) (i : Nat) (b : byte) (h : i < 4096) :
    (p.set i b).get i = b := by
  have hl : i < p.bytes.length := by rw [p.size_eq]; exact h
  simp [Page.get, Page.set, List.getD_eq_getElem?_getD, hl]

theorem Page.get_set_ne (p : Page) (i j : Nat) (b : byte) (h : i ≠ j) :
    (p.set i b).get j = p.get j := by
  simp [Page.get, Page.set, List.getD_eq_getElem?_getD, List.getElem?_set_ne h]

theorem Page.get_zero (i : Nat) : Page.zero.get i = 0 := by
  by_cases h : i < MODIFIED_PAGE_BLOCK_SIZE
  · simp [Page.get, Page.zero, List.getD_eq_getElem?_getD, List.getElem?_replicate, h]
  · simp [Page.get, Page.zero, List.getD_eq_getElem?_getD, List.getElem?_replicate, h]

theorem Page.ext_get (p q : Page) (h : ∀ i, i < 4096 → p.get i = q.get i) :
    p = q := by
  obtain ⟨pb, hp⟩ := p
  obtain ⟨qb, hq⟩ := q
  have : pb = qb := by
    apply List.ext_getElem (by rw [hp, hq])
    intro n h1 h2
    have := h n (lt_of_lt_of_eq h1 hp)
    simpa [Page.get, List.getD_eq_getElem?_getD, h1, h2] using this
  subst this
  rfl

theorem to_byte_val (n : Nat) : (to_byte n).val = n % 256 := rfl

/-! ## Big-endian fields -/

theorem mach_read_from_4_eq (b : Page) (off : Nat) :
    mach_read_from_4 b off
      = (b.get off).val * 2 ^ 24 + (b.get (off + 1)).val * 2 ^ 16
        + (b.get (off + 2)).val * 2 ^ 8 + (b.get (off + 3)).val := by
  have h0 := (b.get off).isLt
  have h1 := (b.get (off + 1)).isLt
  have h2 := (b.get (off + 2)).isLt
  have h3 := (b.get (off + 3)).isLt
  unfold mach_read_from_4
  simp only [Nat.shiftLeft_eq]
  have e3 : ∀ x y : Nat, y < 2 ^ 8 → (x * 2 ^ 8 ||| y) = x * 2 ^ 8 + y := by
    intro x y hy
    rw [Nat.mul_comm x, ← Nat.mul_add_lt_is_or hy]
  have e2 : ∀ x y : Nat, y < 2 ^ 16 → (x * 2 ^ 16 ||| y) = x * 2 ^ 16 + y := by
    intro x y hy
    rw [Nat.mul_comm x, ← Nat.mul_add_lt_is_or hy]
  have e1 : ∀ x y : Nat, y < 2 ^ 24 → (x * 2 ^ 24 ||| y) = x * 2 ^ 24 + y := by
    intro x y hy
    rw [Nat.mul_comm x, ← Nat.mul_add_lt_is_or hy]
  rw [Nat.lor_assoc, Nat.lor_assoc, e3 _ _ (by omega), e2 _ _ (by omega), e1 _ _ (by omega)]
  omega

theorem mach_read_from_4_lt (b : Page) (off : Nat) : mach_read_from_4 b off < 2 ^ 32 := by
  have h0 := (b.get off).isLt
  have h1 := (b.get (off + 1)).isLt
  have h2 := (b.get (off + 2)).isLt
  have h3 := (b.get (off + 3)).isLt
  rw [mach_read_from_4_eq]
  omega

theorem get_mach_write_to_4_of_disjoint (b : Page) (off n j : Nat)
    (h : j < off ∨ off + 4 ≤ j) : (mach_write_to_4 b off n).get j = b.get j := by
  unfold mach_write_to_4
  rw [Page.get_set_ne _ _ _ _ (by omega), Page.get_set_ne _ _ _ _ (by omega),
    Page.get_set_ne _ _ _ _ (by omega), Page.get_set_ne _ _ _ _ (by omega)]

theorem mach_read_from_4_write_same (b : Page) (off n : Nat) (h : off + 4 ≤ 4096) :
    mach_read_from_4 (mach_write_to_4 b off n) off = n % 2 ^ 32 := by
  have g0 : (mach_write_to_4 b off n).get off = to_byte (n >>> 24) := by
    unfold mach_write_to_4
    rw [Page.get_set_ne _ _ _ _ (by omega), Page.get_set_ne _ _ _ _ (by omega),
      Page.get_set_ne _ _ _ _ (by omega), Page.get_set_eq _ _ _ (by omega)]
  have g1 : (mach_write_to_4 b off n).get (off + 1) = to_byte (n >>> 16) := by
    unfold mach_write_to_4
    rw [Page.get_set_ne _ _ _ _ (by omega), Page.get_set_ne _ _ _ _ (by omega),
      Page.get_set_eq _ _ _ (by omega)]
  have g2 : (mach_write_to_4 b off n).get (off + 2) = to_byte (n >>> 8) := by
    unfold mach_write_to_4
    rw [Page.get_set_ne _ _ _ _ (by omega), Page.get_set_eq _ _ _ (by omega)]
  have g3 : (mach_write_to_4 b off n).get (off + 3) = to_byte n := by
    unfold mach_write_to_4
    rw [Page.get_set_eq _ _ _ (by omega)]
  rw [mach_read_from_4_eq, g0, g1, g2, g3]
  simp only [to_byte_val, Nat.shiftRight_eq_div_pow]
  omega

theorem mach_read_from_4_write_disjoint (b : Page) (off off' n : Nat)
    (h : off' + 4 ≤ off ∨ off + 4 ≤ off') :
    mach_read_from_4 (mach_write_to_4 b off n) off' = mach_read_from_4 b off' := by
  unfold mach_read_from_4
  rw [get_mach_write_to_4_of_disjoint _ _ _ _ (by omega),
    get_mach_write_to_4_of_disjoint _ _ _ _ (by omega),
    get_mach_write_to_4_of_disjoint _ _ _ _ (by omega),
    get_mach_write_to_4_of_disjoint _ _ _ _ (by omega)]

theorem mach_read_from_4_set_disjoint (b : Page) (off i : Nat) (v : byte)
    (h : i < off ∨ off + 4 ≤ i) :
    mach_read_from_4 (b.set i v) off = mach_read_from_4 b off := by
  unfold mach_read_from_4
  rw [Page.get_set_ne _ _ _ _ (by omega), Page.get_set_ne _ _ _ _ (by omega),
    Page.get_set_ne _ _ _ _ (by omega), Page.get_set_ne _ _ _ _ (by omega)]

theorem mach_read_from_8_eq (b : Page) (off : Nat) :
    mach_read_from_8 b off = mach_read_from_4 b off * 2 ^ 32 + mach_read_from_4 b (off + 4) := by
  unfold mach_read_from_8
  rw [Nat.shiftLeft_eq, Nat.mul_comm, ← Nat.mul_add_lt_is_or (mach_read_from_4_lt _ _)]

theorem mach_read_from_8_lt (b : Page) (off : Nat) : mach_read_from_8 b off < 2 ^ 64 := by
  have h1 := mach_read_from_4_lt b off
  have h2 := mach_read_from_4_lt b (off + 4)
  rw [mach_read_from_8_eq]
  omega

theorem get_mach_write_to_8_of_disjoint (b : Page) (off n j : Nat)
    (h : j < off ∨ off + 8 ≤ j) : (mach_write_to_8 b off n).get j = b.get j := by
  unfold mach_write_to_8
  rw [get_mach_write_to_4_of_disjoint _ _ _ _ (by omega),
    get_mach_write_to_4_of_disjoint _ _ _ _ (by omega)]

theorem mach_read_from_8_write_same (b : Page) (off n : Nat) (h : off + 8 ≤ 4096) :
    mach_read_from_8 (mach_write_to_8 b off n) off = n % 2 ^ 64 := by
  rw [mach_read_from_8_eq]
  unfold mach_write_to_8
  rw [mach_read_from_4_write_disjoint _ _ _ _ (by omega),
    mach_read_from_4_write_same _ _ _ (by omega),
    mach_read_from_4_write_same _ _ _ (by omega)]
  simp only [Nat.shiftRight_eq_div_pow]
  omega

theorem mach_read_from_4_write_8_disjoint (b : Page) (off off' n : Nat)
    (h : off' + 4 ≤ off ∨ off + 8 ≤ off') :
    mach_read_from_4 (mach_write_to_8 b off n) off' = mach_read_from_4 b off' := by
  unfold mach_write_to_8
  rw [mach_read_from_4_write_disjoint _ _ _ _ (by omega),
    mach_read_from_4_write_disjoint _ _ _ _ (by omega)]

theorem mach_read_from_8_write_4_disjoint (b : Page) (off off' n : Nat)
    (h : off' + 8 ≤ off ∨ off + 4 ≤ off') :
    mach_read_from_8 (mach_write_to_4 b off n) off' = mach_read_from_8 b off' := by
  unfold mach_read_from_8
  rw [mach_read_from_4_write_disjoint _ _ _ _ (by omega),
    mach_read_from_4_write_disjoint _ _ _ _ (by omega)]

theorem mach_read_from_8_write_8_disjoint (b : Page) (off off' n : Nat)
    (h : off' + 8 ≤ off ∨ off + 8 ≤ off') :
    mach_read_from_8 (mach_write_to_8 b off n) off' = mach_read_from_8 b off' := by
  unfold mach_write_to_8
  rw [mach_read_from_8_write_4_disjoint _ _ _ _ (by omega),
    mach_read_from_8_write_4_disjoint _ _ _ _ (by omega)]

/-! ## The checksum -/

theorem calc_checksum_step_eq (st : Nat × Nat) (b : Nat) (hb : b < 256) (hsh : st.2 ≤ 24) :
    log_online_calc_checksum_step st b
      = ((st.1 &&& 0x7FFFFFFF) + b + (b <<< st.2), if st.2 < 24 then st.2 + 1 else 0) := by
  have hA : st.1 &&& 0x7FFFFFFF < 2 ^ 31 := Nat.and_lt_two_pow _ (by norm_num)
  have hS : b <<< st.2 < 2 ^ 32 := by
    rw [Nat.shiftLeft_eq]
    have h1 : 2 ^ st.2 ≤ 2 ^ 24 := Nat.pow_le_pow_right (by norm_num) hsh
    calc b * 2 ^ st.2 ≤ 255 * 2 ^ 24 := Nat.mul_le_mul (by omega) h1
      _ < 2 ^ 32 := by norm_num
  unfold log_online_calc_checksum_step
  apply Prod.ext
  · simp only
    have e1 : (b <<< st.2) % 2 ^ 64 = b <<< st.2 := Nat.mod_eq_of_lt (by omega)
    have e2 : ((st.1 &&& 0x7FFFFFFF) + b) % 2 ^ 64 = (st.1 &&& 0x7FFFFFFF) + b :=
      Nat.mod_eq_of_lt (by omega)
    rw [e1, e2, Nat.mod_eq_of_lt (by omega)]
  · simp only
    split_ifs <;> omega

theorem calc_checksum_fold_eq (block : Page) (n : Nat) :
    (List.range n).foldl (fun st i => log_online_calc_checksum_step st (block.get i).val) (1, 0)
        = calc_checksum_reference_loop block n
      ∧ (calc_checksum_reference_loop block n).2 ≤ 24 := by
  induction n with
  | zero => exact ⟨rfl, by simp [calc_checksum_reference_loop]⟩
  | succ n ih =>
    obtain ⟨ih1, ih2⟩ := ih
    constructor
    · rw [List.range_succ, List.foldl_append, ih1, List.foldl_cons, List.foldl_nil,
        calc_checksum_step_eq _ _ (block.get n).isLt ih2]
      rfl
    · simp only [calc_checksum_reference_loop]
      split_ifs <;> omega

theorem calc_checksum_eq_reference (block : Page) :
    log_online_calc_checksum block = calc_checksum_reference block := by
  exact congrArg Prod.fst (calc_checksum_fold_eq block 4092).1

theorem calc_checksum_congr (b1 b2 : Page) (h : ∀ i, i < 4092 → b1.get i = b2.get i) :
    log_online_calc_checksum b1 = log_online_calc_checksum b2 := by
  have e := @List.foldl_ext (Nat × Nat) Nat
    (fun st i => log_online_calc_checksum_step st (b1.get i).val)
    (fun st i => log_online_calc_checksum_step st (b2.get i).val) (1, 0) (List.range 4092)
    (fun a i hi => by simp only [h i (List.mem_range.mp hi)])
  exact congrArg Prod.fst e

/-- C2: for every 4096-byte block, `log_online_calc_checksum` returns exactly the value of
the reference loop of the specification (`sum = 1`, `sh = 0`, then for `i = 0 .. 4091`:
`sum = (sum & 0x7FFFFFFF) + b + (b << sh)` and `sh = sh + 1` if `sh < 24`, else `0`), and the
result does not depend on the bytes 4092..4095: two blocks that agree on the bytes 0..4091
have the same checksum. -/
theorem C2_calc_checksum_is_reference_loop (block block' : Page) :
    log_online_calc_checksum block = calc_checksum_reference block
      ∧ ((∀ i, i < 4092 → block.get i = block'.get i) →
          log_online_calc_checksum block = log_online_calc_checksum block') :=
  ⟨calc_checksum_eq_reference block, calc_checksum_congr block block'⟩

/-- Witness of C2: the zero block and the zero block with its checksum field overwritten agree
on the bytes 0..4091 and have the same checksum. -/
theorem C2_calc_checksum_is_reference_loop_witness :
    (∀ i, i < 4092 → Page.zero.get i = (mach_write_to_4 Page.zero 4092 305419896).get i)
      ∧ log_online_calc_checksum Page.zero = calc_checksum_reference Page.zero
      ∧ log_online_calc_checksum Page.zero
          = log_online_calc_checksum (mach_write_to_4 Page.zero 4092 305419896) :=
  have h : ∀ i, i < 4092 → Page.zero.get i = (mach_write_to_4 Page.zero 4092 305419896).get i :=
    fun _ hi => (get_mach_write_to_4_of_disjoint _ _ _ _ (Or.inl hi)).symm
  ⟨h, (C2_calc_checksum_is_reference_loop Page.zero Page.zero).1,
    (C2_calc_checksum_is_reference_loop Page.zero _).2 h⟩

/-! ## Keys and the search in the tree -/

theorem ID_COUNT_eq : MODIFIED_PAGE_BLOCK_ID_COUNT = 32448 := rfl

theorem compare_eq_zero_iff (p1 p2 : Page) :
    log_online_compare_bmp_keys p1 p2 = 0 ↔
      mach_read_from_4 p1 20 = mach_read_from_4 p2 20
        ∧ mach_read_from_4 p1 24 = mach_read_from_4 p2 24 := by
  unfold log_online_compare_bmp_keys
  simp only [ MODIFIED_PAGE_SPACE_ID, MODIFIED_PAGE_1ST_PAGE_ID]
  split_ifs with h1 h2 h3 h4
  · simp; omega
  · simp; omega
  · simp; omega
  · simp [h1]
  · simp [h1]

theorem key_space (p : Page) (space bsp : Nat) :
    mach_read_from_4 (write_bmp_key p space bsp) 20 = space % 2 ^ 32 := by
  unfold write_bmp_key
  simp only [ MODIFIED_PAGE_SPACE_ID, MODIFIED_PAGE_1ST_PAGE_ID]
  rw [mach_read_from_4_write_disjoint _ _ _ _ (by omega), mach_read_from_4_write_same _ _ _ (by omega)]

theorem key_first_page (p : Page) (space bsp : Nat) :
    mach_read_from_4 (write_bmp_key p space bsp) 24 = bsp % 2 ^ 32 := by
  unfold write_bmp_key
  simp only [ MODIFIED_PAGE_SPACE_ID, MODIFIED_PAGE_1ST_PAGE_ID]
  rw [mach_read_from_4_write_same _ _ _ (by omega)]

theorem get_write_bmp_key_of_disjoint (p : Page) (space bsp j : Nat) (h : j < 20 ∨ 28 ≤ j) :
    (write_bmp_key p space bsp).get j = p.get j := by
  unfold write_bmp_key
  simp only [ MODIFIED_PAGE_SPACE_ID, MODIFIED_PAGE_1ST_PAGE_ID]
  rw [get_mach_write_to_4_of_disjoint _ _ _ _ (by omega),
    get_mach_write_to_4_of_disjoint _ _ _ _ (by omega)]

theorem rbt_search_last_le (t : ib_rbt_t) (k : Page) : (rbt_search t k).last ≤ t.length := by
  induction t with
  | nil => simp [rbt_search]
  | cons n rest ih =>
    simp only [rbt_search]
    split_ifs
    · simp only [Nat.add_le_add_iff_right, List.length_cons]; exact ih
    · simp
    · simp

theorem rbt_search_found (t : ib_rbt_t) (k : Page) (h : (rbt_search t k).result = 0) :
    ∃ node, t[(rbt_search t k).last]? = some node ∧ log_online_compare_bmp_keys k node = 0 := by
  induction t with
  | nil => simp [rbt_search] at h
  | cons n rest ih =>
    simp only [rbt_search] at h ⊢
    split_ifs at h ⊢ with h1 h2
    · obtain ⟨node, hn, hc⟩ := ih h
      exact ⟨node, by simpa using hn, hc⟩
    · exact ⟨n, by simp, h2⟩
    · simp at h

theorem rbt_search_found_lt (t : ib_rbt_t) (k : Page) (h : (rbt_search t k).result = 0) :
    (rbt_search t k).last < t.length := by
  obtain ⟨node, hn, _⟩ := rbt_search_found t k h
  by_contra hc
  rw [List.getElem?_eq_none (by omega)] at hn
  cases hn

/-! ## Setting a bit -/

theorem mod_block_start (q r : Nat) (hq : 0 < q) (hr : r < 32448) :
    (q * 32448 + r) % (q * 32448) = r := by
  rw [Nat.add_comm, Nat.add_mod_right, Nat.mod_eq_of_lt (by omega)]

theorem block_pos_eq (page_no : Nat) :
    (if page_no / 32448 * 32448 ≠ 0 then page_no % (page_no / 32448 * 32448) / 8
      else page_no / 8) = page_no % 32448 / 8 := by
  by_cases h : page_no / 32448 * 32448 = 0
  · rw [if_neg (by simpa using h)]
    omega
  · rw [if_pos h]
    have e : page_no = page_no / 32448 * 32448 + page_no % 32448 := by omega
    have := mod_block_start (page_no / 32448) (page_no % 32448) (by omega) (by omega)
    rw [← e] at this
    rw [this]

theorem page_or_bit_testBit (p : Page) (block_pos bit_pos : Nat) (h1 : 32 + block_pos < 4096)
    (h2 : bit_pos < 8) :
    ((page_or_bit p block_pos bit_pos).get (32 + block_pos)).val.testBit bit_pos = true := by
  have hm : ∀ x : Nat, (x % 256).testBit bit_pos = (decide (bit_pos < 8) && x.testBit bit_pos) :=
    fun x => Nat.testBit_mod_two_pow x 8 bit_pos
  unfold page_or_bit
  simp only [ MODIFIED_PAGE_BLOCK_BITMAP]
  rw [Page.get_set_eq _ _ _ h1, to_byte_val, hm]
  simp [h2, Nat.testBit_or, Nat.testBit_shiftLeft]

theorem get_page_or_bit_of_ne (p : Page) (block_pos bit_pos j : Nat) (h : j ≠ 32 + block_pos) :
    (page_or_bit p block_pos bit_pos).get j = p.get j := by
  unfold page_or_bit
  simp only [ MODIFIED_PAGE_BLOCK_BITMAP]
  rw [Page.get_set_ne _ _ _ _ (by omega)]

theorem mach_read_from_4_page_or_bit (p : Page) (block_pos bit_pos off : Nat)
    (h : off + 4 ≤ 32) :
    mach_read_from_4 (page_or_bit p block_pos bit_pos) off = mach_read_from_4 p off := by
  unfold page_or_bit
  simp only [ MODIFIED_PAGE_BLOCK_BITMAP]
  rw [mach_read_from_4_set_disjoint _ _ _ _ (by omega)]

theorem getD_insert_at (t : List Page) (k : Nat) (n d : Page) (h : k ≤ t.length) :
    (t.take k ++ n :: t.drop k).getD k d = n := by
  rw [List.getD_eq_getElem?_getD, List.getElem?_append_right (by simp)]
  simp [Nat.min_eq_left h]

theorem set_insert_at (t : List Page) (k : Nat) (n v : Page) (h : k ≤ t.length) :
    (t.take k ++ n :: t.drop k).set k v = t.take k ++ v :: t.drop k := by
  simp [List.set_append, Nat.min_eq_left h]

/-- The tree after `log_online_set_page_bit`, when the key is already present. -/
theorem set_page_bit_of_found (s : log_bitmap_struct) (space page_no : Nat)
    (hs : space ≠ ULINT_UNDEFINED) (hp : page_no ≠ ULINT_UNDEFINED)
    (hf : (rbt_search s.modified_pages
      (write_bmp_key Page.zero space (page_no / 32448 * 32448))).result = 0) :
    log_online_set_page_bit s space page_no = some { s with
      modified_pages := s.modified_pages.set
        (rbt_search s.modified_pages
          (write_bmp_key Page.zero space (page_no / 32448 * 32448))).last
        (page_or_bit (s.modified_pages.getD (rbt_search s.modified_pages
          (write_bmp_key Page.zero space (page_no / 32448 * 32448))).last Page.zero)
          (page_no % 32448 / 8) (page_no % 8)) } := by
  unfold log_online_set_page_bit
  rw [if_neg hs, if_neg hp]
  simp only [ID_COUNT_eq, block_pos_eq, if_pos hf]

/-- The tree after `log_online_set_page_bit`, when the key is new. -/
theorem set_page_bit_of_not_found (s : log_bitmap_struct) (space page_no : Nat)
    (hs : space ≠ ULINT_UNDEFINED) (hp : page_no ≠ ULINT_UNDEFINED)
    (hf : (rbt_search s.modified_pages
      (write_bmp_key Page.zero space (page_no / 32448 * 32448))).result ≠ 0) :
    log_online_set_page_bit s space page_no = some { s with
      page_free_list := s.page_free_list.tail
      modified_pages :=
        s.modified_pages.take (rbt_search s.modified_pages
            (write_bmp_key Page.zero space (page_no / 32448 * 32448))).last
          ++ page_or_bit (write_bmp_key Page.zero space (page_no / 32448 * 32448))
              (page_no % 32448 / 8) (page_no % 8)
            :: s.modified_pages.drop (rbt_search s.modified_pages
                (write_bmp_key Page.zero space (page_no / 32448 * 32448))).last } := by
  unfold log_online_set_page_bit
  rw [if_neg hs, if_neg hp]
  simp only [ID_COUNT_eq, block_pos_eq, if_neg hf, rbt_add_preallocated_node]
  rw [getD_insert_at _ _ _ _ (rbt_search_last_le _ _), set_insert_at _ _ _ _ (rbt_search_last_le _ _)]

/-- C4: bit addressing.  For every space id and page number below `2 ^ 32` and every prior
state, `log_online_set_page_bit` returns, and afterwards the set contains a block with
`space_id = space` and `first_page_id = page - page mod 32448` in which bit
`(page mod 32448) mod 8` of byte `32 + (page mod 32448) / 8` is 1. -/
theorem C4_set_page_bit_addressing (s : log_bitmap_struct) (space page_no : Nat)
    (hs : space < 2 ^ 32) (hp : page_no < 2 ^ 32) :
    ∃ s', log_online_set_page_bit s space page_no = some s' ∧
      ∃ blk, blk ∈ s'.modified_pages ∧
        mach_read_from_4 blk MODIFIED_PAGE_SPACE_ID = space ∧
        mach_read_from_4 blk MODIFIED_PAGE_1ST_PAGE_ID = page_no - page_no % 32448 ∧
        (blk.get (32 + page_no % 32448 / 8)).val.testBit (page_no % 32448 % 8) = true := by
  have hs' : space ≠ ULINT_UNDEFINED := by simp only [ULINT_UNDEFINED]; omega
  have hp' : page_no ≠ ULINT_UNDEFINED := by simp only [ULINT_UNDEFINED]; omega
  have hbit : page_no % 32448 % 8 = page_no % 8 := by omega
  have hstart : page_no / 32448 * 32448 = page_no - page_no % 32448 := by omega
  rw [hbit]
  simp only [ MODIFIED_PAGE_SPACE_ID, MODIFIED_PAGE_1ST_PAGE_ID]
  by_cases hf : (rbt_search s.modified_pages
      (write_bmp_key Page.zero space (page_no / 32448 * 32448))).result = 0
  · obtain ⟨node, hn, hc⟩ := rbt_search_found _ _ hf
    rw [compare_eq_zero_iff, key_space, key_first_page] at hc
    have hlt := rbt_search_found_lt _ _ hf
    refine ⟨_, set_page_bit_of_found s space page_no hs' hp' hf, _, List.mem_set _ _ hlt _, ?_, ?_, ?_⟩
    · rw [mach_read_from_4_page_or_bit _ _ _ _ (by omega), List.getD_eq_getElem?_getD, hn]
      simp only [Option.getD_some]
      rw [← hc.1]; omega
    · rw [mach_read_from_4_page_or_bit _ _ _ _ (by omega), List.getD_eq_getElem?_getD, hn]
      simp only [Option.getD_some]
      rw [← hc.2]; omega
    · exact page_or_bit_testBit _ _ _ (by omega) (by omega)
  · refine ⟨_, set_page_bit_of_not_found s space page_no hs' hp' hf, _,
      List.mem_append_right _ (List.mem_cons_self _ _), ?_, ?_, ?_⟩
    · rw [mach_read_from_4_page_or_bit _ _ _ _ (by omega), key_space]; omega
    · rw [mach_read_from_4_page_or_bit _ _ _ _ (by omega), key_first_page]; omega
    · exact page_or_bit_testBit _ _ _ (by omega) (by omega)

/-- Witness of C4: the page 5 of space 7, set in an empty modified-page set. -/
theorem C4_set_page_bit_addressing_witness :
    (7 : Nat) < 2 ^ 32 ∧ (5 : Nat) < 2 ^ 32 ∧
    ∃ s', log_online_set_page_bit bmp_sys_example 7 5 = some s' ∧
      ∃ blk, blk ∈ s'.modified_pages ∧
        mach_read_from_4 blk MODIFIED_PAGE_SPACE_ID = 7 ∧
        mach_read_from_4 blk MODIFIED_PAGE_1ST_PAGE_ID = 5 - 5 % 32448 ∧
        (blk.get (32 + 5 % 32448 / 8)).val.testBit (5 % 32448 % 8) = true :=
  ⟨by decide, by decide, C4_set_page_bit_addressing bmp_sys_example 7 5 (by decide) (by decide)⟩

/-! ## The checksum fits the checksum field -/

theorem calc_checksum_reference_loop_succ (block : Page) (i : Nat) :
    calc_checksum_reference_loop block (i + 1)
      = (((calc_checksum_reference_loop block i).1 &&& 0x7FFFFFFF) + (block.get i).val
          + ((block.get i).val <<< (calc_checksum_reference_loop block i).2),
        if (calc_checksum_reference_loop block i).2 < 24
          then (calc_checksum_reference_loop block i).2 + 1 else 0) := rfl

theorem calc_checksum_reference_loop_sh (block : Page) (n : Nat) :
    (calc_checksum_reference_loop block n).2 = n % 25 := by
  induction n with
  | zero => rfl
  | succ n ih =>
    rw [calc_checksum_reference_loop_succ]
    simp only [ih]
    split_ifs <;> omega

theorem calc_checksum_lt (block : Page) : log_online_calc_checksum block < 2 ^ 32 := by
  rw [calc_checksum_eq_reference]
  unfold calc_checksum_reference
  rw [show (4092 : Nat) = 4091 + 1 from rfl, calc_checksum_reference_loop_succ,
    calc_checksum_reference_loop_sh]
  simp only []
  have hA : (calc_checksum_reference_loop block 4091).1 &&& 0x7FFFFFFF < 2 ^ 31 :=
    Nat.and_lt_two_pow _ (by norm_num)
  have hb := (block.get 4091).isLt
  have hS : (block.get 4091).val <<< (4091 % 25) = (block.get 4091).val * 65536 := by
    rw [Nat.shiftLeft_eq]
  rw [hS]
  omega

/-! ## What the flush stores in a block -/

theorem Page.ofList_bytes (p : Page) : Page.ofList p.bytes = p := by
  obtain ⟨b, hb⟩ := p
  unfold Page.ofList
  congr 1
  exact List.take_left' hb

theorem fill_get_of_mid (s : log_bitmap_struct) (page : Page) (l : Bool) (j : Nat)
    (h1 : 20 ≤ j) (h2 : j < 4092) :
    (log_online_write_bitmap_fill s page l).get j = page.get j := by
  unfold log_online_write_bitmap_fill
  simp only [ MODIFIED_PAGE_BLOCK_CHECKSUM, MODIFIED_PAGE_END_LSN, MODIFIED_PAGE_START_LSN,
    MODIFIED_PAGE_IS_LAST_BLOCK, MODIFIED_PAGE_BLOCK_SIZE]
  rw [get_mach_write_to_4_of_disjoint _ _ _ _ (by omega),
    get_mach_write_to_8_of_disjoint _ _ _ _ (by omega),
    get_mach_write_to_8_of_disjoint _ _ _ _ (by omega)]
  cases l
  · rfl
  · simp only [if_true]
    rw [get_mach_write_to_4_of_disjoint _ _ _ _ (by omega)]

theorem fill_read_4_of_mid (s : log_bitmap_struct) (page : Page) (l : Bool) (off : Nat)
    (h1 : 20 ≤ off) (h2 : off + 4 ≤ 4092) :
    mach_read_from_4 (log_online_write_bitmap_fill s page l) off = mach_read_from_4 page off := by
  unfold mach_read_from_4
  rw [fill_get_of_mid _ _ _ _ (by omega) (by omega), fill_get_of_mid _ _ _ _ (by omega) (by omega),
    fill_get_of_mid _ _ _ _ (by omega) (by omega), fill_get_of_mid _ _ _ _ (by omega) (by omega)]

theorem fill_is_last_block (s : log_bitmap_struct) (page : Page) (l : Bool) :
    mach_read_from_4 (log_online_write_bitmap_fill s page l) 0
      = if l then 1 else mach_read_from_4 page 0 := by
  unfold log_online_write_bitmap_fill
  simp only [ MODIFIED_PAGE_BLOCK_CHECKSUM, MODIFIED_PAGE_END_LSN, MODIFIED_PAGE_START_LSN,
    MODIFIED_PAGE_IS_LAST_BLOCK, MODIFIED_PAGE_BLOCK_SIZE]
  rw [mach_read_from_4_write_disjoint _ _ _ _ (by omega),
    mach_read_from_4_write_8_disjoint _ _ _ _ (by omega),
    mach_read_from_4_write_8_disjoint _ _ _ _ (by omega)]
  cases l
  · rfl
  · simp only [if_true]
    rw [mach_read_from_4_write_same _ _ _ (by omega)]
    norm_num

theorem fill_start_lsn (s : log_bitmap_struct) (page : Page) (l : Bool) :
    mach_read_from_8 (log_online_write_bitmap_fill s page l) 4 = s.start_lsn % 2 ^ 64 := by
  unfold log_online_write_bitmap_fill
  simp only [ MODIFIED_PAGE_BLOCK_CHECKSUM, MODIFIED_PAGE_END_LSN, MODIFIED_PAGE_START_LSN,
    MODIFIED_PAGE_IS_LAST_BLOCK, MODIFIED_PAGE_BLOCK_SIZE]
  rw [mach_read_from_8_write_4_disjoint _ _ _ _ (by omega),
    mach_read_from_8_write_8_disjoint _ _ _ _ (by omega),
    mach_read_from_8_write_same _ _ _ (by omega)]

theorem fill_end_lsn (s : log_bitmap_struct) (page : Page) (l : Bool) :
    mach_read_from_8 (log_online_write_bitmap_fill s page l) 12 = s.end_lsn % 2 ^ 64 := by
  unfold log_online_write_bitmap_fill
  simp only [ MODIFIED_PAGE_BLOCK_CHECKSUM, MODIFIED_PAGE_END_LSN, MODIFIED_PAGE_START_LSN,
    MODIFIED_PAGE_IS_LAST_BLOCK, MODIFIED_PAGE_BLOCK_SIZE]
  rw [mach_read_from_8_write_4_disjoint _ _ _ _ (by omega),
    mach_read_from_8_write_same _ _ _ (by omega)]

theorem fill_checksum_ok (s : log_bitmap_struct) (page : Page) (l : Bool) :
    mach_read_from_4 (log_online_write_bitmap_fill s page l) 4092
      = log_online_calc_checksum (log_online_write_bitmap_fill s page l) := by
  unfold log_online_write_bitmap_fill
  simp only [ MODIFIED_PAGE_BLOCK_CHECKSUM, MODIFIED_PAGE_BLOCK_SIZE]
  rw [mach_read_from_4_write_same _ _ _ (by omega), Nat.mod_eq_of_lt (calc_checksum_lt _)]
  exact calc_checksum_congr _ _
    (fun i hi => (get_mach_write_to_4_of_disjoint _ _ _ _ (Or.inl hi)).symm)

/-! ## Reading a block back -/

theorem os_next_fault_of_nil (os : os_state) (h : os.faults = []) :
    os_next_fault os = (false, os) := by
  unfold os_next_fault
  rw [h]

theorem offset_split (offset : Nat) (h : offset < 2 ^ 64) :
    ((offset &&& 0xFFFFFFFF) + (offset >>> 32) * 2 ^ 32) % 2 ^ 64 = offset := by
  have e : offset &&& 0xFFFFFFFF = offset % 2 ^ 32 := Nat.and_pow_two_sub_one_eq_mod offset 32
  rw [e, Nat.shiftRight_eq_div_pow]
  omega

theorem os_file_read_ok (env : Env) (os : os_state) (file : List Char) (data : List byte)
    (offset : Nat) (hfault : os.faults = []) (hdata : os_file_data env os file = some data)
    (h64 : offset < 2 ^ 64) (hlen : offset + 4096 ≤ data.length) :
    os_file_read env os file (offset &&& 0xFFFFFFFF) (offset >>> 32) 4096
      = (some ((data.drop offset).take 4096), os) := by
  unfold os_file_read
  rw [os_next_fault_of_nil os hfault]
  simp only [Bool.false_eq_true, if_false, hdata, offset_split offset h64, if_pos hlen]

/-- The result of `log_online_read_bitmap_page` when the operating system returns the
bytes of the block at the offset of the file. -/
theorem read_bitmap_page_ok (env : Env) (os : os_state) (bitmap_file : log_online_bitmap_file_t)
    (page0 : Page) (ck0 : Bool) (data : List byte) (hfault : os.faults = [])
    (hdata : os_file_data env os bitmap_file.file = some data)
    (hsize : bitmap_file.size = data.length) (h64 : bitmap_file.size < 2 ^ 64)
    (hoff : bitmap_file.offset + 4096 ≤ bitmap_file.size)
    (halign : bitmap_file.offset % 4096 = 0) :
    log_online_read_bitmap_page env os bitmap_file page0 ck0
      = some ⟨true, os, { bitmap_file with offset := bitmap_file.offset + 4096 },
          Page.ofList ((data.drop bitmap_file.offset).take 4096),
          decide (mach_read_from_4 (Page.ofList ((data.drop bitmap_file.offset).take 4096)) 4092
            = log_online_calc_checksum
                (Page.ofList ((data.drop bitmap_file.offset).take 4096)))⟩ := by
  unfold log_online_read_bitmap_page
  simp only [ MODIFIED_PAGE_BLOCK_SIZE, MODIFIED_PAGE_BLOCK_CHECKSUM]
  rw [if_neg (by omega), if_neg (by omega), if_neg (by omega),
    os_file_read_ok env os _ data _ hfault hdata (by omega) (by omega)]
  simp only []
  rw [Nat.mod_eq_of_lt (by omega)]

/-- C3: checksum round trip.  Take any block of the modified-page set (any bytes, hence any
space id, first page id and bitmap bits), any 64-bit `start_lsn` and `end_lsn` of the
controller and either value of the last-block flag.  Let the file hold, at a block-aligned
offset, the 4096 bytes that `log_online_write_bitmap` produces for the block.  Then
`log_online_read_bitmap_page` at that offset succeeds with `checksum_ok = TRUE`, and the
fields decoded at the offsets 0, 4, 12, 20 and 24 are the last-block flag, `start_lsn`,
`end_lsn`, the space id and the first page id that were written. -/
theorem C3_checksum_round_trip (env : Env) (os : os_state) (s : log_bitmap_struct)
    (page : Page) (is_last : Bool) (bitmap_file : log_online_bitmap_file_t) (page0 : Page)
    (ck0 : Bool) (data : List byte)
    (hs : s.start_lsn < 2 ^ 64) (he : s.end_lsn < 2 ^ 64)
    (hfault : os.faults = []) (hdata : os_file_data env os bitmap_file.file = some data)
    (hsize : bitmap_file.size = data.length) (h64 : bitmap_file.size < 2 ^ 64)
    (hoff : bitmap_file.offset + 4096 ≤ bitmap_file.size)
    (halign : bitmap_file.offset % 4096 = 0)
    (hcontent : (data.drop bitmap_file.offset).take 4096
      = (log_online_write_bitmap_fill s page is_last).bytes) :
    ∃ r, log_online_read_bitmap_page env os bitmap_file page0 ck0 = some r ∧
      r.success = true ∧ r.checksum_ok = true ∧
      r.page = log_online_write_bitmap_fill s page is_last ∧
      mach_read_from_4 r.page MODIFIED_PAGE_IS_LAST_BLOCK
        = (if is_last then 1 else mach_read_from_4 page MODIFIED_PAGE_IS_LAST_BLOCK) ∧
      mach_read_from_8 r.page MODIFIED_PAGE_START_LSN = s.start_lsn ∧
      mach_read_from_8 r.page MODIFIED_PAGE_END_LSN = s.end_lsn ∧
      mach_read_from_4 r.page MODIFIED_PAGE_SPACE_ID
        = mach_read_from_4 page MODIFIED_PAGE_SPACE_ID ∧
      mach_read_from_4 r.page MODIFIED_PAGE_1ST_PAGE_ID
        = mach_read_from_4 page MODIFIED_PAGE_1ST_PAGE_ID := by
  refine ⟨_, read_bitmap_page_ok env os bitmap_file page0 ck0 data hfault hdata hsize h64 hoff
    halign, rfl, ?_, ?_, ?_, ?_, ?_, ?_, ?_⟩
  all_goals simp only [hcontent, Page.ofList_bytes]
  · exact decide_eq_true (fill_checksum_ok s page is_last)
  · exact fill_is_last_block s page is_last
  · rw [show MODIFIED_PAGE_START_LSN = 4 from rfl, fill_start_lsn, Nat.mod_eq_of_lt hs]
  · rw [show MODIFIED_PAGE_END_LSN = 12 from rfl, fill_end_lsn, Nat.mod_eq_of_lt he]
  · exact fill_read_4_of_mid s page is_last 20 (by omega) (by omega)
  · exact fill_read_4_of_mid s page is_last 24 (by omega) (by omega)

/-- Witness of C3: the block written for page 5 of space 7, read back from the start of a
file that holds it. -/
theorem C3_checksum_round_trip_witness :
    ∃ r, log_online_read_bitmap_page env_example os_block_example
        ⟨"ib_modified_log_1_0.xdb".toList, "ib_modified_log_1_0.xdb".toList, 4096, 0⟩
        Page.zero false = some r ∧
      r.success = true ∧ r.checksum_ok = true ∧
      r.page = block_example ∧
      mach_read_from_4 r.page MODIFIED_PAGE_IS_LAST_BLOCK
        = (if true then 1 else mach_read_from_4
            (page_or_bit (write_bmp_key Page.zero 7 0) 0 5) MODIFIED_PAGE_IS_LAST_BLOCK) ∧
      mach_read_from_8 r.page MODIFIED_PAGE_START_LSN = bmp_sys_example.start_lsn ∧
      mach_read_from_8 r.page MODIFIED_PAGE_END_LSN = bmp_sys_example.end_lsn ∧
      mach_read_from_4 r.page MODIFIED_PAGE_SPACE_ID
        = mach_read_from_4 (page_or_bit (write_bmp_key Page.zero 7 0) 0 5)
            MODIFIED_PAGE_SPACE_ID ∧
      mach_read_from_4 r.page MODIFIED_PAGE_1ST_PAGE_ID
        = mach_read_from_4 (page_or_bit (write_bmp_key Page.zero 7 0) 0 5)
            MODIFIED_PAGE_1ST_PAGE_ID :=
  C3_checksum_round_trip env_example os_block_example bmp_sys_example
    (page_or_bit (write_bmp_key Page.zero 7 0) 0 5) true
    ⟨"ib_modified_log_1_0.xdb".toList, "ib_modified_log_1_0.xdb".toList, 4096, 0⟩
    Page.zero false block_example.bytes (by decide) (by decide) rfl rfl
    block_example.size_eq.symm (by decide) (by decide) (by decide)
    (by
      show (block_example.bytes.drop 0).take 4096 = block_example.bytes
      rw [List.drop_zero, List.take_of_length_le (le_of_eq block_example.size_eq)])

/-! ## The comparison function is a strict total order on keys -/

theorem bmp_key_fst (p : Page) : (bmp_key p).1 = mach_read_from_4 p 20 := rfl

theorem bmp_key_snd (p : Page) : (bmp_key p).2 = mach_read_from_4 p 24 := rfl

theorem compare_eq_neg_one_iff (p1 p2 : Page) :
    log_online_compare_bmp_keys p1 p2 = -1 ↔ bmp_key_lt (bmp_key p1) (bmp_key p2) := by
  unfold log_online_compare_bmp_keys bmp_key_lt bmp_key
  simp only []
  split_ifs with h1 h2 h3 h4
  · simp [h1, h2]
  · simp [h1, h2]
  · simp [h1, h2]
  · simp only [true_iff]; left; exact h4
  · have : ¬ ((1 : Int) = -1) := by decide
    simp only [this, false_iff]
    omega

theorem compare_eq_one_iff (p1 p2 : Page) :
    log_online_compare_bmp_keys p1 p2 = 1 ↔ bmp_key_lt (bmp_key p2) (bmp_key p1) := by
  unfold log_online_compare_bmp_keys bmp_key_lt bmp_key
  simp only []
  split_ifs with h1 h2 h3 h4
  · have : ¬ ((-1 : Int) = 1) := by decide
    simp only [this, false_iff]
    omega
  · simp only [true_iff]; right; exact ⟨h1.symm, h3⟩
  · have : ¬ ((0 : Int) = 1) := by decide
    simp only [this, false_iff]
    omega
  · have : ¬ ((-1 : Int) = 1) := by decide
    simp only [this, false_iff]
    omega
  · simp only [true_iff]; left; omega

theorem compare_eq_zero_iff_key (p1 p2 : Page) :
    log_online_compare_bmp_keys p1 p2 = 0 ↔ bmp_key p1 = bmp_key p2 := by
  rw [compare_eq_zero_iff]
  unfold bmp_key
  simp only [Prod.mk.injEq]

theorem compare_pos_iff (p1 p2 : Page) :
    log_online_compare_bmp_keys p1 p2 > 0 ↔ log_online_compare_bmp_keys p1 p2 = 1 := by
  unfold log_online_compare_bmp_keys
  simp only []
  split_ifs <;> decide

theorem bmp_key_lt_trans (a b c : Nat × Nat) (h1 : bmp_key_lt a b) (h2 : bmp_key_lt b c) :
    bmp_key_lt a c := by
  unfold bmp_key_lt at *
  omega

theorem bmp_key_lt_irrefl (a : Nat × Nat) : ¬ bmp_key_lt a a := by
  unfold bmp_key_lt
  omega

theorem bmp_key_lt_trichotomy (a b : Nat × Nat) : bmp_key_lt a b ∨ a = b ∨ bmp_key_lt b a := by
  unfold bmp_key_lt
  have : a = b ↔ a.1 = b.1 ∧ a.2 = b.2 := Prod.ext_iff
  rw [this]
  omega

theorem compare_antisymm (p1 p2 : Page) :
    log_online_compare_bmp_keys p1 p2 = -1 ↔ log_online_compare_bmp_keys p2 p1 = 1 := by
  rw [compare_eq_neg_one_iff, compare_eq_one_iff]

theorem compare_trans (p1 p2 p3 : Page) (h1 : log_online_compare_bmp_keys p1 p2 = -1)
    (h2 : log_online_compare_bmp_keys p2 p3 = -1) : log_online_compare_bmp_keys p1 p3 = -1 := by
  rw [compare_eq_neg_one_iff] at *
  exact bmp_key_lt_trans _ _ _ h1 h2

/-! ## The tree stays sorted -/

theorem bmp_key_write_bmp_key (p : Page) (space bsp : Nat) :
    bmp_key (write_bmp_key p space bsp) = (space % 2 ^ 32, bsp % 2 ^ 32) := by
  unfold bmp_key
  rw [show MODIFIED_PAGE_SPACE_ID = 20 from rfl, show MODIFIED_PAGE_1ST_PAGE_ID = 24 from rfl,
    key_space, key_first_page]

theorem bmp_key_page_or_bit (p : Page) (block_pos bit_pos : Nat) :
    bmp_key (page_or_bit p block_pos bit_pos) = bmp_key p := by
  unfold bmp_key
  rw [show MODIFIED_PAGE_SPACE_ID = 20 from rfl, show MODIFIED_PAGE_1ST_PAGE_ID = 24 from rfl,
    mach_read_from_4_page_or_bit _ _ _ _ (by omega), mach_read_from_4_page_or_bit _ _ _ _ (by omega)]

theorem bmp_key_fill (s : log_bitmap_struct) (p : Page) (l : Bool) :
    bmp_key (log_online_write_bitmap_fill s p l) = bmp_key p := by
  unfold bmp_key
  rw [show MODIFIED_PAGE_SPACE_ID = 20 from rfl, show MODIFIED_PAGE_1ST_PAGE_ID = 24 from rfl,
    fill_read_4_of_mid _ _ _ _ (by omega) (by omega), fill_read_4_of_mid _ _ _ _ (by omega) (by omega)]

theorem rbt_search_before (t : ib_rbt_t) (k : Page) :
    ∀ a, a ∈ t.take (rbt_search t k).last → bmp_key_lt (bmp_key a) (bmp_key k) := by
  induction t with
  | nil => simp [rbt_search]
  | cons n rest ih =>
    intro a ha
    simp only [rbt_search] at ha
    split_ifs at ha with h1 h2
    · simp only [List.take_succ_cons, List.mem_cons] at ha
      rcases ha with rfl | ha
      · exact (compare_eq_one_iff _ _).mp ((compare_pos_iff _ _).mp h1)
      · exact ih a ha
    · simp at ha
    · simp at ha

theorem rbt_search_at (t : ib_rbt_t) (k : Page) (hne : (rbt_search t k).result ≠ 0) :
    ∀ node, t[(rbt_search t k).last]? = some node → bmp_key_lt (bmp_key k) (bmp_key node) := by
  induction t with
  | nil => simp
  | cons n rest ih =>
    intro node hn
    simp only [rbt_search] at hn hne
    split_ifs at hn hne with h1 h2
    · simp only [List.getElem?_cons_succ] at hn
      exact ih hne node hn
    · simp at hne
    · simp only [List.getElem?_cons_zero, Option.some.injEq] at hn
      subst hn
      rcases bmp_key_lt_trichotomy (bmp_key k) (bmp_key n) with h | h | h
      · exact h
      · exact absurd ((compare_eq_zero_iff_key _ _).mpr h) h2
      · exact absurd ((compare_pos_iff _ _).mpr ((compare_eq_one_iff _ _).mpr h)) h1

/-- The nodes of the tree are in strictly increasing key order. -/
theorem sorted_insert (t : ib_rbt_t) (k new : Page) (hk : bmp_key new = bmp_key k)
    (hs : (t.map bmp_key).Pairwise bmp_key_lt) (hne : (rbt_search t k).result ≠ 0) :
    ((t.take (rbt_search t k).last ++ new :: t.drop (rbt_search t k).last).map
      bmp_key).Pairwise bmp_key_lt := by
  have hsplit : t = t.take (rbt_search t k).last ++ t.drop (rbt_search t k).last :=
    (List.take_append_drop _ _).symm
  rw [hsplit, List.map_append, List.pairwise_append] at hs
  obtain ⟨h1, h2, h3⟩ := hs
  rw [List.map_append, List.map_cons, List.pairwise_append, List.pairwise_cons]
  have hafter : ∀ b ∈ (t.drop (rbt_search t k).last).map bmp_key, bmp_key_lt (bmp_key k) b := by
    intro b hb
    cases hd : t.drop (rbt_search t k).last with
    | nil => rw [hd] at hb; simp at hb
    | cons node rest =>
      have hnode : t[(rbt_search t k).last]? = some node := by
        have := @List.getElem?_drop _ t (rbt_search t k).last 0
        rw [hd] at this
        simpa using this.symm
      have hlt := rbt_search_at t k hne node hnode
      rw [hd, List.map_cons, List.mem_cons] at hb
      rcases hb with rfl | hb
      · exact hlt
      · rw [hd, List.map_cons, List.pairwise_cons] at h2
        exact bmp_key_lt_trans _ _ _ hlt (h2.1 b hb)
  refine ⟨h1, ⟨?_, h2⟩, ?_⟩
  · intro b hb
    rw [hk]
    exact hafter b hb
  · intro a ha b hb
    rw [List.mem_cons] at hb
    obtain ⟨a', ha', rfl⟩ := List.mem_map.mp ha
    rcases hb with rfl | hb
    · rw [hk]
      exact rbt_search_before t k a' ha'
    · exact h3 _ ha _ hb

theorem map_set_of_key_eq (t : ib_rbt_t) (i : Nat) (v node : Page) (hn : t[i]? = some node)
    (hv : bmp_key v = bmp_key node) : (t.set i v).map bmp_key = t.map bmp_key := by
  apply List.ext_getElem?
  intro j
  rw [List.getElem?_map, List.getElem?_map, List.getElem?_set]
  split_ifs with h1 h2
  · subst h1
    rw [hn]
    simp [hv]
  · subst h1
    rw [List.getElem?_eq_none (by omega)] at hn
    cases hn
  · rfl

theorem set_page_bit_sorted (s s' : log_bitmap_struct) (space page_no : Nat)
    (h : log_online_set_page_bit s space page_no = some s')
    (hs : (s.modified_pages.map bmp_key).Pairwise bmp_key_lt) :
    (s'.modified_pages.map bmp_key).Pairwise bmp_key_lt := by
  by_cases h1 : space = ULINT_UNDEFINED
  · simp [log_online_set_page_bit, h1] at h
  by_cases h2 : page_no = ULINT_UNDEFINED
  · simp [log_online_set_page_bit, h1, h2] at h
  by_cases hf : (rbt_search s.modified_pages
      (write_bmp_key Page.zero space (page_no / 32448 * 32448))).result = 0
  · rw [set_page_bit_of_found s space page_no h1 h2 hf, Option.some.injEq] at h
    subst h
    obtain ⟨node, hn, _⟩ := rbt_search_found _ _ hf
    simp only []
    rw [map_set_of_key_eq _ _ _ node hn]
    · exact hs
    · rw [bmp_key_page_or_bit, List.getD_eq_getElem?_getD, hn]; rfl
  · rw [set_page_bit_of_not_found s space page_no h1 h2 hf, Option.some.injEq] at h
    subst h
    exact sorted_insert _ _ _ (by rw [bmp_key_page_or_bit]) hs hf

theorem set_page_bits_sorted (calls : List (Nat × Nat)) (s s' : log_bitmap_struct)
    (h : log_online_set_page_bits s calls = some s')
    (hs : (s.modified_pages.map bmp_key).Pairwise bmp_key_lt) :
    (s'.modified_pages.map bmp_key).Pairwise bmp_key_lt := by
  induction calls generalizing s with
  | nil =>
    simp only [log_online_set_page_bits, Option.some.injEq] at h
    subst h; exact hs
  | cons c rest ih =>
    obtain ⟨space, page_no⟩ := c
    simp only [log_online_set_page_bits] at h
    cases h1 : log_online_set_page_bit s space page_no with
    | none => rw [h1] at h; cases h
    | some s1 =>
      rw [h1] at h
      exact ih s1 h (set_page_bit_sorted s s1 space page_no h1 hs)

/-! ## The writes of a flush -/

theorem os_next_fault_writes (os : os_state) : (os_next_fault os).2.writes = os.writes := by
  unfold os_next_fault
  cases os.faults <;> rfl

theorem os_next_fault_files (os : os_state) : (os_next_fault os).2.files = os.files := by
  unfold os_next_fault
  cases os.faults <;> rfl

theorem os_file_write_writes (env : Env) (os : os_state) (file : List Char) (buf : List byte)
    (o oh : Nat) :
    (os_file_write env os file buf o oh).2.writes
      = os.writes ++ [⟨file, buf, o, oh, (os_file_write env os file buf o oh).1⟩] := by
  unfold os_file_write
  rcases hf : os_next_fault os with ⟨fault, os1⟩
  have hw : os1.writes = os.writes := by
    have := os_next_fault_writes os
    rw [hf] at this
    exact this
  simp only []
  cases fault
  · simp only [Bool.false_eq_true, if_false]
    cases os_file_data env os1 file with
    | none => simp only [hw]
    | some data => simp only [os_file_set_data, hw]
  · simp only [if_true, hw]

theorem os_file_flush_writes (os : os_state) : (os_file_flush os).2.writes = os.writes := by
  unfold os_file_flush
  exact os_next_fault_writes os

theorem write_bitmap_page_writes (env : Env) (os : os_state) (s : log_bitmap_struct)
    (block : Page) :
    ∃ c, (log_online_write_bitmap_page env os s block).1.writes = os.writes ++ [c]
      ∧ c.buf = block.bytes := by
  unfold log_online_write_bitmap_page
  have hw := os_file_write_writes env os s.out.file block.bytes (s.out.offset &&& 0xFFFFFFFF)
    ((s.out.offset <<< 32) % 2 ^ 64)
  rcases h1 : os_file_write env os s.out.file block.bytes (s.out.offset &&& 0xFFFFFFFF)
    ((s.out.offset <<< 32) % 2 ^ 64) with ⟨ok, os1⟩
  rw [h1] at hw
  simp only [] at hw ⊢
  cases ok
  · exact ⟨_, hw, rfl⟩
  · simp only [Bool.not_true, Bool.false_eq_true, if_false]
    have hf := os_file_flush_writes os1
    rcases h2 : os_file_flush os1 with ⟨ok2, os2⟩
    rw [h2] at hf
    simp only [] at hf ⊢
    cases ok2
    · exact ⟨_, by simp only [Bool.not_false, if_true]; rw [hf, hw], rfl⟩
    · exact ⟨_, by simp only [Bool.not_true, Bool.false_eq_true, if_false]; rw [hf, hw], rfl⟩

/-- The facts about the controller that one block write leaves as they are. -/
theorem write_bitmap_page_state (env : Env) (os : os_state) (s : log_bitmap_struct)
    (block : Page) :
    (log_online_write_bitmap_page env os s block).2.start_lsn = s.start_lsn
      ∧ (log_online_write_bitmap_page env os s block).2.end_lsn = s.end_lsn
      ∧ (log_online_write_bitmap_page env os s block).2.modified_pages = s.modified_pages
      ∧ (log_online_write_bitmap_page env os s block).2.page_free_list = s.page_free_list
      ∧ (log_online_write_bitmap_page env os s block).2.out_seq_num = s.out_seq_num := by
  unfold log_online_write_bitmap_page
  rcases os_file_write env os s.out.file block.bytes (s.out.offset &&& 0xFFFFFFFF)
    ((s.out.offset <<< 32) % 2 ^ 64) with ⟨ok, os1⟩
  simp only []
  cases ok
  · simp
  · simp only [Bool.not_true, Bool.false_eq_true, if_false]
    rcases os_file_flush os1 with ⟨ok2, os2⟩
    cases ok2 <;> simp

theorem fill_congr (s1 s2 : log_bitmap_struct) (p : Page) (l : Bool)
    (h1 : s1.start_lsn = s2.start_lsn) (h2 : s1.end_lsn = s2.end_lsn) :
    log_online_write_bitmap_fill s1 p l = log_online_write_bitmap_fill s2 p l := by
  unfold log_online_write_bitmap_fill
  rw [h1, h2]

theorem blocks_congr (s1 s2 : log_bitmap_struct) (nodes : List Page)
    (h1 : s1.start_lsn = s2.start_lsn) (h2 : s1.end_lsn = s2.end_lsn) :
    log_online_write_bitmap_blocks s1 nodes = log_online_write_bitmap_blocks s2 nodes := by
  induction nodes with
  | nil => rfl
  | cons n rest ih =>
    simp only [log_online_write_bitmap_blocks]
    rw [ih, fill_congr s1 s2 _ _ h1 h2]

theorem write_bitmap_loop_writes (env : Env) (nodes : List Page) :
    ∀ (os : os_state) (s : log_bitmap_struct),
      ∃ calls, (log_online_write_bitmap_loop env os s nodes).1.writes = os.writes ++ calls
        ∧ calls.map (fun c => Page.ofList c.buf) = log_online_write_bitmap_blocks s nodes := by
  induction nodes with
  | nil =>
    intro os s
    exact ⟨[], by simp [log_online_write_bitmap_loop], rfl⟩
  | cons n rest ih =>
    intro os s
    simp only [log_online_write_bitmap_loop, log_online_write_bitmap_blocks]
    obtain ⟨c, hc, hbuf⟩ := write_bitmap_page_writes env os s
      (log_online_write_bitmap_fill s n rest.isEmpty)
    obtain ⟨h1, h2, _, _, _⟩ := write_bitmap_page_state env os s
      (log_online_write_bitmap_fill s n rest.isEmpty)
    obtain ⟨calls, hcalls, hmap⟩ := ih
      (log_online_write_bitmap_page env os s (log_online_write_bitmap_fill s n rest.isEmpty)).1
      { (log_online_write_bitmap_page env os s
          (log_online_write_bitmap_fill s n rest.isEmpty)).2 with
        page_free_list := log_online_write_bitmap_fill s n rest.isEmpty ::
          (log_online_write_bitmap_page env os s
            (log_online_write_bitmap_fill s n rest.isEmpty)).2.page_free_list }
    refine ⟨c :: calls, ?_, ?_⟩
    · rw [hcalls, hc, List.append_assoc]; rfl
    · rw [List.map_cons, hmap, hbuf, Page.ofList_bytes]
      congr 1
      exact blocks_congr _ _ _ h1 h2

theorem os_file_set_data_writes (env : Env) (os : os_state) (path : List Char)
    (data : List byte) : (os_file_set_data env os path data).writes = os.writes := rfl

theorem os_file_create_writes (env : Env) (os : os_state) (name : List Char) :
    (os_file_create env os name).2.writes = os.writes := by
  unfold os_file_create
  have hw := os_next_fault_writes os
  rcases hf : os_next_fault os with ⟨fault, os1⟩
  rw [hf] at hw
  simp only [] at hw ⊢
  cases fault
  · simp only [Bool.false_eq_true, if_false]
    cases os_file_data env os1 name <;> simp [os_file_set_data, hw]
  · simp [hw]

/-- What a rotation leaves as it is. -/
theorem rotate_bitmap_file_state (env : Env) (os os' : os_state) (s s' : log_bitmap_struct)
    (lsn : Nat) (h : log_online_rotate_bitmap_file env os s lsn = some (os', s')) :
    os'.writes = os.writes ∧ s'.start_lsn = s.start_lsn ∧ s'.end_lsn = s.end_lsn
      ∧ s'.modified_pages = s.modified_pages ∧ s'.page_free_list = s.page_free_list := by
  unfold log_online_rotate_bitmap_file log_online_start_bitmap_file
    log_online_make_bitmap_name at h
  simp only [] at h
  have hw := os_file_create_writes env os
    ((env.srv_data_home ++ bmp_file_name_stem ++ print_decimal ((s.out_seq_num + 1) % 2 ^ 64)
      ++ ['_'] ++ print_decimal lsn ++ ".xdb".toList).take (env.FN_REFLEN - 1))
  rcases hc : os_file_create env os
    ((env.srv_data_home ++ bmp_file_name_stem ++ print_decimal ((s.out_seq_num + 1) % 2 ^ 64)
      ++ ['_'] ++ print_decimal lsn ++ ".xdb".toList).take (env.FN_REFLEN - 1)) with ⟨ok, os1⟩
  rw [hc] at h hw
  simp only [] at h hw
  cases ok
  · simp at h
  · simp only [Bool.not_true, Bool.false_eq_true, if_false, Option.some.injEq,
      Prod.mk.injEq] at h
    obtain ⟨rfl, rfl⟩ := h
    exact ⟨hw, rfl, rfl, rfl, rfl⟩

theorem written_blocks_of_append (os os' : os_state) (calls : List os_write_call)
    (h : os'.writes = os.writes ++ calls) :
    written_blocks os os' = calls.map (fun c => Page.ofList c.buf) := by
  unfold written_blocks
  rw [h, List.drop_left]

/-- The blocks that a flush writes are the nodes of the tree, in traversal order, each filled
in by the loop. -/
theorem write_bitmap_written (env : Env) (os os' : os_state) (s s' : log_bitmap_struct)
    (h : log_online_write_bitmap env os s = some (os', s')) :
    written_blocks os os' = log_online_write_bitmap_blocks s s.modified_pages := by
  unfold log_online_write_bitmap at h
  simp only [] at h
  split at h
  · cases h
  · rename_i os1 s1 hrot
    simp only [Option.some.injEq, Prod.mk.injEq] at h
    obtain ⟨rfl, _⟩ := h
    obtain ⟨calls, hcalls, hmap⟩ := write_bitmap_loop_writes env s1.modified_pages os1 s1
    have hst : os1.writes = os.writes ∧ s1.start_lsn = s.start_lsn ∧ s1.end_lsn = s.end_lsn
        ∧ s1.modified_pages = s.modified_pages := by
      split_ifs at hrot with hr
      · obtain ⟨a, b, c, d, _⟩ := rotate_bitmap_file_state env os os1 s s1 _ hrot
        exact ⟨a, b, c, d⟩
      · simp only [Option.some.injEq, Prod.mk.injEq] at hrot
        obtain ⟨rfl, rfl⟩ := hrot
        exact ⟨rfl, rfl, rfl, rfl⟩
    obtain ⟨a, b, c, d⟩ := hst
    rw [written_blocks_of_append os _ calls (by rw [hcalls, a]), hmap, d]
    exact blocks_congr _ _ _ b c

/-! ## Properties of the blocks of one flush -/

theorem blocks_map_key (s : log_bitmap_struct) (nodes : List Page) :
    (log_online_write_bitmap_blocks s nodes).map bmp_key = nodes.map bmp_key := by
  induction nodes with
  | nil => rfl
  | cons n rest ih =>
    simp only [log_online_write_bitmap_blocks, List.map_cons, ih, bmp_key_fill]

theorem blocks_length (s : log_bitmap_struct) (nodes : List Page) :
    (log_online_write_bitmap_blocks s nodes).length = nodes.length := by
  induction nodes with
  | nil => rfl
  | cons n rest ih => simp only [log_online_write_bitmap_blocks, List.length_cons, ih]

theorem blocks_split (s : log_bitmap_struct) (nodes : List Page) (hne : nodes ≠ [])
    (hz : ∀ n, n ∈ nodes → mach_read_from_4 n 0 = 0) :
    ∃ earlier last, log_online_write_bitmap_blocks s nodes = earlier ++ [last]
      ∧ mach_read_from_4 last 0 = 1 ∧ ∀ b, b ∈ earlier → mach_read_from_4 b 0 = 0 := by
  induction nodes with
  | nil => exact absurd rfl hne
  | cons n rest ih =>
    cases rest with
    | nil =>
      refine ⟨[], log_online_write_bitmap_fill s n true, rfl, ?_, by simp⟩
      rw [fill_is_last_block]; rfl
    | cons m rest' =>
      obtain ⟨earlier, last, he, hl, hall⟩ := ih (by simp)
        (fun x hx => hz x (List.mem_cons_of_mem _ hx))
      refine ⟨log_online_write_bitmap_fill s n false :: earlier, last, ?_, hl, ?_⟩
      · rw [log_online_write_bitmap_blocks, he]; rfl
      · intro b hb
        rw [List.mem_cons] at hb
        rcases hb with rfl | hb
        · rw [fill_is_last_block]
          exact hz n (List.mem_cons_self _ _)
        · exact hall b hb

/-! ## Invariants of the modified-page set -/

theorem set_page_bit_forall (P : Page → Prop) (s s' : log_bitmap_struct) (space page_no : Nat)
    (h : log_online_set_page_bit s space page_no = some s')
    (hP : ∀ n, n ∈ s.modified_pages → P n)
    (hor : ∀ p bp bit, P p → P (page_or_bit p bp bit))
    (hnew : ∀ sp bsp, P (write_bmp_key Page.zero sp bsp)) :
    ∀ n, n ∈ s'.modified_pages → P n := by
  by_cases h1 : space = ULINT_UNDEFINED
  · simp [log_online_set_page_bit, h1] at h
  by_cases h2 : page_no = ULINT_UNDEFINED
  · simp [log_online_set_page_bit, h1, h2] at h
  by_cases hf : (rbt_search s.modified_pages
      (write_bmp_key Page.zero space (page_no / 32448 * 32448))).result = 0
  · rw [set_page_bit_of_found s space page_no h1 h2 hf, Option.some.injEq] at h
    subst h
    obtain ⟨node, hn, _⟩ := rbt_search_found _ _ hf
    intro n hmem
    rcases List.mem_or_eq_of_mem_set hmem with hm | rfl
    · exact hP n hm
    · apply hor
      rw [List.getD_eq_getElem?_getD, hn]
      exact hP node (List.getElem?_mem hn)
  · rw [set_page_bit_of_not_found s space page_no h1 h2 hf, Option.some.injEq] at h
    subst h
    intro n hmem
    simp only [List.mem_append, List.mem_cons] at hmem
    rcases hmem with hm | rfl | hm
    · exact hP n (List.mem_of_mem_take hm)
    · exact hor _ _ _ (hnew _ _)
    · exact hP n (List.mem_of_mem_drop hm)

theorem set_page_bits_forall (P : Page → Prop) (calls : List (Nat × Nat))
    (s s' : log_bitmap_struct) (h : log_online_set_page_bits s calls = some s')
    (hP : ∀ n, n ∈ s.modified_pages → P n)
    (hor : ∀ p bp bit, P p → P (page_or_bit p bp bit))
    (hnew : ∀ sp bsp, P (write_bmp_key Page.zero sp bsp)) :
    ∀ n, n ∈ s'.modified_pages → P n := by
  induction calls generalizing s with
  | nil =>
    simp only [log_online_set_page_bits, Option.some.injEq] at h
    subst h; exact hP
  | cons c rest ih =>
    obtain ⟨space, page_no⟩ := c
    simp only [log_online_set_page_bits] at h
    cases h1 : log_online_set_page_bit s space page_no with
    | none => rw [h1] at h; cases h
    | some s1 =>
      rw [h1] at h
      exact ih s1 h (set_page_bit_forall P s s1 space page_no h1 hP hor hnew)

theorem mach_read_from_4_zero (off : Nat) : mach_read_from_4 Page.zero off = 0 := by
  rw [mach_read_from_4_eq]
  simp [Page.get_zero]

theorem is_last_block_of_new (sp bsp : Nat) :
    mach_read_from_4 (write_bmp_key Page.zero sp bsp) 0 = 0 := by
  unfold write_bmp_key
  simp only [ MODIFIED_PAGE_SPACE_ID, MODIFIED_PAGE_1ST_PAGE_ID]
  rw [mach_read_from_4_write_disjoint _ _ _ _ (by omega),
    mach_read_from_4_write_disjoint _ _ _ _ (by omega), mach_read_from_4_zero]

/-- Every node of a set that was built by `log_online_set_page_bit` from the empty set has a
zero last-block flag. -/
theorem set_page_bits_is_last_block (calls : List (Nat × Nat)) (s0 s : log_bitmap_struct)
    (h0 : s0.modified_pages = []) (h : log_online_set_page_bits s0 calls = some s) :
    ∀ n, n ∈ s.modified_pages → mach_read_from_4 n 0 = 0 :=
  set_page_bits_forall (fun p => mach_read_from_4 p 0 = 0) calls s0 s h
    (by rw [h0]; simp)
    (fun p bp bit hp => by
      show mach_read_from_4 (page_or_bit p bp bit) 0 = 0
      rw [mach_read_from_4_page_or_bit _ _ _ _ (by omega)]; exact hp)
    (fun sp bsp => is_last_block_of_new sp bsp)

theorem write_bitmap_loop_lsn (env : Env) (nodes : List Page) :
    ∀ (os : os_state) (s : log_bitmap_struct),
      (log_online_write_bitmap_loop env os s nodes).2.start_lsn = s.start_lsn
        ∧ (log_online_write_bitmap_loop env os s nodes).2.end_lsn = s.end_lsn := by
  induction nodes with
  | nil => intro os s; exact ⟨rfl, rfl⟩
  | cons n rest ih =>
    intro os s
    simp only [log_online_write_bitmap_loop]
    obtain ⟨h1, h2, _, _, _⟩ := write_bitmap_page_state env os s
      (log_online_write_bitmap_fill s n rest.isEmpty)
    obtain ⟨a, b⟩ := ih
      (log_online_write_bitmap_page env os s (log_online_write_bitmap_fill s n rest.isEmpty)).1
      { (log_online_write_bitmap_page env os s
          (log_online_write_bitmap_fill s n rest.isEmpty)).2 with
        page_free_list := log_online_write_bitmap_fill s n rest.isEmpty ::
          (log_online_write_bitmap_page env os s
            (log_online_write_bitmap_fill s n rest.isEmpty)).2.page_free_list }
    exact ⟨a.trans h1, b.trans h2⟩

/-! ## Runs that return -/

theorem set_page_bit_some (s : log_bitmap_struct) (space page_no : Nat)
    (hs : space ≠ ULINT_UNDEFINED) (hp : page_no ≠ ULINT_UNDEFINED) :
    ∃ s', log_online_set_page_bit s space page_no = some s' ∧ s'.out = s.out
      ∧ s'.start_lsn = s.start_lsn ∧ s'.end_lsn = s.end_lsn ∧ s'.modified_pages ≠ [] := by
  by_cases hf : (rbt_search s.modified_pages
      (write_bmp_key Page.zero space (page_no / 32448 * 32448))).result = 0
  · refine ⟨_, set_page_bit_of_found s space page_no hs hp hf, rfl, rfl, rfl, ?_⟩
    have hlt := rbt_search_found_lt _ _ hf
    intro hnil
    have := congrArg List.length hnil
    simp only [List.length_set, List.length_nil] at this
    omega
  · refine ⟨_, set_page_bit_of_not_found s space page_no hs hp hf, rfl, rfl, rfl, ?_⟩
    simp

theorem set_page_bits_some (calls : List (Nat × Nat)) (s : log_bitmap_struct)
    (hc : ∀ c, c ∈ calls → c.1 ≠ ULINT_UNDEFINED ∧ c.2 ≠ ULINT_UNDEFINED) :
    ∃ s', log_online_set_page_bits s calls = some s' ∧ s'.out = s.out
      ∧ s'.start_lsn = s.start_lsn ∧ s'.end_lsn = s.end_lsn
      ∧ (calls ≠ [] → s'.modified_pages ≠ []) := by
  induction calls generalizing s with
  | nil => exact ⟨s, rfl, rfl, rfl, rfl, fun h => absurd rfl h⟩
  | cons c rest ih =>
    obtain ⟨space, page_no⟩ := c
    obtain ⟨h1, h2⟩ := hc (space, page_no) (List.mem_cons_self _ _)
    obtain ⟨s1, hs1, ho1, ha1, hb1, hn1⟩ := set_page_bit_some s space page_no h1 h2
    obtain ⟨s2, hs2, ho2, ha2, hb2, hn2⟩ := ih s1 (fun c hcm => hc c (List.mem_cons_of_mem _ hcm))
    refine ⟨s2, ?_, ho2.trans ho1, ha2.trans ha1, hb2.trans hb1, fun _ => ?_⟩
    · simp only [log_online_set_page_bits, hs1, hs2]
    · cases rest with
      | nil =>
        simp only [log_online_set_page_bits, Option.some.injEq] at hs2
        subst hs2; exact hn1
      | cons d rest' => exact hn2 (by simp)

theorem write_bitmap_some (env : Env) (os : os_state) (s : log_bitmap_struct)
    (h : s.out.offset < env.srv_max_bitmap_file_size) :
    ∃ os' s', log_online_write_bitmap env os s = some (os', s')
      ∧ s'.start_lsn = s.start_lsn ∧ s'.end_lsn = s.end_lsn := by
  unfold log_online_write_bitmap
  rw [if_neg (by omega)]
  obtain ⟨_, h1, h2⟩ : True ∧ _ := ⟨trivial, write_bitmap_loop_lsn env s.modified_pages os s⟩
  exact ⟨_, _, rfl, h1, h2⟩

/-- C5: key ordering.  After any finite sequence of `log_online_set_page_bit` calls on an
empty set, one `log_online_write_bitmap` call writes one block per node of the set, and the
blocks appear in strictly increasing lexicographic order of `(space_id, first_page_id)`:
each block compares smaller (`log_online_compare_bmp_keys` returns -1) than every later block.
The comparison function is a strict total order on keys: it returns 0 exactly for equal keys,
-1 one way exactly when it returns 1 the other way, it is transitive, and it returns no other
value. -/
theorem C5_key_ordering (env : Env) (os os' : os_state) (s0 s s' : log_bitmap_struct)
    (calls : List (Nat × Nat)) (h0 : s0.modified_pages = [])
    (hb : log_online_set_page_bits s0 calls = some s)
    (hw : log_online_write_bitmap env os s = some (os', s')) :
    (written_blocks os os').length = s.modified_pages.length
      ∧ (written_blocks os os').Pairwise (fun a b =>
          log_online_compare_bmp_keys a b = -1
            ∧ (mach_read_from_4 a MODIFIED_PAGE_SPACE_ID
                  < mach_read_from_4 b MODIFIED_PAGE_SPACE_ID
                ∨ (mach_read_from_4 a MODIFIED_PAGE_SPACE_ID
                    = mach_read_from_4 b MODIFIED_PAGE_SPACE_ID
                  ∧ mach_read_from_4 a MODIFIED_PAGE_1ST_PAGE_ID
                    < mach_read_from_4 b MODIFIED_PAGE_1ST_PAGE_ID)))
      ∧ (∀ a b : Page, log_online_compare_bmp_keys a b = 0 ↔
          (mach_read_from_4 a MODIFIED_PAGE_SPACE_ID = mach_read_from_4 b MODIFIED_PAGE_SPACE_ID
            ∧ mach_read_from_4 a MODIFIED_PAGE_1ST_PAGE_ID
              = mach_read_from_4 b MODIFIED_PAGE_1ST_PAGE_ID))
      ∧ (∀ a b : Page, log_online_compare_bmp_keys a b = -1 ↔
          log_online_compare_bmp_keys b a = 1)
      ∧ (∀ a b c : Page, log_online_compare_bmp_keys a b = -1 →
          log_online_compare_bmp_keys b c = -1 → log_online_compare_bmp_keys a c = -1)
      ∧ (∀ a b : Page, log_online_compare_bmp_keys a b = -1
          ∨ log_online_compare_bmp_keys a b = 0 ∨ log_online_compare_bmp_keys a b = 1) := by
  have hsorted : (s.modified_pages.map bmp_key).Pairwise bmp_key_lt :=
    set_page_bits_sorted calls s0 s hb (by rw [h0]; exact List.Pairwise.nil)
  have hwr := write_bitmap_written env os os' s s' hw
  refine ⟨?_, ?_, compare_eq_zero_iff, compare_antisymm, compare_trans, ?_⟩
  · rw [hwr, blocks_length]
  · rw [hwr]
    have hp : ((log_online_write_bitmap_blocks s s.modified_pages).map bmp_key).Pairwise
        bmp_key_lt := by
      rw [blocks_map_key]; exact hsorted
    rw [List.pairwise_map] at hp
    exact hp.imp (fun {a b} hab => ⟨(compare_eq_neg_one_iff a b).mpr hab, hab⟩)
  · intro a b
    rcases bmp_key_lt_trichotomy (bmp_key a) (bmp_key b) with h | h | h
    · exact Or.inl ((compare_eq_neg_one_iff a b).mpr h)
    · exact Or.inr (Or.inl ((compare_eq_zero_iff_key a b).mpr h))
    · exact Or.inr (Or.inr ((compare_eq_one_iff a b).mpr h))

/-- C6: batch terminator uniqueness.  For every non-empty modified-page set built by
`log_online_set_page_bit` calls on an empty set, the blocks written by one
`log_online_write_bitmap` call end with a block whose `is_last_block` is 1, and every earlier
block of the flush has `is_last_block = 0`. -/
theorem C6_batch_terminator_unique (env : Env) (os os' : os_state)
    (s0 s s' : log_bitmap_struct) (calls : List (Nat × Nat)) (h0 : s0.modified_pages = [])
    (hb : log_online_set_page_bits s0 calls = some s) (hne : s.modified_pages ≠ [])
    (hw : log_online_write_bitmap env os s = some (os', s')) :
    ∃ earlier last, written_blocks os os' = earlier ++ [last]
      ∧ mach_read_from_4 last MODIFIED_PAGE_IS_LAST_BLOCK = 1
      ∧ ∀ b, b ∈ earlier → mach_read_from_4 b MODIFIED_PAGE_IS_LAST_BLOCK = 0 := by
  rw [write_bitmap_written env os os' s s' hw]
  exact blocks_split s s.modified_pages hne (set_page_bits_is_last_block calls s0 s h0 hb)

/-- Witness of C5: the pages 32448 and 32447 of space 1, set in this order in an empty set and
flushed to an empty file: two blocks, the block of page 32447 first. -/
theorem C5_key_ordering_witness :
    ∃ s os' s', bmp_sys_example.modified_pages = []
      ∧ log_online_set_page_bits bmp_sys_example [(1, 32448), (1, 32447)] = some s
      ∧ log_online_write_bitmap env_example os_example s = some (os', s')
      ∧ (written_blocks os_example os').length = s.modified_pages.length
      ∧ (written_blocks os_example os').Pairwise (fun a b =>
          log_online_compare_bmp_keys a b = -1
            ∧ (mach_read_from_4 a MODIFIED_PAGE_SPACE_ID
                  < mach_read_from_4 b MODIFIED_PAGE_SPACE_ID
                ∨ (mach_read_from_4 a MODIFIED_PAGE_SPACE_ID
                    = mach_read_from_4 b MODIFIED_PAGE_SPACE_ID
                  ∧ mach_read_from_4 a MODIFIED_PAGE_1ST_PAGE_ID
                    < mach_read_from_4 b MODIFIED_PAGE_1ST_PAGE_ID))) := by
  obtain ⟨s, hs, hout, _, _, _⟩ := set_page_bits_some [(1, 32448), (1, 32447)] bmp_sys_example
    (by decide)
  obtain ⟨os', s', hw, _, _⟩ := write_bitmap_some env_example os_example s
    (by rw [hout]; decide)
  have h := C5_key_ordering env_example os_example os' bmp_sys_example s s'
    [(1, 32448), (1, 32447)] rfl hs hw
  exact ⟨s, os', s', rfl, hs, hw, h.1, h.2.1⟩

/-- Witness of C6: the same two pages; the flush is not empty and ends with its only
terminator. -/
theorem C6_batch_terminator_unique_witness :
    ∃ s os' s', bmp_sys_example.modified_pages = []
      ∧ log_online_set_page_bits bmp_sys_example [(1, 32448), (1, 32447)] = some s
      ∧ s.modified_pages ≠ []
      ∧ log_online_write_bitmap env_example os_example s = some (os', s')
      ∧ ∃ earlier last, written_blocks os_example os' = earlier ++ [last]
        ∧ mach_read_from_4 last MODIFIED_PAGE_IS_LAST_BLOCK = 1
        ∧ ∀ b, b ∈ earlier → mach_read_from_4 b MODIFIED_PAGE_IS_LAST_BLOCK = 0 := by
  obtain ⟨s, hs, hout, _, _, hne⟩ := set_page_bits_some [(1, 32448), (1, 32447)]
    bmp_sys_example (by decide)
  obtain ⟨os', s', hw, _, _⟩ := write_bitmap_some env_example os_example s
    (by rw [hout]; decide)
  exact ⟨s, os', s', rfl, hs, hne (by simp), hw,
    C6_batch_terminator_unique env_example os_example os' bmp_sys_example s s'
      [(1, 32448), (1, 32447)] rfl hs (hne (by simp)) hw⟩

/-! ## Recovery of the last tracked LSN -/

theorem read_last_tracked_lsn_loop_stop (env : Env) (fuel : Nat)
    (st : read_last_tracked_lsn_state)
    (h : (!st.checksum_ok && decide (st.read_offset > 0) && decide (st.is_last_page = 0))
      = false) :
    log_online_read_last_tracked_lsn_loop env (fuel + 1) st = some st := by
  rw [log_online_read_last_tracked_lsn_loop, h]
  rfl

theorem read_last_tracked_lsn_loop_step (env : Env) (fuel : Nat)
    (st : read_last_tracked_lsn_state) (r : read_bitmap_page_result)
    (h : (!st.checksum_ok && decide (st.read_offset > 0) && decide (st.is_last_page = 0))
      = true)
    (hr : log_online_read_bitmap_page env st.os
      { st.s.out with offset := (st.read_offset + 2 ^ 64 - 4096) % 2 ^ 64 } st.page
      st.checksum_ok = some r)
    (hs : r.success = true) :
    log_online_read_last_tracked_lsn_loop env (fuel + 1) st
      = log_online_read_last_tracked_lsn_loop env fuel
          ⟨r.os, { st.s with out := r.bitmap_file }, r.page,
            if r.checksum_ok then mach_read_from_4 r.page 0 else st.is_last_page,
            r.checksum_ok, (st.read_offset + 2 ^ 64 - 4096) % 2 ^ 64⟩ := by
  rw [log_online_read_last_tracked_lsn_loop, h]
  simp only [if_true]
  rw [hr]
  simp only [hs, Bool.not_true, Bool.false_eq_true, if_false]

theorem read_last_tracked_lsn_loop_fail (env : Env) (fuel : Nat)
    (st : read_last_tracked_lsn_state) (r : read_bitmap_page_result)
    (h : (!st.checksum_ok && decide (st.read_offset > 0) && decide (st.is_last_page = 0))
      = true)
    (hr : log_online_read_bitmap_page env st.os
      { st.s.out with offset := (st.read_offset + 2 ^ 64 - 4096) % 2 ^ 64 } st.page
      st.checksum_ok = some r)
    (hs : r.success = false) :
    log_online_read_last_tracked_lsn_loop env (fuel + 1) st
      = some ⟨r.os, { st.s with out := r.bitmap_file }, r.page, st.is_last_page, false,
          (st.read_offset + 2 ^ 64 - 4096) % 2 ^ 64⟩ := by
  rw [log_online_read_last_tracked_lsn_loop, h]
  simp only [if_true]
  rw [hr]
  simp only [hs, Bool.not_false, if_true]

theorem os_file_set_eof_at_fst (env : Env) (os : os_state) (file : List Char) (len : Nat)
    (data : List byte) (hfault : os.faults = []) (hdata : os_file_data env os file = some data) :
    (os_file_set_eof_at env os file len).1 = true := by
  unfold os_file_set_eof_at
  rw [os_next_fault_of_nil os hfault]
  simp only [Bool.false_eq_true, if_false, hdata]

/-- The backward search stops at the first block with a good checksum, also when the block
does not end a flush: if the last block of the file has a good checksum and a zero last-block
flag, the function returns 0 and leaves the offset at the end of the file. -/
theorem read_last_tracked_lsn_of_valid_non_last (env : Env) (os : os_state)
    (s : log_bitmap_struct) (data : List byte) (n : Nat) (hfault : os.faults = [])
    (hdata : os_file_data env os s.out.file = some data) (hsize : s.out.size = data.length)
    (hoff : s.out.offset = data.length) (h64 : data.length < 2 ^ 64)
    (hlen : data.length = 4096 * (n + 1))
    (hck : mach_read_from_4 (Page.ofList ((data.drop (4096 * n)).take 4096)) 4092
      = log_online_calc_checksum (Page.ofList ((data.drop (4096 * n)).take 4096)))
    (hnl : mach_read_from_4 (Page.ofList ((data.drop (4096 * n)).take 4096)) 0 = 0) :
    ∃ os' s', log_online_read_last_tracked_lsn env os s = some (0, os', s')
      ∧ s'.out.offset = data.length
      ∧ os' = (os_file_set_eof_at env os s.out.file data.length).2 := by
  have hro : (s.out.offset + 2 ^ 64 - 4096) % 2 ^ 64 = 4096 * n := by omega
  have hread := read_bitmap_page_ok env os
    { s.out with offset := 4096 * n } Page.zero false data hfault hdata hsize
    (by rw [hsize]; exact h64) (by simp only []; omega) (by simp only []; omega)
  have hfuel : s.out.offset / MODIFIED_PAGE_BLOCK_SIZE + 1 = (n + 1) + 1 := by
    simp only [ MODIFIED_PAGE_BLOCK_SIZE]
    omega
  have h1 := read_last_tracked_lsn_loop_step env (n + 1)
    ⟨os, s, Page.zero, 0, false, s.out.offset⟩ _
    (by simp only [Bool.not_false, Bool.true_and, decide_True, Bool.and_true,
          decide_eq_true_eq]; omega)
    (by simp only [hro]; exact hread) rfl
  have h2 : log_online_read_last_tracked_lsn_loop env (n + 1)
      ⟨os, { s with out := { s.out with offset := 4096 * n + 4096 } },
        Page.ofList ((data.drop (4096 * n)).take 4096), 0, true, 4096 * n⟩
      = some ⟨os, { s with out := { s.out with offset := 4096 * n + 4096 } },
        Page.ofList ((data.drop (4096 * n)).take 4096), 0, true, 4096 * n⟩ :=
    read_last_tracked_lsn_loop_stop env n _ (by simp)
  simp only [hck, decide_True, if_true, hnl, hro] at h1
  rw [h2] at h1
  unfold log_online_read_last_tracked_lsn
  rw [hfuel, h1]
  simp only [ne_eq, not_true_eq_false, decide_False, Bool.and_false, Bool.false_eq_true,
    if_false]
  have e : 4096 * n + 4096 = data.length := by omega
  rw [e]
  have hok := os_file_set_eof_at_fst env os s.out.file data.length data hfault hdata
  rcases hq : os_file_set_eof_at env os s.out.file data.length with ⟨ok, os2⟩
  rw [hq] at hok
  simp only [] at hok
  subst hok
  exact ⟨os2, _, rfl, rfl, rfl⟩

theorem find_map_set_data (files : List os_dir_entry) (name : List Char) (data' : List byte)
    (h : (files.find? (fun e => e.name = name)).isSome) :
    ((files.map (fun e => if e.name = name then { e with data := data' } else e)).find?
      (fun e => e.name = name)).map (fun e => e.data) = some data' := by
  induction files with
  | nil => simp at h
  | cons e rest ih =>
    by_cases he : e.name = name
    · simp [List.find?, he]
    · have h' : (rest.find? (fun e => e.name = name)).isSome := by
        simpa [List.find?, he] using h
      simpa [List.find?, he] using ih h'

theorem os_file_data_set_data (env : Env) (os : os_state) (path : List Char)
    (data' : List byte) (h : (os_file_data env os path).isSome) :
    os_file_data env (os_file_set_data env os path data') path = some data' := by
  unfold os_file_data os_file_set_data at *
  simp only [Option.isSome_map'] at h
  exact find_map_set_data os.files (os_entry_name env path) data' h

theorem os_file_data_set_eof_at (env : Env) (os : os_state) (file : List Char) (len : Nat)
    (data : List byte) (hfault : os.faults = []) (hdata : os_file_data env os file = some data) :
    os_file_data env (os_file_set_eof_at env os file len).2 file
      = some ((data ++ List.replicate (len - data.length) 0).take len) := by
  unfold os_file_set_eof_at
  rw [os_next_fault_of_nil os hfault]
  simp only [Bool.false_eq_true, if_false, hdata]
  exact os_file_data_set_data env os file _ (by rw [hdata]; rfl)

/-- C10, the code at a failing input.  The file holds a checksum-valid terminator block with
`end_lsn = 9000` and, after it, a checksum-valid block with `is_last_block = 0` that an
interrupted flush left behind.  `log_online_read_last_tracked_lsn` returns 0, not 9000, leaves
the offset at 8192, after the second block, and the truncation discards nothing. -/
theorem C10_read_last_tracked_lsn_at_interrupted_flush :
    (mach_read_from_4 terminator_block_example MODIFIED_PAGE_BLOCK_CHECKSUM
        = log_online_calc_checksum terminator_block_example
      ∧ mach_read_from_4 terminator_block_example MODIFIED_PAGE_IS_LAST_BLOCK = 1
      ∧ mach_read_from_8 terminator_block_example MODIFIED_PAGE_END_LSN = 9000)
    ∧ (mach_read_from_4 interrupted_block_example MODIFIED_PAGE_BLOCK_CHECKSUM
        = log_online_calc_checksum interrupted_block_example
      ∧ mach_read_from_4 interrupted_block_example MODIFIED_PAGE_IS_LAST_BLOCK = 0)
    ∧ ∃ os' s',
        log_online_read_last_tracked_lsn env_example os_interrupted_example
          bmp_sys_recovery_example = some (0, os', s')
        ∧ s'.out.offset = 8192
        ∧ os_file_data env_example os' "ib_modified_log_1_0.xdb".toList
          = some (terminator_block_example.bytes ++ interrupted_block_example.bytes) := by
  have hlen : (terminator_block_example.bytes ++ interrupted_block_example.bytes).length
      = 8192 := by
    rw [List.length_append, terminator_block_example.size_eq,
      interrupted_block_example.size_eq]
    rfl
  have hblk : Page.ofList (((terminator_block_example.bytes
      ++ interrupted_block_example.bytes).drop (4096 * 1)).take 4096)
      = interrupted_block_example := by
    rw [List.drop_left' terminator_block_example.size_eq,
      List.take_of_length_le (le_of_eq interrupted_block_example.size_eq), Page.ofList_bytes]
  have hnl : mach_read_from_4 interrupted_block_example 0 = 0 := by
    unfold interrupted_block_example
    rw [fill_is_last_block]
    simp only [Bool.false_eq_true, if_false]
    rw [mach_read_from_4_page_or_bit _ _ _ _ (by omega), is_last_block_of_new]
  have hdata : os_file_data env_example os_interrupted_example
      bmp_sys_recovery_example.out.file
      = some (terminator_block_example.bytes ++ interrupted_block_example.bytes) := rfl
  refine ⟨⟨fill_checksum_ok _ _ _, ?_, ?_⟩, ⟨fill_checksum_ok _ _ _, hnl⟩, ?_⟩
  · unfold terminator_block_example
    rw [show MODIFIED_PAGE_IS_LAST_BLOCK = 0 from rfl, fill_is_last_block]
    rfl
  · unfold terminator_block_example
    rw [show MODIFIED_PAGE_END_LSN = 12 from rfl, fill_end_lsn]
    rfl
  · obtain ⟨os', s', h1, h2, h3⟩ := read_last_tracked_lsn_of_valid_non_last env_example
      os_interrupted_example bmp_sys_recovery_example
      (terminator_block_example.bytes ++ interrupted_block_example.bytes) 1 rfl hdata
      hlen.symm hlen.symm (by rw [hlen]; decide) (by rw [hlen])
      (by rw [hblk]; exact fill_checksum_ok _ _ _) (by rw [hblk]; exact hnl)
    refine ⟨os', s', h1, by rw [h2, hlen], ?_⟩
    rw [h3]
    have := os_file_data_set_eof_at env_example os_interrupted_example
      bmp_sys_recovery_example.out.file
      (terminator_block_example.bytes ++ interrupted_block_example.bytes).length _ rfl hdata
    rw [Nat.sub_self, List.replicate_zero, List.append_nil, List.take_length] at this
    exact this

/-! ## The bitmap iterator -/

theorem os_file_open_ok (env : Env) (os : os_state) (name : List Char) (data : List byte)
    (hfault : os.faults = []) (hdata : os_file_data env os name = some data) :
    os_file_open env os name = (true, os) := by
  unfold os_file_open
  rw [os_next_fault_of_nil os hfault]
  simp only [Bool.false_eq_true, if_false, hdata, Option.isSome_some]

theorem open_bitmap_file_read_only_ok (env : Env) (os : os_state) (name : List Char)
    (bitmap_file : log_online_bitmap_file_t) (data : List byte) (hfault : os.faults = [])
    (hdata : os_file_data env os ((env.srv_data_home ++ name).take (env.FN_REFLEN - 1))
      = some data) :
    log_online_open_bitmap_file_read_only env os name bitmap_file
      = (true, os, ⟨(env.srv_data_home ++ name).take (env.FN_REFLEN - 1),
          (env.srv_data_home ++ name).take (env.FN_REFLEN - 1), data.length, 0⟩) := by
  unfold log_online_open_bitmap_file_read_only
  simp only []
  rw [os_file_open_ok env os _ data hfault hdata]
  simp only [Bool.not_true, Bool.false_eq_true, if_false, os_file_get_size, hdata,
    Option.getD_some]

theorem os_file_opendir_ok (os : os_state) (hfault : os.faults = []) :
    os_file_opendir os = (true, os) := by
  unfold os_file_opendir
  rw [os_next_fault_of_nil os hfault]
  rfl

theorem os_file_closedir_ok (os : os_state) (hfault : os.faults = []) :
    os_file_closedir os = (false, os) := by
  unfold os_file_closedir
  rw [os_next_fault_of_nil os hfault]

/-- The result of `log_online_setup_bitmap_file_range` when no call of the operating system
fails, in terms of the results of the two passes. -/
theorem setup_bitmap_file_range_ok (env : Env) (os : os_state) (range_start range_end : Nat)
    (st : bitmap_file_range_pass1) (files : List log_online_bitmap_file_range_entry)
    (hfault : os.faults = [])
    (h1 : (os_file_readdir os).foldl
      (log_online_setup_bitmap_file_range_pass1 range_start range_end)
      ⟨0, 2 ^ 64 - 1, 2 ^ 64 - 1⟩ = st)
    (hseq : st.first_file_seq_num ≠ 2 ^ 64 - 1) (hcount : st.count ≠ 0)
    (h2 : (os_file_readdir os).foldl
      (log_online_setup_bitmap_file_range_pass2 env range_end st.first_file_seq_num
        st.first_file_start_lsn) (some (List.replicate st.count ⟨[], 0, 0⟩)) = some files) :
    log_online_setup_bitmap_file_range env os range_start range_end
      = some (true, os, ⟨st.count, files⟩) := by
  unfold log_online_setup_bitmap_file_range
  rw [os_file_opendir_ok os hfault]
  simp only [Bool.not_true, Bool.false_eq_true, if_false]
  rw [h1, if_neg (by simp only [not_not]; exact Or.inl hseq), os_file_closedir_ok os hfault]
  simp only [Bool.false_eq_true, if_false]
  rw [if_neg hcount, os_file_opendir_ok os hfault]
  simp only [Bool.not_true, Bool.false_eq_true, if_false]
  rw [h2]
  simp only []
  rw [os_file_closedir_ok os hfault]
  simp only [Bool.false_eq_true, if_false]

/-- The result of `log_online_bitmap_iterator_init` when the range is set up and the first
file is opened. -/
theorem bitmap_iterator_init_ok (env : Env) (os : os_state) (i : log_bitmap_iterator_t)
    (min_lsn max_lsn : Nat) (in_files : log_online_bitmap_file_range_t)
    (file : log_online_bitmap_file_range_entry) (in_file : log_online_bitmap_file_t)
    (hsetup : log_online_setup_bitmap_file_range env os min_lsn max_lsn
      = some (true, os, in_files))
    (hcount : in_files.count > 0) (hfile : in_files.files[0]? = some file)
    (hopen : log_online_open_bitmap_file_read_only env os file.name i.in_file
      = (true, os, in_file)) :
    log_online_bitmap_iterator_init env os i min_lsn max_lsn
      = some (true, os, { i with
          in_files := in_files
          in_i := 0
          in_file := in_file
          bit_offset := MODIFIED_PAGE_BLOCK_BITMAP_LEN
          start_lsn := 0
          end_lsn := 0
          space_id := 0
          first_page_id := 0
          last_page_in_run := 1
          changed := 0 }) := by
  unfold log_online_bitmap_iterator_init
  rw [hsetup]
  simp only []
  rw [if_neg (by simp only [not_not]; exact hcount), hfile]
  simp only []
  rw [hopen]
  simp only [Bool.not_true, Bool.false_eq_true, if_false]

theorem bitmap_iterator_next_of_lt (env : Env) (os : os_state) (i : log_bitmap_iterator_t)
    (h : i.bit_offset < 4056) :
    log_online_bitmap_iterator_next env os i
      = some (true, os, { i with
          bit_offset := i.bit_offset + 1
          changed := IS_BIT_SET i.page MODIFIED_PAGE_BLOCK_BITMAP (i.bit_offset + 1) }) := by
  unfold log_online_bitmap_iterator_next
  rw [if_pos (show i.bit_offset < MODIFIED_PAGE_BLOCK_BITMAP_LEN from h)]

theorem bitmap_iterator_next_fuel_pos (os : os_state) (i : log_bitmap_iterator_t) :
    ∃ k, log_online_bitmap_iterator_next_fuel os i = k + 1 := by
  unfold log_online_bitmap_iterator_next_fuel
  exact ⟨_, rfl⟩

/-- A call that has to load a block, when the current file has a full page left and the page
has a good checksum. -/
theorem bitmap_iterator_next_load (env : Env) (os : os_state) (i : log_bitmap_iterator_t)
    (data : List byte) (hbit : ¬ i.bit_offset < 4056) (hfault : os.faults = [])
    (hdata : os_file_data env os i.in_file.file = some data)
    (hsize : i.in_file.size = data.length) (h64 : i.in_file.size < 2 ^ 64)
    (hoff : i.in_file.offset + 4096 ≤ i.in_file.size) (halign : i.in_file.offset % 4096 = 0)
    (hck : mach_read_from_4 (Page.ofList ((data.drop i.in_file.offset).take 4096)) 4092
      = log_online_calc_checksum (Page.ofList ((data.drop i.in_file.offset).take 4096))) :
    log_online_bitmap_iterator_next env os i
      = some (true, os, { i with
          in_file := { i.in_file with offset := i.in_file.offset + 4096 }
          page := Page.ofList ((data.drop i.in_file.offset).take 4096)
          start_lsn := mach_read_from_8
            (Page.ofList ((data.drop i.in_file.offset).take 4096)) MODIFIED_PAGE_START_LSN
          end_lsn := mach_read_from_8
            (Page.ofList ((data.drop i.in_file.offset).take 4096)) MODIFIED_PAGE_END_LSN
          space_id := mach_read_from_4
            (Page.ofList ((data.drop i.in_file.offset).take 4096)) MODIFIED_PAGE_SPACE_ID
          first_page_id := mach_read_from_4
            (Page.ofList ((data.drop i.in_file.offset).take 4096)) MODIFIED_PAGE_1ST_PAGE_ID
          last_page_in_run := mach_read_from_4
            (Page.ofList ((data.drop i.in_file.offset).take 4096)) MODIFIED_PAGE_IS_LAST_BLOCK
          bit_offset := 0
          changed := IS_BIT_SET (Page.ofList ((data.drop i.in_file.offset).take 4096))
            MODIFIED_PAGE_BLOCK_BITMAP 0 }) := by
  unfold log_online_bitmap_iterator_next
  rw [if_neg (show ¬ i.bit_offset < MODIFIED_PAGE_BLOCK_BITMAP_LEN from hbit)]
  obtain ⟨k, hk⟩ := bitmap_iterator_next_fuel_pos os i
  rw [hk, log_online_bitmap_iterator_next_block]
  rw [if_neg (by simp only [ MODIFIED_PAGE_BLOCK_SIZE]; omega),
    read_bitmap_page_ok env os i.in_file i.page false data hfault hdata hsize h64 hoff halign]
  simp only [hck, decide_True, Bool.not_true, Bool.false_eq_true, if_false]

/-- A call that has to load a block, when the current file has no full page left and is the
last file of the range: the iteration ends. -/
theorem bitmap_iterator_next_end (env : Env) (os : os_state) (i : log_bitmap_iterator_t)
    (hbit : ¬ i.bit_offset < 4056)
    (hoff : i.in_file.size < 4096 ∨ i.in_file.offset > i.in_file.size - 4096)
    (hlast : i.in_i + 1 = i.in_files.count) (h64 : i.in_files.count < 2 ^ 64) :
    log_online_bitmap_iterator_next env os i
      = some (false, os, { i with in_i := i.in_i + 1 }) := by
  unfold log_online_bitmap_iterator_next
  rw [if_neg (show ¬ i.bit_offset < MODIFIED_PAGE_BLOCK_BITMAP_LEN from hbit)]
  obtain ⟨k, hk⟩ := bitmap_iterator_next_fuel_pos os i
  rw [hk, log_online_bitmap_iterator_next_block]
  have e : (i.in_i + 1) % 2 ^ 64 = i.in_i + 1 := Nat.mod_eq_of_lt (by omega)
  rw [if_pos hoff]
  simp only [e]
  rw [if_pos hlast]

/-! ## A flush of a single block, and the iteration over it -/

theorem os_file_write_ok (env : Env) (os : os_state) (file : List Char) (buf data : List byte)
    (o oh : Nat) (hfault : os.faults = []) (hdata : os_file_data env os file = some data) :
    os_file_write env os file buf o oh
      = (true, { os_file_set_data env os file (os_write_at data ((o + oh * 2 ^ 32) % 2 ^ 64) buf)
          with writes := os.writes ++ [⟨file, buf, o, oh, true⟩] }) := by
  unfold os_file_write
  rw [os_next_fault_of_nil os hfault]
  simp only [Bool.false_eq_true, if_false, hdata]
  rfl

theorem os_file_flush_ok (os : os_state) (hfault : os.faults = []) :
    os_file_flush os = (true, os) := by
  unfold os_file_flush
  rw [os_next_fault_of_nil os hfault]
  rfl

theorem write_bitmap_page_ok (env : Env) (os : os_state) (s : log_bitmap_struct)
    (block : Page) (data : List byte) (hfault : os.faults = [])
    (hdata : os_file_data env os s.out.file = some data) :
    log_online_write_bitmap_page env os s block
      = ({ os_file_set_data env os s.out.file
            (os_write_at data (((s.out.offset &&& 0xFFFFFFFF)
              + (s.out.offset <<< 32) % 2 ^ 64 * 2 ^ 32) % 2 ^ 64) block.bytes)
          with writes := os.writes ++ [⟨s.out.file, block.bytes, s.out.offset &&& 0xFFFFFFFF,
            (s.out.offset <<< 32) % 2 ^ 64, true⟩] },
        { s with out := { s.out with offset := (s.out.offset + 4096) % 2 ^ 64 } }) := by
  unfold log_online_write_bitmap_page
  rw [os_file_write_ok env os _ _ data _ _ hfault hdata]
  dsimp only
  rw [os_file_flush_ok _ (by exact hfault)]
  simp only [Bool.not_true, Bool.false_eq_true, if_false]

/-- A flush of a set of one node into a file, without rotation and without I/O failure. -/
theorem write_bitmap_single_ok (env : Env) (os : os_state) (s : log_bitmap_struct)
    (node : Page) (data : List byte) (hrot : s.out.offset < env.srv_max_bitmap_file_size)
    (hnodes : s.modified_pages = [node]) (hfault : os.faults = [])
    (hdata : os_file_data env os s.out.file = some data) :
    log_online_write_bitmap env os s
      = some ({ os_file_set_data env os s.out.file
            (os_write_at data (((s.out.offset &&& 0xFFFFFFFF)
              + (s.out.offset <<< 32) % 2 ^ 64 * 2 ^ 32) % 2 ^ 64)
              (log_online_write_bitmap_fill s node true).bytes)
          with writes := os.writes ++ [⟨s.out.file,
            (log_online_write_bitmap_fill s node true).bytes, s.out.offset &&& 0xFFFFFFFF,
            (s.out.offset <<< 32) % 2 ^ 64, true⟩] },
        { s with
          out := { s.out with offset := (s.out.offset + 4096) % 2 ^ 64 }
          page_free_list := log_online_write_bitmap_fill s node true :: s.page_free_list
          modified_pages := [] }) := by
  unfold log_online_write_bitmap
  rw [if_neg (by omega)]
  simp only [hnodes, log_online_write_bitmap_loop, List.isEmpty_nil]
  rw [write_bitmap_page_ok env os s _ data hfault hdata]

/-- The same flush, with the file, the offset and the arguments of the write spelled out. -/
theorem write_bitmap_single_at (env : Env) (os : os_state) (s : log_bitmap_struct)
    (node : Page) (data : List byte) (file : List Char) (off low high pos : Nat)
    (hfile : s.out.file = file) (hoff : s.out.offset = off)
    (hlow : off &&& 0xFFFFFFFF = low) (hhigh : (off <<< 32) % 2 ^ 64 = high)
    (hpos : (low + high * 2 ^ 32) % 2 ^ 64 = pos)
    (hrot : off < env.srv_max_bitmap_file_size)
    (hnodes : s.modified_pages = [node]) (hfault : os.faults = [])
    (hdata : os_file_data env os file = some data) :
    log_online_write_bitmap env os s
      = some ({ os_file_set_data env os file
            (os_write_at data pos (log_online_write_bitmap_fill s node true).bytes)
          with writes := os.writes ++ [⟨file,
            (log_online_write_bitmap_fill s node true).bytes, low, high, true⟩] },
        { s with
          out := { s.out with offset := (off + 4096) % 2 ^ 64 }
          page_free_list := log_online_write_bitmap_fill s node true :: s.page_free_list
          modified_pages := [] }) := by
  subst hfile hoff hlow hhigh hpos
  exact write_bitmap_single_ok env os s node data hrot hnodes hfault hdata

theorem os_write_at_nil_zero (buf : List byte) : os_write_at [] 0 buf = buf := by
  unfold os_write_at
  simp

theorem is_bitmap_file_1_0 (n : Nat) :
    log_online_is_bitmap_file
      ⟨"ib_modified_log_1_0.xdb".toList, os_file_type_t.OS_FILE_TYPE_FILE, n⟩ = some (1, 0) := by
  rfl

theorem setup_pass1_1_0 (n : Nat) :
    log_online_setup_bitmap_file_range_pass1 0 10000 ⟨0, 2 ^ 64 - 1, 2 ^ 64 - 1⟩
      ⟨"ib_modified_log_1_0.xdb".toList, os_file_type_t.OS_FILE_TYPE_FILE, n⟩ = ⟨1, 1, 0⟩ := by
  rfl

theorem setup_pass2_1_0 (n : Nat) :
    log_online_setup_bitmap_file_range_pass2 env_example 10000 1 0 (some [⟨[], 0, 0⟩])
      ⟨"ib_modified_log_1_0.xdb".toList, os_file_type_t.OS_FILE_TYPE_FILE, n⟩
      = some [⟨"ib_modified_log_1_0.xdb".toList, 0, 1⟩] := by
  unfold log_online_setup_bitmap_file_range_pass2
  rw [is_bitmap_file_1_0]
  rfl

theorem os_file_data_single (env : Env) (name path : List Char) (ty : os_file_type_t)
    (buf : List byte) (fl : List Bool) (w : List os_write_call)
    (h : os_entry_name env path = name) :
    os_file_data env ⟨[⟨name, ty, buf⟩], fl, w⟩ path = some buf := by
  unfold os_file_data
  rw [h]
  simp [List.find?]

theorem os_file_set_data_single (env : Env) (name path : List Char) (ty : os_file_type_t)
    (buf data : List byte) (fl : List Bool) (w : List os_write_call)
    (h : os_entry_name env path = name) :
    os_file_set_data env ⟨[⟨name, ty, buf⟩], fl, w⟩ path data = ⟨[⟨name, ty, data⟩], fl, w⟩ := by
  unfold os_file_set_data
  rw [h]
  simp

theorem entry_name_1_0 : os_entry_name env_example "ib_modified_log_1_0.xdb".toList
    = "ib_modified_log_1_0.xdb".toList := by decide

theorem entry_name_dot_1_0 :
    os_entry_name env_example
      ((env_example.srv_data_home ++ "ib_modified_log_1_0.xdb".toList).take
        (env_example.FN_REFLEN - 1))
    = "ib_modified_log_1_0.xdb".toList := by decide

theorem path_dot_1_0 :
    (env_example.srv_data_home ++ "ib_modified_log_1_0.xdb".toList).take
        (env_example.FN_REFLEN - 1) = "./ib_modified_log_1_0.xdb".toList := by decide

/-- The data directory after a one-block flush into the empty file of `os_example`. -/
theorem os_example_after_write (buf : List byte) :
    ({ os_file_set_data env_example os_example "ib_modified_log_1_0.xdb".toList
          (os_write_at [] 0 buf)
        with writes := os_example.writes ++ [⟨"ib_modified_log_1_0.xdb".toList, buf, 0, 0, true⟩] }
      : os_state)
      = ⟨[⟨"ib_modified_log_1_0.xdb".toList, os_file_type_t.OS_FILE_TYPE_FILE, buf⟩], [],
          [⟨"ib_modified_log_1_0.xdb".toList, buf, 0, 0, true⟩]⟩ := by
  have h := os_file_set_data_single env_example "ib_modified_log_1_0.xdb".toList
    "ib_modified_log_1_0.xdb".toList os_file_type_t.OS_FILE_TYPE_FILE [] buf [] []
    entry_name_1_0
  rw [os_write_at_nil_zero]
  rw [show os_example = (⟨[⟨"ib_modified_log_1_0.xdb".toList,
    os_file_type_t.OS_FILE_TYPE_FILE, []⟩], [], []⟩ : os_state) from rfl, h]
  rfl

theorem setup_pass2_fold_1_0 (buf : List byte) (w : List os_write_call) :
    (os_file_readdir
      ⟨[⟨"ib_modified_log_1_0.xdb".toList, os_file_type_t.OS_FILE_TYPE_FILE, buf⟩], [], w⟩).foldl
        (log_online_setup_bitmap_file_range_pass2 env_example 10000 1 0)
        (some (List.replicate 1 ⟨[], 0, 0⟩))
      = some [⟨"ib_modified_log_1_0.xdb".toList, 0, 1⟩] := by
  unfold os_file_readdir
  dsimp only
  rw [List.map_cons, List.map_nil, List.foldl_cons, List.foldl_nil]
  exact setup_pass2_1_0 _

theorem entry_name_dot_lit_1_0 :
    os_entry_name env_example "./ib_modified_log_1_0.xdb".toList
      = "ib_modified_log_1_0.xdb".toList := by decide

/-- The iterator over the only file of a data directory, `ib_modified_log_1_0.xdb`, for the
LSN range from 0 to 10000. -/
theorem bitmap_iterator_init_1_0 (buf : List byte) (w : List os_write_call) :
    log_online_bitmap_iterator_init env_example
        ⟨[⟨"ib_modified_log_1_0.xdb".toList, os_file_type_t.OS_FILE_TYPE_FILE, buf⟩], [], w⟩
        iterator_example 0 10000
      = some (true,
          ⟨[⟨"ib_modified_log_1_0.xdb".toList, os_file_type_t.OS_FILE_TYPE_FILE, buf⟩], [], w⟩,
          { iterator_example with
            in_files := ⟨1, [⟨"ib_modified_log_1_0.xdb".toList, 0, 1⟩]⟩
            in_i := 0
            in_file := ⟨"./ib_modified_log_1_0.xdb".toList, "./ib_modified_log_1_0.xdb".toList,
              buf.length, 0⟩
            bit_offset := MODIFIED_PAGE_BLOCK_BITMAP_LEN
            start_lsn := 0
            end_lsn := 0
            space_id := 0
            first_page_id := 0
            last_page_in_run := 1
            changed := 0 }) := by
  have hsetup := setup_bitmap_file_range_ok env_example
    ⟨[⟨"ib_modified_log_1_0.xdb".toList, os_file_type_t.OS_FILE_TYPE_FILE, buf⟩], [], w⟩
    0 10000 ⟨1, 1, 0⟩ [⟨"ib_modified_log_1_0.xdb".toList, 0, 1⟩] rfl
    (setup_pass1_1_0 buf.length) (by norm_num) (by norm_num) (setup_pass2_fold_1_0 buf w)
  have hopen := open_bitmap_file_read_only_ok env_example
    ⟨[⟨"ib_modified_log_1_0.xdb".toList, os_file_type_t.OS_FILE_TYPE_FILE, buf⟩], [], w⟩
    "ib_modified_log_1_0.xdb".toList iterator_example.in_file buf rfl
    (os_file_data_single env_example _ _ _ buf [] w entry_name_dot_1_0)
  rw [path_dot_1_0] at hopen
  exact bitmap_iterator_init_ok env_example _ iterator_example 0 10000 _
    ⟨"ib_modified_log_1_0.xdb".toList, 0, 1⟩ _ hsetup (by decide) rfl hopen

theorem bitmap_iterator_nth_succ (env : Env) (os os' : os_state) (i i' : log_bitmap_iterator_t)
    (n : Nat) (h : log_online_bitmap_iterator_nth env os i n = some (true, os', i')) :
    log_online_bitmap_iterator_nth env os i (n + 1)
      = log_online_bitmap_iterator_next env os' i' := by
  rw [log_online_bitmap_iterator_nth, h]

/-- The iteration over a file that holds one block with a good checksum: the calls number
1 to 4057 return `true` at the bit offsets 0 to 4056 of the block, and the call number 4058
returns `false`. -/
theorem bitmap_iterator_single_block (blk : Page) (w : List os_write_call)
    (it : log_bitmap_iterator_t)
    (hck : mach_read_from_4 blk 4092 = log_online_calc_checksum blk)
    (hbit : it.bit_offset = 4056) (hi : it.in_i = 0) (hcount : it.in_files.count = 1)
    (hfile : it.in_file = ⟨"./ib_modified_log_1_0.xdb".toList,
      "./ib_modified_log_1_0.xdb".toList, blk.bytes.length, 0⟩) :
    (∀ k, k ≤ 4056 → ∃ i',
      log_online_bitmap_iterator_nth env_example
        ⟨[⟨"ib_modified_log_1_0.xdb".toList, os_file_type_t.OS_FILE_TYPE_FILE, blk.bytes⟩], [],
          w⟩ it (k + 1)
        = some (true,
            ⟨[⟨"ib_modified_log_1_0.xdb".toList, os_file_type_t.OS_FILE_TYPE_FILE, blk.bytes⟩],
              [], w⟩, i')
        ∧ i'.bit_offset = k
        ∧ i'.space_id = mach_read_from_4 blk MODIFIED_PAGE_SPACE_ID
        ∧ i'.first_page_id = mach_read_from_4 blk MODIFIED_PAGE_1ST_PAGE_ID
        ∧ i'.in_file.size = 4096 ∧ i'.in_file.offset = 4096 ∧ i'.in_i = 0
        ∧ i'.in_files.count = 1)
    ∧ ∃ i',
      log_online_bitmap_iterator_nth env_example
        ⟨[⟨"ib_modified_log_1_0.xdb".toList, os_file_type_t.OS_FILE_TYPE_FILE, blk.bytes⟩], [],
          w⟩ it 4058
        = some (false,
            ⟨[⟨"ib_modified_log_1_0.xdb".toList, os_file_type_t.OS_FILE_TYPE_FILE, blk.bytes⟩],
              [], w⟩, i') := by
  have hlen : blk.bytes.length = 4096 := blk.size_eq
  have hblk : Page.ofList ((blk.bytes.drop it.in_file.offset).take 4096) = blk := by
    rw [hfile]
    simp only [List.drop_zero]
    rw [List.take_of_length_le (le_of_eq hlen), Page.ofList_bytes]
  have hdata : os_file_data env_example
      ⟨[⟨"ib_modified_log_1_0.xdb".toList, os_file_type_t.OS_FILE_TYPE_FILE, blk.bytes⟩], [], w⟩
      it.in_file.file = some blk.bytes := by
    rw [hfile]
    exact os_file_data_single env_example _ _ _ blk.bytes [] w entry_name_dot_lit_1_0
  have hfirst := bitmap_iterator_next_load env_example
    ⟨[⟨"ib_modified_log_1_0.xdb".toList, os_file_type_t.OS_FILE_TYPE_FILE, blk.bytes⟩], [], w⟩
    it blk.bytes (by omega) rfl hdata (by rw [hfile]) (by rw [hfile]; simp only [hlen]; decide)
    (by rw [hfile]; simp only [hlen]; decide) (by rw [hfile]; exact Nat.zero_mod 4096)
    (by rw [hblk]; exact hck)
  rw [hblk] at hfirst
  have hall : ∀ k, k ≤ 4056 → ∃ i',
      log_online_bitmap_iterator_nth env_example
        ⟨[⟨"ib_modified_log_1_0.xdb".toList, os_file_type_t.OS_FILE_TYPE_FILE, blk.bytes⟩], [],
          w⟩ it (k + 1)
        = some (true,
            ⟨[⟨"ib_modified_log_1_0.xdb".toList, os_file_type_t.OS_FILE_TYPE_FILE, blk.bytes⟩],
              [], w⟩, i')
        ∧ i'.bit_offset = k
        ∧ i'.space_id = mach_read_from_4 blk MODIFIED_PAGE_SPACE_ID
        ∧ i'.first_page_id = mach_read_from_4 blk MODIFIED_PAGE_1ST_PAGE_ID
        ∧ i'.in_file.size = 4096 ∧ i'.in_file.offset = 4096 ∧ i'.in_i = 0
        ∧ i'.in_files.count = 1 := by
    intro k
    induction k with
    | zero =>
      intro _
      have h1 := (bitmap_iterator_nth_succ env_example _ _ it it 0 rfl).trans hfirst
      exact ⟨_, h1, rfl, rfl, rfl, by simp only [hfile, hlen], by simp only [hfile], hi, hcount⟩
    | succ k ih =>
      intro hk
      obtain ⟨i', hn, hb, hs, hf, hsz, hof, hii, hc⟩ := ih (by omega)
      have h1 := (bitmap_iterator_nth_succ env_example _ _ it i' (k + 1) hn).trans
        (bitmap_iterator_next_of_lt env_example _ i' (by omega))
      exact ⟨_, h1, by simp only [hb], hs, hf, hsz, hof, hii, hc⟩
  refine ⟨hall, ?_⟩
  obtain ⟨i', hn, hb, _, _, hsz, hof, hii, hc⟩ := hall 4056 (le_refl _)
  exact ⟨_, (bitmap_iterator_nth_succ env_example _ _ it i' 4057 hn).trans
    (bitmap_iterator_next_end env_example _ i' (by omega) (by omega) (by omega) (by omega))⟩

theorem IS_BIT_SET_ne_zero (p : Page) (base num : Nat)
    (h : (p.get (base + num / 8)).val.testBit (num % 8) = true) : IS_BIT_SET p base num ≠ 0 := by
  unfold IS_BIT_SET
  have e1 : num >>> 3 = num / 8 := Nat.shiftRight_eq_div_pow num 3
  have e2 : num &&& 7 = num % 8 := Nat.and_pow_two_sub_one_eq_mod num 3
  rw [e1, e2, Nat.one_shiftLeft]
  intro h0
  have := Nat.testBit_and (p.get (base + num / 8)).val (2 ^ (num % 8)) (num % 8)
  rw [h0, Nat.zero_testBit, h, Nat.testBit_two_pow_self] at this
  cases this

/-- C1, the code at a failing input.  Page 4057 of space 0 is set in an empty set and the set
is flushed, successfully, into the empty file `ib_modified_log_1_0.xdb`: the file then holds
one block of space 0 with first page 0 in which the bit of page 4057 is set.  An iterator over
the file returns `true` 4057 times, at the positions `first_page_id + bit_offset = 0, ...,
4056` of space 0, and then returns `false`: it never visits page 4057. -/
theorem C1_iterator_never_reaches_page_4057 :
    ∃ s1 os1 s2 it blk,
      log_online_set_page_bit bmp_sys_example 0 4057 = some s1
      ∧ log_online_write_bitmap env_example os_example s1 = some (os1, s2)
      ∧ (∀ c, c ∈ os1.writes → c.success = true)
      ∧ os_file_data env_example os1 "ib_modified_log_1_0.xdb".toList = some blk.bytes
      ∧ mach_read_from_4 blk MODIFIED_PAGE_SPACE_ID = 0
      ∧ mach_read_from_4 blk MODIFIED_PAGE_1ST_PAGE_ID = 0
      ∧ IS_BIT_SET blk MODIFIED_PAGE_BLOCK_BITMAP 4057 ≠ 0
      ∧ log_online_bitmap_iterator_init env_example os1 iterator_example 0 10000
          = some (true, os1, it)
      ∧ (∀ k, k ≤ 4056 → ∃ i',
          log_online_bitmap_iterator_nth env_example os1 it (k + 1) = some (true, os1, i')
            ∧ i'.space_id = 0 ∧ i'.first_page_id = 0 ∧ i'.bit_offset = k)
      ∧ ∃ i', log_online_bitmap_iterator_nth env_example os1 it 4058
          = some (false, os1, i') := by
  obtain ⟨s1, node, hset, hnodes, hout, hsp, hfp, hbit⟩ :
      ∃ s1 node, log_online_set_page_bit bmp_sys_example 0 4057 = some s1
        ∧ s1.modified_pages = [node] ∧ s1.out = bmp_sys_example.out
        ∧ mach_read_from_4 node 20 = 0 ∧ mach_read_from_4 node 24 = 0
        ∧ (node.get (32 + 4057 / 8)).val.testBit (4057 % 8) = true :=
    ⟨_, _, set_page_bit_of_not_found bmp_sys_example 0 4057 (by decide) (by decide) (by decide),
      rfl, rfl,
      by rw [mach_read_from_4_page_or_bit _ _ _ _ (by omega), key_space]; rfl,
      by rw [mach_read_from_4_page_or_bit _ _ _ _ (by omega), key_first_page]; rfl,
      page_or_bit_testBit _ _ _ (by decide) (by decide)⟩
  have hw := write_bitmap_single_at env_example os_example s1 node []
    "ib_modified_log_1_0.xdb".toList 0 0 0 0 (by rw [hout]; rfl) (by rw [hout]; rfl)
    (by decide) (by decide) (by decide) (by decide) hnodes rfl
    (os_file_data_single env_example _ _ _ [] [] [] entry_name_1_0)
  rw [os_example_after_write] at hw
  obtain ⟨it, hinit, h1, h2, h3, h4⟩ : ∃ it,
      log_online_bitmap_iterator_init env_example
        ⟨[⟨"ib_modified_log_1_0.xdb".toList, os_file_type_t.OS_FILE_TYPE_FILE,
            (log_online_write_bitmap_fill s1 node true).bytes⟩], [],
          [⟨"ib_modified_log_1_0.xdb".toList, (log_online_write_bitmap_fill s1 node true).bytes,
            0, 0, true⟩]⟩ iterator_example 0 10000
        = some (true,
            ⟨[⟨"ib_modified_log_1_0.xdb".toList, os_file_type_t.OS_FILE_TYPE_FILE,
                (log_online_write_bitmap_fill s1 node true).bytes⟩], [],
              [⟨"ib_modified_log_1_0.xdb".toList,
                (log_online_write_bitmap_fill s1 node true).bytes, 0, 0, true⟩]⟩, it)
        ∧ it.bit_offset = 4056 ∧ it.in_i = 0 ∧ it.in_files.count = 1
        ∧ it.in_file = ⟨"./ib_modified_log_1_0.xdb".toList, "./ib_modified_log_1_0.xdb".toList,
            (log_online_write_bitmap_fill s1 node true).bytes.length, 0⟩ :=
    ⟨_, bitmap_iterator_init_1_0 _ _, rfl, rfl, rfl, rfl⟩
  obtain ⟨hall, hend⟩ := bitmap_iterator_single_block (log_online_write_bitmap_fill s1 node true)
    [⟨"ib_modified_log_1_0.xdb".toList, (log_online_write_bitmap_fill s1 node true).bytes, 0, 0,
      true⟩] it (fill_checksum_ok s1 node true) h1 h2 h3 h4
  have hbs : mach_read_from_4 (log_online_write_bitmap_fill s1 node true) 20 = 0 := by
    rw [fill_read_4_of_mid _ _ _ _ (by omega) (by omega)]; exact hsp
  have hbf : mach_read_from_4 (log_online_write_bitmap_fill s1 node true) 24 = 0 := by
    rw [fill_read_4_of_mid _ _ _ _ (by omega) (by omega)]; exact hfp
  refine ⟨s1, _, _, it, log_online_write_bitmap_fill s1 node true, hset, hw, ?_,
    os_file_data_single env_example _ _ _ _ [] _ entry_name_1_0, hbs, hbf, ?_, hinit, ?_, hend⟩
  · intro c hc
    simp only [List.mem_singleton] at hc
    rw [hc]
  · apply IS_BIT_SET_ne_zero
    show ((log_online_write_bitmap_fill s1 node true).get (32 + 4057 / 8)).val.testBit
      (4057 % 8) = true
    rw [fill_get_of_mid _ _ _ _ (by omega) (by omega)]
    exact hbit
  · intro k hk
    obtain ⟨i', h1, h2, h3, h4, _⟩ := hall k hk
    exact ⟨i', h1, h3.trans hbs, h4.trans hbf, h2⟩

/-! ## What following the log leaves alone -/

theorem same_frame_refl (s : log_bitmap_struct) : same_frame s s := ⟨rfl, rfl, rfl, rfl⟩

theorem same_frame_trans (s1 s2 s3 : log_bitmap_struct) (h1 : same_frame s1 s2)
    (h2 : same_frame s2 s3) : same_frame s1 s3 :=
  ⟨h2.1.trans h1.1, h2.2.1.trans h1.2.1, h2.2.2.1.trans h1.2.2.1, h2.2.2.2.trans h1.2.2.2⟩

theorem set_page_bit_frame (s s' : log_bitmap_struct) (space page_no : Nat)
    (h : log_online_set_page_bit s space page_no = some s') : same_frame s s' := by
  by_cases h1 : space = ULINT_UNDEFINED
  · simp [log_online_set_page_bit, h1] at h
  by_cases h2 : page_no = ULINT_UNDEFINED
  · simp [log_online_set_page_bit, h1, h2] at h
  by_cases hf : (rbt_search s.modified_pages
      (write_bmp_key Page.zero space (page_no / 32448 * 32448))).result = 0
  · rw [set_page_bit_of_found s space page_no h1 h2 hf, Option.some.injEq] at h
    subst h
    exact ⟨rfl, rfl, rfl, rfl⟩
  · rw [set_page_bit_of_not_found s space page_no h1 h2 hf, Option.some.injEq] at h
    subst h
    exact ⟨rfl, rfl, rfl, rfl⟩

theorem parse_redo_log_loop_frame (env : Env) (fuel : Nat) :
    ∀ (s : log_bitmap_struct) (ptr : List byte) (len : Nat) (s' : log_bitmap_struct)
      (len' : Nat),
      log_online_parse_redo_log_loop env fuel s ptr len = some (s', len') →
      same_frame s s' := by
  induction fuel with
  | zero => intro s ptr len s' len' h; simp [log_online_parse_redo_log_loop] at h
  | succ fuel ih =>
    intro s ptr len s' len' h
    rw [log_online_parse_redo_log_loop] at h
    simp only [] at h
    by_cases hc : ptr ≠ [] ∧ s.next_parse_lsn < s.end_lsn
    · rw [if_pos hc] at h
      by_cases hl : (env.recv_parse_log_rec ptr).1 > 0
      · rw [if_pos hl] at h
        split at h
        · cases h
        · rename_i s1 hm
          have hf1 : same_frame s s1 := by
            split_ifs at hm with hp h3
            · exact set_page_bit_frame _ _ _ _ hm
            · simp only [Option.some.injEq] at hm
              subst hm; exact same_frame_refl s
          split_ifs at h with hov
          have := ih _ _ _ _ _ h
          exact same_frame_trans _ _ _ hf1
            (same_frame_trans _ _ _ ⟨rfl, rfl, rfl, rfl⟩ this)
      · rw [if_neg hl] at h
        simp only [Option.some.injEq, Prod.mk.injEq] at h
        obtain ⟨rfl, _⟩ := h
        exact ⟨rfl, rfl, rfl, rfl⟩
    · rw [if_neg hc] at h
      simp only [Option.some.injEq, Prod.mk.injEq] at h
      obtain ⟨rfl, _⟩ := h
      exact same_frame_refl s

theorem parse_redo_log_frame (env : Env) (s s' : log_bitmap_struct)
    (h : log_online_parse_redo_log env s = some s') : same_frame s s' := by
  unfold log_online_parse_redo_log at h
  split at h
  · cases h
  · rename_i s1 len hl
    have hf := parse_redo_log_loop_frame env _ _ _ _ _ _ hl
    split_ifs at h
    · simp only [Option.some.injEq] at h
      subst h
      exact same_frame_trans _ _ _ hf ⟨rfl, rfl, rfl, rfl⟩
    · simp only [Option.some.injEq] at h
      subst h
      exact hf

theorem add_to_parse_buf_frame (env : Env) (s s' : log_bitmap_struct) (log_block : List byte)
    (data_len skip_len : Nat)
    (h : log_online_add_to_parse_buf env s log_block data_len skip_len = some s') :
    same_frame s s' := by
  unfold log_online_add_to_parse_buf at h
  simp only [] at h
  split_ifs at h <;>
    (simp only [Option.some.injEq] at h
     subst h
     exact ⟨rfl, rfl, rfl, rfl⟩)

theorem parse_redo_log_block_frame (env : Env) (s s' : log_bitmap_struct)
    (log_block : List byte) (skip : Nat)
    (h : log_online_parse_redo_log_block env s log_block skip = some s') :
    same_frame s s' := by
  unfold log_online_parse_redo_log_block at h
  simp only [] at h
  split at h
  · cases h
  · rename_i s1 ha
    exact same_frame_trans _ _ _ (add_to_parse_buf_frame env _ _ _ _ _ ha)
      (parse_redo_log_frame env _ _ h)

theorem follow_log_seg_loop_frame (env : Env) (read_buf : List byte) (log_block_end : Nat)
    (fuel : Nat) :
    ∀ (s : log_bitmap_struct) (log_block block_start_lsn : Nat) (s' : log_bitmap_struct),
      log_online_follow_log_seg_loop env read_buf log_block_end fuel s log_block
        block_start_lsn = some s' → same_frame s s' := by
  induction fuel with
  | zero => intro s lb bs s' h; simp [log_online_follow_log_seg_loop] at h
  | succ fuel ih =>
    intro s lb bs s' h
    rw [log_online_follow_log_seg_loop] at h
    simp only [] at h
    split_ifs at h
    all_goals first
      | exact Option.noConfusion h
      | (simp only [Option.some.injEq] at h
         subst h; exact same_frame_refl s)
      | (split at h
         · cases h
         · split at h
           · cases h
           · rename_i s1 hp
             exact same_frame_trans _ _ _ (parse_redo_log_block_frame env _ _ _ _ hp)
               (ih _ _ _ _ h))

theorem follow_log_seg_frame (env : Env) (log_sys : log_t) (s s' : log_bitmap_struct)
    (group bs be : Nat) (h : log_online_follow_log_seg env log_sys s group bs be = some s') :
    same_frame s s' := by
  unfold log_online_follow_log_seg at h
  exact follow_log_seg_loop_frame env _ _ _ _ _ _ _ h

theorem follow_log_group_loop_frame (env : Env) (log_sys : log_t) (group : Nat) (fuel : Nat) :
    ∀ (s : log_bitmap_struct) (bs : Nat) (s' : log_bitmap_struct),
      log_online_follow_log_group_loop env log_sys group fuel s bs = some s' →
      same_frame s s' := by
  induction fuel with
  | zero => intro s bs s' h; simp [log_online_follow_log_group_loop] at h
  | succ fuel ih =>
    intro s bs s' h
    rw [log_online_follow_log_group_loop] at h
    try simp only [] at h
    split at h
    · cases h
    · rename_i s1 hseg
      have hf := follow_log_seg_frame env _ _ _ _ _ _ hseg
      split_ifs at h with ha hb
      · exact same_frame_trans _ _ _ hf (ih _ _ _ h)
      · simp only [Option.some.injEq] at h
        subst h; exact hf

theorem follow_log_group_frame (env : Env) (log_sys : log_t) (s s' : log_bitmap_struct)
    (group c : Nat) (h : log_online_follow_log_group env log_sys s group c = some s') :
    same_frame s s' := by
  unfold log_online_follow_log_group at h
  simp only [] at h
  split at h
  · cases h
  · rename_i s1 hl
    have hf := follow_log_group_loop_frame env _ _ _ _ _ _ hl
    split_ifs at h
    simp only [Option.some.injEq] at h
    subst h
    exact same_frame_trans _ _ _ ⟨rfl, rfl, rfl, rfl⟩ hf

theorem follow_log_groups_frame (env : Env) (log_sys : log_t) (c : Nat) (groups : List Nat) :
    ∀ (s s' : log_bitmap_struct),
      log_online_follow_log_groups env log_sys c s groups = some s' → same_frame s s' := by
  induction groups with
  | nil =>
    intro s s' h
    simp only [log_online_follow_log_groups, Option.some.injEq] at h
    subst h; exact same_frame_refl s
  | cons g rest ih =>
    intro s s' h
    simp only [log_online_follow_log_groups] at h
    split at h
    · cases h
    · rename_i s1 hg
      exact same_frame_trans _ _ _ (follow_log_group_frame env _ _ _ _ _ hg) (ih _ _ h)

theorem write_bitmap_lsn (env : Env) (os os' : os_state) (s s' : log_bitmap_struct)
    (h : log_online_write_bitmap env os s = some (os', s')) :
    s'.start_lsn = s.start_lsn ∧ s'.end_lsn = s.end_lsn := by
  unfold log_online_write_bitmap at h
  simp only [] at h
  split at h
  · cases h
  · rename_i os1 s1 hrot
    simp only [Option.some.injEq, Prod.mk.injEq] at h
    obtain ⟨_, rfl⟩ := h
    obtain ⟨a, b⟩ := write_bitmap_loop_lsn env s1.modified_pages os1 s1
    have hst : s1.start_lsn = s.start_lsn ∧ s1.end_lsn = s.end_lsn := by
      split_ifs at hrot with hr
      · obtain ⟨_, b, c, _, _⟩ := rotate_bitmap_file_state env os os1 s s1 _ hrot
        exact ⟨b, c⟩
      · simp only [Option.some.injEq, Prod.mk.injEq] at hrot
        obtain ⟨_, rfl⟩ := hrot
        exact ⟨rfl, rfl⟩
    exact ⟨a.trans hst.1, b.trans hst.2⟩

/-- The two ways in which `log_online_follow_redo_log` returns: at once, when the checkpoint
LSN is `start_lsn`, and after the log groups are followed and the bitmap is written. -/
theorem follow_redo_log_cases (env : Env) (os os' : os_state) (log_sys log_sys' : log_t)
    (s s' : log_bitmap_struct)
    (h : log_online_follow_redo_log env os log_sys s = some (os', log_sys', s')) :
    (log_sys.last_checkpoint_lsn = s.start_lsn ∧ os' = os ∧ log_sys' = log_sys
        ∧ s' = { s with end_lsn := log_sys.last_checkpoint_lsn })
    ∨ (log_sys.last_checkpoint_lsn ≠ s.start_lsn ∧ ∃ sg sw,
        log_online_follow_log_groups env log_sys
            (ut_uint64_align_down s.start_lsn env.OS_FILE_LOG_BLOCK_SIZE)
            { s with end_lsn := log_sys.last_checkpoint_lsn } log_sys.log_groups = some sg
          ∧ log_online_write_bitmap env os sg = some (os', sw)
          ∧ s' = { sw with start_lsn := sw.end_lsn }
          ∧ log_sys' = log_set_tracked_lsn log_sys sw.end_lsn
          ∧ sw.end_lsn = log_sys.last_checkpoint_lsn
          ∧ sg.start_lsn = s.start_lsn ∧ sg.end_lsn = log_sys.last_checkpoint_lsn) := by
  unfold log_online_follow_redo_log at h
  simp only [] at h
  split_ifs at h with h1 h2
  · left
    simp only [Option.some.injEq, Prod.mk.injEq] at h
    obtain ⟨rfl, rfl, rfl⟩ := h
    exact ⟨h1, rfl, rfl, rfl⟩
  · right
    refine ⟨h1, ?_⟩
    split at h
    · cases h
    · rename_i sg hg
      split at h
      · cases h
      · rename_i osw sw hw
        simp only [Option.some.injEq, Prod.mk.injEq] at h
        obtain ⟨rfl, rfl, rfl⟩ := h
        have hf := follow_log_groups_frame env _ _ _ _ _ hg
        obtain ⟨a, b⟩ := write_bitmap_lsn env _ _ _ _ hw
        exact ⟨sg, sw, hg, hw, rfl, rfl, b.trans hf.2.1, hf.1, hf.2.1⟩

/-! ## The published LSN -/

theorem follow_redo_log_tracked (env : Env) (os os' : os_state) (log_sys log_sys' : log_t)
    (s s' : log_bitmap_struct) (hinv : log_sys.tracked_lsn = s.start_lsn)
    (h : log_online_follow_redo_log env os log_sys s = some (os', log_sys', s')) :
    log_sys'.tracked_lsn = s'.start_lsn := by
  rcases follow_redo_log_cases env os os' log_sys log_sys' s s' h with
    ⟨_, _, rfl, rfl⟩ | ⟨_, sg, sw, _, _, rfl, rfl, _⟩
  · exact hinv
  · rfl

theorem track_missing_on_startup_tracked (env : Env) (os os' : os_state)
    (log_sys log_sys' : log_t) (s s' : log_bitmap_struct) (last_tracked_lsn t : Nat)
    (h : log_online_track_missing_on_startup env os log_sys s last_tracked_lsn t
      = some (os', log_sys', s')) :
    log_sys'.tracked_lsn = s'.start_lsn := by
  unfold log_online_track_missing_on_startup at h
  split at h
  · cases h
  · exact follow_redo_log_tracked env _ _ _ _ _ _ rfl h
  · simp only [Option.some.injEq, Prod.mk.injEq] at h
    obtain ⟨_, rfl, rfl⟩ := h
    rfl

theorem read_init_finish_tracked (os os' : os_state) (log_sys log_sys' : log_t)
    (s s' : log_bitmap_struct) (t : Nat)
    (h : some (log_online_read_init_finish os log_sys s t) = some (os', log_sys', s')) :
    log_sys'.tracked_lsn = s'.start_lsn := by
  simp only [log_online_read_init_finish, log_set_tracked_lsn, Option.some.injEq,
    Prod.mk.injEq] at h
  obtain ⟨_, rfl, rfl⟩ := h
  rfl

theorem read_init_tracked (env : Env) (os os' : os_state) (log_sys log_sys' : log_t)
    (s s' : log_bitmap_struct)
    (h : log_online_read_init env os log_sys s = some (os', log_sys', s')) :
    log_sys'.tracked_lsn = s'.start_lsn := by
  unfold log_online_read_init at h
  simp only [] at h
  split_ifs at h
  all_goals first
    | exact Option.noConfusion h
    | (split at h
       · cases h
       · exact read_init_finish_tracked _ _ _ _ _ _ _ h)
    | (split at h
       · cases h
       · split at h
         · cases h
         · split at h
           · cases h
           · split_ifs at h <;> first
               | exact track_missing_on_startup_tracked env _ _ _ _ _ _ _ _ h
               | exact read_init_finish_tracked _ _ _ _ _ _ _ h)

theorem reachable_tracked (env : Env) (os : os_state) (log_sys : log_t) (s : log_bitmap_struct)
    (h : Reachable env os log_sys s) : log_sys.tracked_lsn = s.start_lsn := by
  induction h with
  | init os log_sys s os' log_sys' s' hi => exact read_init_tracked env _ _ _ _ _ _ hi
  | follow os log_sys s os' log_sys' s' _ hf ih =>
    exact follow_redo_log_tracked env _ _ _ _ _ _ ih hf
  | engine os log_sys s os' log_sys' _ he ih => exact he.trans ih

/-! ## Following the log, step by step -/

theorem parse_redo_log_loop_stop (env : Env) (fuel : Nat) (s : log_bitmap_struct)
    (ptr : List byte) (len : Nat) (h : ¬ (s.next_parse_lsn < s.end_lsn)) :
    log_online_parse_redo_log_loop env (fuel + 1) s ptr len = some (s, len) := by
  rw [log_online_parse_redo_log_loop, if_neg (fun hc => h hc.2)]

theorem parse_redo_log_loop_record (env : Env) (fuel : Nat) (s s1 : log_bitmap_struct)
    (ptr : List byte) (len0 len type space page_no : Nat)
    (hp : ptr ≠ []) (hlt : s.next_parse_lsn < s.end_lsn)
    (hrec : env.recv_parse_log_rec ptr = (len, type, space, page_no))
    (hlen : 3 ≤ len) (hmeans : log_online_rec_page_means_page env type = true)
    (hsp : space ≠ env.TRX_DOUBLEWRITE_SPACE)
    (hset : log_online_set_page_bit s space page_no = some s1)
    (hfit : len ≤ ptr.length) :
    log_online_parse_redo_log_loop env (fuel + 1) s ptr len0
      = log_online_parse_redo_log_loop env fuel
          { s1 with next_parse_lsn := env.recv_calc_lsn_on_data_add s1.next_parse_lsn len }
          (ptr.drop len) len := by
  rw [log_online_parse_redo_log_loop, if_pos ⟨hp, hlt⟩]
  simp only [hrec]
  rw [if_pos (by omega), if_pos ⟨hmeans, hsp⟩, if_neg (by omega), hset]
  simp only []
  rw [if_neg (by omega)]

theorem set_page_bit_of_empty (s : log_bitmap_struct) (space page_no : Nat)
    (hs : space ≠ ULINT_UNDEFINED) (hp : page_no ≠ ULINT_UNDEFINED)
    (he : s.modified_pages = []) :
    log_online_set_page_bit s space page_no = some { s with
      page_free_list := s.page_free_list.tail
      modified_pages := [page_or_bit (write_bmp_key Page.zero space (page_no / 32448 * 32448))
        (page_no % 32448 / 8) (page_no % 8)] } := by
  have hf : (rbt_search s.modified_pages
      (write_bmp_key Page.zero space (page_no / 32448 * 32448))).result ≠ 0 := by
    rw [he]; simp [rbt_search]
  rw [set_page_bit_of_not_found s space page_no hs hp hf, he]
  simp [rbt_search]

/-- A parse buffer that holds one record for a page, which ends at `end_lsn`. -/
theorem parse_redo_log_one_record (env : Env) (s : log_bitmap_struct)
    (len type space page_no : Nat)
    (hlt : s.next_parse_lsn < s.end_lsn)
    (hrec : env.recv_parse_log_rec s.parse_buf = (len, type, space, page_no))
    (hlen : 3 ≤ len) (hmeans : log_online_rec_page_means_page env type = true)
    (hsp : space ≠ env.TRX_DOUBLEWRITE_SPACE)
    (hs : space ≠ ULINT_UNDEFINED) (hp : page_no ≠ ULINT_UNDEFINED)
    (he : s.modified_pages = [])
    (hfit : len ≤ s.parse_buf.length)
    (hend : ¬ (env.recv_calc_lsn_on_data_add s.next_parse_lsn len < s.end_lsn)) :
    log_online_parse_redo_log env s = some { s with
      parse_buf := []
      next_parse_lsn := env.recv_calc_lsn_on_data_add s.next_parse_lsn len
      page_free_list := s.page_free_list.tail
      modified_pages := [page_or_bit (write_bmp_key Page.zero space (page_no / 32448 * 32448))
        (page_no % 32448 / 8) (page_no % 8)] } := by
  obtain ⟨n, hn⟩ : ∃ n, s.parse_buf.length = n + 1 := ⟨s.parse_buf.length - 1, by omega⟩
  have hne : s.parse_buf ≠ [] := by
    intro h0; rw [h0] at hn; simp at hn
  unfold log_online_parse_redo_log
  rw [hn, parse_redo_log_loop_record env (n + 1) s _ s.parse_buf 0 len type space page_no hne
    hlt hrec hlen hmeans hsp (set_page_bit_of_empty s space page_no hs hp he) hfit,
    parse_redo_log_loop_stop env n _ _ _ hend]
  simp only []
  rw [if_pos (by omega)]

theorem follow_log_seg_loop_stop (env : Env) (read_buf : List byte) (log_block_end fuel : Nat)
    (s : log_bitmap_struct) (log_block block_start_lsn : Nat)
    (h : ¬ (s.next_parse_lsn < s.end_lsn)) :
    log_online_follow_log_seg_loop env read_buf log_block_end (fuel + 1) s log_block
      block_start_lsn = some s := by
  rw [log_online_follow_log_seg_loop, if_neg (fun hc => h hc.2)]

theorem follow_log_seg_loop_block (env : Env) (read_buf : List byte)
    (log_block_end fuel : Nat) (s s1 : log_bitmap_struct) (log_block block_start_lsn : Nat)
    (hb : log_block < log_block_end) (hlt : s.next_parse_lsn < s.end_lsn)
    (hvalid : log_online_is_valid_log_seg env (read_buf.drop log_block) = true)
    (hin : block_start_lsn ≤ s.next_parse_lsn
      ∧ (block_start_lsn + env.OS_FILE_LOG_BLOCK_SIZE) % 2 ^ 64 > s.next_parse_lsn)
    (hparse : log_online_parse_redo_log_block env s (read_buf.drop log_block)
      (s.next_parse_lsn - block_start_lsn) = some s1) :
    log_online_follow_log_seg_loop env read_buf log_block_end (fuel + 1) s log_block
        block_start_lsn
      = log_online_follow_log_seg_loop env read_buf log_block_end fuel s1
          (log_block + env.OS_FILE_LOG_BLOCK_SIZE)
          ((block_start_lsn + env.OS_FILE_LOG_BLOCK_SIZE) % 2 ^ 64) := by
  rw [log_online_follow_log_seg_loop, if_pos ⟨hb, hlt⟩, hvalid]
  simp only [Bool.not_true, Bool.false_eq_true, if_false]
  rw [if_pos hin]
  simp only [hparse]

theorem follow_log_group_loop_last (env : Env) (log_sys : log_t) (group fuel : Nat)
    (s s1 : log_bitmap_struct) (block_start_lsn : Nat)
    (hseg : log_online_follow_log_seg env log_sys s group block_start_lsn
      ((block_start_lsn + FOLLOW_SCAN_SIZE env) % 2 ^ 64) = some s1)
    (h1 : s1.next_parse_lsn ≤ ((block_start_lsn + FOLLOW_SCAN_SIZE env) % 2 ^ 64
      + env.LOG_BLOCK_HDR_SIZE + env.LOG_BLOCK_TRL_SIZE) % 2 ^ 64)
    (h2 : ¬ ((block_start_lsn + FOLLOW_SCAN_SIZE env) % 2 ^ 64 < s1.end_lsn)) :
    log_online_follow_log_group_loop env log_sys group (fuel + 1) s block_start_lsn
      = some s1 := by
  rw [log_online_follow_log_group_loop]
  simp only [hseg]
  rw [if_neg (by omega), if_neg h2]

theorem follow_log_group_of_loop (env : Env) (log_sys : log_t) (s s1 : log_bitmap_struct)
    (group contiguous_lsn : Nat)
    (hloop : log_online_follow_log_group_loop env log_sys group (s.end_lsn + 1)
      { s with next_parse_lsn := s.start_lsn, parse_buf := [] } contiguous_lsn = some s1)
    (hp : s1.parse_buf = []) :
    log_online_follow_log_group env log_sys s group contiguous_lsn = some s1 := by
  unfold log_online_follow_log_group
  simp only []
  rw [hloop]
  simp only []
  rw [if_neg (by simp [hp])]

theorem follow_log_groups_single (env : Env) (log_sys : log_t) (c : Nat)
    (s s1 : log_bitmap_struct) (group : Nat)
    (h : log_online_follow_log_group env log_sys s group c = some s1) :
    log_online_follow_log_groups env log_sys c s [group] = some s1 := by
  rw [log_online_follow_log_groups, h]
  rfl

/-- A group that is followed when nothing is left to parse: `start_lsn` is not below the
checkpoint LSN. -/
theorem follow_log_seg_of_nothing (env : Env) (log_sys : log_t) (s : log_bitmap_struct)
    (group bs be : Nat) (h : ¬ (s.next_parse_lsn < s.end_lsn)) :
    log_online_follow_log_seg env log_sys s group bs be = some s := by
  unfold log_online_follow_log_seg
  exact follow_log_seg_loop_stop env _ _ _ s _ _ h

theorem add_to_parse_buf_example (log_block rest : List byte)
    (hbuf : (log_block.drop 12).take 496 = 7 :: 7 :: 7 :: rest)
    (hlen : 508 ≤ log_block.length) :
    log_online_add_to_parse_buf env_example { bmp_sys_example with end_lsn := 8207 } log_block
        512 12
      = some { bmp_sys_example with end_lsn := 8207, parse_buf := 7 :: 7 :: 7 :: rest } := by
  unfold log_online_add_to_parse_buf
  simp only [env_example, bmp_sys_example, hbuf]
  simp
  exact ⟨hlen, hbuf⟩

theorem parse_redo_log_block_example (log_block rest : List byte)
    (hbuf : (log_block.drop 12).take 496 = 7 :: 7 :: 7 :: rest)
    (hlen : 508 ≤ log_block.length) :
    log_online_parse_redo_log_block env_example { bmp_sys_example with end_lsn := 8207 }
        log_block 12
      = some bmp_sys_followed_example := by
  unfold log_online_parse_redo_log_block
  have hd : env_example.log_block_get_data_len log_block = 512 := rfl
  simp only [hd]
  rw [add_to_parse_buf_example log_block rest hbuf hlen]
  simp only []
  have hlt : (8204 : Nat) < 8207 := by norm_num
  have hend : ¬ ((8204 : Nat) + 3 < 8207) := by norm_num
  have hfit : 3 ≤ (7 :: 7 :: 7 :: rest : List byte).length := by simp
  rw [parse_redo_log_one_record env_example
    { bmp_sys_example with end_lsn := 8207, parse_buf := 7 :: 7 :: 7 :: rest } 3 7 7 7 hlt rfl
    (by decide) (by decide) (by decide) (by decide) (by decide) rfl hfit hend]
  rfl

theorem follow_log_seg_example :
    log_online_follow_log_seg env_example log_sys_example
        { bmp_sys_example with end_lsn := 8207 } 0 8192 73728
      = some bmp_sys_followed_example := by
  have hbuf : log_sys_example.log_group_read_log_seg 0 8192 73728 = List.replicate 65536 7 :=
    rfl
  have hle : (73728 + 2 ^ 64 - 8192) % 2 ^ 64 = 65536 := by norm_num
  have hdata : ((List.drop 0 (List.replicate 65536 (7 : byte))).drop 12).take 496
      = 7 :: 7 :: 7 :: List.replicate 493 7 := by
    rw [List.drop_zero, List.drop_replicate, List.take_replicate]
    rfl
  have hlen : 508 ≤ (List.drop 0 (List.replicate 65536 (7 : byte))).length := by
    rw [List.drop_zero, List.length_replicate]
    norm_num
  unfold log_online_follow_log_seg
  simp only [hbuf, hle]
  rw [follow_log_seg_loop_block env_example _ 65536 65536 { bmp_sys_example with end_lsn := 8207 }
    bmp_sys_followed_example 0 8192 (by norm_num) (by decide) rfl
    ⟨by decide, by norm_num [env_example, bmp_sys_example]⟩
    (parse_redo_log_block_example _ _ hdata hlen)]
  exact follow_log_seg_loop_stop env_example _ 65536 65535 bmp_sys_followed_example _ _
    (by decide)

theorem follow_log_groups_example :
    log_online_follow_log_groups env_example log_sys_example 8192
        { bmp_sys_example with end_lsn := 8207 } log_sys_example.log_groups
      = some bmp_sys_followed_example := by
  have hscan : (8192 + FOLLOW_SCAN_SIZE env_example) % 2 ^ 64 = 73728 := by
    norm_num [FOLLOW_SCAN_SIZE, env_example]
  have hseg : log_online_follow_log_seg env_example log_sys_example
      { bmp_sys_example with end_lsn := 8207 } 0 8192
      ((8192 + FOLLOW_SCAN_SIZE env_example) % 2 ^ 64) = some bmp_sys_followed_example := by
    rw [hscan]
    exact follow_log_seg_example
  have h1 : bmp_sys_followed_example.next_parse_lsn
      ≤ ((8192 + FOLLOW_SCAN_SIZE env_example) % 2 ^ 64 + env_example.LOG_BLOCK_HDR_SIZE
        + env_example.LOG_BLOCK_TRL_SIZE) % 2 ^ 64 := by
    rw [hscan]
    norm_num [env_example, bmp_sys_followed_example]
  have h2 : ¬ ((8192 + FOLLOW_SCAN_SIZE env_example) % 2 ^ 64
      < bmp_sys_followed_example.end_lsn) := by
    rw [hscan]
    norm_num [bmp_sys_followed_example]
  exact follow_log_groups_single env_example log_sys_example 8192 _ _ 0
    (follow_log_group_of_loop env_example log_sys_example
      { bmp_sys_example with end_lsn := 8207 } bmp_sys_followed_example 0 8192
      (follow_log_group_loop_last env_example log_sys_example 0 8207 _ _ 8192 hseg h1 h2) rfl)

/-! ## Flushes that meet an I/O failure, and flushes of an empty set -/

theorem os_file_write_fault (env : Env) (os : os_state) (file : List Char) (buf : List byte)
    (o oh : Nat) (rest : List Bool) (hfault : os.faults = true :: rest) :
    os_file_write env os file buf o oh
      = (false, { os with
          faults := rest
          writes := os.writes ++ [⟨file, buf, o, oh, false⟩] }) := by
  unfold os_file_write os_next_fault
  rw [hfault]
  rfl

theorem write_bitmap_page_fault (env : Env) (os : os_state) (s : log_bitmap_struct)
    (block : Page) (rest : List Bool) (hfault : os.faults = true :: rest) :
    log_online_write_bitmap_page env os s block
      = ({ os with
          faults := rest
          writes := os.writes ++ [⟨s.out.file, block.bytes, s.out.offset &&& 0xFFFFFFFF,
            (s.out.offset <<< 32) % 2 ^ 64, false⟩] }, s) := by
  unfold log_online_write_bitmap_page
  rw [os_file_write_fault env os _ _ _ _ rest hfault]
  rfl

/-- A flush of a set of one node whose write fails: the block is offered to the operating
system, the file offset stays, and the node is recycled all the same. -/
theorem write_bitmap_single_fault (env : Env) (os : os_state) (s : log_bitmap_struct)
    (node : Page) (rest : List Bool) (hrot : s.out.offset < env.srv_max_bitmap_file_size)
    (hnodes : s.modified_pages = [node]) (hfault : os.faults = true :: rest) :
    log_online_write_bitmap env os s
      = some ({ os with
            faults := rest
            writes := os.writes ++ [⟨s.out.file,
              (log_online_write_bitmap_fill s node true).bytes, s.out.offset &&& 0xFFFFFFFF,
              (s.out.offset <<< 32) % 2 ^ 64, false⟩] },
          { s with
            page_free_list := log_online_write_bitmap_fill s node true :: s.page_free_list
            modified_pages := [] }) := by
  unfold log_online_write_bitmap
  rw [if_neg (by omega)]
  simp only [hnodes, log_online_write_bitmap_loop, List.isEmpty_nil]
  rw [write_bitmap_page_fault env os s _ rest hfault]

theorem write_bitmap_of_empty (env : Env) (os : os_state) (s : log_bitmap_struct)
    (hrot : s.out.offset < env.srv_max_bitmap_file_size) (hnodes : s.modified_pages = []) :
    log_online_write_bitmap env os s = some (os, { s with modified_pages := [] }) := by
  unfold log_online_write_bitmap
  rw [if_neg (by omega)]
  simp only [hnodes, log_online_write_bitmap_loop]

/-- The path of `log_online_follow_redo_log` through the log groups and the flush. -/
theorem follow_redo_log_of (env : Env) (os os' : os_state) (log_sys : log_t)
    (s sg sw : log_bitmap_struct)
    (hne : log_sys.last_checkpoint_lsn ≠ s.start_lsn) (hgroups : log_sys.log_groups ≠ [])
    (hg : log_online_follow_log_groups env log_sys
        (ut_uint64_align_down s.start_lsn env.OS_FILE_LOG_BLOCK_SIZE)
        { s with end_lsn := log_sys.last_checkpoint_lsn } log_sys.log_groups = some sg)
    (hw : log_online_write_bitmap env os sg = some (os', sw)) :
    log_online_follow_redo_log env os log_sys s
      = some (os', log_set_tracked_lsn log_sys sw.end_lsn,
          { sw with start_lsn := sw.end_lsn }) := by
  unfold log_online_follow_redo_log
  simp only []
  rw [if_neg hne, if_neg hgroups, hg]
  simp only [hw]

theorem write_bitmap_blocks_mem (s : log_bitmap_struct) (nodes : List Page) (b : Page)
    (h : b ∈ log_online_write_bitmap_blocks s nodes) :
    ∃ node is_last, b = log_online_write_bitmap_fill s node is_last := by
  induction nodes with
  | nil => simp [log_online_write_bitmap_blocks] at h
  | cons n rest ih =>
    simp only [log_online_write_bitmap_blocks, List.mem_cons] at h
    rcases h with h | h
    · exact ⟨n, _, h⟩
    · exact ih h

theorem follow_redo_log_written (env : Env) (os os' : os_state) (log_sys log_sys' : log_t)
    (s s' : log_bitmap_struct)
    (h : log_online_follow_redo_log env os log_sys s = some (os', log_sys', s'))
    (b : Page) (hb : b ∈ written_blocks os os') :
    mach_read_from_8 b 4 = s.start_lsn % 2 ^ 64
      ∧ mach_read_from_8 b 12 = log_sys.last_checkpoint_lsn % 2 ^ 64 := by
  rcases follow_redo_log_cases env os os' log_sys log_sys' s s' h with
    ⟨_, rfl, _, _⟩ | ⟨_, sg, sw, _, hw, _, _, _, hs, he⟩
  · simp [written_blocks] at hb
  · rw [write_bitmap_written env os os' sg sw hw] at hb
    obtain ⟨node, l, rfl⟩ := write_bitmap_blocks_mem sg _ b hb
    rw [fill_start_lsn, fill_end_lsn, hs, he]
    exact ⟨rfl, rfl⟩

/-! ## Startup on an empty data directory -/

theorem os_file_open_missing (env : Env) (os : os_state) (name : List Char)
    (hfault : os.faults = []) (hdata : os_file_data env os name = none) :
    os_file_open env os name = (false, os) := by
  unfold os_file_open
  rw [os_next_fault_of_nil os hfault]
  simp only [Bool.false_eq_true, if_false, hdata]
  rfl

theorem os_file_create_new (env : Env) (os : os_state) (name : List Char)
    (hfault : os.faults = []) (hdata : os_file_data env os name = none) :
    os_file_create env os name
      = (true, { os with
          files := os.files
            ++ [⟨os_entry_name env name, os_file_type_t.OS_FILE_TYPE_FILE, []⟩] }) := by
  unfold os_file_create
  rw [os_next_fault_of_nil os hfault]
  simp only [Bool.false_eq_true, if_false, hdata]

/-- On an empty data directory `log_online_read_init` creates the first bitmap file and starts
tracking at the checkpoint LSN, or at `MIN_TRACKED_LSN` if the checkpoint LSN is below it. -/
theorem read_init_of_empty_dir (env : Env) (os : os_state) (log_sys : log_t)
    (s : log_bitmap_struct) (name : List Char) (hfault : os.faults = [])
    (hfiles : os.files = [])
    (hname : (env.srv_data_home ++ bmp_file_name_stem ++ print_decimal 1 ++ ['_']
      ++ print_decimal 0 ++ ".xdb".toList).take (env.FN_REFLEN - 1) = name) :
    log_online_read_init env os log_sys s
      = some ({ os with
            files := [⟨os_entry_name env name, os_file_type_t.OS_FILE_TYPE_FILE, []⟩] },
          log_set_tracked_lsn log_sys (max log_sys.last_checkpoint_lsn (MIN_TRACKED_LSN env)),
          { s with
            out := ⟨name, name, s.out.size, 0⟩
            out_seq_num := 1
            modified_pages := []
            page_free_list := []
            start_lsn := max log_sys.last_checkpoint_lsn (MIN_TRACKED_LSN env) }) := by
  have hnone : os_file_data env os name = none := by
    unfold os_file_data
    rw [hfiles]
    rfl
  unfold log_online_read_init
  rw [os_file_opendir_ok os hfault]
  simp only [Bool.not_true, Bool.false_eq_true, if_false]
  rw [os_file_closedir_ok os hfault]
  simp only [Bool.false_eq_true, if_false]
  have hscan : (os_file_readdir os).foldl (log_online_read_init_scan env)
      (0, MIN_TRACKED_LSN env, []) = (0, MIN_TRACKED_LSN env, []) := by
    unfold os_file_readdir
    rw [hfiles]
    rfl
  simp only [hscan, if_true, log_online_make_bitmap_name, hname]
  rw [os_file_open_missing env os name hfault hnone]
  simp only [Bool.not_false, if_true, log_online_start_bitmap_file]
  rw [os_file_create_new env os name hfault hnone]
  simp only [Bool.not_true, Bool.false_eq_true, if_false, log_online_read_init_finish, hfiles,
    List.nil_append]

/-! ## The runs of the examples -/

theorem bitmap_name_1_0 :
    (env_example.srv_data_home ++ bmp_file_name_stem ++ print_decimal 1 ++ ['_']
      ++ print_decimal 0 ++ ".xdb".toList).take (env_example.FN_REFLEN - 1)
      = "./ib_modified_log_1_0.xdb".toList := by decide

/-- Startup on the empty data directory, before the first checkpoint. -/
theorem read_init_example :
    log_online_read_init env_example os_empty_example log_sys_fresh_example
        bmp_sys_fresh_example
      = some (os_example, log_set_tracked_lsn log_sys_fresh_example 8204,
          bmp_sys_started_example) := by
  rw [read_init_of_empty_dir env_example os_empty_example log_sys_fresh_example
    bmp_sys_fresh_example "./ib_modified_log_1_0.xdb".toList rfl rfl bitmap_name_1_0,
    entry_name_dot_lit_1_0]
  rfl

/-- The first call of `log_online_follow_redo_log` after this startup, with the checkpoint LSN
still at 8192. -/
theorem follow_redo_log_started_example :
    log_online_follow_redo_log env_example os_example
        (log_set_tracked_lsn log_sys_fresh_example 8204) bmp_sys_started_example
      = some (os_example, log_set_tracked_lsn log_sys_fresh_example 8192,
          { bmp_sys_started_example with start_lsn := 8192, end_lsn := 8192 }) := by
  have hscan : (8192 + FOLLOW_SCAN_SIZE env_example) % 2 ^ 64 = 73728 := by
    norm_num [FOLLOW_SCAN_SIZE, env_example]
  have h1 : (8204 : Nat) ≤ ((8192 + FOLLOW_SCAN_SIZE env_example) % 2 ^ 64
      + env_example.LOG_BLOCK_HDR_SIZE + env_example.LOG_BLOCK_TRL_SIZE) % 2 ^ 64 := by
    rw [hscan]
    norm_num [env_example]
  have h2 : ¬ ((8192 + FOLLOW_SCAN_SIZE env_example) % 2 ^ 64 < 8192) := by
    rw [hscan]
    norm_num
  have hlt : ¬ ((8204 : Nat) < 8192) := by norm_num
  have hg := follow_log_groups_single env_example
    (log_set_tracked_lsn log_sys_fresh_example 8204) 8192
    { bmp_sys_started_example with end_lsn := 8192 }
    { bmp_sys_started_example with end_lsn := 8192 } 0
    (follow_log_group_of_loop env_example _ _ _ 0 8192
      (follow_log_group_loop_last env_example _ 0 8192 _ _ 8192
        (follow_log_seg_of_nothing env_example _
          { bmp_sys_started_example with end_lsn := 8192 } 0 8192 _ hlt) h1 h2) rfl)
  have hw := write_bitmap_of_empty env_example os_example
    { bmp_sys_started_example with end_lsn := 8192 } (by decide) rfl
  rw [follow_redo_log_of env_example os_example os_example
    (log_set_tracked_lsn log_sys_fresh_example 8204) bmp_sys_started_example _ _
    (by decide) (by decide) hg hw]
  rfl

/-- The call of `log_online_follow_redo_log` of the examples, without an I/O failure. -/
theorem follow_redo_log_example :
    log_online_follow_redo_log env_example os_example log_sys_example bmp_sys_example
      = some (os_written_example, log_set_tracked_lsn log_sys_example 8207,
          bmp_sys_written_example) := by
  have hw := write_bitmap_single_at env_example os_example bmp_sys_followed_example
    (page_or_bit (write_bmp_key Page.zero 7 0) 0 7) []
    "ib_modified_log_1_0.xdb".toList 0 0 0 0 rfl rfl (by decide) (by decide) (by decide)
    (by decide) rfl rfl
    (os_file_data_single env_example _ _ _ _ _ _ entry_name_1_0)
  rw [os_example_after_write] at hw
  rw [follow_redo_log_of env_example os_example _ log_sys_example bmp_sys_example _ _
    (by decide) (by decide) follow_log_groups_example hw]
  rfl

/-- The same call when the write of the block fails. -/
theorem follow_redo_log_failing_example :
    log_online_follow_redo_log env_example os_failing_example log_sys_example bmp_sys_example
      = some (os_write_failed_example, log_set_tracked_lsn log_sys_example 8207,
          bmp_sys_write_failed_example) := by
  have hw := write_bitmap_single_fault env_example os_failing_example
    bmp_sys_followed_example (page_or_bit (write_bmp_key Page.zero 7 0) 0 7) []
    (by decide) rfl rfl
  rw [follow_redo_log_of env_example os_failing_example _ log_sys_example bmp_sys_example _ _
    (by decide) (by decide) follow_log_groups_example hw]
  rfl

/-! ## The LSN interval across calls of the follower -/

/-- C7, the claim as stated fails: monotone LSN.  On an empty data directory with the checkpoint
LSN at 8192, `log_online_read_init` starts the tracking at `MIN_TRACKED_LSN`, 8204; the call
of `log_online_follow_redo_log` that comes next completes and leaves `start_lsn` at 8192, below
its value before the call. -/
theorem C7_start_lsn_decreases_before_first_checkpoint :
    (log_online_read_init env_example os_empty_example log_sys_fresh_example
        bmp_sys_fresh_example).bind
      (fun r => (log_online_follow_redo_log env_example r.1 r.2.1 r.2.2).map
        (fun r' => (r.2.2.start_lsn, r'.2.2.start_lsn)))
      = some (8204, 8192) := by
  rw [read_init_example]
  simp only [Option.some_bind]
  rw [follow_redo_log_started_example]
  rfl

/-- C7, amended: monotone LSN.  For every call of `log_online_follow_redo_log` that completes,
made when the checkpoint LSN, a 64-bit value, is not below `start_lsn`: `start_lsn` after the
call is the checkpoint LSN, which is greater than or equal to `start_lsn` before the call, and
every block written during the call carries `start_lsn <= end_lsn` in its header. -/
theorem C7_monotone_lsn_from_checkpoint (env : Env) (os os' : os_state)
    (log_sys log_sys' : log_t) (s s' : log_bitmap_struct)
    (h : log_online_follow_redo_log env os log_sys s = some (os', log_sys', s'))
    (hle : s.start_lsn ≤ log_sys.last_checkpoint_lsn)
    (h64 : log_sys.last_checkpoint_lsn < 2 ^ 64) :
    s'.start_lsn = log_sys.last_checkpoint_lsn ∧ s.start_lsn ≤ s'.start_lsn
      ∧ ∀ b, b ∈ written_blocks os os' →
          mach_read_from_8 b MODIFIED_PAGE_START_LSN
            ≤ mach_read_from_8 b MODIFIED_PAGE_END_LSN := by
  have hstart : s'.start_lsn = log_sys.last_checkpoint_lsn := by
    rcases follow_redo_log_cases env os os' log_sys log_sys' s s' h with
      ⟨he, _, _, rfl⟩ | ⟨_, sg, sw, _, _, rfl, _, he, _⟩
    · exact he.symm
    · exact he
  refine ⟨hstart, by omega, ?_⟩
  intro b hb
  obtain ⟨h1, h2⟩ := follow_redo_log_written env os os' log_sys log_sys' s s' h b hb
  show mach_read_from_8 b 4 ≤ mach_read_from_8 b 12
  rw [h1, h2, Nat.mod_eq_of_lt h64, Nat.mod_eq_of_lt (by omega)]
  exact hle

/-- Witness of the amended C7: the log of `log_sys_example` followed from LSN 8204 to the
checkpoint at LSN 8207, with the block of page 7 of space 7 written. -/
theorem C7_monotone_lsn_from_checkpoint_witness :
    log_online_follow_redo_log env_example os_example log_sys_example bmp_sys_example
        = some (os_written_example, log_set_tracked_lsn log_sys_example 8207,
            bmp_sys_written_example)
      ∧ bmp_sys_example.start_lsn ≤ log_sys_example.last_checkpoint_lsn
      ∧ log_sys_example.last_checkpoint_lsn < 2 ^ 64
      ∧ written_blocks os_example os_written_example ≠ []
      ∧ bmp_sys_written_example.start_lsn = log_sys_example.last_checkpoint_lsn
      ∧ bmp_sys_example.start_lsn ≤ bmp_sys_written_example.start_lsn
      ∧ ∀ b, b ∈ written_blocks os_example os_written_example →
          mach_read_from_8 b MODIFIED_PAGE_START_LSN
            ≤ mach_read_from_8 b MODIFIED_PAGE_END_LSN :=
  ⟨follow_redo_log_example, by decide, by norm_num [log_sys_example],
    by simp [written_blocks, os_example, os_written_example],
    C7_monotone_lsn_from_checkpoint env_example os_example os_written_example log_sys_example
      (log_set_tracked_lsn log_sys_example 8207) bmp_sys_example bmp_sys_written_example
      follow_redo_log_example (by decide) (by norm_num [log_sys_example])⟩

/-- C8: the published `tracked_lsn` equals `start_lsn` when `log_online_read_init` returns, on
every path, when `log_online_track_missing_on_startup` returns, on both branches, and after
every return of `log_online_follow_redo_log`, the early return included, in a state that is
reached from a return of `log_online_read_init` by calls of the follower. -/
theorem C8_tracked_lsn_is_start_lsn (env : Env) (os os' : os_state) (log_sys log_sys' : log_t)
    (s s' : log_bitmap_struct)
    (h : log_online_read_init env os log_sys s = some (os', log_sys', s')
      ∨ (∃ last_tracked_lsn tracking_start_lsn,
          log_online_track_missing_on_startup env os log_sys s last_tracked_lsn
            tracking_start_lsn = some (os', log_sys', s'))
      ∨ (Reachable env os log_sys s
          ∧ log_online_follow_redo_log env os log_sys s = some (os', log_sys', s'))) :
    log_sys'.tracked_lsn = s'.start_lsn := by
  rcases h with h | ⟨a, t, h⟩ | ⟨hr, h⟩
  · exact read_init_tracked env os os' log_sys log_sys' s s' h
  · exact track_missing_on_startup_tracked env os os' log_sys log_sys' s s' a t h
  · exact follow_redo_log_tracked env os os' log_sys log_sys' s s'
      (reachable_tracked env os log_sys s hr) h

/-- Witness of C8: the first call of the follower after the startup on an empty data
directory. -/
theorem C8_tracked_lsn_is_start_lsn_witness :
    Reachable env_example os_example (log_set_tracked_lsn log_sys_fresh_example 8204)
        bmp_sys_started_example
      ∧ log_online_follow_redo_log env_example os_example
          (log_set_tracked_lsn log_sys_fresh_example 8204) bmp_sys_started_example
        = some (os_example, log_set_tracked_lsn log_sys_fresh_example 8192,
            { bmp_sys_started_example with start_lsn := 8192, end_lsn := 8192 })
      ∧ (log_set_tracked_lsn log_sys_fresh_example 8192).tracked_lsn
        = ({ bmp_sys_started_example with start_lsn := 8192, end_lsn := 8192 }
            : log_bitmap_struct).start_lsn :=
  ⟨Reachable.init _ _ _ _ _ _ read_init_example, follow_redo_log_started_example,
    C8_tracked_lsn_is_start_lsn env_example os_example os_example
      (log_set_tracked_lsn log_sys_fresh_example 8204)
      (log_set_tracked_lsn log_sys_fresh_example 8192) bmp_sys_started_example
      { bmp_sys_started_example with start_lsn := 8192, end_lsn := 8192 }
      (Or.inr (Or.inr ⟨Reachable.init _ _ _ _ _ _ read_init_example,
        follow_redo_log_started_example⟩))⟩

/-- C9, the claim as stated fails: an I/O failure and `start_lsn`.  The log holds one record
at LSN 8204 and the checkpoint is at LSN 8207; the write of the only bitmap block fails.  The
call returns with `start_lsn` and the published `tracked_lsn` at 8207, not at their values
before the call, 8204; the file offset is still 0. -/
theorem C9_failed_write_advances_start_lsn :
    (log_online_follow_redo_log env_example os_failing_example log_sys_example
        bmp_sys_example).map
      (fun r => (r.1.writes.map (fun c => c.success), r.2.2.start_lsn, r.2.1.tracked_lsn,
        r.2.2.out.offset))
      = some ([false], 8207, 8207, 0)
    ∧ bmp_sys_example.start_lsn = 8204 ∧ log_sys_example.tracked_lsn = 8204 := by
  rw [follow_redo_log_failing_example]
  exact ⟨rfl, rfl, rfl⟩

/-- C9, amended: an I/O failure is not reported to the follower.  Whatever the outcome of the
calls of the operating system, a call of `log_online_follow_redo_log` that returns has set
`start_lsn` to the checkpoint LSN; and if a write of a bitmap block has failed during the
call, the checkpoint LSN is also the published `tracked_lsn` and `start_lsn` is not its value
before the call, so that the next call does not cover the same LSN interval again. -/
theorem C9_io_failure_is_not_reported (env : Env) (os os' : os_state)
    (log_sys log_sys' : log_t) (s s' : log_bitmap_struct)
    (h : log_online_follow_redo_log env os log_sys s = some (os', log_sys', s')) :
    s'.start_lsn = log_sys.last_checkpoint_lsn
      ∧ ((∃ c, c ∈ os'.writes.drop os.writes.length ∧ c.success = false) →
          log_sys'.tracked_lsn = log_sys.last_checkpoint_lsn
            ∧ s'.start_lsn ≠ s.start_lsn) := by
  rcases follow_redo_log_cases env os os' log_sys log_sys' s s' h with
    ⟨he, rfl, _, rfl⟩ | ⟨hne, sg, sw, _, _, rfl, rfl, he, _⟩
  · refine ⟨he.symm, ?_⟩
    rintro ⟨c, hc, _⟩
    simp at hc
  · refine ⟨he, fun _ => ⟨he, ?_⟩⟩
    show sw.end_lsn ≠ s.start_lsn
    rw [he]
    exact hne

/-- Witness of the amended C9: the call of the examples in which the write of the block
fails. -/
theorem C9_io_failure_is_not_reported_witness :
    log_online_follow_redo_log env_example os_failing_example log_sys_example bmp_sys_example
        = some (os_write_failed_example, log_set_tracked_lsn log_sys_example 8207,
            bmp_sys_write_failed_example)
      ∧ (∃ c, c ∈ os_write_failed_example.writes.drop os_failing_example.writes.length
          ∧ c.success = false)
      ∧ bmp_sys_write_failed_example.start_lsn = log_sys_example.last_checkpoint_lsn
      ∧ (log_set_tracked_lsn log_sys_example 8207).tracked_lsn
          = log_sys_example.last_checkpoint_lsn
      ∧ bmp_sys_write_failed_example.start_lsn ≠ bmp_sys_example.start_lsn :=
  ⟨follow_redo_log_failing_example,
    ⟨_, List.mem_singleton.mpr rfl, rfl⟩,
    (C9_io_failure_is_not_reported env_example os_failing_example os_write_failed_example
      log_sys_example (log_set_tracked_lsn log_sys_example 8207) bmp_sys_example
      bmp_sys_write_failed_example follow_redo_log_failing_example).1,
    (C9_io_failure_is_not_reported env_example os_failing_example os_write_failed_example
      log_sys_example (log_set_tracked_lsn log_sys_example 8207) bmp_sys_example
      bmp_sys_write_failed_example follow_redo_log_failing_example).2
      ⟨_, List.mem_singleton.mpr rfl, rfl⟩⟩

/-! ## Which records mark a page, and the empty interval -/

theorem rec_page_means_page_iff (env : Env) (type : Nat) :
    log_online_rec_page_means_page env type = true
      ↔ type ≠ env.MLOG_MULTI_REC_END ∧ type ≠ env.MLOG_DUMMY_RECORD
        ∧ type ≠ env.MLOG_FILE_CREATE ∧ type ≠ env.MLOG_FILE_RENAME
        ∧ type ≠ env.MLOG_FILE_DELETE ∧ type ≠ env.MLOG_FILE_CREATE2
        ∧ (env.UNIV_LOG_LSN_DEBUG = true → type ≠ env.MLOG_LSN) := by
  unfold log_online_rec_page_means_page log_online_rec_has_page
  cases hd : env.UNIV_LOG_LSN_DEBUG <;>
    simp only [Bool.and_eq_true, Bool.or_eq_true, Bool.not_eq_true', decide_eq_true_eq,
      Bool.not_false, Bool.not_true, Bool.true_or, Bool.false_or, Bool.and_true] <;>
    tauto

/-- C18: which records mark a page.  One round of the loop of `log_online_parse_redo_log`, for
a record that the record parser returns with `len > 0`: `log_online_set_page_bit (space,
page_no)` is called, and the loop goes on from its result, if the type is none of
`MLOG_MULTI_REC_END`, `MLOG_DUMMY_RECORD`, `MLOG_FILE_CREATE`, `MLOG_FILE_RENAME`,
`MLOG_FILE_DELETE`, `MLOG_FILE_CREATE2`, nor `MLOG_LSN` when LSN debugging is enabled, and the
space is not `TRX_DOUBLEWRITE_SPACE`; otherwise it is not called and the loop goes on from the
state as it is.  The record has at least 3 bytes in the first case, as the code asserts. -/
theorem C18_records_that_mark_a_page (env : Env) (fuel : Nat) (s : log_bitmap_struct)
    (ptr : List byte) (len0 : Nat)
    (hp : ptr ≠ []) (hlt : s.next_parse_lsn < s.end_lsn)
    (hlen : 0 < (env.recv_parse_log_rec ptr).1)
    (hfit : (env.recv_parse_log_rec ptr).1 ≤ ptr.length)
    (h3 : log_online_rec_page_means_page env (env.recv_parse_log_rec ptr).2.1 = true →
      3 ≤ (env.recv_parse_log_rec ptr).1) :
    log_online_parse_redo_log_loop env (fuel + 1) s ptr len0
      = if ((env.recv_parse_log_rec ptr).2.1 ≠ env.MLOG_MULTI_REC_END
            ∧ (env.recv_parse_log_rec ptr).2.1 ≠ env.MLOG_DUMMY_RECORD
            ∧ (env.recv_parse_log_rec ptr).2.1 ≠ env.MLOG_FILE_CREATE
            ∧ (env.recv_parse_log_rec ptr).2.1 ≠ env.MLOG_FILE_RENAME
            ∧ (env.recv_parse_log_rec ptr).2.1 ≠ env.MLOG_FILE_DELETE
            ∧ (env.recv_parse_log_rec ptr).2.1 ≠ env.MLOG_FILE_CREATE2
            ∧ (env.UNIV_LOG_LSN_DEBUG = true → (env.recv_parse_log_rec ptr).2.1 ≠ env.MLOG_LSN))
          ∧ (env.recv_parse_log_rec ptr).2.2.1 ≠ env.TRX_DOUBLEWRITE_SPACE then
          (log_online_set_page_bit s (env.recv_parse_log_rec ptr).2.2.1
            (env.recv_parse_log_rec ptr).2.2.2).bind (fun s1 =>
              log_online_parse_redo_log_loop env fuel
                { s1 with
                  next_parse_lsn := env.recv_calc_lsn_on_data_add s1.next_parse_lsn
                    (env.recv_parse_log_rec ptr).1 }
                (ptr.drop (env.recv_parse_log_rec ptr).1) (env.recv_parse_log_rec ptr).1)
        else
          log_online_parse_redo_log_loop env fuel
            { s with
              next_parse_lsn := env.recv_calc_lsn_on_data_add s.next_parse_lsn
                (env.recv_parse_log_rec ptr).1 }
            (ptr.drop (env.recv_parse_log_rec ptr).1) (env.recv_parse_log_rec ptr).1 := by
  rw [log_online_parse_redo_log_loop, if_pos ⟨hp, hlt⟩]
  simp only []
  rw [if_pos hlen]
  by_cases hm : log_online_rec_page_means_page env (env.recv_parse_log_rec ptr).2.1 = true
  · by_cases hs : (env.recv_parse_log_rec ptr).2.2.1 ≠ env.TRX_DOUBLEWRITE_SPACE
    · rw [if_pos ⟨hm, hs⟩, if_neg (by have := h3 hm; omega),
        if_pos ⟨(rec_page_means_page_iff env _).mp hm, hs⟩]
      cases log_online_set_page_bit s (env.recv_parse_log_rec ptr).2.2.1
          (env.recv_parse_log_rec ptr).2.2.2 with
      | none => rfl
      | some s1 =>
        simp only [Option.some_bind]
        rw [if_neg (by omega)]
    · rw [if_neg (fun h => hs h.2), if_neg (fun h => hs h.2)]
      simp only []
      rw [if_neg (by omega)]
  · rw [if_neg (fun h => hm h.1),
      if_neg (fun h => hm ((rec_page_means_page_iff env _).mpr h.1))]
    simp only []
    rw [if_neg (by omega)]

/-- Witness of C18: the record of the example log, of type 7 for page 7 of space 7. -/
theorem C18_records_that_mark_a_page_witness :
    log_online_parse_redo_log_loop env_example (1 + 1)
        { bmp_sys_example with end_lsn := 8207 } [7, 7, 7] 0
      = some (bmp_sys_followed_example, 3) :=
  (C18_records_that_mark_a_page env_example 1 { bmp_sys_example with end_lsn := 8207 }
    [7, 7, 7] 0 (by decide) (by decide) (by decide) (by decide) (fun _ => by decide)).trans
    (by
      have hrec : env_example.recv_parse_log_rec [7, 7, 7] = (3, 7, 7, 7) := rfl
      rw [if_pos (by decide)]
      simp only [hrec]
      rw [set_page_bit_of_empty { bmp_sys_example with end_lsn := 8207 } 7 7 (by decide)
          (by decide) rfl]
      simp only [Option.some_bind]
      rw [parse_redo_log_loop_stop env_example 0 _ _ _ (by decide)]
      rfl)

/-- C19: the empty interval.  If the last checkpoint LSN equals `start_lsn` on entry,
`log_online_follow_redo_log` returns with the operating system as it was, so that no block is
written and no file is created, with the log system as it was, so that `tracked_lsn` is the
same, and with the subsystem as it was but for `end_lsn`: `start_lsn`, the output file with its
offset, `out_seq_num` and the modified-page set are unchanged. -/
theorem C19_empty_interval (env : Env) (os : os_state) (log_sys : log_t)
    (s : log_bitmap_struct) (h : log_sys.last_checkpoint_lsn = s.start_lsn) :
    ∃ s', log_online_follow_redo_log env os log_sys s = some (os, log_sys, s')
      ∧ s' = { s with end_lsn := log_sys.last_checkpoint_lsn }
      ∧ written_blocks os os = []
      ∧ s'.start_lsn = s.start_lsn ∧ s'.out = s.out ∧ s'.out_seq_num = s.out_seq_num
      ∧ s'.modified_pages = s.modified_pages := by
  refine ⟨_, ?_, rfl, by simp [written_blocks], rfl, rfl, rfl, rfl⟩
  unfold log_online_follow_redo_log
  simp only []
  rw [if_pos h]

/-- Witness of C19: the subsystem at `start_lsn = 8207` and the checkpoint at LSN 8207. -/
theorem C19_empty_interval_witness :
    log_sys_example.last_checkpoint_lsn
        = ({ bmp_sys_example with start_lsn := 8207 } : log_bitmap_struct).start_lsn
      ∧ ∃ s', log_online_follow_redo_log env_example os_example log_sys_example
          { bmp_sys_example with start_lsn := 8207 } = some (os_example, log_sys_example, s')
        ∧ s' = { bmp_sys_example with start_lsn := 8207, end_lsn := 8207 }
        ∧ written_blocks os_example os_example = []
        ∧ s'.start_lsn = 8207 ∧ s'.out = bmp_sys_example.out
        ∧ s'.out_seq_num = bmp_sys_example.out_seq_num
        ∧ s'.modified_pages = bmp_sys_example.modified_pages :=
  ⟨rfl, C19_empty_interval env_example os_example log_sys_example
    { bmp_sys_example with start_lsn := 8207 } rfl⟩

/-! ## Startup on a data directory with a bitmap file -/

/-- The block of a file at a block boundary, when the file is a run of bytes, the bytes of
the block and a rest. -/
theorem block_of_append (blocks rest : List byte) (last : Page) (n : Nat)
    (hblocks : blocks.length = 4096 * n) :
    Page.ofList (((blocks ++ last.bytes ++ rest).drop (4096 * n)).take 4096) = last := by
  have hlen : last.bytes.length = 4096 := last.size_eq
  rw [List.append_assoc, ← hblocks, List.drop_left, ← hlen, List.take_left, Page.ofList_bytes]

/-- The backward search on a file whose last whole block before the offset has a good checksum
and a non-zero last-block flag: the function returns the `end_lsn` of the block, leaves the
offset after the block and truncates the file there. -/
theorem read_last_tracked_lsn_of_terminator (env : Env) (os : os_state)
    (s : log_bitmap_struct) (data : List byte) (n : Nat) (hfault : os.faults = [])
    (hdata : os_file_data env os s.out.file = some data) (hsize : s.out.size = data.length)
    (hoff : s.out.offset = 4096 * (n + 1)) (h64 : data.length < 2 ^ 64)
    (hlen : 4096 * (n + 1) ≤ data.length)
    (hck : mach_read_from_4 (Page.ofList ((data.drop (4096 * n)).take 4096)) 4092
      = log_online_calc_checksum (Page.ofList ((data.drop (4096 * n)).take 4096)))
    (hl : mach_read_from_4 (Page.ofList ((data.drop (4096 * n)).take 4096)) 0 ≠ 0) :
    log_online_read_last_tracked_lsn env os s
      = some (mach_read_from_8 (Page.ofList ((data.drop (4096 * n)).take 4096)) 12,
          (os_file_set_eof_at env os s.out.file (4096 * (n + 1))).2, s) := by
  have hro : (s.out.offset + 2 ^ 64 - 4096) % 2 ^ 64 = 4096 * n := by omega
  have hread := read_bitmap_page_ok env os
    { s.out with offset := 4096 * n } Page.zero false data hfault hdata hsize
    (by rw [hsize]; exact h64) (by simp only []; omega) (by simp only []; omega)
  have hfuel : s.out.offset / MODIFIED_PAGE_BLOCK_SIZE + 1 = (n + 1) + 1 := by
    simp only [ MODIFIED_PAGE_BLOCK_SIZE]
    omega
  have h1 := read_last_tracked_lsn_loop_step env (n + 1)
    ⟨os, s, Page.zero, 0, false, s.out.offset⟩ _
    (by simp only [Bool.not_false, Bool.true_and, decide_True, Bool.and_true,
          decide_eq_true_eq]; omega)
    (by simp only [hro]; exact hread) rfl
  have h2 : ∀ st : read_last_tracked_lsn_state, st.checksum_ok = true →
      log_online_read_last_tracked_lsn_loop env (n + 1) st = some st := fun st hst =>
    read_last_tracked_lsn_loop_stop env n st (by simp [hst])
  simp only [hck, decide_True, if_true, hro] at h1
  rw [h2 _ rfl] at h1
  unfold log_online_read_last_tracked_lsn
  rw [hfuel, h1]
  simp only [ne_eq, hl, not_false_eq_true, decide_True, Bool.and_self, if_true,
    MODIFIED_PAGE_END_LSN]
  have e : 4096 * n + 4096 = 4096 * (n + 1) := by omega
  have hs : ({ s with out := { s.out with offset := 4096 * (n + 1) } } : log_bitmap_struct)
      = s := by
    rw [← hoff]
  rw [e, hs, os_file_set_eof_at_fst env os s.out.file (4096 * (n + 1)) data hfault hdata]
  rfl

/-- `log_online_read_init` on a data directory whose last bitmap file of a non-zero size can be
opened: the file is opened, the offset is its size rounded down to a whole number of blocks,
and the last tracked LSN is read from it. -/
theorem read_init_of_last_file (env : Env) (os : os_state) (log_sys : log_t)
    (s : log_bitmap_struct) (seq lsn0 : Nat) (name : List Char) (data : List byte)
    (hfault : os.faults = [])
    (hscan : (os_file_readdir os).foldl (log_online_read_init_scan env)
      (0, MIN_TRACKED_LSN env, []) = (seq, lsn0, name))
    (hseq : seq ≠ 0) (hdata : os_file_data env os name = some data) :
    log_online_read_init env os log_sys s
      = (log_online_read_last_tracked_lsn env os
          { s with
            out := ⟨name, name, data.length, data.length - data.length % 4096⟩
            out_seq_num := seq
            modified_pages := []
            page_free_list := [] }).bind
        (fun r => log_online_read_init_track env r.2.1 log_sys r.2.2
          (if r.1 = 0 then lsn0 else r.1)
          (max log_sys.last_checkpoint_lsn (MIN_TRACKED_LSN env))) := by
  unfold log_online_read_init
  rw [os_file_opendir_ok os hfault]
  simp only [Bool.not_true, Bool.false_eq_true, if_false]
  rw [os_file_closedir_ok os hfault]
  simp only [Bool.false_eq_true, if_false, hscan, if_neg hseq]
  rw [os_file_open_ok env os name data hfault hdata]
  simp only [Bool.not_true, Bool.false_eq_true, if_false, os_file_get_size, hdata,
    Option.getD_some, MODIFIED_PAGE_BLOCK_SIZE]
  have hst : (if data.length % 4096 ≠ 0 then
        ({ s with
          out := ⟨name, name, data.length, data.length - data.length % 4096⟩
          out_seq_num := seq
          modified_pages := []
          page_free_list := [] } : log_bitmap_struct)
      else
        { s with
          out := ⟨name, name, data.length, data.length⟩
          out_seq_num := seq
          modified_pages := []
          page_free_list := [] })
      = { s with
          out := ⟨name, name, data.length, data.length - data.length % 4096⟩
          out_seq_num := seq
          modified_pages := []
          page_free_list := [] } := by
    split_ifs with h
    · rfl
    · rw [not_not] at h
      rw [h, Nat.sub_zero]
  rw [hst]
  cases log_online_read_last_tracked_lsn env os
      { s with
        out := ⟨name, name, data.length, data.length - data.length % 4096⟩
        out_seq_num := seq
        modified_pages := []
        page_free_list := [] } with
  | none => rfl
  | some r =>
    obtain ⟨a, b, c⟩ := r
    simp only [Option.some_bind]
    unfold log_online_read_init_track
    rfl

/-- C11: corrupt-tail recovery.  Let the last bitmap file of a non-zero size of the data
directory consist of `n + 1` whole blocks, the last of which has a good checksum, the
last-block flag 1 and a non-zero `end_lsn`, followed by `0 < k < 4096` trailing bytes.  Then
`log_online_read_init` calls `log_online_read_last_tracked_lsn` with the offset rounded down to
`4096 * (n + 1)`; this call returns the `end_lsn` of the last block and truncates the file to
exactly the `n + 1` blocks; and `log_online_read_init` goes on with this value as
`last_tracked_lsn`. -/
theorem C11_corrupt_tail_recovery (env : Env) (os : os_state) (log_sys : log_t)
    (s : log_bitmap_struct) (seq lsn0 : Nat) (name : List Char) (blocks tail : List byte)
    (last : Page) (n : Nat) (hfault : os.faults = [])
    (hscan : (os_file_readdir os).foldl (log_online_read_init_scan env)
      (0, MIN_TRACKED_LSN env, []) = (seq, lsn0, name))
    (hseq : seq ≠ 0)
    (hdata : os_file_data env os name = some (blocks ++ last.bytes ++ tail))
    (hblocks : blocks.length = 4096 * n) (htail : 0 < tail.length)
    (htail4096 : tail.length < 4096) (h64 : 4096 * (n + 1) + tail.length < 2 ^ 64)
    (hck : mach_read_from_4 last MODIFIED_PAGE_BLOCK_CHECKSUM = log_online_calc_checksum last)
    (hlast : mach_read_from_4 last MODIFIED_PAGE_IS_LAST_BLOCK = 1)
    (hend : mach_read_from_8 last MODIFIED_PAGE_END_LSN ≠ 0) :
    log_online_read_last_tracked_lsn env os
        { s with
          out := ⟨name, name, 4096 * (n + 1) + tail.length, 4096 * (n + 1)⟩
          out_seq_num := seq
          modified_pages := []
          page_free_list := [] }
      = some (mach_read_from_8 last MODIFIED_PAGE_END_LSN,
          (os_file_set_eof_at env os name (4096 * (n + 1))).2,
          { s with
            out := ⟨name, name, 4096 * (n + 1) + tail.length, 4096 * (n + 1)⟩
            out_seq_num := seq
            modified_pages := []
            page_free_list := [] })
    ∧ os_file_data env (os_file_set_eof_at env os name (4096 * (n + 1))).2 name
      = some (blocks ++ last.bytes)
    ∧ log_online_read_init env os log_sys s
      = log_online_read_init_track env (os_file_set_eof_at env os name (4096 * (n + 1))).2
          log_sys
          { s with
            out := ⟨name, name, 4096 * (n + 1) + tail.length, 4096 * (n + 1)⟩
            out_seq_num := seq
            modified_pages := []
            page_free_list := [] }
          (mach_read_from_8 last MODIFIED_PAGE_END_LSN)
          (max log_sys.last_checkpoint_lsn (MIN_TRACKED_LSN env)) := by
  have hll : last.bytes.length = 4096 := last.size_eq
  have hlen : (blocks ++ last.bytes ++ tail).length = 4096 * (n + 1) + tail.length := by
    rw [List.length_append, List.length_append, hblocks, hll]
    omega
  have hblk := block_of_append blocks tail last n hblocks
  have hrec := read_last_tracked_lsn_of_terminator env os
    { s with
      out := ⟨name, name, 4096 * (n + 1) + tail.length, 4096 * (n + 1)⟩
      out_seq_num := seq
      modified_pages := []
      page_free_list := [] } (blocks ++ last.bytes ++ tail) n hfault hdata hlen.symm rfl
    (by rw [hlen]; exact h64) (by rw [hlen]; omega)
    (by rw [hblk]; exact hck)
    (by
      have h : mach_read_from_4 last 0 = 1 := hlast
      rw [hblk, h]
      decide)
  rw [hblk] at hrec
  refine ⟨hrec, ?_, ?_⟩
  · rw [os_file_data_set_eof_at env os name _ _ hfault hdata, hlen,
      show 4096 * (n + 1) - (4096 * (n + 1) + tail.length) = 0 by omega]
    simp only [List.replicate_zero, List.append_nil]
    have h1 : 4096 * (n + 1) = (blocks ++ last.bytes).length := by
      rw [List.length_append, hblocks, hll]
      omega
    rw [h1, List.take_left]
  · rw [read_init_of_last_file env os log_sys s seq lsn0 name _ hfault hscan hseq hdata, hlen,
      show (4096 * (n + 1) + tail.length) % 4096 = tail.length by omega,
      show 4096 * (n + 1) + tail.length - tail.length = 4096 * (n + 1) by omega, hrec]
    simp only [Option.some_bind]
    rw [if_neg hend]

/-- The terminator block of the examples: a good checksum, the last-block flag and `end_lsn`
9000. -/
theorem terminator_block_example_spec :
    mach_read_from_4 terminator_block_example MODIFIED_PAGE_BLOCK_CHECKSUM
        = log_online_calc_checksum terminator_block_example
      ∧ mach_read_from_4 terminator_block_example MODIFIED_PAGE_IS_LAST_BLOCK = 1
      ∧ mach_read_from_8 terminator_block_example MODIFIED_PAGE_END_LSN = 9000 :=
  ⟨fill_checksum_ok _ _ _, fill_is_last_block _ _ _, (fill_end_lsn _ _ _).trans (by decide)⟩

theorem read_init_scan_1_0 (data : List byte) (h : 0 < data.length) :
    (os_file_readdir
        ⟨[⟨"ib_modified_log_1_0.xdb".toList, os_file_type_t.OS_FILE_TYPE_FILE, data⟩], [],
          []⟩).foldl
      (log_online_read_init_scan env_example) (0, MIN_TRACKED_LSN env_example, [])
      = (1, 0, "ib_modified_log_1_0.xdb".toList) := by
  unfold os_file_readdir
  simp only [List.map_cons, List.map_nil, List.foldl_cons, List.foldl_nil]
  unfold log_online_read_init_scan
  rw [is_bitmap_file_1_0]
  simp only []
  rw [if_pos ⟨by decide, h⟩]
  rfl

/-- Witness of C11: the file `ib_modified_log_1_0.xdb` holds the terminator block of the
examples, with `end_lsn = 9000`, and 2048 bytes of garbage; the truncated file holds the block
alone. -/
theorem C11_corrupt_tail_recovery_witness :
    mach_read_from_8 terminator_block_example MODIFIED_PAGE_END_LSN = 9000
      ∧ os_file_data env_example os_tail_example "ib_modified_log_1_0.xdb".toList
        = some ([] ++ terminator_block_example.bytes ++ List.replicate 2048 255)
      ∧ os_file_data env_example
          (os_file_set_eof_at env_example os_tail_example "ib_modified_log_1_0.xdb".toList
            (4096 * (0 + 1))).2 "ib_modified_log_1_0.xdb".toList
        = some ([] ++ terminator_block_example.bytes)
      ∧ log_online_read_init env_example os_tail_example log_sys_example bmp_sys_fresh_example
        = log_online_read_init_track env_example
            (os_file_set_eof_at env_example os_tail_example "ib_modified_log_1_0.xdb".toList
              (4096 * (0 + 1))).2
            log_sys_example
            { bmp_sys_fresh_example with
              out := ⟨"ib_modified_log_1_0.xdb".toList, "ib_modified_log_1_0.xdb".toList,
                4096 * (0 + 1) + (List.replicate 2048 (255 : byte)).length, 4096 * (0 + 1)⟩
              out_seq_num := 1
              modified_pages := []
              page_free_list := [] }
            (mach_read_from_8 terminator_block_example MODIFIED_PAGE_END_LSN)
            (max log_sys_example.last_checkpoint_lsn (MIN_TRACKED_LSN env_example)) :=
  ⟨terminator_block_example_spec.2.2,
    os_file_data_single env_example _ _ _ _ _ _ entry_name_1_0,
    (C11_corrupt_tail_recovery env_example os_tail_example log_sys_example
      bmp_sys_fresh_example 1 0 "ib_modified_log_1_0.xdb".toList [] (List.replicate 2048 255)
      terminator_block_example 0 rfl
      (read_init_scan_1_0 _ (by
        rw [List.length_append, List.length_replicate]; omega))
      (by decide) (os_file_data_single env_example _ _ _ _ _ _ entry_name_1_0) rfl
      (by rw [List.length_replicate]; decide) (by rw [List.length_replicate]; decide)
      (by rw [List.length_replicate]; decide) terminator_block_example_spec.1
      terminator_block_example_spec.2.1
      (by rw [terminator_block_example_spec.2.2]; decide)).2⟩

/-! ## A second startup -/

/-- A rotation that creates a file that does not exist yet. -/
theorem rotate_bitmap_file_new (env : Env) (os : os_state) (s : log_bitmap_struct)
    (lsn : Nat) (hfault : os.faults = [])
    (hnew : os_file_data env os (bmp_file_name env ((s.out_seq_num + 1) % 2 ^ 64) lsn)
      = none) :
    log_online_rotate_bitmap_file env os s lsn
      = some ({ os with
            files := os.files
              ++ [⟨os_entry_name env (bmp_file_name env ((s.out_seq_num + 1) % 2 ^ 64) lsn),
                os_file_type_t.OS_FILE_TYPE_FILE, []⟩] },
          { s with
            out_seq_num := (s.out_seq_num + 1) % 2 ^ 64
            out := ⟨bmp_file_name env ((s.out_seq_num + 1) % 2 ^ 64) lsn,
              bmp_file_name env ((s.out_seq_num + 1) % 2 ^ 64) lsn, s.out.size, 0⟩ }) := by
  unfold log_online_rotate_bitmap_file log_online_start_bitmap_file
    log_online_make_bitmap_name
  simp only []
  rw [show (env.srv_data_home ++ bmp_file_name_stem
        ++ print_decimal ((s.out_seq_num + 1) % 2 ^ 64) ++ ['_'] ++ print_decimal lsn
        ++ ".xdb".toList).take (env.FN_REFLEN - 1)
      = bmp_file_name env ((s.out_seq_num + 1) % 2 ^ 64) lsn from rfl,
    os_file_create_new env os _ hfault hnew]
  simp only [Bool.not_true, Bool.false_eq_true, if_false]

/-- The startup on an empty data directory, for any log system. -/
theorem read_init_first_example (log_sys : log_t)
    (h : max log_sys.last_checkpoint_lsn (MIN_TRACKED_LSN env_example) = 8204) :
    log_online_read_init env_example os_empty_example log_sys bmp_sys_fresh_example
      = some (os_example, log_set_tracked_lsn log_sys 8204, bmp_sys_started_example) := by
  rw [read_init_of_empty_dir env_example os_empty_example log_sys
    bmp_sys_fresh_example "./ib_modified_log_1_0.xdb".toList rfl rfl bitmap_name_1_0,
    entry_name_dot_lit_1_0, h]
  rfl

/-- The result of `log_online_setup_bitmap_file_range` when the first pass counts no file. -/
theorem setup_bitmap_file_range_of_none (env : Env) (os : os_state)
    (range_start range_end : Nat) (hfault : os.faults = [])
    (h1 : (os_file_readdir os).foldl
      (log_online_setup_bitmap_file_range_pass1 range_start range_end)
      ⟨0, 2 ^ 64 - 1, 2 ^ 64 - 1⟩ = ⟨0, 2 ^ 64 - 1, 2 ^ 64 - 1⟩) :
    log_online_setup_bitmap_file_range env os range_start range_end
      = some (true, os, ⟨0, []⟩) := by
  unfold log_online_setup_bitmap_file_range
  rw [os_file_opendir_ok os hfault]
  simp only [Bool.not_true, Bool.false_eq_true, if_false]
  rw [h1, if_neg (by simp), os_file_closedir_ok os hfault]
  simp only [Bool.false_eq_true, if_false, if_true]

/-- An empty range fails the assertion of `log_online_bitmap_iterator_init`. -/
theorem bitmap_iterator_init_of_empty_range (env : Env) (os os' : os_state)
    (i : log_bitmap_iterator_t) (min_lsn max_lsn : Nat)
    (files : List log_online_bitmap_file_range_entry)
    (h : log_online_setup_bitmap_file_range env os min_lsn max_lsn
      = some (true, os', ⟨0, files⟩)) :
    log_online_bitmap_iterator_init env os i min_lsn max_lsn = none := by
  unfold log_online_bitmap_iterator_init
  rw [h]
  simp only []
  rw [if_pos (by decide)]

theorem is_bitmap_file_2_1500 (n : Nat) :
    log_online_is_bitmap_file
      ⟨"ib_modified_log_2_1500.xdb".toList, os_file_type_t.OS_FILE_TYPE_FILE, n⟩
      = some (2, 1500) := by
  rfl

theorem setup_pass2_step (env : Env) (range_end first_seq first_lsn seq lsn : Nat)
    (files : List log_online_bitmap_file_range_entry) (slot : log_online_bitmap_file_range_entry)
    (info : os_file_stat_t) (hb : log_online_is_bitmap_file info = some (seq, lsn))
    (hsel : ¬ (lsn ≥ range_end ∨ lsn < first_lsn))
    (hslot : files[(seq + 2 ^ 64 - first_seq) % 2 ^ 64]? = some slot)
    (hnew : seq > slot.seq_num) :
    log_online_setup_bitmap_file_range_pass2 env range_end first_seq first_lsn (some files)
        info
      = some (files.set ((seq + 2 ^ 64 - first_seq) % 2 ^ 64)
          ⟨info.name.take (env.FN_REFLEN - 1), lsn, seq⟩) := by
  unfold log_online_setup_bitmap_file_range_pass2
  simp only [hb]
  rw [if_neg hsel, hslot]
  simp only []
  rw [if_pos hnew]

theorem setup_pass2_skip (env : Env) (range_end first_seq first_lsn seq lsn : Nat)
    (files : List log_online_bitmap_file_range_entry)
    (info : os_file_stat_t) (hb : log_online_is_bitmap_file info = some (seq, lsn))
    (hsel : lsn ≥ range_end ∨ lsn < first_lsn) :
    log_online_setup_bitmap_file_range_pass2 env range_end first_seq first_lsn (some files)
        info
      = some files := by
  unfold log_online_setup_bitmap_file_range_pass2
  simp only [hb]
  rw [if_pos hsel]

theorem setup_pass1_step (range_start range_end seq lsn : Nat) (st : bitmap_file_range_pass1)
    (info : os_file_stat_t) (hb : log_online_is_bitmap_file info = some (seq, lsn))
    (hend : ¬ lsn ≥ range_end)
    (hsel : lsn ≥ range_start ∨ lsn = st.first_file_start_lsn
      ∨ st.first_file_start_lsn > range_start) :
    log_online_setup_bitmap_file_range_pass1 range_start range_end st info
      = { count := (st.count + 1) % 2 ^ 64
          first_file_start_lsn :=
            if lsn < st.first_file_start_lsn then lsn else st.first_file_start_lsn
          first_file_seq_num :=
            if seq < st.first_file_seq_num then seq else st.first_file_seq_num } := by
  unfold log_online_setup_bitmap_file_range_pass1
  simp only [hb]
  rw [if_neg hend, if_pos hsel]

theorem setup_pass1_skip (range_start range_end seq lsn : Nat) (st : bitmap_file_range_pass1)
    (info : os_file_stat_t) (hb : log_online_is_bitmap_file info = some (seq, lsn))
    (hend : ¬ lsn ≥ range_end)
    (hsel : ¬ (lsn ≥ range_start ∨ lsn = st.first_file_start_lsn
      ∨ st.first_file_start_lsn > range_start))
    (hlt : ¬ lsn > st.first_file_start_lsn) :
    log_online_setup_bitmap_file_range_pass1 range_start range_end st info = st := by
  unfold log_online_setup_bitmap_file_range_pass1
  simp only [hb]
  rw [if_neg hend, if_neg hsel, if_neg hlt]

theorem name_take_1_0 : ("ib_modified_log_1_0.xdb".toList).take (env_example.FN_REFLEN - 1)
    = "ib_modified_log_1_0.xdb".toList := by decide

theorem name_take_2_1500 : ("ib_modified_log_2_1500.xdb".toList).take (env_example.FN_REFLEN - 1)
    = "ib_modified_log_2_1500.xdb".toList := by decide

/-- The range from 1500 to 2500 when the file of LSN 0 is enumerated before the file of LSN
1500. -/
theorem setup_bitmap_file_range_range_example :
    log_online_setup_bitmap_file_range env_example os_range_example 1500 2500
      = some (true, os_range_example,
          ⟨2, [⟨"ib_modified_log_1_0.xdb".toList, 0, 1⟩,
            ⟨"ib_modified_log_2_1500.xdb".toList, 1500, 2⟩]⟩) := by
  have hr1 : os_file_readdir os_range_example
      = [⟨"ib_modified_log_1_0.xdb".toList, os_file_type_t.OS_FILE_TYPE_FILE, 0⟩,
        ⟨"ib_modified_log_2_1500.xdb".toList, os_file_type_t.OS_FILE_TYPE_FILE, 0⟩] := rfl
  refine setup_bitmap_file_range_ok env_example os_range_example 1500 2500 ⟨2, 1, 0⟩ _ rfl
    ?_ (by decide) (by decide) ?_
  · rw [hr1, List.foldl_cons, List.foldl_cons, List.foldl_nil,
      setup_pass1_step 1500 2500 1 0 _ _ (is_bitmap_file_1_0 0) (by decide)
        (Or.inr (Or.inr (by norm_num))),
      setup_pass1_step 1500 2500 2 1500 _ _ (is_bitmap_file_2_1500 0) (by decide)
        (Or.inl (le_refl _))]
    simp only []
    norm_num
  · rw [hr1, List.foldl_cons, List.foldl_cons, List.foldl_nil]
    simp only []
    rw [show List.replicate 2 (⟨[], 0, 0⟩ : log_online_bitmap_file_range_entry)
        = [⟨[], 0, 0⟩, ⟨[], 0, 0⟩] from rfl,
      setup_pass2_step env_example 2500 1 0 1 0 _ ⟨[], 0, 0⟩ _ (is_bitmap_file_1_0 0)
        (by decide) (by norm_num) (by decide)]
    simp only []
    rw [show (1 + 2 ^ 64 - 1) % 2 ^ 64 = 0 by norm_num, name_take_1_0]
    simp only [List.set_cons_zero]
    rw [setup_pass2_step env_example 2500 1 0 2 1500 _ ⟨[], 0, 0⟩ _ (is_bitmap_file_2_1500 0)
        (by decide) (by norm_num) (by decide)]
    simp only []
    rw [show (2 + 2 ^ 64 - 1) % 2 ^ 64 = 1 by norm_num, name_take_2_1500]
    rfl

/-- The range from 1500 to 2500 when the file of LSN 1500 is enumerated before the file of
LSN 0. -/
theorem setup_bitmap_file_range_range_reversed_example :
    log_online_setup_bitmap_file_range env_example os_range_reversed_example 1500 2500
      = some (true, os_range_reversed_example,
          ⟨1, [⟨"ib_modified_log_2_1500.xdb".toList, 1500, 2⟩]⟩) := by
  have hr2 : os_file_readdir os_range_reversed_example
      = [⟨"ib_modified_log_2_1500.xdb".toList, os_file_type_t.OS_FILE_TYPE_FILE, 0⟩,
        ⟨"ib_modified_log_1_0.xdb".toList, os_file_type_t.OS_FILE_TYPE_FILE, 0⟩] := rfl
  refine setup_bitmap_file_range_ok env_example os_range_reversed_example 1500 2500
    ⟨1, 2, 1500⟩ _ rfl ?_ (by decide) (by decide) ?_
  · rw [hr2, List.foldl_cons, List.foldl_cons, List.foldl_nil,
      setup_pass1_step 1500 2500 2 1500 _ _ (is_bitmap_file_2_1500 0) (by decide)
        (Or.inl (le_refl _))]
    simp only []
    norm_num
    exact setup_pass1_skip 1500 2500 1 0 ⟨1, 2, 1500⟩ _ (is_bitmap_file_1_0 0) (by decide)
      (by decide) (by decide)
  · rw [hr2, List.foldl_cons, List.foldl_cons, List.foldl_nil]
    simp only []
    rw [show List.replicate 1 (⟨[], 0, 0⟩ : log_online_bitmap_file_range_entry)
        = [⟨[], 0, 0⟩] from rfl,
      setup_pass2_step env_example 2500 2 1500 2 1500 _ ⟨[], 0, 0⟩ _
        (is_bitmap_file_2_1500 0) (by decide) (by norm_num) (by decide)]
    simp only []
    rw [show (2 + 2 ^ 64 - 2) % 2 ^ 64 = 0 by norm_num, name_take_2_1500]
    simp only [List.set_cons_zero]
    exact setup_pass2_skip env_example 2500 2 1500 1 0 _ _ (is_bitmap_file_1_0 0)
      (Or.inr (by decide))

/-- C13, the code at a failing input.  The data directory holds the bitmap files of the
sequence numbers 1 and 2 with the start LSNs 0 and 1500, and the range is from 1500 to 2500.
When the file of LSN 0 is enumerated first, the range is both files and starts with the file
of LSN 0, not with the file of the greatest start LSN up to 1500; when the file of LSN 1500 is
enumerated first, the range is this file alone. -/
theorem C13_file_range_depends_on_enumeration_order :
    log_online_setup_bitmap_file_range env_example os_range_example 1500 2500
        = some (true, os_range_example,
            ⟨2, [⟨"ib_modified_log_1_0.xdb".toList, 0, 1⟩,
              ⟨"ib_modified_log_2_1500.xdb".toList, 1500, 2⟩]⟩)
      ∧ log_online_setup_bitmap_file_range env_example os_range_reversed_example 1500 2500
        = some (true, os_range_reversed_example,
            ⟨1, [⟨"ib_modified_log_2_1500.xdb".toList, 1500, 2⟩]⟩) :=
  ⟨setup_bitmap_file_range_range_example, setup_bitmap_file_range_range_reversed_example⟩

/-- C14, the code at a failing input.  On an empty data directory
`log_online_setup_bitmap_file_range` returns `TRUE` with `count = 0` and no file array, and
`log_online_bitmap_iterator_init` then fails its assertion `ut_a(i->in_files.count > 0)`: it
does not return. -/
theorem C14_iterator_init_aborts_on_empty_range :
    log_online_setup_bitmap_file_range env_example os_empty_example 0 10000
        = some (true, os_empty_example, ⟨0, []⟩)
      ∧ log_online_bitmap_iterator_init env_example os_empty_example iterator_example 0 10000
        = none :=
  ⟨setup_bitmap_file_range_of_none env_example os_empty_example 0 10000 rfl rfl,
    bitmap_iterator_init_of_empty_range env_example os_empty_example os_empty_example
      iterator_example 0 10000 []
      (setup_bitmap_file_range_of_none env_example os_empty_example 0 10000 rfl rfl)⟩

/-! ## The iterator: loading a block, skipping a block, leaving a file -/

/-- One round of the loops of `log_online_bitmap_iterator_next` on a block whose checksum is
bad: the block is read into the page buffer and the loops go on after it. -/
theorem bitmap_iterator_next_block_corrupt (env : Env) (os : os_state)
    (i : log_bitmap_iterator_t) (data : List byte) (fuel : Nat) (hfault : os.faults = [])
    (hdata : os_file_data env os i.in_file.file = some data)
    (hsize : i.in_file.size = data.length) (h64 : i.in_file.size < 2 ^ 64)
    (hoff : i.in_file.offset + 4096 ≤ i.in_file.size) (halign : i.in_file.offset % 4096 = 0)
    (hbad : mach_read_from_4 (Page.ofList ((data.drop i.in_file.offset).take 4096)) 4092
      ≠ log_online_calc_checksum (Page.ofList ((data.drop i.in_file.offset).take 4096))) :
    log_online_bitmap_iterator_next_block env (fuel + 1) os i
      = log_online_bitmap_iterator_next_block env fuel os
          { i with
            in_file := { i.in_file with offset := i.in_file.offset + 4096 }
            page := Page.ofList ((data.drop i.in_file.offset).take 4096) } := by
  rw [log_online_bitmap_iterator_next_block]
  rw [if_neg (by simp only [ MODIFIED_PAGE_BLOCK_SIZE]; omega),
    read_bitmap_page_ok env os i.in_file i.page false data hfault hdata hsize h64 hoff halign]
  simp only [hbad, decide_False, Bool.not_true, Bool.not_false, Bool.false_eq_true, if_false,
    if_true]

/-- One round of the loops on a block whose checksum is good: the block is loaded. -/
theorem bitmap_iterator_next_block_good (env : Env) (os : os_state)
    (i : log_bitmap_iterator_t) (data : List byte) (fuel : Nat) (hfault : os.faults = [])
    (hdata : os_file_data env os i.in_file.file = some data)
    (hsize : i.in_file.size = data.length) (h64 : i.in_file.size < 2 ^ 64)
    (hoff : i.in_file.offset + 4096 ≤ i.in_file.size) (halign : i.in_file.offset % 4096 = 0)
    (hck : mach_read_from_4 (Page.ofList ((data.drop i.in_file.offset).take 4096)) 4092
      = log_online_calc_checksum (Page.ofList ((data.drop i.in_file.offset).take 4096))) :
    log_online_bitmap_iterator_next_block env (fuel + 1) os i
      = some (true, os, log_bitmap_iterator_at i
          { i.in_file with offset := i.in_file.offset + 4096 }
          (Page.ofList ((data.drop i.in_file.offset).take 4096)) 0) := by
  rw [log_online_bitmap_iterator_next_block]
  rw [if_neg (by simp only [ MODIFIED_PAGE_BLOCK_SIZE]; omega),
    read_bitmap_page_ok env os i.in_file i.page false data hfault hdata hsize h64 hoff halign]
  simp only [hck, decide_True, Bool.not_true, Bool.false_eq_true, if_false]
  rfl

/-- The loops pass `j` blocks with a bad checksum and load the block with a good checksum that
comes after them in the same file. -/
theorem bitmap_iterator_next_block_skip (env : Env) (os : os_state) (data : List byte)
    (hfault : os.faults = []) (h64 : data.length < 2 ^ 64) :
    ∀ (j fuel : Nat) (i : log_bitmap_iterator_t), j + 1 ≤ fuel →
      os_file_data env os i.in_file.file = some data → i.in_file.size = data.length →
      i.in_file.offset % 4096 = 0 → i.in_file.offset + 4096 * (j + 1) ≤ data.length →
      (∀ m, m < j →
        mach_read_from_4 (Page.ofList ((data.drop (i.in_file.offset + 4096 * m)).take 4096))
            4092
          ≠ log_online_calc_checksum
              (Page.ofList ((data.drop (i.in_file.offset + 4096 * m)).take 4096))) →
      mach_read_from_4 (Page.ofList ((data.drop (i.in_file.offset + 4096 * j)).take 4096))
          4092
        = log_online_calc_checksum
            (Page.ofList ((data.drop (i.in_file.offset + 4096 * j)).take 4096)) →
      log_online_bitmap_iterator_next_block env fuel os i
        = some (true, os, log_bitmap_iterator_at i
            { i.in_file with offset := i.in_file.offset + 4096 * (j + 1) }
            (Page.ofList ((data.drop (i.in_file.offset + 4096 * j)).take 4096)) 0) := by
  intro j
  induction j with
  | zero =>
    intro fuel i hfuel hdata hsize halign hoff _ hck
    obtain ⟨f, rfl⟩ : ∃ f, fuel = f + 1 := ⟨fuel - 1, by omega⟩
    simp only [Nat.mul_zero, Nat.add_zero] at hck
    have h := bitmap_iterator_next_block_good env os i data f hfault hdata hsize
      (by rw [hsize]; exact h64) (by rw [hsize]; omega) halign hck
    simpa using h
  | succ j ih =>
    intro fuel i hfuel hdata hsize halign hoff hbad hck
    obtain ⟨f, rfl⟩ : ∃ f, fuel = f + 1 := ⟨fuel - 1, by omega⟩
    have hb0 := hbad 0 (by omega)
    simp only [Nat.mul_zero, Nat.add_zero] at hb0
    rw [bitmap_iterator_next_block_corrupt env os i data f hfault hdata hsize
      (by rw [hsize]; exact h64) (by rw [hsize]; omega) halign hb0]
    have e1 : ∀ m, i.in_file.offset + 4096 + 4096 * m = i.in_file.offset + 4096 * (m + 1) := by
      intro m; omega
    have h := ih f
      { i with
        in_file := { i.in_file with offset := i.in_file.offset + 4096 }
        page := Page.ofList ((data.drop i.in_file.offset).take 4096) }
      (by omega) hdata hsize (by simp only []; omega) (by simp only []; omega)
      (by
        intro m hm
        simp only [e1]
        exact hbad (m + 1) (by omega))
      (by
        simp only [e1]
        exact hck)
    simp only [e1] at h
    rw [h]
    rfl

theorem read_bitmap_page_checksum_ok (env : Env) (os : os_state)
    (bitmap_file : log_online_bitmap_file_t) (page : Page) (ck : Bool)
    (r : read_bitmap_page_result)
    (h : log_online_read_bitmap_page env os bitmap_file page ck = some r)
    (hs : r.success = true) (hk : r.checksum_ok = true) :
    mach_read_from_4 r.page MODIFIED_PAGE_BLOCK_CHECKSUM = log_online_calc_checksum r.page := by
  unfold log_online_read_bitmap_page at h
  simp only [] at h
  split_ifs at h
  split at h
  · simp only [Option.some.injEq] at h
    subst h
    simp at hs
  · simp only [Option.some.injEq] at h
    subst h
    simpa using hk

/-- A block that the loops load has a good checksum, and the fields of the iterator are those
of the block. -/
theorem bitmap_iterator_next_block_sound (env : Env) (fuel : Nat) :
    ∀ (os os' : os_state) (i i' : log_bitmap_iterator_t),
      log_online_bitmap_iterator_next_block env fuel os i = some (true, os', i') →
      mach_read_from_4 i'.page MODIFIED_PAGE_BLOCK_CHECKSUM = log_online_calc_checksum i'.page
        ∧ i' = log_bitmap_iterator_at i' i'.in_file i'.page 0 := by
  induction fuel with
  | zero => intro os os' i i' h; simp [log_online_bitmap_iterator_next_block] at h
  | succ fuel ih =>
    intro os os' i i' h
    rw [log_online_bitmap_iterator_next_block] at h
    simp only [] at h
    by_cases hc : i.in_file.size < MODIFIED_PAGE_BLOCK_SIZE
        ∨ i.in_file.offset > i.in_file.size - MODIFIED_PAGE_BLOCK_SIZE
    · rw [if_pos hc] at h
      repeat' split at h
      all_goals first
        | exact ih _ _ _ _ h
        | exact Option.noConfusion h
        | (simp only [Option.some.injEq, Prod.mk.injEq, Bool.false_eq_true, false_and] at h)
    · rw [if_neg hc] at h
      cases hr : log_online_read_bitmap_page env os i.in_file i.page false with
      | none => rw [hr] at h; cases h
      | some r =>
        rw [hr] at h
        simp only [] at h
        by_cases hs : r.success = true
        · by_cases hk : r.checksum_ok = true
          · simp only [hs, hk, Bool.not_true, Bool.false_eq_true, if_false, Option.some.injEq,
              Prod.mk.injEq, true_and] at h
            obtain ⟨_, rfl⟩ := h
            exact ⟨read_bitmap_page_checksum_ok env os _ _ _ r hr hs hk, rfl⟩
          · simp only [hs, hk, Bool.not_true, Bool.false_eq_true, if_false, Bool.not_false,
              if_true] at h
            exact ih _ _ _ _ h
        · simp only [Bool.not_eq_true] at hs
          simp only [hs, Bool.not_false, if_true, Option.some.injEq, Prod.mk.injEq,
            Bool.false_eq_true, false_and] at h

/-! ## The bits of a block and the blocks with a bad checksum -/

/-- C15, the code at a failing input.  The file `ib_modified_log_1_0.xdb` holds one block with
a good checksum.  The call of `log_online_bitmap_iterator_next` that loads the block reports
`bit_offset = 0`, the following calls report `bit_offset = 1, ..., 4056`, and the call after
them leaves the block, here ending the iteration: 4057 of the 32448 bits of the block are
reported, and the calls do not stay inside the block while `bit_offset + 1 < 32448`. -/
theorem C15_iterator_leaves_block_after_bit_4056 :
    ∃ it,
      log_online_bitmap_iterator_init env_example os_block_example iterator_example 0 10000
          = some (true, os_block_example, it)
      ∧ (∀ k, k ≤ 4056 → ∃ i',
          log_online_bitmap_iterator_nth env_example os_block_example it (k + 1)
            = some (true, os_block_example, i') ∧ i'.bit_offset = k)
      ∧ ∃ i', log_online_bitmap_iterator_nth env_example os_block_example it 4058
          = some (false, os_block_example, i') := by
  obtain ⟨hall, hend⟩ := bitmap_iterator_single_block block_example []
    { iterator_example with
      in_files := ⟨1, [⟨"ib_modified_log_1_0.xdb".toList, 0, 1⟩]⟩
      in_i := 0
      in_file := ⟨"./ib_modified_log_1_0.xdb".toList, "./ib_modified_log_1_0.xdb".toList,
        block_example.bytes.length, 0⟩
      bit_offset := MODIFIED_PAGE_BLOCK_BITMAP_LEN
      start_lsn := 0
      end_lsn := 0
      space_id := 0
      first_page_id := 0
      last_page_in_run := 1
      changed := 0 }
    (fill_checksum_ok _ _ _) rfl rfl rfl rfl
  refine ⟨_, bitmap_iterator_init_1_0 block_example.bytes [], ?_, hend⟩
  intro k hk
  obtain ⟨i', h1, h2, _⟩ := hall k hk
  exact ⟨i', h1, h2⟩

/-- C16: corrupt blocks are skipped during iteration.  Whenever a call of
`log_online_bitmap_iterator_next` loads a block and returns `true`, the stored checksum of the
block in the page buffer equals `log_online_calc_checksum` of it, and the fields `start_lsn`,
`end_lsn`, `space_id`, `first_page_id`, `last_page_in_run` and `changed` are those of this
block; a call that returns `true` without loading a block leaves the page buffer and these
fields but `changed`, a bit of the same block, as they are; and when the file holds, from the
offset of the iterator on, `j` blocks with a bad checksum and then a block with a good
checksum, the call that has to load a block passes the bad ones and loads the good one. -/
theorem C16_corrupt_blocks_are_skipped (env : Env) (os : os_state)
    (i : log_bitmap_iterator_t) :
    (∀ os' i', ¬ i.bit_offset < MODIFIED_PAGE_BLOCK_BITMAP_LEN →
      log_online_bitmap_iterator_next env os i = some (true, os', i') →
      mach_read_from_4 i'.page MODIFIED_PAGE_BLOCK_CHECKSUM = log_online_calc_checksum i'.page
        ∧ i' = log_bitmap_iterator_at i' i'.in_file i'.page 0)
    ∧ (∀ os' i', i.bit_offset < MODIFIED_PAGE_BLOCK_BITMAP_LEN →
      log_online_bitmap_iterator_next env os i = some (true, os', i') →
      i'.page = i.page ∧ i'.start_lsn = i.start_lsn ∧ i'.end_lsn = i.end_lsn
        ∧ i'.space_id = i.space_id ∧ i'.first_page_id = i.first_page_id
        ∧ i'.last_page_in_run = i.last_page_in_run
        ∧ i'.changed = IS_BIT_SET i.page MODIFIED_PAGE_BLOCK_BITMAP i'.bit_offset)
    ∧ (∀ (data : List byte) (j : Nat), ¬ i.bit_offset < MODIFIED_PAGE_BLOCK_BITMAP_LEN →
      os.faults = [] → os_file_data env os i.in_file.file = some data →
      i.in_file.size = data.length → data.length < 2 ^ 64 →
      i.in_file.offset % 4096 = 0 → i.in_file.offset + 4096 * (j + 1) ≤ data.length →
      (∀ m, m < j →
        mach_read_from_4 (Page.ofList ((data.drop (i.in_file.offset + 4096 * m)).take 4096))
            MODIFIED_PAGE_BLOCK_CHECKSUM
          ≠ log_online_calc_checksum
              (Page.ofList ((data.drop (i.in_file.offset + 4096 * m)).take 4096))) →
      mach_read_from_4 (Page.ofList ((data.drop (i.in_file.offset + 4096 * j)).take 4096))
          MODIFIED_PAGE_BLOCK_CHECKSUM
        = log_online_calc_checksum
            (Page.ofList ((data.drop (i.in_file.offset + 4096 * j)).take 4096)) →
      log_online_bitmap_iterator_next env os i
        = some (true, os, log_bitmap_iterator_at i
            { i.in_file with offset := i.in_file.offset + 4096 * (j + 1) }
            (Page.ofList ((data.drop (i.in_file.offset + 4096 * j)).take 4096)) 0)) := by
  refine ⟨?_, ?_, ?_⟩
  · intro os' i' hbit h
    unfold log_online_bitmap_iterator_next at h
    rw [if_neg hbit] at h
    exact bitmap_iterator_next_block_sound env _ os os' i i' h
  · intro os' i' hbit h
    unfold log_online_bitmap_iterator_next at h
    rw [if_pos hbit] at h
    simp only [Option.some.injEq, Prod.mk.injEq, true_and] at h
    obtain ⟨_, rfl⟩ := h
    exact ⟨rfl, rfl, rfl, rfl, rfl, rfl, rfl⟩
  · intro data j hbit hfault hdata hsize h64 halign hoff hbad hck
    unfold log_online_bitmap_iterator_next
    rw [if_neg hbit]
    exact bitmap_iterator_next_block_skip env os data hfault h64 j _ i
      (by
        unfold log_online_bitmap_iterator_next_fuel
        simp only [ MODIFIED_PAGE_BLOCK_SIZE]
        have : j + 1 ≤ i.in_file.size / 4096 := by omega
        omega)
      hdata hsize halign hoff hbad hck

theorem corrupt_block_example_bad :
    mach_read_from_4 corrupt_block_example MODIFIED_PAGE_BLOCK_CHECKSUM
      ≠ log_online_calc_checksum corrupt_block_example := by
  have hc : log_online_calc_checksum corrupt_block_example
      = log_online_calc_checksum block_example :=
    calc_checksum_congr _ _ (fun j hj =>
      get_mach_write_to_4_of_disjoint block_example 4092 _ j (Or.inl hj))
  have hr : mach_read_from_4 corrupt_block_example MODIFIED_PAGE_BLOCK_CHECKSUM
      = (log_online_calc_checksum block_example + 1) % 2 ^ 32 % 2 ^ 32 :=
    mach_read_from_4_write_same block_example 4092 _ (by norm_num)
  have hlt := calc_checksum_lt block_example
  rw [hc, hr]
  omega

/-- Witness of C16: the file holds a block with a bad checksum and then a block with a good
checksum; the first call of the iterator loads the second block. -/
theorem C16_corrupt_blocks_are_skipped_witness :
    ∃ it,
      log_online_bitmap_iterator_init env_example os_corrupt_example iterator_example 0 10000
          = some (true, os_corrupt_example, it)
      ∧ log_online_bitmap_iterator_next env_example os_corrupt_example it
          = some (true, os_corrupt_example,
              log_bitmap_iterator_at it { it.in_file with offset := 8192 } block_example 0) := by
  have hc : corrupt_block_example.bytes.length = 4096 := corrupt_block_example.size_eq
  have hb : block_example.bytes.length = 4096 := block_example.size_eq
  have hlen : (corrupt_block_example.bytes ++ block_example.bytes).length = 8192 := by
    rw [List.length_append, hc, hb]
  have h0 : Page.ofList (((corrupt_block_example.bytes ++ block_example.bytes).drop 0).take
      4096) = corrupt_block_example := by
    rw [List.drop_zero, ← hc, List.take_left, Page.ofList_bytes]
  have h1 : Page.ofList (((corrupt_block_example.bytes ++ block_example.bytes).drop 4096).take
      4096) = block_example := by
    rw [← hc, List.drop_left, hc, ← hb, List.take_length, Page.ofList_bytes]
  refine ⟨_, bitmap_iterator_init_1_0 _ [], ?_⟩
  have h := (C16_corrupt_blocks_are_skipped env_example os_corrupt_example
    { iterator_example with
      in_files := ⟨1, [⟨"ib_modified_log_1_0.xdb".toList, 0, 1⟩]⟩
      in_i := 0
      in_file := ⟨"./ib_modified_log_1_0.xdb".toList, "./ib_modified_log_1_0.xdb".toList,
        (corrupt_block_example.bytes ++ block_example.bytes).length, 0⟩
      bit_offset := MODIFIED_PAGE_BLOCK_BITMAP_LEN
      start_lsn := 0
      end_lsn := 0
      space_id := 0
      first_page_id := 0
      last_page_in_run := 1
      changed := 0 }).2.2 (corrupt_block_example.bytes ++ block_example.bytes) 1
    (by decide) rfl
    (os_file_data_single env_example _ _ _ _ _ _ entry_name_dot_lit_1_0) rfl
    (by rw [hlen]; norm_num) rfl (by rw [hlen])
    (by
      intro m hm
      have hm0 : m = 0 := by omega
      subst hm0
      show mach_read_from_4 (Page.ofList
          (((corrupt_block_example.bytes ++ block_example.bytes).drop 0).take 4096)) 4092
        ≠ log_online_calc_checksum (Page.ofList
          (((corrupt_block_example.bytes ++ block_example.bytes).drop 0).take 4096))
      rw [h0]
      exact corrupt_block_example_bad)
    (by
      show mach_read_from_4 (Page.ofList
          (((corrupt_block_example.bytes ++ block_example.bytes).drop 4096).take 4096)) 4092
        = log_online_calc_checksum (Page.ofList
          (((corrupt_block_example.bytes ++ block_example.bytes).drop 4096).take 4096))
      rw [h1]
      exact fill_checksum_ok _ _ _)
  rw [h]
  rw [show Page.ofList (((corrupt_block_example.bytes ++ block_example.bytes).drop
      (0 + 4096 * 1)).take 4096) = block_example from h1]

/-! ## The end of a file during the iteration -/

theorem os_file_data_cons_eq (env : Env) (e : os_dir_entry) (rest : List os_dir_entry)
    (path : List Char) (fl : List Bool) (w : List os_write_call)
    (h : e.name = os_entry_name env path) :
    os_file_data env ⟨e :: rest, fl, w⟩ path = some e.data := by
  unfold os_file_data
  simp [List.find?, h]

theorem os_file_data_cons_ne (env : Env) (e : os_dir_entry) (rest : List os_dir_entry)
    (path : List Char) (fl : List Bool) (w : List os_write_call)
    (h : e.name ≠ os_entry_name env path) :
    os_file_data env ⟨e :: rest, fl, w⟩ path = os_file_data env ⟨rest, fl, w⟩ path := by
  unfold os_file_data
  simp [List.find?, h]

/-- The calls of `log_online_bitmap_iterator_next` that follow the load of a block report the
bits 1 to 4056 of the block. -/
theorem bitmap_iterator_block_run (env : Env) (os : os_state) (it : log_bitmap_iterator_t)
    (f : log_online_bitmap_file_t) (blk : Page)
    (hfirst : log_online_bitmap_iterator_next env os it
      = some (true, os, log_bitmap_iterator_at it f blk 0)) :
    ∀ k, k ≤ 4056 →
      log_online_bitmap_iterator_nth env os it (k + 1)
        = some (true, os, log_bitmap_iterator_at it f blk k) := by
  intro k
  induction k with
  | zero =>
    intro _
    exact (bitmap_iterator_nth_succ env os os it it 0 rfl).trans hfirst
  | succ k ih =>
    intro hk
    exact (bitmap_iterator_nth_succ env os os it _ (k + 1) (ih (by omega))).trans
      (bitmap_iterator_next_of_lt env os (log_bitmap_iterator_at it f blk k)
        (show k < 4056 by omega))

/-- One round of the loops of `log_online_bitmap_iterator_next` when the current file has no
full page left and the next file of the range can be opened: the iterator moves to this file,
whatever `last_page_in_run` is. -/
theorem bitmap_iterator_next_block_advance (env : Env) (os : os_state)
    (i : log_bitmap_iterator_t) (fuel : Nat) (file : log_online_bitmap_file_range_entry)
    (data : List byte)
    (hoff : i.in_file.size < 4096 ∨ i.in_file.offset > i.in_file.size - 4096)
    (hnext : (i.in_i + 1) % 2 ^ 64 ≠ i.in_files.count)
    (hfile : i.in_files.files[(i.in_i + 1) % 2 ^ 64]? = some file)
    (hseq : file.seq_num ≠ 0) (hfault : os.faults = [])
    (hdata : os_file_data env os ((env.srv_data_home ++ file.name).take (env.FN_REFLEN - 1))
      = some data) :
    log_online_bitmap_iterator_next_block env (fuel + 1) os i
      = log_online_bitmap_iterator_next_block env fuel os
          { i with
            in_i := (i.in_i + 1) % 2 ^ 64
            in_file := ⟨(env.srv_data_home ++ file.name).take (env.FN_REFLEN - 1),
              (env.srv_data_home ++ file.name).take (env.FN_REFLEN - 1), data.length, 0⟩ } := by
  rw [log_online_bitmap_iterator_next_block, if_pos hoff]
  simp only []
  rw [if_neg hnext, hfile]
  simp only []
  rw [if_neg hseq, open_bitmap_file_read_only_ok env os file.name i.in_file data hfault hdata]
  simp only [Bool.not_true, Bool.false_eq_true, if_false]

theorem is_bitmap_file_2_9500 (n : Nat) :
    log_online_is_bitmap_file
      ⟨"ib_modified_log_2_9500.xdb".toList, os_file_type_t.OS_FILE_TYPE_FILE, n⟩
      = some (2, 9500) := by
  rfl

theorem name_take_2_9500 : ("ib_modified_log_2_9500.xdb".toList).take (env_example.FN_REFLEN - 1)
    = "ib_modified_log_2_9500.xdb".toList := by decide

theorem path_dot_2_9500 :
    (env_example.srv_data_home ++ "ib_modified_log_2_9500.xdb".toList).take
        (env_example.FN_REFLEN - 1) = "./ib_modified_log_2_9500.xdb".toList := by decide

theorem entry_name_dot_lit_2_9500 :
    os_entry_name env_example "./ib_modified_log_2_9500.xdb".toList
      = "ib_modified_log_2_9500.xdb".toList := by decide

theorem os_incomplete_run_example_data_1 :
    os_file_data env_example os_incomplete_run_example "./ib_modified_log_1_0.xdb".toList
      = some interrupted_block_example.bytes :=
  os_file_data_cons_eq env_example
    ⟨"ib_modified_log_1_0.xdb".toList, os_file_type_t.OS_FILE_TYPE_FILE,
      interrupted_block_example.bytes⟩ _ _ _ _ entry_name_dot_lit_1_0.symm

theorem os_incomplete_run_example_data_2 :
    os_file_data env_example os_incomplete_run_example "./ib_modified_log_2_9500.xdb".toList
      = some block_example.bytes := by
  have hne : "ib_modified_log_1_0.xdb".toList
      ≠ os_entry_name env_example "./ib_modified_log_2_9500.xdb".toList := by decide
  exact (os_file_data_cons_ne env_example
    ⟨"ib_modified_log_1_0.xdb".toList, os_file_type_t.OS_FILE_TYPE_FILE,
      interrupted_block_example.bytes⟩ _ "./ib_modified_log_2_9500.xdb".toList [] [] hne).trans
    (os_file_data_single env_example _ _ _ _ _ _ entry_name_dot_lit_2_9500)

/-- The range of the LSNs 0 to 10000 in the data directory of the two files. -/
theorem setup_bitmap_file_range_incomplete_run_example :
    log_online_setup_bitmap_file_range env_example os_incomplete_run_example 0 10000
      = some (true, os_incomplete_run_example,
          ⟨2, [⟨"ib_modified_log_1_0.xdb".toList, 0, 1⟩,
            ⟨"ib_modified_log_2_9500.xdb".toList, 9500, 2⟩]⟩) := by
  have hr : os_file_readdir os_incomplete_run_example
      = [⟨"ib_modified_log_1_0.xdb".toList, os_file_type_t.OS_FILE_TYPE_FILE,
          interrupted_block_example.bytes.length⟩,
        ⟨"ib_modified_log_2_9500.xdb".toList, os_file_type_t.OS_FILE_TYPE_FILE,
          block_example.bytes.length⟩] := rfl
  refine setup_bitmap_file_range_ok env_example os_incomplete_run_example 0 10000 ⟨2, 1, 0⟩ _
    rfl ?_ (by decide) (by decide) ?_
  · rw [hr, List.foldl_cons, List.foldl_cons, List.foldl_nil,
      setup_pass1_step 0 10000 1 0 _ _ (is_bitmap_file_1_0 _) (by decide)
        (Or.inl (le_refl _)),
      setup_pass1_step 0 10000 2 9500 _ _ (is_bitmap_file_2_9500 _) (by decide)
        (Or.inl (by decide))]
    simp only []
    norm_num
  · rw [hr, List.foldl_cons, List.foldl_cons, List.foldl_nil]
    simp only []
    rw [show List.replicate 2 (⟨[], 0, 0⟩ : log_online_bitmap_file_range_entry)
        = [⟨[], 0, 0⟩, ⟨[], 0, 0⟩] from rfl,
      setup_pass2_step env_example 10000 1 0 1 0 _ ⟨[], 0, 0⟩ _ (is_bitmap_file_1_0 _)
        (by decide) (by norm_num) (by decide)]
    simp only []
    rw [show (1 + 2 ^ 64 - 1) % 2 ^ 64 = 0 by norm_num, name_take_1_0]
    simp only [List.set_cons_zero]
    rw [setup_pass2_step env_example 10000 1 0 2 9500 _ ⟨[], 0, 0⟩ _ (is_bitmap_file_2_9500 _)
        (by decide) (by norm_num) (by decide)]
    simp only []
    rw [show (2 + 2 ^ 64 - 1) % 2 ^ 64 = 1 by norm_num, name_take_2_9500]
    rfl

theorem bitmap_iterator_next_fuel_two (os : os_state) (i : log_bitmap_iterator_t) :
    ∃ k, log_online_bitmap_iterator_next_fuel os i = k + 1 + 1 := by
  unfold log_online_bitmap_iterator_next_fuel
  exact ⟨i.in_file.size / MODIFIED_PAGE_BLOCK_SIZE
    + (i.in_files.count + 1)
      * ((os.files.map (fun e => e.data.length / MODIFIED_PAGE_BLOCK_SIZE + 1)).sum + 1),
    by omega⟩

theorem block_of_bytes (blk : Page) :
    Page.ofList ((blk.bytes.drop 0).take 4096) = blk := by
  have h : blk.bytes.length = 4096 := blk.size_eq
  rw [List.drop_zero, ← h, List.take_length, Page.ofList_bytes]

/-- The call that loads the block at the offset of the current file. -/
theorem bitmap_iterator_next_load_at (env : Env) (os : os_state) (i : log_bitmap_iterator_t)
    (data : List byte) (blk : Page) (hbit : ¬ i.bit_offset < 4056) (hfault : os.faults = [])
    (hdata : os_file_data env os i.in_file.file = some data)
    (hsize : i.in_file.size = data.length) (h64 : i.in_file.size < 2 ^ 64)
    (hoff : i.in_file.offset + 4096 ≤ i.in_file.size) (halign : i.in_file.offset % 4096 = 0)
    (hblk : Page.ofList ((data.drop i.in_file.offset).take 4096) = blk)
    (hck : mach_read_from_4 blk 4092 = log_online_calc_checksum blk) :
    log_online_bitmap_iterator_next env os i
      = some (true, os, log_bitmap_iterator_at i
          { i.in_file with offset := i.in_file.offset + 4096 } blk 0) := by
  unfold log_online_bitmap_iterator_next
  rw [if_neg (show ¬ i.bit_offset < MODIFIED_PAGE_BLOCK_BITMAP_LEN from hbit)]
  obtain ⟨k, hk⟩ := bitmap_iterator_next_fuel_pos os i
  rw [hk, bitmap_iterator_next_block_good env os i data k hfault hdata hsize h64 hoff halign
    (by rw [hblk]; exact hck), hblk]

/-- The call that finds the current file exhausted, opens the next file of the range and
loads its first block. -/
theorem bitmap_iterator_next_to_next_file (env : Env) (os : os_state)
    (i : log_bitmap_iterator_t) (file : log_online_bitmap_file_range_entry)
    (data : List byte) (blk : Page) (hbit : ¬ i.bit_offset < 4056)
    (hoff : i.in_file.size < 4096 ∨ i.in_file.offset > i.in_file.size - 4096)
    (hnext : (i.in_i + 1) % 2 ^ 64 ≠ i.in_files.count)
    (hfile : i.in_files.files[(i.in_i + 1) % 2 ^ 64]? = some file)
    (hseq : file.seq_num ≠ 0) (hfault : os.faults = [])
    (hdata : os_file_data env os ((env.srv_data_home ++ file.name).take (env.FN_REFLEN - 1))
      = some data)
    (h64 : data.length < 2 ^ 64) (hlen : 4096 ≤ data.length)
    (hblk : Page.ofList ((data.drop 0).take 4096) = blk)
    (hck : mach_read_from_4 blk 4092 = log_online_calc_checksum blk) :
    log_online_bitmap_iterator_next env os i
      = some (true, os, log_bitmap_iterator_at { i with in_i := (i.in_i + 1) % 2 ^ 64 }
          ⟨(env.srv_data_home ++ file.name).take (env.FN_REFLEN - 1),
            (env.srv_data_home ++ file.name).take (env.FN_REFLEN - 1), data.length, 4096⟩
          blk 0) := by
  unfold log_online_bitmap_iterator_next
  rw [if_neg (show ¬ i.bit_offset < MODIFIED_PAGE_BLOCK_BITMAP_LEN from hbit)]
  obtain ⟨k, hk⟩ := bitmap_iterator_next_fuel_two os i
  rw [hk, bitmap_iterator_next_block_advance env os i (k + 1) file data hoff hnext hfile hseq
    hfault hdata,
    bitmap_iterator_next_block_good env os _ data k hfault hdata (by rfl)
      (by simp only []; exact h64) (by simp only []; omega) (by rfl)
      (by simp only []; rw [hblk]; exact hck)]
  simp only []
  rw [hblk]
  rfl

theorem diagnose_bitmap_eof_false (bitmap_file : log_online_bitmap_file_t)
    (last_page_in_run : Nat)
    (h : bitmap_file.size < 4096 ∨ bitmap_file.offset > bitmap_file.size - 4096)
    (hl : last_page_in_run = 0) :
    log_online_diagnose_bitmap_eof bitmap_file last_page_in_run = false := by
  unfold log_online_diagnose_bitmap_eof
  rw [if_pos h, if_pos hl]

/-- C17, the code at a failing input.  The range holds two files; the first file ends with a
block that has a good checksum and `is_last_block = 0`.  After the 4057 calls that report the
bits of this block, the first file is exhausted and `last_page_in_run` is 0, so that
`log_online_diagnose_bitmap_eof` returns `FALSE`; the next call of
`log_online_bitmap_iterator_next` nevertheless returns `TRUE`: it has opened the second file
and loaded its block. -/
theorem C17_iterator_goes_on_after_incomplete_run :
    ∃ it i1 i2,
      log_online_bitmap_iterator_init env_example os_incomplete_run_example iterator_example
          0 10000 = some (true, os_incomplete_run_example, it)
      ∧ log_online_bitmap_iterator_nth env_example os_incomplete_run_example it 4057
          = some (true, os_incomplete_run_example, i1)
      ∧ i1.in_i = 0 ∧ i1.in_files.count = 2
      ∧ i1.in_file.size = 4096 ∧ i1.in_file.offset = 4096
      ∧ i1.last_page_in_run = 0
      ∧ log_online_diagnose_bitmap_eof i1.in_file i1.last_page_in_run = false
      ∧ log_online_bitmap_iterator_next env_example os_incomplete_run_example i1
          = some (true, os_incomplete_run_example, i2)
      ∧ i2.in_i = 1 ∧ i2.page = block_example := by
  have hlen1 : interrupted_block_example.bytes.length = 4096 :=
    interrupted_block_example.size_eq
  have hlen2 : block_example.bytes.length = 4096 := block_example.size_eq
  have hopen := open_bitmap_file_read_only_ok env_example os_incomplete_run_example
    "ib_modified_log_1_0.xdb".toList iterator_example.in_file interrupted_block_example.bytes
    rfl (by rw [path_dot_1_0]; exact os_incomplete_run_example_data_1)
  rw [path_dot_1_0] at hopen
  have hinit := bitmap_iterator_init_ok env_example os_incomplete_run_example iterator_example
    0 10000 _ ⟨"ib_modified_log_1_0.xdb".toList, 0, 1⟩ _
    setup_bitmap_file_range_incomplete_run_example (by decide) rfl hopen
  have hlast : mach_read_from_4 interrupted_block_example MODIFIED_PAGE_IS_LAST_BLOCK = 0 := by
    have h := fill_is_last_block { bmp_sys_example with start_lsn := 9000, end_lsn := 9500 }
      (page_or_bit (write_bmp_key Page.zero 7 0) 0 5) false
    rw [mach_read_from_4_page_or_bit _ _ _ _ (by norm_num), is_last_block_of_new] at h
    exact h
  obtain ⟨it, hit, hload⟩ : ∃ it,
      log_online_bitmap_iterator_init env_example os_incomplete_run_example iterator_example
          0 10000 = some (true, os_incomplete_run_example, it)
      ∧ log_online_bitmap_iterator_next env_example os_incomplete_run_example it
        = some (true, os_incomplete_run_example, log_bitmap_iterator_at it
            { it.in_file with offset := it.in_file.offset + 4096 }
            interrupted_block_example 0) :=
    ⟨_, hinit, bitmap_iterator_next_load_at env_example os_incomplete_run_example _
      interrupted_block_example.bytes interrupted_block_example (by decide) (by rfl)
      os_incomplete_run_example_data_1 (by rfl) (by simp only [hlen1]; norm_num)
      (by simp only [hlen1]; norm_num) (by rfl) (block_of_bytes _) (fill_checksum_ok _ _ _)⟩
  have hrun := bitmap_iterator_block_run env_example os_incomplete_run_example _ _ _ hload
    4056 (le_refl _)
  have hi : it = { iterator_example with
        in_files := ⟨2, [⟨"ib_modified_log_1_0.xdb".toList, 0, 1⟩,
          ⟨"ib_modified_log_2_9500.xdb".toList, 9500, 2⟩]⟩
        in_i := 0
        in_file := ⟨"./ib_modified_log_1_0.xdb".toList, "./ib_modified_log_1_0.xdb".toList,
          interrupted_block_example.bytes.length, 0⟩
        bit_offset := MODIFIED_PAGE_BLOCK_BITMAP_LEN
        start_lsn := 0
        end_lsn := 0
        space_id := 0
        first_page_id := 0
        last_page_in_run := 1
        changed := 0 } := by
    have h := hinit.symm.trans hit
    simp only [Option.some.injEq, Prod.mk.injEq, true_and] at h
    exact h.symm
  have hnext := bitmap_iterator_next_to_next_file env_example os_incomplete_run_example
    (log_bitmap_iterator_at it { it.in_file with offset := it.in_file.offset + 4096 }
      interrupted_block_example 4056)
    ⟨"ib_modified_log_2_9500.xdb".toList, 9500, 2⟩ block_example.bytes block_example
    (by simp only [log_bitmap_iterator_at]; decide)
    (Or.inr (by rw [hi]; simp only [log_bitmap_iterator_at, hlen1]; norm_num))
    (by rw [hi]; simp only [log_bitmap_iterator_at]; norm_num)
    (by rw [hi]; rfl) (by decide) (by rfl)
    (by rw [path_dot_2_9500]; exact os_incomplete_run_example_data_2)
    (by rw [hlen2]; norm_num) (by rw [hlen2]) (block_of_bytes _) (fill_checksum_ok _ _ _)
  refine ⟨it, _, _, hit, hrun, ?_, ?_, ?_, ?_, hlast, ?_, hnext, ?_, rfl⟩
  · rw [hi]; rfl
  · rw [hi]; rfl
  · rw [hi]; exact hlen1
  · rw [hi]; rfl
  · exact diagnose_bitmap_eof_false _ _
      (Or.inr (by
        have hsz : it.in_file.size = interrupted_block_example.bytes.length := by rw [hi]
        have hofs : it.in_file.offset = 0 := by rw [hi]
        show it.in_file.offset + 4096 > it.in_file.size - 4096
        rw [hofs, hsz, hlen1]
        norm_num))
      hlast
  · rw [hi]; rfl

/-! ## Rotation of the output file -/

theorem write_bitmap_page_out (env : Env) (os : os_state) (s : log_bitmap_struct)
    (block : Page) :
    (log_online_write_bitmap_page env os s block).2.out.name = s.out.name
      ∧ (log_online_write_bitmap_page env os s block).2.out.file = s.out.file
      ∧ (log_online_write_bitmap_page env os s block).2.out_seq_num = s.out_seq_num := by
  unfold log_online_write_bitmap_page
  rcases os_file_write env os s.out.file block.bytes (s.out.offset &&& 0xFFFFFFFF)
    ((s.out.offset <<< 32) % 2 ^ 64) with ⟨ok, os1⟩
  simp only []
  cases ok
  · simp
  · simp only [Bool.not_true, Bool.false_eq_true, if_false]
    rcases os_file_flush os1 with ⟨ok2, os2⟩
    cases ok2 <;> simp

theorem write_bitmap_loop_out (env : Env) (nodes : List Page) :
    ∀ (os : os_state) (s : log_bitmap_struct),
      (log_online_write_bitmap_loop env os s nodes).2.out.name = s.out.name
        ∧ (log_online_write_bitmap_loop env os s nodes).2.out.file = s.out.file
        ∧ (log_online_write_bitmap_loop env os s nodes).2.out_seq_num = s.out_seq_num := by
  induction nodes with
  | nil => intro os s; exact ⟨rfl, rfl, rfl⟩
  | cons n rest ih =>
    intro os s
    simp only [log_online_write_bitmap_loop]
    obtain ⟨h1, h2, h3⟩ := write_bitmap_page_out env os s
      (log_online_write_bitmap_fill s n rest.isEmpty)
    obtain ⟨a, b, c⟩ := ih
      (log_online_write_bitmap_page env os s (log_online_write_bitmap_fill s n rest.isEmpty)).1
      { (log_online_write_bitmap_page env os s
          (log_online_write_bitmap_fill s n rest.isEmpty)).2 with
        page_free_list := log_online_write_bitmap_fill s n rest.isEmpty ::
          (log_online_write_bitmap_page env os s
            (log_online_write_bitmap_fill s n rest.isEmpty)).2.page_free_list }
    exact ⟨a.trans h1, b.trans h2, c.trans h3⟩

/-- What a rotation that returns does to the subsystem. -/
theorem rotate_bitmap_file_out (env : Env) (os os' : os_state) (s s' : log_bitmap_struct)
    (lsn : Nat) (h : log_online_rotate_bitmap_file env os s lsn = some (os', s')) :
    s'.out_seq_num = (s.out_seq_num + 1) % 2 ^ 64
      ∧ s'.out.name = bmp_file_name env ((s.out_seq_num + 1) % 2 ^ 64) lsn
      ∧ s'.out.file = s'.out.name ∧ s'.out.offset = 0 := by
  unfold log_online_rotate_bitmap_file log_online_start_bitmap_file
    log_online_make_bitmap_name at h
  simp only [] at h
  split_ifs at h
  simp only [Option.some.injEq, Prod.mk.injEq] at h
  obtain ⟨_, rfl⟩ := h
  exact ⟨rfl, rfl, rfl, rfl⟩

/-- The output file after `log_online_write_bitmap`: the same file if the offset was below the
maximum size on entry, and the file of the next sequence number and of `start_lsn`
otherwise. -/
theorem write_bitmap_out (env : Env) (os os' : os_state) (s s' : log_bitmap_struct)
    (h : log_online_write_bitmap env os s = some (os', s')) :
    (s.out.offset < env.srv_max_bitmap_file_size ∧ s'.out_seq_num = s.out_seq_num
        ∧ s'.out.name = s.out.name)
      ∨ (s.out.offset ≥ env.srv_max_bitmap_file_size
        ∧ s'.out_seq_num = (s.out_seq_num + 1) % 2 ^ 64
        ∧ s'.out.name = bmp_file_name env ((s.out_seq_num + 1) % 2 ^ 64) s.start_lsn) := by
  unfold log_online_write_bitmap at h
  simp only [] at h
  by_cases hr : s.out.offset ≥ env.srv_max_bitmap_file_size
  · right
    rw [if_pos hr] at h
    split at h
    · cases h
    · rename_i os1 s1 hrot
      simp only [Option.some.injEq, Prod.mk.injEq] at h
      obtain ⟨_, rfl⟩ := h
      obtain ⟨a, _, b⟩ := write_bitmap_loop_out env s1.modified_pages os1 s1
      obtain ⟨c, d, _⟩ := rotate_bitmap_file_out env os os1 s s1 _ hrot
      exact ⟨hr, b.trans c, a.trans d⟩
  · left
    rw [if_neg hr] at h
    simp only [Option.some.injEq, Prod.mk.injEq] at h
    obtain ⟨_, rfl⟩ := h
    obtain ⟨a, b, c⟩ := write_bitmap_loop_out env s.modified_pages os s
    exact ⟨by omega, c, a⟩

/-- Along a sequence of flushes whose end LSNs do not decrease, the output file is named by
a sequence number and a start LSN that do not decrease. -/
theorem flushes_names (env : Env) (flushes : List (List Page × Nat)) :
    ∀ (os os' : os_state) (s s' : log_bitmap_struct) (used : List (Nat × List Char))
      (lsn : Nat),
      log_online_flushes env os s flushes = some (os', s', used) →
      s.out.name = bmp_file_name env s.out_seq_num lsn → lsn ≤ s.start_lsn →
      List.Chain (fun a b => a ≤ b) s.start_lsn (flushes.map Prod.snd) →
      s.out_seq_num + flushes.length < 2 ^ 64 →
      ∃ pairs : List (Nat × Nat),
        used = pairs.map (fun p => (p.1, bmp_file_name env p.1 p.2))
          ∧ List.Chain (fun a b => a.1 ≤ b.1 ∧ a.2 ≤ b.2) (s.out_seq_num, lsn) pairs := by
  induction flushes with
  | nil =>
    intro os os' s s' used lsn h _ _ _ _
    simp only [log_online_flushes, Option.some.injEq, Prod.mk.injEq] at h
    obtain ⟨_, _, rfl⟩ := h
    exact ⟨[], rfl, List.Chain.nil⟩
  | cons f rest ih =>
    intro os os' s s' used lsn h hname hlsn hchain hwrap
    obtain ⟨pages, e⟩ := f
    simp only [List.map_cons, List.chain_cons] at hchain
    simp only [List.length_cons] at hwrap
    simp only [log_online_flushes, log_online_flush] at h
    cases hw : log_online_write_bitmap env os { s with modified_pages := pages, end_lsn := e }
      with
    | none => rw [hw] at h; cases h
    | some r =>
      obtain ⟨os1, sw⟩ := r
      rw [hw] at h
      simp only [] at h
      cases hr : log_online_flushes env os1 { sw with start_lsn := sw.end_lsn } rest with
      | none => rw [hr] at h; cases h
      | some r2 =>
        obtain ⟨os2, s2, used2⟩ := r2
        rw [hr] at h
        simp only [Option.some.injEq, Prod.mk.injEq] at h
        obtain ⟨_, _, rfl⟩ := h
        obtain ⟨_, hend⟩ := write_bitmap_lsn env os os1 _ sw hw
        have hend' : sw.end_lsn = e := hend
        rcases write_bitmap_out env os os1 _ sw hw with ⟨_, hq, hn⟩ | ⟨_, hq, hn⟩
        · have hq' : sw.out_seq_num = s.out_seq_num := hq
          have hn' : sw.out.name = s.out.name := hn
          obtain ⟨pairs, hp, hc⟩ := ih os1 os2 { sw with start_lsn := sw.end_lsn } s2 used2 lsn
            hr (by simp only []; rw [hn', hq', hname])
            (by simp only []; rw [hend']; omega)
            (by simp only []; rw [hend']; exact hchain.2)
            (by simp only []; rw [hq']; omega)
          refine ⟨(s.out_seq_num, lsn) :: pairs, ?_, ?_⟩
          · simp only [List.map_cons, hp, hq', hn', hname]
          · simp only [hq'] at hc
            exact List.Chain.cons ⟨le_refl _, le_refl _⟩ hc
        · have hq' : sw.out_seq_num = s.out_seq_num + 1 := by
            rw [hq]
            exact Nat.mod_eq_of_lt (by simp only []; omega)
          have hn' : sw.out.name = bmp_file_name env (s.out_seq_num + 1) s.start_lsn := by
            rw [hn]
            simp only []
            rw [Nat.mod_eq_of_lt (by omega)]
          obtain ⟨pairs, hp, hc⟩ := ih os1 os2 { sw with start_lsn := sw.end_lsn } s2 used2
            s.start_lsn hr (by simp only []; rw [hn', hq'])
            (by simp only []; rw [hend']; exact hchain.1)
            (by simp only []; rw [hend']; exact hchain.2)
            (by simp only []; rw [hq']; omega)
          refine ⟨(s.out_seq_num + 1, s.start_lsn) :: pairs, ?_, ?_⟩
          · simp only [List.map_cons, hp, hq', hn']
          · simp only [hq'] at hc
            exact List.Chain.cons ⟨Nat.le_succ _, hlsn⟩ hc

/-! ## Flushes of one block -/

theorem os_file_set_data_names (env : Env) (os : os_state) (path : List Char)
    (data : List byte) :
    (os_file_set_data env os path data).files.map (fun e => e.name)
      = os.files.map (fun e => e.name) := by
  unfold os_file_set_data
  simp only [List.map_map]
  apply List.map_congr_left
  intro e _
  simp only [Function.comp]
  split_ifs <;> rfl

theorem os_file_data_none_of_names (env : Env) (os : os_state) (path : List Char)
    (h : ∀ n, n ∈ os.files.map (fun e => e.name) → n ≠ os_entry_name env path) :
    os_file_data env os path = none := by
  unfold os_file_data
  rw [Option.map_eq_none', List.find?_eq_none]
  intro e he
  simp only [decide_eq_true_eq]
  exact h e.name (List.mem_map_of_mem _ he)

theorem os_file_data_append_new (env : Env) (os : os_state) (path : List Char)
    (data : List byte) (h : os_file_data env os path = none) :
    os_file_data env
        { os with
          files := os.files
            ++ [⟨os_entry_name env path, os_file_type_t.OS_FILE_TYPE_FILE, data⟩] } path
      = some data := by
  unfold os_file_data at h ⊢
  rw [Option.map_eq_none'] at h
  simp only [List.find?_append, h, Option.none_or, List.find?_cons, decide_True,
    Option.map_some']

/-- A flush of one block into the current file, below the maximum size, when no call of the
operating system fails. -/
theorem flush_single_ok (env : Env) (os : os_state) (s : log_bitmap_struct) (node : Page)
    (e : Nat) (data : List byte) (hoff : s.out.offset < env.srv_max_bitmap_file_size)
    (hfault : os.faults = []) (hdata : os_file_data env os s.out.file = some data) :
    ∃ os1 s1, log_online_flush env os s [node] e = some (os1, s1)
      ∧ os1.faults = []
      ∧ os1.files.map (fun e => e.name) = os.files.map (fun e => e.name)
      ∧ (os_file_data env os1 s.out.file).isSome
      ∧ s1.out = { s.out with offset := (s.out.offset + 4096) % 2 ^ 64 }
      ∧ s1.out_seq_num = s.out_seq_num ∧ s1.start_lsn = e
      ∧ (os1.writes.drop os.writes.length).map (fun c => c.success) = [true] := by
  have hw := write_bitmap_single_ok env os { s with modified_pages := [node], end_lsn := e }
    node data hoff rfl hfault hdata
  unfold log_online_flush
  rw [hw]
  refine ⟨_, _, rfl, hfault, os_file_set_data_names env os _ _, ?_, rfl, rfl, rfl, ?_⟩
  · show (os_file_data env (os_file_set_data env os s.out.file
        (os_write_at data (((s.out.offset &&& 0xFFFFFFFF)
          + (s.out.offset <<< 32) % 2 ^ 64 * 2 ^ 32) % 2 ^ 64)
          (log_online_write_bitmap_fill
            { s with modified_pages := [node], end_lsn := e } node true).bytes))
        s.out.file).isSome
    rw [os_file_data_set_data env os s.out.file _ (by rw [hdata]; rfl)]
    rfl
  · simp only [List.drop_left, List.map_cons, List.map_nil]

/-- A flush of one block when the offset has reached the maximum size: a new file is created
under the next sequence number and `start_lsn`, and the block is written at its start. -/
theorem flush_single_rotate (env : Env) (os : os_state) (s : log_bitmap_struct) (node : Page)
    (e : Nat) (hoff : s.out.offset ≥ env.srv_max_bitmap_file_size) (hfault : os.faults = [])
    (hnew : os_file_data env os (bmp_file_name env ((s.out_seq_num + 1) % 2 ^ 64) s.start_lsn)
      = none) :
    ∃ os1 s1, log_online_flush env os s [node] e = some (os1, s1)
      ∧ os1.faults = []
      ∧ os1.files.map (fun e => e.name) = os.files.map (fun e => e.name)
        ++ [os_entry_name env (bmp_file_name env ((s.out_seq_num + 1) % 2 ^ 64) s.start_lsn)]
      ∧ s1.out = ⟨bmp_file_name env ((s.out_seq_num + 1) % 2 ^ 64) s.start_lsn,
          bmp_file_name env ((s.out_seq_num + 1) % 2 ^ 64) s.start_lsn, s.out.size,
          (0 + 4096) % 2 ^ 64⟩
      ∧ s1.out_seq_num = (s.out_seq_num + 1) % 2 ^ 64 ∧ s1.start_lsn = e
      ∧ (os1.writes.drop os.writes.length).map (fun c => c.success) = [true] := by
  have hrot := rotate_bitmap_file_new env os
    { s with modified_pages := [node], end_lsn := e } s.start_lsn hfault hnew
  have hpage := write_bitmap_page_ok env
    { os with
      files := os.files
        ++ [⟨os_entry_name env (bmp_file_name env ((s.out_seq_num + 1) % 2 ^ 64) s.start_lsn),
          os_file_type_t.OS_FILE_TYPE_FILE, []⟩] }
    { s with
      modified_pages := [node]
      end_lsn := e
      out_seq_num := (s.out_seq_num + 1) % 2 ^ 64
      out := ⟨bmp_file_name env ((s.out_seq_num + 1) % 2 ^ 64) s.start_lsn,
        bmp_file_name env ((s.out_seq_num + 1) % 2 ^ 64) s.start_lsn, s.out.size, 0⟩ }
    (log_online_write_bitmap_fill
      { s with
        modified_pages := [node]
        end_lsn := e
        out_seq_num := (s.out_seq_num + 1) % 2 ^ 64
        out := ⟨bmp_file_name env ((s.out_seq_num + 1) % 2 ^ 64) s.start_lsn,
          bmp_file_name env ((s.out_seq_num + 1) % 2 ^ 64) s.start_lsn, s.out.size, 0⟩ }
      node true) [] hfault (os_file_data_append_new env os _ [] hnew)
  unfold log_online_flush log_online_write_bitmap
  simp only []
  rw [if_pos hoff, hrot]
  simp only [log_online_write_bitmap_loop, List.isEmpty_nil]
  rw [hpage]
  refine ⟨_, _, rfl, hfault, ?_, rfl, rfl, rfl, ?_⟩
  · simp only []
    rw [os_file_set_data_names]
    simp only [List.map_append, List.map_cons, List.map_nil]
  · simp only [List.drop_left, List.map_cons, List.map_nil]

theorem os_file_data_none_congr (env : Env) (os os1 : os_state) (path : List Char)
    (hn : os1.files.map (fun e => e.name) = os.files.map (fun e => e.name))
    (h : os_file_data env os path = none) : os_file_data env os1 path = none := by
  apply os_file_data_none_of_names
  intro n hmem heq
  rw [hn, List.mem_map] at hmem
  obtain ⟨e, he, rfl⟩ := hmem
  unfold os_file_data at h
  rw [Option.map_eq_none', List.find?_eq_none] at h
  exact h e he (by simp only [decide_eq_true_eq]; exact heq)

/-- Three flushes of one block each, from offset 0 of a file and with a maximum size of 8192,
when no call of the operating system fails: the first two go to the current file, the third
creates the file of the next sequence number, named with the end LSN of the second flush. -/
theorem flushes_three (env : Env) (os : os_state) (s : log_bitmap_struct) (n1 n2 n3 : Page)
    (e1 e2 e3 : Nat) (data : List byte) (hmax : env.srv_max_bitmap_file_size = 8192)
    (hoff : s.out.offset = 0) (hfault : os.faults = [])
    (hdata : os_file_data env os s.out.file = some data)
    (hnew : os_file_data env os (bmp_file_name env ((s.out_seq_num + 1) % 2 ^ 64) e2) = none) :
    ∃ os' s', log_online_flushes env os s [([n1], e1), ([n2], e2), ([n3], e3)]
        = some (os', s', [(s.out_seq_num, s.out.name), (s.out_seq_num, s.out.name),
            ((s.out_seq_num + 1) % 2 ^ 64,
              bmp_file_name env ((s.out_seq_num + 1) % 2 ^ 64) e2)])
      ∧ os'.files.map (fun e => e.name) = os.files.map (fun e => e.name)
        ++ [os_entry_name env (bmp_file_name env ((s.out_seq_num + 1) % 2 ^ 64) e2)] := by
  obtain ⟨os1, s1, h1, hf1, hn1, hd1, ho1, hq1, hl1, _⟩ :=
    flush_single_ok env os s n1 e1 data (by rw [hoff, hmax]; norm_num) hfault hdata
  have hfile1 : s1.out.file = s.out.file := by rw [ho1]
  have hname1 : s1.out.name = s.out.name := by rw [ho1]
  have hoff1 : s1.out.offset = 4096 := by rw [ho1]; simp only []; rw [hoff]; norm_num
  obtain ⟨d1, hd1'⟩ := Option.isSome_iff_exists.mp hd1
  obtain ⟨os2, s2, h2, hf2, hn2, hd2, ho2, hq2, hl2, _⟩ :=
    flush_single_ok env os1 s1 n2 e2 d1 (by rw [hoff1, hmax]; norm_num) hf1
      (by rw [hfile1]; exact hd1')
  have hname2 : s2.out.name = s.out.name := by rw [ho2]; exact hname1
  have hoff2 : s2.out.offset = 8192 := by rw [ho2]; simp only []; rw [hoff1]; norm_num
  have hnew2 : os_file_data env os2
      (bmp_file_name env ((s2.out_seq_num + 1) % 2 ^ 64) s2.start_lsn) = none := by
    rw [hq2, hq1, hl2]
    exact os_file_data_none_congr env os os2 _ (hn2.trans hn1) hnew
  obtain ⟨os3, s3, h3, _, hn3, ho3, hq3, _, _⟩ :=
    flush_single_rotate env os2 s2 n3 e3 (by rw [hoff2, hmax]) hf2 hnew2
  refine ⟨os3, s3, ?_, ?_⟩
  · simp only [log_online_flushes, h1, h2, h3]
    rw [hq1, hname1, hq2, hq1, hname2, hq3, hq2, hq1, ho3, hq2, hq1, hl2]
  · rw [hn3, hn2, hn1, hq2, hq1, hl2]

/-- C20 (rotation): a call of `log_online_write_bitmap` that returns has kept the output file
and its sequence number when `out.offset` was below `srv_max_bitmap_file_size` on entry, and
has gone over to the file of the next sequence number, named with the current `start_lsn`,
when `out.offset` had reached it; a rotation that returns adds one to `out_seq_num` (as a
64-bit value), names the new file with its LSN argument and sets `out.offset` to 0; with a
maximum size of 8192, three one-block flushes from offset 0 that the operating system does not
fail use the current file twice and then one new file; and along any sequence of flushes whose
end LSNs do not decrease from `start_lsn` on, and whose sequence number does not wrap, the
pairs of sequence number and start LSN in the names of the output file do not decrease in
either component. -/
theorem C20_rotation (env : Env) :
    (∀ (os os' : os_state) (s s' : log_bitmap_struct),
        log_online_write_bitmap env os s = some (os', s') →
        (s.out.offset < env.srv_max_bitmap_file_size ∧ s'.out_seq_num = s.out_seq_num
            ∧ s'.out.name = s.out.name)
          ∨ (s.out.offset ≥ env.srv_max_bitmap_file_size
            ∧ s'.out_seq_num = (s.out_seq_num + 1) % 2 ^ 64
            ∧ s'.out.name = bmp_file_name env ((s.out_seq_num + 1) % 2 ^ 64) s.start_lsn))
      ∧ (∀ (os os' : os_state) (s s' : log_bitmap_struct) (lsn : Nat),
        log_online_rotate_bitmap_file env os s lsn = some (os', s') →
        s'.out_seq_num = (s.out_seq_num + 1) % 2 ^ 64
          ∧ s'.out.name = bmp_file_name env ((s.out_seq_num + 1) % 2 ^ 64) lsn
          ∧ s'.out.file = s'.out.name ∧ s'.out.offset = 0)
      ∧ (∀ (os : os_state) (s : log_bitmap_struct) (n1 n2 n3 : Page) (e1 e2 e3 : Nat)
          (data : List byte),
        env.srv_max_bitmap_file_size = 8192 → s.out.offset = 0 → os.faults = [] →
        os_file_data env os s.out.file = some data →
        os_file_data env os (bmp_file_name env ((s.out_seq_num + 1) % 2 ^ 64) e2) = none →
        ∃ os' s', log_online_flushes env os s [([n1], e1), ([n2], e2), ([n3], e3)]
            = some (os', s', [(s.out_seq_num, s.out.name), (s.out_seq_num, s.out.name),
                ((s.out_seq_num + 1) % 2 ^ 64,
                  bmp_file_name env ((s.out_seq_num + 1) % 2 ^ 64) e2)])
          ∧ os'.files.map (fun e => e.name) = os.files.map (fun e => e.name)
            ++ [os_entry_name env (bmp_file_name env ((s.out_seq_num + 1) % 2 ^ 64) e2)])
      ∧ (∀ (flushes : List (List Page × Nat)) (os os' : os_state) (s s' : log_bitmap_struct)
          (used : List (Nat × List Char)) (lsn : Nat),
        log_online_flushes env os s flushes = some (os', s', used) →
        s.out.name = bmp_file_name env s.out_seq_num lsn → lsn ≤ s.start_lsn →
        List.Chain (fun a b => a ≤ b) s.start_lsn (flushes.map Prod.snd) →
        s.out_seq_num + flushes.length < 2 ^ 64 →
        ∃ pairs : List (Nat × Nat),
          used = pairs.map (fun p => (p.1, bmp_file_name env p.1 p.2))
            ∧ List.Chain (fun a b => a.1 ≤ b.1 ∧ a.2 ≤ b.2) (s.out_seq_num, lsn) pairs) :=
  ⟨write_bitmap_out env, rotate_bitmap_file_out env, flushes_three env, flushes_names env⟩

/-- The three flushes of C20 on the data directory that holds the empty file
`ib_modified_log_1_0.xdb`, with end LSNs 9000, 9500 and 9900: the directory ends with the two
files `ib_modified_log_1_0.xdb` and `ib_modified_log_2_9500.xdb`. -/
theorem C20_rotation_witness :
    ∃ os' s', log_online_flushes env_small_example os_example bmp_sys_started_example
        [([block_example], 9000), ([block_example], 9500), ([block_example], 9900)]
        = some (os', s', [(1, "./ib_modified_log_1_0.xdb".toList),
            (1, "./ib_modified_log_1_0.xdb".toList),
            (2, "./ib_modified_log_2_9500.xdb".toList)])
      ∧ os'.files.map (fun e => e.name)
        = ["ib_modified_log_1_0.xdb".toList, "ib_modified_log_2_9500.xdb".toList]
      ∧ ∃ pairs : List (Nat × Nat),
          [(1, "./ib_modified_log_1_0.xdb".toList), (1, "./ib_modified_log_1_0.xdb".toList),
              (2, "./ib_modified_log_2_9500.xdb".toList)]
            = pairs.map (fun p => (p.1, bmp_file_name env_small_example p.1 p.2))
          ∧ List.Chain (fun a b => a.1 ≤ b.1 ∧ a.2 ≤ b.2) (1, 0) pairs := by
  have hname : bmp_file_name env_small_example ((bmp_sys_started_example.out_seq_num + 1)
      % 2 ^ 64) 9500 = "./ib_modified_log_2_9500.xdb".toList := by decide
  have hentry : os_entry_name env_small_example "./ib_modified_log_2_9500.xdb".toList
      = "ib_modified_log_2_9500.xdb".toList := by decide
  have hdata : os_file_data env_small_example os_example bmp_sys_started_example.out.file
      = some [] := by decide
  have hnew : os_file_data env_small_example os_example
      (bmp_file_name env_small_example ((bmp_sys_started_example.out_seq_num + 1) % 2 ^ 64)
        9500) = none := by
    rw [hname]
    decide
  obtain ⟨os', s', h, hn⟩ := (C20_rotation env_small_example).2.2.1 os_example
    bmp_sys_started_example block_example block_example block_example 9000 9500 9900 []
    rfl rfl rfl hdata hnew
  rw [hname] at h hn
  rw [hentry] at hn
  have hfirst : bmp_sys_started_example.out.name
      = bmp_file_name env_small_example bmp_sys_started_example.out_seq_num 0 := by decide
  have hchain : List.Chain (fun a b => a ≤ b) bmp_sys_started_example.start_lsn
      ([([block_example], 9000), ([block_example], 9500), ([block_example], 9900)].map
        Prod.snd) := by
    simp only [List.map_cons, List.map_nil, List.chain_cons, List.Chain.nil, and_true]
    exact ⟨by decide, by decide, by decide⟩
  exact ⟨os', s', h, hn, (C20_rotation env_small_example).2.2.2 _ os_example os'
    bmp_sys_started_example s' _ 0 h hfirst (Nat.zero_le _) hchain (by decide)⟩

/-! ## The missing interval at startup -/

theorem can_track_missing_none_iff (env : Env) (log_sys : log_t)
    (last_tracked_lsn tracking_start_lsn : Nat)
    (hmin : MIN_TRACKED_LSN env ≤ tracking_start_lsn) :
    log_online_can_track_missing env log_sys last_tracked_lsn tracking_start_lsn = none
      ↔ last_tracked_lsn > tracking_start_lsn := by
  unfold log_online_can_track_missing
  simp only []
  by_cases h : max last_tracked_lsn (MIN_TRACKED_LSN env) > tracking_start_lsn
  · rw [if_pos h]
    simp only [true_iff]
    omega
  · rw [if_neg h]
    simp only [false_iff, reduceCtorEq]
    omega

theorem read_init_track_some (env : Env) (os : os_state) (log_sys : log_t)
    (s : log_bitmap_struct) (last_tracked_lsn tracking_start_lsn : Nat)
    (r : os_state × log_t × log_bitmap_struct)
    (h : log_online_read_init_track env os log_sys s last_tracked_lsn tracking_start_lsn
      = some r) :
    ∃ can_track, log_online_can_track_missing env log_sys last_tracked_lsn tracking_start_lsn
      = some can_track := by
  unfold log_online_read_init_track at h
  cases hc : log_online_can_track_missing env log_sys last_tracked_lsn tracking_start_lsn with
  | none => rw [hc] at h; exact Option.noConfusion h
  | some b => exact ⟨b, rfl⟩

/-- C21: a last tracked LSN in the future is fatal.  For a tracking start LSN that is at least
`MIN_TRACKED_LSN`, `log_online_can_track_missing` ends the process (`none`) if and only if
`last_tracked_lsn > tracking_start_lsn`.  In `log_online_read_init` the tracking start LSN is
the maximum of the checkpoint LSN and `MIN_TRACKED_LSN`, and whenever the last part of the
function, which calls `log_online_can_track_missing` first, returns, `last_tracked_lsn` is not
greater than the tracking start LSN: control does not reach the later branch that
`last_tracked_lsn > tracking_start_lsn` guards. -/
theorem C21_future_lsn_is_fatal (env : Env) (log_sys : log_t)
    (last_tracked_lsn tracking_start_lsn : Nat)
    (hmin : MIN_TRACKED_LSN env ≤ tracking_start_lsn) :
    (log_online_can_track_missing env log_sys last_tracked_lsn tracking_start_lsn = none
        ↔ last_tracked_lsn > tracking_start_lsn)
      ∧ (∀ (os : os_state) (s : log_bitmap_struct) (r : os_state × log_t × log_bitmap_struct),
        log_online_read_init_track env os log_sys s last_tracked_lsn
            (max log_sys.last_checkpoint_lsn (MIN_TRACKED_LSN env)) = some r →
        ¬ last_tracked_lsn > max log_sys.last_checkpoint_lsn (MIN_TRACKED_LSN env)) := by
  refine ⟨can_track_missing_none_iff env log_sys _ _ hmin, ?_⟩
  intro os s r h hgt
  obtain ⟨b, hb⟩ := read_init_track_some env os log_sys s _ _ r h
  have hn := (can_track_missing_none_iff env log_sys last_tracked_lsn
    (max log_sys.last_checkpoint_lsn (MIN_TRACKED_LSN env)) (le_max_right _ _)).mpr hgt
  rw [hn] at hb
  exact Option.noConfusion hb

/-- Witness of C21: the last tracked LSN 9000 and the tracking start LSN 8204. -/
theorem C21_future_lsn_is_fatal_witness :
    log_online_can_track_missing env_example log_sys_example 9000 8204 = none
      ∧ log_online_can_track_missing env_example log_sys_example 8204 8204 = some true :=
  ⟨(C21_future_lsn_is_fatal env_example log_sys_example 9000 8204 (by decide)).1.mpr
    (by decide), by decide⟩

/-- C22, the claim as stated fails: the retrackable gap.  With the last tracked LSN 0, as read
from an empty bitmap file, the tracking start LSN 8300, the current LSN 9000 and a log group
capacity of 1000, `log_online_can_track_missing` returns `TRUE` although
`lsn - last_tracked_lsn = 9000` is above the capacity: the function compares
`lsn - max (last_tracked_lsn, MIN_TRACKED_LSN) = 796` with the capacity. -/
theorem C22_can_track_although_gap_exceeds_capacity :
    (0 : Nat) < 8300
      ∧ log_online_can_track_missing env_example log_sys_small_capacity_example 0 8300
        = some true
      ∧ ¬ (log_sys_small_capacity_example.lsn - 0
        ≤ log_sys_small_capacity_example.log_group_capacity) := by
  decide

/-- C22, amended: the retrackable gap.  For `last_tracked_lsn < tracking_start_lsn` and a
tracking start LSN of at least `MIN_TRACKED_LSN`, `log_online_can_track_missing` returns, and
it returns `TRUE` if and only if `max (last_tracked_lsn, MIN_TRACKED_LSN)` equals
`tracking_start_lsn` or `lsn - max (last_tracked_lsn, MIN_TRACKED_LSN)`, a 64-bit difference,
is at most `log_group_capacity`; for `MIN_TRACKED_LSN ≤ last_tracked_lsn ≤ lsn < 2 ^ 64` this
is `lsn - last_tracked_lsn ≤ log_group_capacity`.  On `TRUE` the startup sets `start_lsn` and
`tracked_lsn` to `max (last_tracked_lsn, MIN_TRACKED_LSN)` and follows the log; on `FALSE` it
sets `start_lsn = end_lsn = tracking_start_lsn`. -/
theorem C22_retrackable_gap (env : Env) (os : os_state) (log_sys : log_t)
    (s : log_bitmap_struct) (last_tracked_lsn tracking_start_lsn : Nat)
    (hlt : last_tracked_lsn < tracking_start_lsn)
    (hmin : MIN_TRACKED_LSN env ≤ tracking_start_lsn) :
    log_online_can_track_missing env log_sys last_tracked_lsn tracking_start_lsn
        = some (decide (max last_tracked_lsn (MIN_TRACKED_LSN env) = tracking_start_lsn)
          || decide ((log_sys.lsn + 2 ^ 64 - max last_tracked_lsn (MIN_TRACKED_LSN env))
              % 2 ^ 64 ≤ log_sys.log_group_capacity))
      ∧ (MIN_TRACKED_LSN env ≤ last_tracked_lsn → last_tracked_lsn ≤ log_sys.lsn →
        log_sys.lsn < 2 ^ 64 →
        (log_online_can_track_missing env log_sys last_tracked_lsn tracking_start_lsn
            = some true
          ↔ log_sys.lsn - last_tracked_lsn ≤ log_sys.log_group_capacity))
      ∧ (log_online_can_track_missing env log_sys last_tracked_lsn tracking_start_lsn
          = some true →
        log_online_track_missing_on_startup env os log_sys s last_tracked_lsn
            tracking_start_lsn
          = log_online_follow_redo_log env os
              (log_set_tracked_lsn log_sys (max last_tracked_lsn (MIN_TRACKED_LSN env)))
              { s with start_lsn := max last_tracked_lsn (MIN_TRACKED_LSN env) })
      ∧ (log_online_can_track_missing env log_sys last_tracked_lsn tracking_start_lsn
          = some false →
        log_online_track_missing_on_startup env os log_sys s last_tracked_lsn
            tracking_start_lsn
          = some (os, log_set_tracked_lsn log_sys tracking_start_lsn,
              { s with start_lsn := tracking_start_lsn, end_lsn := tracking_start_lsn })) := by
  have hc : log_online_can_track_missing env log_sys last_tracked_lsn tracking_start_lsn
      = some (decide (max last_tracked_lsn (MIN_TRACKED_LSN env) = tracking_start_lsn)
        || decide ((log_sys.lsn + 2 ^ 64 - max last_tracked_lsn (MIN_TRACKED_LSN env))
            % 2 ^ 64 ≤ log_sys.log_group_capacity)) := by
    unfold log_online_can_track_missing
    simp only []
    rw [if_neg (by omega)]
  refine ⟨hc, ?_, ?_, ?_⟩
  · intro h1 h2 h3
    rw [hc, max_eq_left h1]
    have hne : ¬ last_tracked_lsn = tracking_start_lsn := by omega
    have hsub : (log_sys.lsn + 2 ^ 64 - last_tracked_lsn) % 2 ^ 64
        = log_sys.lsn - last_tracked_lsn := by omega
    simp only [Option.some.injEq, Bool.or_eq_true, decide_eq_true_eq, hne, false_or, hsub]
  · intro h
    unfold log_online_track_missing_on_startup
    rw [h]
  · intro h
    unfold log_online_track_missing_on_startup
    rw [h]

/-- Witness of the amended C22: the last tracked LSN 8204 and the checkpoint at LSN 8207. -/
theorem C22_retrackable_gap_witness :
    log_online_can_track_missing env_example log_sys_example 8204 8207 = some true
      ∧ log_online_track_missing_on_startup env_example os_example log_sys_example
          bmp_sys_example 8204 8207
        = log_online_follow_redo_log env_example os_example
            (log_set_tracked_lsn log_sys_example
              (max 8204 (MIN_TRACKED_LSN env_example)))
            { bmp_sys_example with start_lsn := max 8204 (MIN_TRACKED_LSN env_example) } :=
  ⟨by decide,
    (C22_retrackable_gap env_example os_example log_sys_example bmp_sys_example 8204 8207
      (by decide) (by decide)).2.2.1 (by decide)⟩

/-! ## The scan for the last bitmap file at startup -/

theorem read_init_scan_keep (env : Env) (st : Nat × Nat × List Char) (info : os_file_stat_t)
    (h : ∀ q l, log_online_is_bitmap_file info = some (q, l) → ¬ (q > st.1 ∧ info.size > 0)) :
    log_online_read_init_scan env st info = st := by
  unfold log_online_read_init_scan
  cases hb : log_online_is_bitmap_file info with
  | none => rfl
  | some r =>
    obtain ⟨q, l⟩ := r
    simp only []
    rw [if_neg (h q l hb)]

theorem read_init_scan_take (env : Env) (st : Nat × Nat × List Char) (info : os_file_stat_t)
    (q l : Nat) (hb : log_online_is_bitmap_file info = some (q, l))
    (h : q > st.1 ∧ info.size > 0) :
    log_online_read_init_scan env st info = (q, l, info.name.take (env.FN_REFLEN - 1)) := by
  unfold log_online_read_init_scan
  simp only [hb]
  rw [if_pos h]

/-- C23, amended: the latest file.  For every directory listing, in every enumeration order,
the scan of `log_online_read_init` either leaves `out_seq_num = 0`, and then no bitmap file of
a non-zero size has a sequence number other than 0, or retains a bitmap file of a non-zero size
whose sequence number is the largest among the bitmap files of a non-zero size; among the
files of that sequence number it retains the one that is enumerated first: every such file
before it in the enumeration has a smaller sequence number.  Files of size 0 are never
retained. -/
theorem C23_latest_file (env : Env) (entries : List os_file_stat_t) :
    ((entries.foldl (log_online_read_init_scan env) (0, MIN_TRACKED_LSN env, [])).1 = 0 →
        entries.foldl (log_online_read_init_scan env) (0, MIN_TRACKED_LSN env, [])
          = (0, MIN_TRACKED_LSN env, [])
        ∧ ∀ e ∈ entries, ∀ q l, log_online_is_bitmap_file e = some (q, l) → e.size > 0 →
          q = 0)
      ∧ ((entries.foldl (log_online_read_init_scan env) (0, MIN_TRACKED_LSN env, [])).1 ≠ 0 →
        ∃ pre e post, entries = pre ++ e :: post
          ∧ log_online_is_bitmap_file e
            = some ((entries.foldl (log_online_read_init_scan env)
                (0, MIN_TRACKED_LSN env, [])).1,
              (entries.foldl (log_online_read_init_scan env)
                (0, MIN_TRACKED_LSN env, [])).2.1)
          ∧ e.size > 0
          ∧ (entries.foldl (log_online_read_init_scan env) (0, MIN_TRACKED_LSN env, [])).2.2
            = e.name.take (env.FN_REFLEN - 1)
          ∧ (∀ e' ∈ pre, ∀ q l, log_online_is_bitmap_file e' = some (q, l) → e'.size > 0 →
            q < (entries.foldl (log_online_read_init_scan env)
              (0, MIN_TRACKED_LSN env, [])).1)
          ∧ (∀ e' ∈ post, ∀ q l, log_online_is_bitmap_file e' = some (q, l) → e'.size > 0 →
            q ≤ (entries.foldl (log_online_read_init_scan env)
              (0, MIN_TRACKED_LSN env, [])).1)) := by
  induction entries using List.reverseRecOn with
  | nil =>
    refine ⟨fun _ => ⟨rfl, fun e he => absurd he (List.not_mem_nil e)⟩, fun h => absurd rfl h⟩
  | append_singleton entries x ih =>
    rw [List.foldl_append, List.foldl_cons, List.foldl_nil]
    generalize entries.foldl (log_online_read_init_scan env) (0, MIN_TRACKED_LSN env, []) = r
      at ih ⊢
    obtain ⟨ih0, ih1⟩ := ih
    by_cases hx : ∃ q l, log_online_is_bitmap_file x = some (q, l) ∧ q > r.1 ∧ x.size > 0
    · obtain ⟨q, l, hb, hq, hsz⟩ := hx
      rw [read_init_scan_take env r x q l hb ⟨hq, hsz⟩]
      refine ⟨fun h => absurd h (by simp only []; omega), fun _ => ?_⟩
      refine ⟨entries, x, [], rfl, hb, hsz, rfl, ?_, fun e he => absurd he (List.not_mem_nil e)⟩
      intro e' he' q' l' hb' hsz'
      simp only []
      by_cases hr : r.1 = 0
      · have := (ih0 hr).2 e' he' q' l' hb' hsz'
        omega
      · obtain ⟨pre, e, post, rfl, _, _, _, hpre, hpost⟩ := ih1 hr
        rcases List.mem_append.mp he' with hm | hm
        · have := hpre e' hm q' l' hb' hsz'
          omega
        · rcases List.mem_cons.mp hm with hm | hm
          · subst hm
            rename_i hbe _ _
            rw [hbe] at hb'
            simp only [Option.some.injEq, Prod.mk.injEq] at hb'
            omega
          · have := hpost e' hm q' l' hb' hsz'
            omega
    · have hkeep : log_online_read_init_scan env r x = r :=
        read_init_scan_keep env r x (fun q l hb hc => hx ⟨q, l, hb, hc⟩)
      rw [hkeep]
      constructor
      · intro hr
        refine ⟨(ih0 hr).1, ?_⟩
        intro e he q l hb hsz
        rcases List.mem_append.mp he with hm | hm
        · exact (ih0 hr).2 e hm q l hb hsz
        · rw [List.mem_singleton] at hm
          subst hm
          by_contra hq
          exact hx ⟨q, l, hb, by omega, hsz⟩
      · intro hr
        obtain ⟨pre, e, post, rfl, hbe, hsz, hname, hpre, hpost⟩ := ih1 hr
        refine ⟨pre, e, post ++ [x], by simp, hbe, hsz, hname, hpre, ?_⟩
        intro e' he' q l hb hsz'
        rcases List.mem_append.mp he' with hm | hm
        · exact hpost e' hm q l hb hsz'
        · rw [List.mem_singleton] at hm
          subst hm
          by_contra hq
          exact hx ⟨q, l, hb, by omega, hsz'⟩

theorem is_bitmap_file_3_100 (n : Nat) :
    log_online_is_bitmap_file
      ⟨"ib_modified_log_3_100.xdb".toList, os_file_type_t.OS_FILE_TYPE_FILE, n⟩
      = some (3, 100) := by
  rfl

theorem is_bitmap_file_3_200 (n : Nat) :
    log_online_is_bitmap_file
      ⟨"ib_modified_log_3_200.xdb".toList, os_file_type_t.OS_FILE_TYPE_FILE, n⟩
      = some (3, 200) := by
  rfl

/-- C23, the claim as stated fails: the latest file.  Two bitmap files of a non-zero size share
the sequence number 3 and have the start LSNs 100 and 200.  The scan of
`log_online_read_init` retains the one that is enumerated first: the file of LSN 100 when it
comes first, not the one with the larger start LSN, and the file of LSN 200 in the other
order. -/
theorem C23_scan_keeps_first_of_equal_seq_num :
    (os_file_readdir os_tie_example).foldl (log_online_read_init_scan env_example)
        (0, MIN_TRACKED_LSN env_example, [])
      = (3, 100, "ib_modified_log_3_100.xdb".toList)
    ∧ (os_file_readdir os_tie_reversed_example).foldl (log_online_read_init_scan env_example)
        (0, MIN_TRACKED_LSN env_example, [])
      = (3, 200, "ib_modified_log_3_200.xdb".toList) := by
  have hr1 : os_file_readdir os_tie_example
      = [⟨"ib_modified_log_3_100.xdb".toList, os_file_type_t.OS_FILE_TYPE_FILE, 1⟩,
        ⟨"ib_modified_log_3_200.xdb".toList, os_file_type_t.OS_FILE_TYPE_FILE, 1⟩] := rfl
  have hr2 : os_file_readdir os_tie_reversed_example
      = [⟨"ib_modified_log_3_200.xdb".toList, os_file_type_t.OS_FILE_TYPE_FILE, 1⟩,
        ⟨"ib_modified_log_3_100.xdb".toList, os_file_type_t.OS_FILE_TYPE_FILE, 1⟩] := rfl
  have ht1 : ("ib_modified_log_3_100.xdb".toList).take (env_example.FN_REFLEN - 1)
      = "ib_modified_log_3_100.xdb".toList := by decide
  have ht2 : ("ib_modified_log_3_200.xdb".toList).take (env_example.FN_REFLEN - 1)
      = "ib_modified_log_3_200.xdb".toList := by decide
  constructor
  · rw [hr1, List.foldl_cons, List.foldl_cons, List.foldl_nil,
      read_init_scan_take env_example _ _ 3 100 (is_bitmap_file_3_100 1)
        ⟨by decide, by decide⟩,
      read_init_scan_keep env_example _ _ (fun q l hb hc => by
        rw [is_bitmap_file_3_200] at hb
        simp only [Option.some.injEq, Prod.mk.injEq] at hb
        omega), ht1]
  · rw [hr2, List.foldl_cons, List.foldl_cons, List.foldl_nil,
      read_init_scan_take env_example _ _ 3 200 (is_bitmap_file_3_200 1)
        ⟨by decide, by decide⟩,
      read_init_scan_keep env_example _ _ (fun q l hb hc => by
        rw [is_bitmap_file_3_100] at hb
        simp only [Option.some.injEq, Prod.mk.injEq] at hb
        omega), ht2]

/-! ## The names of the bitmap files -/

/-- C24, the code at a failing input.  A regular file whose name carries text after the
suffix, `ib_modified_log_1_0.xdb.bak`, and a regular file whose name lacks the suffix,
`ib_modified_log_1_0`, are both accepted by `log_online_is_bitmap_file`, with the sequence
number 1 and the start LSN 0: `sscanf` has converted three items before it compares the
input with `.xdb`, and its return value does not tell whether the rest of the format was
matched. -/
theorem C24_is_bitmap_file_accepts_other_suffix :
    log_online_is_bitmap_file
        ⟨"ib_modified_log_1_0.xdb.bak".toList, os_file_type_t.OS_FILE_TYPE_FILE, 4096⟩
      = some (1, 0)
    ∧ log_online_is_bitmap_file
        ⟨"ib_modified_log_1_0".toList, os_file_type_t.OS_FILE_TYPE_FILE, 4096⟩
      = some (1, 0) :=
  ⟨rfl, rfl⟩

/-! ## The copy into the parse buffer -/

/-- The bytes that `log_online_add_to_parse_buf` appends to the parse buffer. -/
theorem add_to_parse_buf_eq (env : Env) (s : log_bitmap_struct) (log_block : List byte)
    (data_len skip_len : Nat) (hlen : data_len ≤ log_block.length)
    (hfit : s.parse_buf.length
        + ((if data_len = env.OS_FILE_LOG_BLOCK_SIZE then data_len - env.LOG_BLOCK_TRL_SIZE
            else data_len)
          - (if skip_len ≠ 0 then skip_len else env.LOG_BLOCK_HDR_SIZE))
      ≤ env.RECV_PARSING_BUF_SIZE) :
    log_online_add_to_parse_buf env s log_block data_len skip_len
        = some { s with
            parse_buf := s.parse_buf
              ++ (log_block.drop (if skip_len ≠ 0 then skip_len else env.LOG_BLOCK_HDR_SIZE)).take
                ((if data_len = env.OS_FILE_LOG_BLOCK_SIZE then
                    data_len - env.LOG_BLOCK_TRL_SIZE
                  else data_len)
                  - (if skip_len ≠ 0 then skip_len else env.LOG_BLOCK_HDR_SIZE)) }
      ∧ ((log_block.drop (if skip_len ≠ 0 then skip_len else env.LOG_BLOCK_HDR_SIZE)).take
          ((if data_len = env.OS_FILE_LOG_BLOCK_SIZE then data_len - env.LOG_BLOCK_TRL_SIZE
            else data_len)
            - (if skip_len ≠ 0 then skip_len else env.LOG_BLOCK_HDR_SIZE))).length
        = (if data_len = env.OS_FILE_LOG_BLOCK_SIZE then data_len - env.LOG_BLOCK_TRL_SIZE
            else data_len)
          - (if skip_len ≠ 0 then skip_len else env.LOG_BLOCK_HDR_SIZE) := by
  generalize hst : (if skip_len ≠ 0 then skip_len else env.LOG_BLOCK_HDR_SIZE) = st at hfit ⊢
  generalize he : (if data_len = env.OS_FILE_LOG_BLOCK_SIZE then
      data_len - env.LOG_BLOCK_TRL_SIZE else data_len) = e at hfit ⊢
  have hele : e ≤ data_len := by
    rw [← he]
    split_ifs <;> omega
  have hlength : ((log_block.drop st).take (e - st)).length = e - st := by
    rw [List.length_take, List.length_drop]
    omega
  refine ⟨?_, hlength⟩
  unfold log_online_add_to_parse_buf
  simp only [hst, he]
  have hact : (if e ≥ st then e - st else 0) = e - st := by
    split_ifs <;> omega
  rw [hact, if_neg (by omega)]
  simp only [List.length_append, hlength]
  rw [if_neg (by omega)]

/-- C25, the claim as stated fails: the copy into the parse buffer.  For a log block whose data
length is 100, below the block size 512, and no skip length, `log_online_add_to_parse_buf`
appends the 88 bytes at the offsets 12 to 100 of the block, not the 84 bytes at the offsets 12
to 96: the trailer size is subtracted only when the data length is the block size. -/
theorem C25_partial_block_keeps_last_bytes :
    log_online_add_to_parse_buf env_example bmp_sys_example (List.replicate 512 7) 100 0
        = some { bmp_sys_example with parse_buf := List.replicate 88 7 }
      ∧ (List.replicate 88 (7 : byte)).length
        ≠ 100 - env_example.LOG_BLOCK_TRL_SIZE - env_example.LOG_BLOCK_HDR_SIZE := by
  have e1 : (if (0 : Nat) ≠ 0 then 0 else env_example.LOG_BLOCK_HDR_SIZE) = 12 := by decide
  have e2 : (if (100 : Nat) = env_example.OS_FILE_LOG_BLOCK_SIZE then
      100 - env_example.LOG_BLOCK_TRL_SIZE else 100) = 100 := by decide
  have h := (add_to_parse_buf_eq env_example bmp_sys_example (List.replicate 512 7) 100 0
    (by rw [List.length_replicate]; norm_num) (by rw [e1, e2]; decide)).1
  rw [e1, e2, List.drop_replicate, List.take_replicate] at h
  refine ⟨h, ?_⟩
  rw [List.length_replicate]
  decide

/-- C25, amended: the copy into the parse buffer.  For every log block, data length within
the bytes read and skip length, `log_online_add_to_parse_buf` appends to the parse buffer
exactly the bytes of the block at the offsets from `s` up to `e`, where `s` is the skip length
if it is not 0 and `LOG_BLOCK_HDR_SIZE` otherwise, and `e` is the data length less
`LOG_BLOCK_TRL_SIZE` if the data length is `OS_FILE_LOG_BLOCK_SIZE` and the data length
itself otherwise; the parse buffer grows by `e - s` bytes, none if `e < s`.  The parse buffer
is assumed to stay within `RECV_PARSING_BUF_SIZE`, as the code asserts. -/
theorem C25_copy_into_parse_buf (env : Env) (s : log_bitmap_struct) (log_block : List byte)
    (data_len skip_len : Nat) (hlen : data_len ≤ log_block.length)
    (hfit : s.parse_buf.length
        + ((if data_len = env.OS_FILE_LOG_BLOCK_SIZE then data_len - env.LOG_BLOCK_TRL_SIZE
            else data_len)
          - (if skip_len ≠ 0 then skip_len else env.LOG_BLOCK_HDR_SIZE))
      ≤ env.RECV_PARSING_BUF_SIZE) :
    log_online_add_to_parse_buf env s log_block data_len skip_len
        = some { s with
            parse_buf := s.parse_buf
              ++ (log_block.drop (if skip_len ≠ 0 then skip_len else env.LOG_BLOCK_HDR_SIZE)).take
                ((if data_len = env.OS_FILE_LOG_BLOCK_SIZE then
                    data_len - env.LOG_BLOCK_TRL_SIZE
                  else data_len)
                  - (if skip_len ≠ 0 then skip_len else env.LOG_BLOCK_HDR_SIZE)) }
      ∧ ((log_block.drop (if skip_len ≠ 0 then skip_len else env.LOG_BLOCK_HDR_SIZE)).take
          ((if data_len = env.OS_FILE_LOG_BLOCK_SIZE then data_len - env.LOG_BLOCK_TRL_SIZE
            else data_len)
            - (if skip_len ≠ 0 then skip_len else env.LOG_BLOCK_HDR_SIZE))).length
        = (if data_len = env.OS_FILE_LOG_BLOCK_SIZE then data_len - env.LOG_BLOCK_TRL_SIZE
            else data_len)
          - (if skip_len ≠ 0 then skip_len else env.LOG_BLOCK_HDR_SIZE) :=
  add_to_parse_buf_eq env s log_block data_len skip_len hlen hfit

/-- Witness of the amended C25: a full log block of 512 bytes and no skip length; the 496
bytes at the offsets 12 to 508 are appended. -/
theorem C25_copy_into_parse_buf_witness :
    log_online_add_to_parse_buf env_example bmp_sys_example (List.replicate 512 7) 512 0
      = some { bmp_sys_example with parse_buf := List.replicate 496 7 } := by
  have e1 : (if (0 : Nat) ≠ 0 then 0 else env_example.LOG_BLOCK_HDR_SIZE) = 12 := by decide
  have e2 : (if (512 : Nat) = env_example.OS_FILE_LOG_BLOCK_SIZE then
      512 - env_example.LOG_BLOCK_TRL_SIZE else 512) = 508 := by decide
  have h := (C25_copy_into_parse_buf env_example bmp_sys_example (List.replicate 512 7) 512 0
    (by rw [List.length_replicate]) (by rw [e1, e2]; decide)).1
  rw [e1, e2, List.drop_replicate, List.take_replicate] at h
  exact h

/-! ## The size and the offset of the output file -/

theorem write_bitmap_page_size (env : Env) (os : os_state) (s : log_bitmap_struct)
    (block : Page) :
    (log_online_write_bitmap_page env os s block).2.out.size = s.out.size
      ∧ ((log_online_write_bitmap_page env os s block).2.out.offset = s.out.offset
        ∨ (log_online_write_bitmap_page env os s block).2.out.offset
          = (s.out.offset + 4096) % 2 ^ 64) := by
  unfold log_online_write_bitmap_page
  rcases os_file_write env os s.out.file block.bytes (s.out.offset &&& 0xFFFFFFFF)
    ((s.out.offset <<< 32) % 2 ^ 64) with ⟨ok, os1⟩
  simp only []
  cases ok
  · simp
  · simp only [Bool.not_true, Bool.false_eq_true, if_false]
    rcases os_file_flush os1 with ⟨ok2, os2⟩
    cases ok2 <;> simp

theorem write_bitmap_loop_size (env : Env) (nodes : List Page) :
    ∀ (os : os_state) (s : log_bitmap_struct),
      (log_online_write_bitmap_loop env os s nodes).2.out.size = s.out.size := by
  induction nodes with
  | nil => intro os s; rfl
  | cons n rest ih =>
    intro os s
    simp only [log_online_write_bitmap_loop]
    obtain ⟨h1, _⟩ := write_bitmap_page_size env os s
      (log_online_write_bitmap_fill s n rest.isEmpty)
    exact (ih
      (log_online_write_bitmap_page env os s (log_online_write_bitmap_fill s n rest.isEmpty)).1
      { (log_online_write_bitmap_page env os s
          (log_online_write_bitmap_fill s n rest.isEmpty)).2 with
        page_free_list := log_online_write_bitmap_fill s n rest.isEmpty ::
          (log_online_write_bitmap_page env os s
            (log_online_write_bitmap_fill s n rest.isEmpty)).2.page_free_list }).trans h1

theorem rotate_bitmap_file_size (env : Env) (os os' : os_state) (s s' : log_bitmap_struct)
    (lsn : Nat) (h : log_online_rotate_bitmap_file env os s lsn = some (os', s')) :
    s'.out.offset = 0 ∧ s'.out.size = s.out.size := by
  unfold log_online_rotate_bitmap_file log_online_start_bitmap_file
    log_online_make_bitmap_name at h
  simp only [] at h
  split_ifs at h
  simp only [Option.some.injEq, Prod.mk.injEq] at h
  obtain ⟨_, rfl⟩ := h
  exact ⟨rfl, rfl⟩

theorem write_bitmap_size (env : Env) (os os' : os_state) (s s' : log_bitmap_struct)
    (h : log_online_write_bitmap env os s = some (os', s')) :
    s'.out.size = s.out.size := by
  unfold log_online_write_bitmap at h
  simp only [] at h
  split at h
  · cases h
  · rename_i os1 s1 hrot
    simp only [Option.some.injEq, Prod.mk.injEq] at h
    obtain ⟨_, rfl⟩ := h
    have hs1 : s1.out.size = s.out.size := by
      split_ifs at hrot with hr
      · exact (rotate_bitmap_file_size env os os1 s s1 _ hrot).2
      · simp only [Option.some.injEq, Prod.mk.injEq] at hrot
        obtain ⟨_, rfl⟩ := hrot
        rfl
    exact (write_bitmap_loop_size env s1.modified_pages os1 s1).trans hs1

theorem follow_redo_log_size (env : Env) (os os' : os_state) (log_sys log_sys' : log_t)
    (s s' : log_bitmap_struct)
    (h : log_online_follow_redo_log env os log_sys s = some (os', log_sys', s')) :
    s'.out.size = s.out.size := by
  rcases follow_redo_log_cases env os os' log_sys log_sys' s s' h with
    ⟨_, _, _, rfl⟩ | ⟨_, sg, sw, hg, hw, rfl, _⟩
  · rfl
  · have hf := follow_log_groups_frame env log_sys _ log_sys.log_groups _ sg hg
    have hout : sg.out = s.out := hf.2.2.1
    have := write_bitmap_size env os os' sg sw hw
    show sw.out.size = s.out.size
    rw [this, hout]

/-! ## The run of the examples from the state that the startup leaves -/

theorem add_to_parse_buf_example_out (o : log_online_bitmap_file_t)
    (log_block rest : List byte)
    (hbuf : (log_block.drop 12).take 496 = 7 :: 7 :: 7 :: rest)
    (hlen : 508 ≤ log_block.length) :
    log_online_add_to_parse_buf env_example { bmp_sys_example with out := o, end_lsn := 8207 }
        log_block 512 12
      = some { bmp_sys_example with
          out := o, end_lsn := 8207, parse_buf := 7 :: 7 :: 7 :: rest } := by
  unfold log_online_add_to_parse_buf
  simp only [env_example, bmp_sys_example, hbuf]
  simp
  exact ⟨hlen, hbuf⟩

theorem parse_redo_log_block_example_out (o : log_online_bitmap_file_t)
    (log_block rest : List byte)
    (hbuf : (log_block.drop 12).take 496 = 7 :: 7 :: 7 :: rest)
    (hlen : 508 ≤ log_block.length) :
    log_online_parse_redo_log_block env_example
        { bmp_sys_example with out := o, end_lsn := 8207 } log_block 12
      = some { bmp_sys_followed_example with out := o } := by
  unfold log_online_parse_redo_log_block
  have hd : env_example.log_block_get_data_len log_block = 512 := rfl
  simp only [hd]
  rw [add_to_parse_buf_example_out o log_block rest hbuf hlen]
  simp only []
  have hlt : (8204 : Nat) < 8207 := by norm_num
  have hend : ¬ ((8204 : Nat) + 3 < 8207) := by norm_num
  have hfit : 3 ≤ (7 :: 7 :: 7 :: rest : List byte).length := by simp
  rw [parse_redo_log_one_record env_example
    { bmp_sys_example with out := o, end_lsn := 8207, parse_buf := 7 :: 7 :: 7 :: rest }
    3 7 7 7 hlt rfl
    (by decide) (by decide) (by decide) (by decide) (by decide) rfl hfit hend]
  rfl

theorem follow_log_seg_example_out (o : log_online_bitmap_file_t) :
    log_online_follow_log_seg env_example log_sys_example
        { bmp_sys_example with out := o, end_lsn := 8207 } 0 8192 73728
      = some { bmp_sys_followed_example with out := o } := by
  have hbuf : log_sys_example.log_group_read_log_seg 0 8192 73728 = List.replicate 65536 7 :=
    rfl
  have hle : (73728 + 2 ^ 64 - 8192) % 2 ^ 64 = 65536 := by norm_num
  have hdata : ((List.drop 0 (List.replicate 65536 (7 : byte))).drop 12).take 496
      = 7 :: 7 :: 7 :: List.replicate 493 7 := by
    rw [List.drop_zero, List.drop_replicate, List.take_replicate]
    rfl
  have hlen : 508 ≤ (List.drop 0 (List.replicate 65536 (7 : byte))).length := by
    rw [List.drop_zero, List.length_replicate]
    norm_num
  unfold log_online_follow_log_seg
  simp only [hbuf, hle]
  have hparse : log_online_parse_redo_log_block env_example
      { bmp_sys_example with out := o, end_lsn := 8207 }
      ((List.replicate 65536 (7 : byte)).drop 0)
      (({ bmp_sys_example with out := o, end_lsn := 8207 } : log_bitmap_struct).next_parse_lsn
        - 8192) = some { bmp_sys_followed_example with out := o } := by
    rw [show ({ bmp_sys_example with out := o, end_lsn := 8207 }
      : log_bitmap_struct).next_parse_lsn = 8204 from rfl]
    exact parse_redo_log_block_example_out o
      (List.drop 0 (List.replicate 65536 (7 : byte))) (List.replicate 493 7) hdata hlen
  have hlt : (8204 : Nat) < 8207 := by norm_num
  have hin : (8192 : Nat) ≤ 8204 ∧ (8192 + env_example.OS_FILE_LOG_BLOCK_SIZE) % 2 ^ 64 > 8204 := by
    norm_num [env_example]
  have hstop : ¬ ((8207 : Nat) < 8207) := by norm_num
  have hvalid : log_online_is_valid_log_seg env_example
      ((List.replicate 65536 (7 : byte)).drop 0) = true := by
    unfold log_online_is_valid_log_seg
    rfl
  rw [follow_log_seg_loop_block env_example (List.replicate 65536 7) 65536 65536
    { bmp_sys_example with out := o, end_lsn := 8207 }
    { bmp_sys_followed_example with out := o } 0 8192 (by norm_num) hlt hvalid hin hparse]
  exact follow_log_seg_loop_stop env_example _ 65536 65535
    { bmp_sys_followed_example with out := o } _ _ hstop

theorem follow_log_groups_example_out (o : log_online_bitmap_file_t) :
    log_online_follow_log_groups env_example log_sys_example 8192
        { bmp_sys_example with out := o, end_lsn := 8207 } log_sys_example.log_groups
      = some { bmp_sys_followed_example with out := o } := by
  have hscan : (8192 + FOLLOW_SCAN_SIZE env_example) % 2 ^ 64 = 73728 := by
    norm_num [FOLLOW_SCAN_SIZE, env_example]
  have hseg : log_online_follow_log_seg env_example log_sys_example
      { bmp_sys_example with out := o, end_lsn := 8207 } 0 8192
      ((8192 + FOLLOW_SCAN_SIZE env_example) % 2 ^ 64)
        = some { bmp_sys_followed_example with out := o } := by
    rw [hscan]
    exact follow_log_seg_example_out o
  have h1 : ({ bmp_sys_followed_example with out := o } : log_bitmap_struct).next_parse_lsn
      ≤ ((8192 + FOLLOW_SCAN_SIZE env_example) % 2 ^ 64 + env_example.LOG_BLOCK_HDR_SIZE
        + env_example.LOG_BLOCK_TRL_SIZE) % 2 ^ 64 := by
    rw [hscan]
    norm_num [env_example, bmp_sys_followed_example]
  have h2 : ¬ ((8192 + FOLLOW_SCAN_SIZE env_example) % 2 ^ 64
      < ({ bmp_sys_followed_example with out := o } : log_bitmap_struct).end_lsn) := by
    rw [hscan]
    norm_num [bmp_sys_followed_example]
  exact follow_log_groups_single env_example log_sys_example 8192 _ _ 0
    (follow_log_group_of_loop env_example log_sys_example
      { bmp_sys_example with out := o, end_lsn := 8207 }
      { bmp_sys_followed_example with out := o } 0 8192
      (follow_log_group_loop_last env_example log_sys_example 0 8207 _ _ 8192 hseg h1 h2) rfl)

/-- The first call of `log_online_follow_redo_log` after a startup on the empty data
directory, once the log holds a record and the checkpoint is at LSN 8207: the block is written
at offset 0 of the file and the offset becomes 4096. -/
theorem follow_redo_log_after_startup_example :
    ∃ os' s', log_online_follow_redo_log env_example os_example log_sys_example
        bmp_sys_started_example
        = some (os', log_set_tracked_lsn log_sys_example 8207, s')
      ∧ s'.out.offset = 4096 ∧ s'.out.size = 0
      ∧ os'.writes.map (fun c => c.success) = [true] := by
  have hd : os_file_data env_example os_example bmp_sys_started_example.out.file
      = some [] := by decide
  have hw := write_bitmap_single_ok env_example os_example
    { bmp_sys_followed_example with out := bmp_sys_started_example.out }
    (page_or_bit (write_bmp_key Page.zero 7 0) 0 7) [] (by decide) rfl rfl hd
  refine ⟨_, _, follow_redo_log_of env_example os_example _ log_sys_example
    bmp_sys_started_example _ _ (by decide) (by decide)
    (follow_log_groups_example_out bmp_sys_started_example.out) hw, rfl, rfl, rfl⟩

/-- C26, the claim as stated fails: the invariant `out.offset ≤ out.size`.  After
`log_online_read_init` on an empty data directory the offset and the size of the output file
are both 0.  Once the log holds a record and the checkpoint is at LSN 8207,
`log_online_follow_redo_log` writes one block successfully: `out.offset` is 4096 and `out.size`
is still 0. -/
theorem C26_offset_exceeds_size_after_first_write :
    log_online_read_init env_example os_empty_example log_sys_started_example
        bmp_sys_fresh_example
      = some (os_example, log_set_tracked_lsn log_sys_started_example 8204,
          bmp_sys_started_example)
    ∧ bmp_sys_started_example.out.offset ≤ bmp_sys_started_example.out.size
    ∧ log_sys_example
      = { log_set_tracked_lsn log_sys_started_example 8204 with
          lsn := 8207, last_checkpoint_lsn := 8207 }
    ∧ ∃ os' s', log_online_follow_redo_log env_example os_example log_sys_example
          bmp_sys_started_example
          = some (os', log_set_tracked_lsn log_sys_example 8207, s')
        ∧ s'.out.offset = 4096 ∧ s'.out.size = 0
        ∧ os'.writes.map (fun c => c.success) = [true] :=
  ⟨read_init_first_example log_sys_started_example (by decide), by decide, rfl,
    follow_redo_log_after_startup_example⟩

/-- C26, amended: the size of the output file is set at startup only.  A rotation that returns
sets `out.offset` to 0 and leaves `out.size` as it was; `log_online_write_bitmap_page` leaves
`out.size` as it was and either leaves `out.offset` or advances it by 4096; every call of
`log_online_follow_redo_log` that returns leaves `out.size` as it was; and
`log_online_read_init` on a data directory without entries returns with `out.offset = 0` and
with `out.size` as it was in the allocated structure.  So `out.offset ≤ out.size` holds after
a rotation and is not kept by the writes. -/
theorem C26_out_size_is_set_at_startup_only (env : Env) :
    (∀ (os os' : os_state) (s s' : log_bitmap_struct) (lsn : Nat),
        log_online_rotate_bitmap_file env os s lsn = some (os', s') →
        s'.out.offset = 0 ∧ s'.out.size = s.out.size)
      ∧ (∀ (os : os_state) (s : log_bitmap_struct) (block : Page),
        (log_online_write_bitmap_page env os s block).2.out.size = s.out.size
          ∧ ((log_online_write_bitmap_page env os s block).2.out.offset = s.out.offset
            ∨ (log_online_write_bitmap_page env os s block).2.out.offset
              = (s.out.offset + 4096) % 2 ^ 64))
      ∧ (∀ (os os' : os_state) (log_sys log_sys' : log_t) (s s' : log_bitmap_struct),
        log_online_follow_redo_log env os log_sys s = some (os', log_sys', s') →
        s'.out.size = s.out.size)
      ∧ (∀ (os os' : os_state) (log_sys log_sys' : log_t) (s s' : log_bitmap_struct),
        os.faults = [] → os.files = [] →
        log_online_read_init env os log_sys s = some (os', log_sys', s') →
        s'.out.offset = 0 ∧ s'.out.size = s.out.size) := by
  refine ⟨rotate_bitmap_file_size env, write_bitmap_page_size env,
    follow_redo_log_size env, ?_⟩
  intro os os' log_sys log_sys' s s' hfault hfiles h
  rw [read_init_of_empty_dir env os log_sys s _ hfault hfiles rfl] at h
  simp only [Option.some.injEq, Prod.mk.injEq] at h
  obtain ⟨_, _, rfl⟩ := h
  exact ⟨rfl, rfl⟩

/-- Witness of the amended C26: the startup on the empty data directory of the examples. -/
theorem C26_out_size_is_set_at_startup_only_witness :
    bmp_sys_started_example.out.offset = 0
      ∧ bmp_sys_started_example.out.size = bmp_sys_fresh_example.out.size :=
  (C26_out_size_is_set_at_startup_only env_example).2.2.2 os_empty_example os_example
    log_sys_started_example (log_set_tracked_lsn log_sys_started_example 8204)
    bmp_sys_fresh_example bmp_sys_started_example rfl rfl
    (read_init_first_example log_sys_started_example (by decide))

/-! ## The position of a write -/

/-- C27, the code at a failing input.  `log_online_write_bitmap_page` passes
`offset & 0xFFFFFFFF` as the low word and `offset << 32` as the high word of the file
position.  At `out.offset = 4096` the pair is `(4096, 2 ^ 44)`, and at `out.offset = 2 ^ 32` it
is `(0, 0)`, which denotes the start of the file, whereas `log_online_read_bitmap_page` uses
`(offset & 0xFFFFFFFF, offset >> 32)`, here `(4096, 0)` and `(0, 1)`: the pair that is passed
to the write does not denote `out.offset`. -/
theorem C27_write_position_high_word :
    (log_online_write_bitmap_page env_example os_example bmp_sys_at_4096_example
        block_example).1.writes
      = [⟨"ib_modified_log_1_0.xdb".toList, block_example.bytes, 4096, 17592186044416, true⟩]
    ∧ 4096 + 17592186044416 * 2 ^ 32 ≠ 4096
    ∧ (4096 &&& 0xFFFFFFFF, 4096 >>> 32) = (4096, 0)
    ∧ (log_online_write_bitmap_page env_example os_example bmp_sys_at_4g_example
        block_example).1.writes
      = [⟨"ib_modified_log_1_0.xdb".toList, block_example.bytes, 0, 0, true⟩]
    ∧ 0 + 0 * 2 ^ 32 ≠ 4294967296
    ∧ (4294967296 &&& 0xFFFFFFFF, 4294967296 >>> 32) = (0, 1) := by
  have hd1 : os_file_data env_example os_example bmp_sys_at_4096_example.out.file
      = some [] := by decide
  have hd2 : os_file_data env_example os_example bmp_sys_at_4g_example.out.file
      = some [] := by decide
  refine ⟨?_, by decide, by decide, ?_, by decide, by decide⟩
  · rw [write_bitmap_page_ok env_example os_example bmp_sys_at_4096_example block_example []
      rfl hd1]
    rfl
  · rw [write_bitmap_page_ok env_example os_example bmp_sys_at_4g_example block_example []
      rfl hd2]
    rfl

/-! ## The byte index of a page in its block -/

/-- C28: the byte-index formula.  With `block_start_page = (page_no / 32448) * 32448`, the
byte index that `log_online_set_page_bit` computes, `page_no % block_start_page / 8` when
`block_start_page` is not 0 and `page_no / 8` otherwise, equals
`(page_no - block_start_page) / 8`, and the bit index `page_no % 8` equals
`(page_no - block_start_page) % 8`; hence `log_online_set_page_bit` is the function of the
specification `set_page_bit_reference`. -/
theorem C28_byte_index_formula (s : log_bitmap_struct) (space page_no : Nat) :
    (if page_no / MODIFIED_PAGE_BLOCK_ID_COUNT * MODIFIED_PAGE_BLOCK_ID_COUNT ≠ 0 then
        page_no % (page_no / MODIFIED_PAGE_BLOCK_ID_COUNT * MODIFIED_PAGE_BLOCK_ID_COUNT) / 8
      else page_no / 8)
      = (page_no - page_no / MODIFIED_PAGE_BLOCK_ID_COUNT * MODIFIED_PAGE_BLOCK_ID_COUNT) / 8
    ∧ page_no % 8
      = (page_no - page_no / MODIFIED_PAGE_BLOCK_ID_COUNT * MODIFIED_PAGE_BLOCK_ID_COUNT) % 8
    ∧ log_online_set_page_bit s space page_no = set_page_bit_reference s space page_no := by
  have hbyte : (if page_no / 32448 * 32448 ≠ 0 then page_no % (page_no / 32448 * 32448) / 8
      else page_no / 8) = (page_no - page_no / 32448 * 32448) / 8 := by
    rw [block_pos_eq]
    omega
  have hbit : page_no % 8 = (page_no - page_no / 32448 * 32448) % 8 := by omega
  refine ⟨?_, ?_, ?_⟩
  · simp only [ID_COUNT_eq]
    exact hbyte
  · simp only [ID_COUNT_eq]
    exact hbit
  · unfold log_online_set_page_bit set_page_bit_reference
    simp only [ID_COUNT_eq]
    rw [hbyte, ← hbit]

/-! ## The array of the file range -/

theorem is_bitmap_file_3_1500 (n : Nat) :
    log_online_is_bitmap_file
      ⟨"ib_modified_log_3_1500.xdb".toList, os_file_type_t.OS_FILE_TYPE_FILE, n⟩
      = some (3, 1500) := by
  rfl

/-- A file of the second pass whose array index is not below the number of slots: the access
is outside the array. -/
theorem setup_pass2_overrun (env : Env) (range_end first_seq first_lsn seq lsn : Nat)
    (files : List log_online_bitmap_file_range_entry) (info : os_file_stat_t)
    (hb : log_online_is_bitmap_file info = some (seq, lsn))
    (hsel : ¬ (lsn ≥ range_end ∨ lsn < first_lsn))
    (hpos : files.length ≤ (seq + 2 ^ 64 - first_seq) % 2 ^ 64) :
    log_online_setup_bitmap_file_range_pass2 env range_end first_seq first_lsn (some files)
        info = none := by
  unfold log_online_setup_bitmap_file_range_pass2
  simp only [hb]
  rw [if_neg hsel, List.getElem?_eq_none hpos]

/-- The result of `log_online_setup_bitmap_file_range` when the second pass leaves the
array. -/
theorem setup_bitmap_file_range_overrun (env : Env) (os : os_state)
    (range_start range_end : Nat) (st : bitmap_file_range_pass1) (hfault : os.faults = [])
    (h1 : (os_file_readdir os).foldl
      (log_online_setup_bitmap_file_range_pass1 range_start range_end)
      ⟨0, 2 ^ 64 - 1, 2 ^ 64 - 1⟩ = st)
    (hseq : st.first_file_seq_num ≠ 2 ^ 64 - 1) (hcount : st.count ≠ 0)
    (h2 : (os_file_readdir os).foldl
      (log_online_setup_bitmap_file_range_pass2 env range_end st.first_file_seq_num
        st.first_file_start_lsn) (some (List.replicate st.count ⟨[], 0, 0⟩)) = none) :
    log_online_setup_bitmap_file_range env os range_start range_end = none := by
  unfold log_online_setup_bitmap_file_range
  rw [os_file_opendir_ok os hfault]
  simp only [Bool.not_true, Bool.false_eq_true, if_false]
  rw [h1, if_neg (by simp only [not_not]; exact Or.inl hseq), os_file_closedir_ok os hfault]
  simp only [Bool.false_eq_true, if_false]
  rw [if_neg hcount, os_file_opendir_ok os hfault]
  simp only [Bool.not_true, Bool.false_eq_true, if_false]
  rw [h2]

/-- C29, the code at a failing input.  The data directory holds the bitmap files of the
sequence numbers 1 and 3, and the range is from 0 to 10000.  The first pass counts 2 files
with the first sequence number 1; in the second pass the file of the sequence number 3 passes
the filter and has the array index `3 - 1 = 2`, which is not below the count 2: the slot that
is read and written lies outside the allocated array. -/
theorem C29_array_index_beyond_count :
    (os_file_readdir os_gap_example).foldl
        (log_online_setup_bitmap_file_range_pass1 0 10000) ⟨0, 2 ^ 64 - 1, 2 ^ 64 - 1⟩
      = ⟨2, 1, 0⟩
    ∧ log_online_is_bitmap_file
        ⟨"ib_modified_log_3_1500.xdb".toList, os_file_type_t.OS_FILE_TYPE_FILE, 0⟩
      = some (3, 1500)
    ∧ ¬ ((3 + 2 ^ 64 - 1) % 2 ^ 64 < 2)
    ∧ log_online_setup_bitmap_file_range env_example os_gap_example 0 10000 = none := by
  have hr : os_file_readdir os_gap_example
      = [⟨"ib_modified_log_1_0.xdb".toList, os_file_type_t.OS_FILE_TYPE_FILE, 0⟩,
        ⟨"ib_modified_log_3_1500.xdb".toList, os_file_type_t.OS_FILE_TYPE_FILE, 0⟩] := rfl
  have h1 : (os_file_readdir os_gap_example).foldl
      (log_online_setup_bitmap_file_range_pass1 0 10000) ⟨0, 2 ^ 64 - 1, 2 ^ 64 - 1⟩
        = ⟨2, 1, 0⟩ := by
    rw [hr, List.foldl_cons, List.foldl_cons, List.foldl_nil,
      setup_pass1_step 0 10000 1 0 _ _ (is_bitmap_file_1_0 0) (by decide)
        (Or.inl (le_refl _)),
      setup_pass1_step 0 10000 3 1500 _ _ (is_bitmap_file_3_1500 0) (by decide)
        (Or.inl (Nat.zero_le _))]
    simp only []
    norm_num
  refine ⟨h1, is_bitmap_file_3_1500 0, by norm_num, ?_⟩
  refine setup_bitmap_file_range_overrun env_example os_gap_example 0 10000 ⟨2, 1, 0⟩ rfl h1
    (by decide) (by decide) ?_
  rw [hr, List.foldl_cons, List.foldl_cons, List.foldl_nil]
  simp only []
  rw [show List.replicate 2 (⟨[], 0, 0⟩ : log_online_bitmap_file_range_entry)
      = [⟨[], 0, 0⟩, ⟨[], 0, 0⟩] from rfl,
    setup_pass2_step env_example 10000 1 0 1 0 _ ⟨[], 0, 0⟩ _ (is_bitmap_file_1_0 0)
      (by decide) (by norm_num) (by decide)]
  simp only []
  rw [show (1 + 2 ^ 64 - 1) % 2 ^ 64 = 0 by norm_num, name_take_1_0]
  simp only [List.set_cons_zero]
  exact setup_pass2_overrun env_example 10000 1 0 3 1500 _ _ (is_bitmap_file_3_1500 0)
    (by decide) (by norm_num)

/-- C30, the code at a failing input.  Two data directories hold the same two bitmap files,
of the start LSNs 0 and 1500, in the two possible enumeration orders.  For the range from 1500
to 2500 `log_online_setup_bitmap_file_range` gives the count 2 and both files in one order,
and the count 1 and the file of LSN 1500 alone in the other order. -/
theorem C30_file_range_differs_between_permutations :
    List.Perm os_range_example.files os_range_reversed_example.files
    ∧ (log_online_setup_bitmap_file_range env_example os_range_example 1500 2500).map
        (fun r => r.2.2)
      = some ⟨2, [⟨"ib_modified_log_1_0.xdb".toList, 0, 1⟩,
          ⟨"ib_modified_log_2_1500.xdb".toList, 1500, 2⟩]⟩
    ∧ (log_online_setup_bitmap_file_range env_example os_range_reversed_example 1500
        2500).map (fun r => r.2.2)
      = some ⟨1, [⟨"ib_modified_log_2_1500.xdb".toList, 1500, 2⟩]⟩
    ∧ (log_online_setup_bitmap_file_range env_example os_range_example 1500 2500).map
        (fun r => r.2.2)
      ≠ (log_online_setup_bitmap_file_range env_example os_range_reversed_example 1500
        2500).map (fun r => r.2.2) := by
  refine ⟨List.Perm.swap _ _ [], ?_, ?_, ?_⟩
  · rw [setup_bitmap_file_range_range_example]
    rfl
  · rw [setup_bitmap_file_range_range_reversed_example]
    rfl
  · rw [setup_bitmap_file_range_range_example, setup_bitmap_file_range_range_reversed_example]
    decide

/-! ## The width of the checksum -/

/-- C34: the checksum width.  For every block the value of `log_online_calc_checksum`, computed
without truncation, is below `2 ^ 32`; so the 4-byte checksum field that
`log_online_write_bitmap` stores reads back as the same value, and it equals the checksum
that `log_online_read_bitmap_page` recomputes over the stored block, the field lying outside
the bytes that are summed. -/
theorem C34_checksum_width (block : Page) :
    log_online_calc_checksum block < 2 ^ 32
      ∧ mach_read_from_4
          (mach_write_to_4 block MODIFIED_PAGE_BLOCK_CHECKSUM (log_online_calc_checksum block))
          MODIFIED_PAGE_BLOCK_CHECKSUM
        = log_online_calc_checksum block
      ∧ mach_read_from_4
          (mach_write_to_4 block MODIFIED_PAGE_BLOCK_CHECKSUM (log_online_calc_checksum block))
          MODIFIED_PAGE_BLOCK_CHECKSUM
        = log_online_calc_checksum
          (mach_write_to_4 block MODIFIED_PAGE_BLOCK_CHECKSUM
            (log_online_calc_checksum block)) := by
  have hlt := calc_checksum_lt block
  have hread : mach_read_from_4
      (mach_write_to_4 block MODIFIED_PAGE_BLOCK_CHECKSUM (log_online_calc_checksum block))
      MODIFIED_PAGE_BLOCK_CHECKSUM = log_online_calc_checksum block := by
    simp only [ MODIFIED_PAGE_BLOCK_CHECKSUM, MODIFIED_PAGE_BLOCK_SIZE]
    rw [mach_read_from_4_write_same _ _ _ (by omega), Nat.mod_eq_of_lt hlt]
  refine ⟨hlt, hread, ?_⟩
  rw [hread]
  simp only [ MODIFIED_PAGE_BLOCK_CHECKSUM, MODIFIED_PAGE_BLOCK_SIZE]
  exact calc_checksum_congr _ _
    (fun i hi => (get_mach_write_to_4_of_disjoint _ _ _ _ (Or.inl hi)).symm)

/-! ## A new block of the modified-page set -/

theorem get_new_node (space bsp j : Nat) (h : j < 20 ∨ 28 ≤ j) :
    (write_bmp_key Page.zero space bsp).get j = 0 := by
  rw [get_write_bmp_key_of_disjoint _ _ _ _ h, Page.get_zero]

theorem read_4_new_node (space bsp off : Nat) (h : off + 4 ≤ 20 ∨ 28 ≤ off) :
    mach_read_from_4 (write_bmp_key Page.zero space bsp) off = 0 := by
  rw [mach_read_from_4_eq, get_new_node _ _ _ (by omega), get_new_node _ _ _ (by omega),
    get_new_node _ _ _ (by omega), get_new_node _ _ _ (by omega)]
  rfl

theorem read_4_page_or_bit_high (p : Page) (block_pos bit_pos off : Nat)
    (hb : block_pos < 4056) (h : 4088 ≤ off) :
    mach_read_from_4 (page_or_bit p block_pos bit_pos) off = mach_read_from_4 p off := by
  unfold page_or_bit
  simp only [ MODIFIED_PAGE_BLOCK_BITMAP]
  rw [mach_read_from_4_set_disjoint _ _ _ _ (by omega)]

theorem get_page_or_bit_same (p : Page) (block_pos bit_pos : Nat) (hb : block_pos < 4056) :
    ((page_or_bit p block_pos bit_pos).get (32 + block_pos)).val
      = ((p.get (32 + block_pos)).val ||| (1 <<< bit_pos)) % 256 := by
  unfold page_or_bit
  simp only [ MODIFIED_PAGE_BLOCK_BITMAP]
  rw [Page.get_set_eq _ _ _ (by omega), to_byte_val]

theorem block_pos_lt (page_no : Nat) : page_no % 32448 / 8 < 4056 := by omega

/-- C31: recycled nodes carry no stale data.  When `log_online_set_page_bit` inserts a new
block, the block does not depend on the free list, from whose head the node is taken when the
list is not empty: whatever the free list holds, the new block has `is_last_block = 0`,
`start_lsn = 0`, `end_lsn = 0`, a checksum field of 0, and every byte from offset 28 on is 0
but for the byte of the page, in which the bit of the page alone is set. -/
theorem C31_new_block_has_no_stale_data (s : log_bitmap_struct) (space page_no : Nat)
    (hs : space ≠ ULINT_UNDEFINED) (hp : page_no ≠ ULINT_UNDEFINED)
    (hf : (rbt_search s.modified_pages
      (write_bmp_key Page.zero space (page_no / 32448 * 32448))).result ≠ 0) :
    ∃ blk,
      (∀ free : List Page,
        log_online_set_page_bit { s with page_free_list := free } space page_no
          = some { s with
              page_free_list := free.tail
              modified_pages :=
                s.modified_pages.take (rbt_search s.modified_pages
                    (write_bmp_key Page.zero space (page_no / 32448 * 32448))).last
                  ++ blk :: s.modified_pages.drop (rbt_search s.modified_pages
                    (write_bmp_key Page.zero space (page_no / 32448 * 32448))).last })
      ∧ mach_read_from_4 blk MODIFIED_PAGE_IS_LAST_BLOCK = 0
      ∧ mach_read_from_8 blk MODIFIED_PAGE_START_LSN = 0
      ∧ mach_read_from_8 blk MODIFIED_PAGE_END_LSN = 0
      ∧ mach_read_from_4 blk MODIFIED_PAGE_BLOCK_CHECKSUM = 0
      ∧ (∀ j, 28 ≤ j → j ≠ 32 + page_no % 32448 / 8 → blk.get j = 0)
      ∧ (blk.get (32 + page_no % 32448 / 8)).val = 2 ^ (page_no % 8) := by
  have hbp := block_pos_lt page_no
  refine ⟨page_or_bit (write_bmp_key Page.zero space (page_no / 32448 * 32448))
    (page_no % 32448 / 8) (page_no % 8), ?_, ?_, ?_, ?_, ?_, ?_, ?_⟩
  · intro free
    exact set_page_bit_of_not_found { s with page_free_list := free } space page_no hs hp hf
  · simp only [ MODIFIED_PAGE_IS_LAST_BLOCK]
    rw [mach_read_from_4_page_or_bit _ _ _ _ (by omega), read_4_new_node _ _ _ (by omega)]
  · simp only [ MODIFIED_PAGE_START_LSN]
    rw [mach_read_from_8_eq, mach_read_from_4_page_or_bit _ _ _ _ (by omega),
      mach_read_from_4_page_or_bit _ _ _ _ (by omega), read_4_new_node _ _ _ (by omega),
      read_4_new_node _ _ _ (by omega)]
    norm_num
  · simp only [ MODIFIED_PAGE_END_LSN]
    rw [mach_read_from_8_eq, mach_read_from_4_page_or_bit _ _ _ _ (by omega),
      mach_read_from_4_page_or_bit _ _ _ _ (by omega), read_4_new_node _ _ _ (by omega),
      read_4_new_node _ _ _ (by omega)]
    norm_num
  · simp only [ MODIFIED_PAGE_BLOCK_CHECKSUM, MODIFIED_PAGE_BLOCK_SIZE]
    rw [read_4_page_or_bit_high _ _ _ _ hbp (by omega), read_4_new_node _ _ _ (by omega)]
  · intro j hj hne
    rw [get_page_or_bit_of_ne _ _ _ _ hne, get_new_node _ _ _ (Or.inr hj)]
  · rw [get_page_or_bit_same _ _ _ hbp, get_new_node _ _ _ (by omega)]
    have hbit : page_no % 8 < 8 := Nat.mod_lt _ (by norm_num)
    have h0 : ((0 : byte).val ||| 1 <<< (page_no % 8)) = 2 ^ (page_no % 8) := by
      rw [Nat.shiftLeft_eq, one_mul]
      exact Nat.zero_or _
    rw [h0]
    have : 2 ^ (page_no % 8) < 2 ^ 8 := Nat.pow_lt_pow_right (by norm_num) hbit
    omega

/-- Witness of C31: the bit of page 5 of space 7 is set in an empty set while the free list
holds the node of a block that has been written, with its LSNs and its checksum. -/
theorem C31_new_block_has_no_stale_data_witness :
    ∃ s' blk,
      log_online_set_page_bit { bmp_sys_example with page_free_list := [block_example] } 7 5
        = some s'
      ∧ s'.modified_pages = [blk] ∧ s'.page_free_list = []
      ∧ mach_read_from_4 blk MODIFIED_PAGE_IS_LAST_BLOCK = 0
      ∧ mach_read_from_8 blk MODIFIED_PAGE_START_LSN = 0
      ∧ mach_read_from_8 blk MODIFIED_PAGE_END_LSN = 0
      ∧ mach_read_from_4 blk MODIFIED_PAGE_BLOCK_CHECKSUM = 0 := by
  obtain ⟨blk, h, h1, h2, h3, h4, _, _⟩ :=
    C31_new_block_has_no_stale_data bmp_sys_example 7 5 (by decide) (by decide)
      (by simp [bmp_sys_example, rbt_search])
  exact ⟨_, blk, h [block_example], by simp [bmp_sys_example, rbt_search], rfl, h1, h2, h3,
    h4⟩

/-- C32: the payload bounds.  For every space id and page number below `2 ^ 32`,
`log_online_set_page_bit` returns; the byte index `block_pos` that it computes is below 4056,
so that the byte `32 + block_pos` lies in the bitmap, from offset 32 up to 4088; the block of
the page after the call is the block before the call, or the new block with its key, with this
byte replaced: every other byte of the block, and so the header fields, the reserved bytes and
the checksum field, is as it was; and the other blocks of the set are as they were. -/
theorem C32_payload_bounds (s : log_bitmap_struct) (space page_no : Nat)
    (hs : space < 2 ^ 32) (hp : page_no < 2 ^ 32) :
    (if page_no / MODIFIED_PAGE_BLOCK_ID_COUNT * MODIFIED_PAGE_BLOCK_ID_COUNT ≠ 0 then
        page_no % (page_no / MODIFIED_PAGE_BLOCK_ID_COUNT * MODIFIED_PAGE_BLOCK_ID_COUNT) / 8
      else page_no / 8) = page_no % 32448 / 8
    ∧ page_no % 32448 / 8 < MODIFIED_PAGE_BLOCK_BITMAP_LEN
    ∧ MODIFIED_PAGE_BLOCK_BITMAP ≤ MODIFIED_PAGE_BLOCK_BITMAP + page_no % 32448 / 8
    ∧ MODIFIED_PAGE_BLOCK_BITMAP + page_no % 32448 / 8 < MODIFIED_PAGE_BLOCK_UNUSED_2
    ∧ ∃ s' old,
      log_online_set_page_bit s space page_no = some s'
      ∧ ((rbt_search s.modified_pages
            (write_bmp_key Page.zero space (page_no / 32448 * 32448))).result = 0 →
          s.modified_pages[(rbt_search s.modified_pages
            (write_bmp_key Page.zero space (page_no / 32448 * 32448))).last]? = some old
          ∧ s'.modified_pages = s.modified_pages.set
            (rbt_search s.modified_pages
              (write_bmp_key Page.zero space (page_no / 32448 * 32448))).last
            (page_or_bit old (page_no % 32448 / 8) (page_no % 8))
          ∧ ∀ i, i ≠ (rbt_search s.modified_pages
              (write_bmp_key Page.zero space (page_no / 32448 * 32448))).last →
            s'.modified_pages[i]? = s.modified_pages[i]?)
      ∧ ((rbt_search s.modified_pages
            (write_bmp_key Page.zero space (page_no / 32448 * 32448))).result ≠ 0 →
          old = write_bmp_key Page.zero space (page_no / 32448 * 32448)
          ∧ s'.modified_pages
            = s.modified_pages.take (rbt_search s.modified_pages
                (write_bmp_key Page.zero space (page_no / 32448 * 32448))).last
              ++ page_or_bit old (page_no % 32448 / 8) (page_no % 8)
                :: s.modified_pages.drop (rbt_search s.modified_pages
                  (write_bmp_key Page.zero space (page_no / 32448 * 32448))).last)
      ∧ (∀ j, j ≠ 32 + page_no % 32448 / 8 →
          (page_or_bit old (page_no % 32448 / 8) (page_no % 8)).get j = old.get j) := by
  have hs' : space ≠ ULINT_UNDEFINED := by simp only [ULINT_UNDEFINED]; omega
  have hp' : page_no ≠ ULINT_UNDEFINED := by simp only [ULINT_UNDEFINED]; omega
  have hbp := block_pos_lt page_no
  refine ⟨?_, ?_, ?_, ?_, ?_⟩
  · simp only [ID_COUNT_eq]
    exact block_pos_eq page_no
  · simp only [ MODIFIED_PAGE_BLOCK_BITMAP_LEN, MODIFIED_PAGE_BLOCK_UNUSED_2,
      MODIFIED_PAGE_BLOCK_SIZE, MODIFIED_PAGE_BLOCK_BITMAP]
    omega
  · exact Nat.le_add_right _ _
  · simp only [ MODIFIED_PAGE_BLOCK_UNUSED_2, MODIFIED_PAGE_BLOCK_SIZE,
      MODIFIED_PAGE_BLOCK_BITMAP]
    omega
  · by_cases hf : (rbt_search s.modified_pages
        (write_bmp_key Page.zero space (page_no / 32448 * 32448))).result = 0
    · obtain ⟨node, hn, _⟩ := rbt_search_found _ _ hf
      refine ⟨_, node, set_page_bit_of_found s space page_no hs' hp' hf,
        fun _ => ⟨hn, ?_, ?_⟩, fun h => absurd hf h,
        fun j hj => get_page_or_bit_of_ne _ _ _ _ hj⟩
      · simp only []
        rw [List.getD_eq_getElem?_getD, hn]
        rfl
      · intro i hi
        simp only []
        rw [List.getElem?_set_ne (Ne.symm hi)]
    · refine ⟨_, write_bmp_key Page.zero space (page_no / 32448 * 32448),
        set_page_bit_of_not_found s space page_no hs' hp' hf,
        fun h => absurd h hf, fun _ => ⟨rfl, rfl⟩,
        fun j hj => get_page_or_bit_of_ne _ _ _ _ hj⟩

/-- Witness of C32: the bit of page 5 of space 7, set in an empty set. -/
theorem C32_payload_bounds_witness :
    ∃ s' old,
      log_online_set_page_bit bmp_sys_example 7 5 = some s'
      ∧ old = write_bmp_key Page.zero 7 (5 / 32448 * 32448)
      ∧ s'.modified_pages = [page_or_bit old (5 % 32448 / 8) (5 % 8)]
      ∧ (∀ j, j ≠ 32 + 5 % 32448 / 8 →
          (page_or_bit old (5 % 32448 / 8) (5 % 8)).get j = old.get j) := by
  obtain ⟨_, _, _, _, s', old, h, _, hnew, hget⟩ :=
    C32_payload_bounds bmp_sys_example 7 5 (by decide) (by decide)
  obtain ⟨hold, hm⟩ := hnew (by simp [bmp_sys_example, rbt_search])
  refine ⟨s', old, h, hold, ?_, hget⟩
  rw [hm]
  simp [bmp_sys_example, rbt_search]

/-! ## The assertions of `log_online_read_bitmap_page` -/

theorem os_file_read_files (env : Env) (os : os_state) (file : List Char) (o oh n : Nat) :
    (os_file_read env os file o oh n).2.files = os.files := by
  unfold os_file_read
  have hf := os_next_fault_files os
  rcases hnf : os_next_fault os with ⟨fault, os1⟩
  rw [hnf] at hf
  simp only [] at hf ⊢
  split
  · exact hf
  · split <;> exact hf

/-- The three assertions of `log_online_read_bitmap_page` hold exactly when the function
returns. -/
theorem read_bitmap_page_asserts (env : Env) (os : os_state)
    (bitmap_file : log_online_bitmap_file_t) (page : Page) (checksum_ok : Bool) :
    (∃ r, log_online_read_bitmap_page env os bitmap_file page checksum_ok = some r)
      ↔ bitmap_file.size ≥ MODIFIED_PAGE_BLOCK_SIZE
        ∧ bitmap_file.offset ≤ bitmap_file.size - MODIFIED_PAGE_BLOCK_SIZE
        ∧ bitmap_file.offset % MODIFIED_PAGE_BLOCK_SIZE = 0 := by
  unfold log_online_read_bitmap_page
  simp only []
  by_cases h1 : bitmap_file.size ≥ MODIFIED_PAGE_BLOCK_SIZE
  · by_cases h2 : bitmap_file.offset ≤ bitmap_file.size - MODIFIED_PAGE_BLOCK_SIZE
    · by_cases h3 : bitmap_file.offset % MODIFIED_PAGE_BLOCK_SIZE = 0
      · rw [if_neg (not_not.mpr h1), if_neg (not_not.mpr h2), if_neg (not_not.mpr h3)]
        refine ⟨fun _ => ⟨h1, h2, h3⟩, fun _ => ?_⟩
        split <;> exact ⟨_, rfl⟩
      · rw [if_neg (not_not.mpr h1), if_neg (not_not.mpr h2), if_pos h3]
        exact ⟨fun ⟨_, h⟩ => Option.noConfusion h, fun h => absurd h.2.2 h3⟩
    · rw [if_neg (not_not.mpr h1), if_pos h2]
      exact ⟨fun ⟨_, h⟩ => Option.noConfusion h, fun h => absurd h.2.1 h2⟩
  · rw [if_pos h1]
    exact ⟨fun ⟨_, h⟩ => Option.noConfusion h, fun h => absurd h.1 h1⟩

/-- What a call of `log_online_read_bitmap_page` that returns does to the file and to the
operating system. -/
theorem read_bitmap_page_result_of (env : Env) (os : os_state)
    (bitmap_file : log_online_bitmap_file_t) (page : Page) (checksum_ok : Bool)
    (r : read_bitmap_page_result)
    (h : log_online_read_bitmap_page env os bitmap_file page checksum_ok = some r) :
    r.os.files = os.files ∧ r.bitmap_file.size = bitmap_file.size
      ∧ (r.success = true →
        r.bitmap_file.offset = (bitmap_file.offset + MODIFIED_PAGE_BLOCK_SIZE) % 2 ^ 64)
      ∧ (r.success = false → r.bitmap_file = bitmap_file) := by
  unfold log_online_read_bitmap_page at h
  simp only [] at h
  split_ifs at h
  have hf := os_file_read_files env os bitmap_file.file (bitmap_file.offset &&& 0xFFFFFFFF)
    (bitmap_file.offset >>> 32) MODIFIED_PAGE_BLOCK_SIZE
  split at h
  · rename_i os1 hr
    rw [hr] at hf
    simp only [Option.some.injEq] at h
    subst h
    exact ⟨hf, rfl, fun hc => Bool.noConfusion hc, fun _ => rfl⟩
  · rename_i buf os1 hr
    rw [hr] at hf
    simp only [Option.some.injEq] at h
    subst h
    exact ⟨hf, rfl, fun _ => rfl, fun hc => Bool.noConfusion hc⟩

/-! ## The backward loop of `log_online_read_last_tracked_lsn` -/

/-- The loop returns, with every assertion of the reads satisfied, when the read offset is a
multiple of the block size within the file size, and the fuel exceeds the number of blocks
before the read offset. -/
theorem read_last_tracked_lsn_loop_returns (env : Env) :
    ∀ (fuel : Nat) (st : read_last_tracked_lsn_state),
      st.read_offset % 4096 = 0 → st.read_offset ≤ st.s.out.size → st.s.out.size < 2 ^ 64 →
      st.read_offset / 4096 + 1 ≤ fuel →
      ∃ st', log_online_read_last_tracked_lsn_loop env fuel st = some st' := by
  intro fuel
  induction fuel with
  | zero => intro st _ _ _ h; omega
  | succ fuel ih =>
    intro st halign hle h64 hfuel
    rw [log_online_read_last_tracked_lsn_loop]
    split_ifs with hc
    · simp only [Bool.and_eq_true, Bool.not_eq_true', decide_eq_true_eq] at hc
      have hpos : st.read_offset > 0 := hc.1.2
      have hro : (st.read_offset + 2 ^ 64 - MODIFIED_PAGE_BLOCK_SIZE) % 2 ^ 64
          = st.read_offset - 4096 := by
        simp only [ MODIFIED_PAGE_BLOCK_SIZE]
        omega
      simp only [hro]
      obtain ⟨r, hr⟩ := (read_bitmap_page_asserts env st.os
        { st.s.out with offset := st.read_offset - 4096 } st.page st.checksum_ok).mpr
        ⟨by simp only [ MODIFIED_PAGE_BLOCK_SIZE]; omega,
          by simp only [ MODIFIED_PAGE_BLOCK_SIZE]; omega,
          by simp only [ MODIFIED_PAGE_BLOCK_SIZE]; omega⟩
      obtain ⟨_, hsize, _, _⟩ := read_bitmap_page_result_of env st.os _ st.page
        st.checksum_ok r hr
      rw [hr]
      simp only []
      by_cases hs : (!r.success) = true
      · rw [if_pos hs]
        exact ⟨_, rfl⟩
      · rw [if_neg hs]
        exact ih _ (by simp only []; omega) (by simp only []; rw [hsize]; simp only []; omega)
          (by simp only []; rw [hsize]; exact h64) (by simp only []; omega)
    · exact ⟨_, rfl⟩

/-- The function `log_online_read_last_tracked_lsn` returns when the offset is a multiple of
the block size within the file size. -/
theorem read_last_tracked_lsn_returns (env : Env) (os : os_state) (s : log_bitmap_struct)
    (halign : s.out.offset % 4096 = 0) (hle : s.out.offset ≤ s.out.size)
    (h64 : s.out.size < 2 ^ 64) :
    ∃ r, log_online_read_last_tracked_lsn env os s = some r := by
  unfold log_online_read_last_tracked_lsn
  obtain ⟨st, hst⟩ := read_last_tracked_lsn_loop_returns env
    (s.out.offset / MODIFIED_PAGE_BLOCK_SIZE + 1) ⟨os, s, Page.zero, 0, false, s.out.offset⟩
    halign hle h64 (le_refl _)
  rw [hst]
  exact ⟨_, rfl⟩

/-! ## The call from `log_online_read_init` -/

theorem os_file_opendir_files (os : os_state) : (os_file_opendir os).2.files = os.files := by
  unfold os_file_opendir
  have hf := os_next_fault_files os
  rcases hnf : os_next_fault os with ⟨fault, os1⟩
  rw [hnf] at hf
  exact hf

theorem os_file_closedir_files (os : os_state) : (os_file_closedir os).2.files = os.files :=
  os_next_fault_files os

theorem os_file_open_files (env : Env) (os : os_state) (name : List Char) :
    (os_file_open env os name).2.files = os.files := by
  unfold os_file_open
  have hf := os_next_fault_files os
  rcases hnf : os_next_fault os with ⟨fault, os1⟩
  rw [hnf] at hf
  simp only [] at hf ⊢
  split <;> exact hf

theorem os_file_get_size_lt (env : Env) (os : os_state) (name : List Char) (bound : Nat)
    (hb : 0 < bound) (h : ∀ e ∈ os.files, e.data.length < bound) :
    os_file_get_size env os name < bound := by
  unfold os_file_get_size os_file_data
  cases hfind : os.files.find? (fun e => e.name = os_entry_name env name) with
  | none => exact hb
  | some e => exact h e (List.mem_of_find?_eq_some hfind)

/-- The function `log_online_read_init` is its first part `log_online_read_init_open`
followed, when the last bitmap file was opened, by the call of
`log_online_read_last_tracked_lsn` in the state that the first part has left and by the last
part `log_online_read_init_track`, and otherwise by the start of a new file. -/
theorem read_init_eq_open (env : Env) (os : os_state) (log_sys : log_t)
    (s : log_bitmap_struct) :
    log_online_read_init env os log_sys s
      = (log_online_read_init_open env os s).bind (fun p =>
          if p.1 then
            (log_online_read_last_tracked_lsn env p.2.1 p.2.2.1).bind
              (fun r => log_online_read_init_track env r.2.1 log_sys r.2.2
                (if r.1 = 0 then p.2.2.2 else r.1)
                (max log_sys.last_checkpoint_lsn (MIN_TRACKED_LSN env)))
          else
            (log_online_start_bitmap_file env p.2.1 p.2.2.1).map
              (fun r => log_online_read_init_finish r.1 log_sys r.2
                (max log_sys.last_checkpoint_lsn (MIN_TRACKED_LSN env)))) := by
  have key1 : ∀ o : Option (os_state × log_bitmap_struct),
      (match o with
        | none => none
        | some (os, s) =>
          some (log_online_read_init_finish os log_sys s
            (max log_sys.last_checkpoint_lsn (MIN_TRACKED_LSN env))))
        = o.map (fun r => log_online_read_init_finish r.1 log_sys r.2
            (max log_sys.last_checkpoint_lsn (MIN_TRACKED_LSN env))) := by
    intro o
    cases o with
    | none => rfl
    | some r => rfl
  have key2 : ∀ (o : Option (Nat × os_state × log_bitmap_struct)) (lsn0 : Nat),
      (match o with
        | none => none
        | some (l, os, s) =>
          log_online_read_init_track env os log_sys s (if l = 0 then lsn0 else l)
            (max log_sys.last_checkpoint_lsn (MIN_TRACKED_LSN env)))
        = o.bind (fun r => log_online_read_init_track env r.2.1 log_sys r.2.2
            (if r.1 = 0 then lsn0 else r.1)
            (max log_sys.last_checkpoint_lsn (MIN_TRACKED_LSN env))) := by
    intro o lsn0
    cases o with
    | none => rfl
    | some r => rfl
  unfold log_online_read_init log_online_read_init_open
  simp only []
  rcases os_file_opendir os with ⟨opened, os1⟩
  simp only []
  cases opened
  · rfl
  · simp only [Bool.not_true, Bool.false_eq_true, if_false]
    rcases os_file_closedir os1 with ⟨failed, os2⟩
    simp only []
    cases failed
    · simp only [Bool.false_eq_true, if_false]
      generalize (if (List.foldl (log_online_read_init_scan env) (0, MIN_TRACKED_LSN env, [])
        (os_file_readdir os1)).1 = 0 then _ else _ : log_bitmap_struct) = sa
      rcases os_file_open env os2 sa.out.name with ⟨success, os3⟩
      simp only []
      cases success
      · simp only [Bool.not_false, if_true, Option.some_bind, Bool.false_eq_true, if_false]
        exact key1 _
      · simp only [Bool.not_true, Bool.false_eq_true, if_false, Option.some_bind, if_true]
        exact key2 _ _
    · rfl

/-- The first part of `log_online_read_init` ends the process exactly when the data directory
cannot be opened or cannot be closed. -/
theorem read_init_open_none_iff (env : Env) (os : os_state) (s : log_bitmap_struct) :
    log_online_read_init_open env os s = none
      ↔ (os_file_opendir os).1 = false
        ∨ (os_file_closedir (os_file_opendir os).2).1 = true := by
  unfold log_online_read_init_open
  simp only []
  rcases os_file_opendir os with ⟨opened, os1⟩
  simp only []
  cases opened
  · simp
  · simp only [Bool.not_true, Bool.false_eq_true, if_false]
    rcases os_file_closedir os1 with ⟨failed, os2⟩
    simp only []
    cases failed
    · simp only [Bool.false_eq_true, if_false]
      constructor
      · intro h
        split_ifs at h
      · intro h
        simp at h
    · simp

/-- The state in which `log_online_read_init` calls `log_online_read_last_tracked_lsn`: the
files of the data directory are as they were, the size is a 64-bit value and the offset is the
size rounded down to a whole number of blocks. -/
theorem read_init_open_state (env : Env) (os os1 : os_state) (s s1 : log_bitmap_struct)
    (lsn0 : Nat) (hsizes : ∀ e ∈ os.files, e.data.length < 2 ^ 64)
    (h : log_online_read_init_open env os s = some (true, os1, s1, lsn0)) :
    os1.files = os.files
      ∧ s1.out.offset = s1.out.size - s1.out.size % MODIFIED_PAGE_BLOCK_SIZE
      ∧ s1.out.size < 2 ^ 64 := by
  unfold log_online_read_init_open at h
  simp only [] at h
  have hf1 := os_file_opendir_files os
  rcases h1 : os_file_opendir os with ⟨opened, osa⟩
  rw [h1] at hf1 h
  simp only [] at hf1 h
  cases opened
  · exact Option.noConfusion h
  · simp only [Bool.not_true, Bool.false_eq_true, if_false] at h
    have hf2 := os_file_closedir_files osa
    rcases h2 : os_file_closedir osa with ⟨failed, osb⟩
    rw [h2] at hf2 h
    simp only [] at hf2 h
    cases failed
    · simp only [Bool.false_eq_true, if_false] at h
      generalize (if (List.foldl (log_online_read_init_scan env) (0, MIN_TRACKED_LSN env, [])
        (os_file_readdir osa)).1 = 0 then _ else _ : log_bitmap_struct) = sa at h
      have hf3 := os_file_open_files env osb sa.out.name
      rcases h3 : os_file_open env osb sa.out.name with ⟨success, osc⟩
      rw [h3] at hf3 h
      simp only [] at hf3 h
      cases success
      · simp at h
      · simp only [Bool.not_true, Bool.false_eq_true, if_false, Option.some.injEq,
          Prod.mk.injEq, true_and] at h
        obtain ⟨rfl, rfl, _⟩ := h
        have hfiles : osc.files = os.files := hf3.trans (hf2.trans hf1)
        have hs : ∀ e ∈ osc.files, e.data.length < 2 ^ 64 := by
          rw [hfiles]
          exact hsizes
        refine ⟨hfiles, ?_, ?_⟩
        · split_ifs with hoff
          · rfl
          · simp only [ MODIFIED_PAGE_BLOCK_SIZE] at hoff ⊢
            omega
        · split_ifs <;> exact os_file_get_size_lt env osc _ (2 ^ 64) (by norm_num) hs
    · exact Option.noConfusion h

/-! ## The reads of the iterator -/

theorem os_file_get_size_congr (env : Env) (os os' : os_state) (name : List Char)
    (h : os'.files = os.files) : os_file_get_size env os' name = os_file_get_size env os name := by
  unfold os_file_get_size os_file_data
  rw [h]

theorem bitmap_iterator_rounds_congr (env : Env) (os os' : os_state) (i : log_bitmap_iterator_t)
    (h : os'.files = os.files) :
    bitmap_iterator_rounds env os' i = bitmap_iterator_rounds env os i := by
  unfold bitmap_iterator_rounds
  simp only [os_file_get_size_congr env os os' _ h]

/-- The two outcomes of `log_online_open_bitmap_file_read_only`. -/
theorem open_bitmap_file_read_only_cases (env : Env) (os : os_state) (name : List Char)
    (bitmap_file : log_online_bitmap_file_t) :
    ∃ os1, os1.files = os.files
      ∧ (log_online_open_bitmap_file_read_only env os name bitmap_file
          = (false, os1,
              { bitmap_file with
                name := (env.srv_data_home ++ name).take (env.FN_REFLEN - 1)
                file := (env.srv_data_home ++ name).take (env.FN_REFLEN - 1) })
        ∨ log_online_open_bitmap_file_read_only env os name bitmap_file
          = (true, os1, ⟨(env.srv_data_home ++ name).take (env.FN_REFLEN - 1),
              (env.srv_data_home ++ name).take (env.FN_REFLEN - 1),
              os_file_get_size env os1 ((env.srv_data_home ++ name).take (env.FN_REFLEN - 1)),
              0⟩)) := by
  unfold log_online_open_bitmap_file_read_only
  simp only []
  have hf := os_file_open_files env os ((env.srv_data_home ++ name).take (env.FN_REFLEN - 1))
  rcases hop : os_file_open env os ((env.srv_data_home ++ name).take (env.FN_REFLEN - 1))
    with ⟨success, os1⟩
  rw [hop] at hf
  refine ⟨os1, hf, ?_⟩
  cases success
  · left
    rfl
  · right
    rfl

/-- The loops of `log_online_bitmap_iterator_next` return, with every assertion of the reads
satisfied, from a state of the iterator that is in order, when the fuel is at least the bound
on the number of rounds; and a call that loads a block leaves the iterator in order. -/
theorem bitmap_iterator_next_block_returns (env : Env) :
    ∀ (fuel : Nat) (os : os_state) (i : log_bitmap_iterator_t),
      bitmap_iterator_ok os i → bitmap_iterator_rounds env os i ≤ fuel →
      ∃ b os' i', log_online_bitmap_iterator_next_block env fuel os i = some (b, os', i')
        ∧ os'.files = os.files ∧ (b = true → bitmap_iterator_ok os' i') := by
  intro fuel
  induction fuel with
  | zero =>
    intro os i _ h
    unfold bitmap_iterator_rounds at h
    omega
  | succ fuel ih =>
    intro os i hok hr
    obtain ⟨halign, h64, hlen, hin, hcount, hsizes⟩ := hok
    simp only [ MODIFIED_PAGE_BLOCK_SIZE] at halign
    rw [log_online_bitmap_iterator_next_block]
    by_cases heof : i.in_file.size < MODIFIED_PAGE_BLOCK_SIZE
        ∨ i.in_file.offset > i.in_file.size - MODIFIED_PAGE_BLOCK_SIZE
    · rw [if_pos heof]
      simp only []
      have hi1 : (i.in_i + 1) % 2 ^ 64 = i.in_i + 1 := Nat.mod_eq_of_lt (by omega)
      rw [hi1]
      by_cases hend : i.in_i + 1 = i.in_files.count
      · rw [if_pos hend]
        exact ⟨false, os, _, rfl, rfl, fun h => Bool.noConfusion h⟩
      · rw [if_neg hend]
        have hidx : i.in_i + 1 < i.in_files.files.length := by omega
        rw [List.getElem?_eq_getElem hidx]
        simp only []
        by_cases hseq : (i.in_files.files[i.in_i + 1]).seq_num = 0
        · rw [if_pos hseq]
          exact ⟨false, os, _, rfl, rfl, fun h => Bool.noConfusion h⟩
        · rw [if_neg hseq]
          obtain ⟨os1, hf1, hopen | hopen⟩ := open_bitmap_file_read_only_cases env os
            (i.in_files.files[i.in_i + 1]).name i.in_file
          · rw [hopen]
            simp only [Bool.not_false, if_true]
            exact ⟨false, os1, _, rfl, hf1, fun h => Bool.noConfusion h⟩
          · rw [hopen]
            simp only [Bool.not_true, Bool.false_eq_true, if_false]
            have hsz : os_file_get_size env os1
                ((env.srv_data_home ++ (i.in_files.files[i.in_i + 1]).name).take
                  (env.FN_REFLEN - 1)) < 2 ^ 64 :=
              os_file_get_size_lt env os1 _ (2 ^ 64) (by norm_num)
                (by rw [hf1]; exact hsizes)
            have hdrop := List.drop_eq_getElem_cons hidx
            obtain ⟨b, os', i', h, hf, hok'⟩ := ih os1
              { i with
                in_i := i.in_i + 1
                in_file := ⟨(env.srv_data_home ++ (i.in_files.files[i.in_i + 1]).name).take
                    (env.FN_REFLEN - 1),
                  (env.srv_data_home ++ (i.in_files.files[i.in_i + 1]).name).take
                    (env.FN_REFLEN - 1),
                  os_file_get_size env os1
                    ((env.srv_data_home ++ (i.in_files.files[i.in_i + 1]).name).take
                      (env.FN_REFLEN - 1)), 0⟩ }
              ⟨rfl, hsz, hlen, by simp only []; omega, hcount, by rw [hf1]; exact hsizes⟩
              (by
                rw [bitmap_iterator_rounds_congr env os os1 _ hf1]
                unfold bitmap_iterator_rounds at hr ⊢
                rw [hdrop] at hr
                simp only [List.map_cons, List.sum_cons] at hr
                simp only [os_file_get_size_congr env os os1 _ hf1, MODIFIED_PAGE_BLOCK_SIZE]
                  at hr ⊢
                omega)
            exact ⟨b, os', i', h, hf.trans hf1, hok'⟩
    · rw [if_neg heof]
      simp only [ MODIFIED_PAGE_BLOCK_SIZE] at heof
      obtain ⟨r, hr'⟩ := (read_bitmap_page_asserts env os i.in_file i.page false).mpr
        ⟨by simp only [ MODIFIED_PAGE_BLOCK_SIZE]; omega,
          by simp only [ MODIFIED_PAGE_BLOCK_SIZE]; omega,
          by simp only [ MODIFIED_PAGE_BLOCK_SIZE]; omega⟩
      obtain ⟨hfr, hsize, hsucc, _⟩ := read_bitmap_page_result_of env os i.in_file i.page
        false r hr'
      simp only [ MODIFIED_PAGE_BLOCK_SIZE] at hsucc
      rw [hr']
      simp only []
      by_cases hs : (!r.success) = true
      · rw [if_pos hs]
        exact ⟨false, r.os, _, rfl, hfr, fun h => Bool.noConfusion h⟩
      · rw [if_neg hs]
        have hsuc : r.success = true := by
          cases hrs : r.success
          · rw [hrs] at hs
            exact absurd rfl hs
          · rfl
        have hoff : r.bitmap_file.offset = i.in_file.offset + 4096 := by
          rw [hsucc hsuc]
          exact Nat.mod_eq_of_lt (by omega)
        by_cases hck : (!r.checksum_ok) = true
        · rw [if_pos hck]
          obtain ⟨b, os', i', h, hf, hok'⟩ := ih r.os
            { i with in_file := r.bitmap_file, page := r.page }
            ⟨by simp only [ MODIFIED_PAGE_BLOCK_SIZE]; rw [hoff]; omega,
              by simp only []; rw [hsize]; exact h64, hlen, hin, hcount,
              by rw [hfr]; exact hsizes⟩
            (by
              rw [bitmap_iterator_rounds_congr env os r.os _ hfr]
              unfold bitmap_iterator_rounds at hr ⊢
              simp only [ MODIFIED_PAGE_BLOCK_SIZE] at hr ⊢
              rw [hoff, hsize]
              omega)
          exact ⟨b, os', i', h, hf.trans hfr, hok'⟩
        · rw [if_neg hck]
          refine ⟨true, r.os, _, rfl, hfr, fun _ => ?_⟩
          exact ⟨by simp only [ MODIFIED_PAGE_BLOCK_SIZE]; rw [hoff]; omega,
            by simp only []; rw [hsize]; exact h64, hlen, hin, hcount,
            by rw [hfr]; exact hsizes⟩

theorem sum_map_le {α : Type} (l : List α) (f : α → Nat) (n : Nat)
    (h : ∀ x ∈ l, f x ≤ n) : (l.map f).sum ≤ l.length * n := by
  induction l with
  | nil => simp
  | cons a rest ih =>
    simp only [List.map_cons, List.sum_cons, List.length_cons]
    have h1 := h a (List.mem_cons_self _ _)
    have h2 := ih (fun x hx => h x (List.mem_cons_of_mem _ hx))
    rw [Nat.add_mul, one_mul]
    omega

theorem mem_map_le_sum {α : Type} (l : List α) (f : α → Nat) (a : α) (h : a ∈ l) :
    f a ≤ (l.map f).sum := by
  induction l with
  | nil => exact absurd h (List.not_mem_nil a)
  | cons b rest ih =>
    simp only [List.map_cons, List.sum_cons]
    rcases List.mem_cons.mp h with rfl | h
    · omega
    · have := ih h
      omega

theorem os_file_get_size_blocks_le (env : Env) (os : os_state) (name : List Char) :
    os_file_get_size env os name / 4096 + 1
      ≤ (os.files.map (fun e => e.data.length / 4096 + 1)).sum + 1 := by
  unfold os_file_get_size os_file_data
  cases hfind : os.files.find? (fun e => e.name = os_entry_name env name) with
  | none =>
    simp only [Option.map_none', Option.getD_none, List.length_nil]
    omega
  | some e =>
    simp only [Option.map_some', Option.getD_some]
    have := mem_map_le_sum os.files (fun e => e.data.length / 4096 + 1) e
      (List.mem_of_find?_eq_some hfind)
    simp only [] at this
    omega

/-- The fuel of `log_online_bitmap_iterator_next` is at least the bound on the number of
rounds. -/
theorem bitmap_iterator_rounds_le_fuel (env : Env) (os : os_state) (i : log_bitmap_iterator_t)
    (hlen : i.in_files.files.length = i.in_files.count) :
    bitmap_iterator_rounds env os i ≤ log_online_bitmap_iterator_next_fuel os i := by
  unfold bitmap_iterator_rounds log_online_bitmap_iterator_next_fuel
  simp only [ MODIFIED_PAGE_BLOCK_SIZE]
  have h1 := sum_map_le (i.in_files.files.drop (i.in_i + 1))
    (fun f => os_file_get_size env os ((env.srv_data_home ++ f.name).take (env.FN_REFLEN - 1))
      / 4096 + 1)
    ((os.files.map (fun e => e.data.length / 4096 + 1)).sum + 1)
    (fun f _ => os_file_get_size_blocks_le env os _)
  have h2 : (i.in_files.files.drop (i.in_i + 1)).length ≤ i.in_files.count := by
    rw [List.length_drop, hlen]
    omega
  have h3 := Nat.mul_le_mul_right
    ((os.files.map (fun e => e.data.length / 4096 + 1)).sum + 1) h2
  have h4 : (i.in_files.count + 1)
      * ((os.files.map (fun e => e.data.length / 4096 + 1)).sum + 1)
      = i.in_files.count * ((os.files.map (fun e => e.data.length / 4096 + 1)).sum + 1)
        + ((os.files.map (fun e => e.data.length / 4096 + 1)).sum + 1) := by
    rw [Nat.add_mul, one_mul]
  simp only [] at h1
  omega

/-- A call of `log_online_bitmap_iterator_next` on an iterator that is in order returns:
every assertion of `log_online_read_bitmap_page` holds at the reads that it makes; and when it
returns `TRUE` the iterator is in order for the next call. -/
theorem bitmap_iterator_next_returns (env : Env) (os : os_state) (i : log_bitmap_iterator_t)
    (hok : bitmap_iterator_ok os i) :
    ∃ b os' i', log_online_bitmap_iterator_next env os i = some (b, os', i')
      ∧ os'.files = os.files ∧ (b = true → bitmap_iterator_ok os' i') := by
  unfold log_online_bitmap_iterator_next
  by_cases hbit : i.bit_offset < MODIFIED_PAGE_BLOCK_BITMAP_LEN
  · rw [if_pos hbit]
    exact ⟨true, os, _, rfl, rfl, fun _ => hok⟩
  · rw [if_neg hbit]
    exact bitmap_iterator_next_block_returns env _ os i hok
      (bitmap_iterator_rounds_le_fuel env os i hok.2.2.1)

/-! ## The iterator after `log_online_bitmap_iterator_init` -/

theorem setup_pass1_count_lt (range_start range_end : Nat) (entries : List os_file_stat_t) :
    ∀ st : bitmap_file_range_pass1, st.count < 2 ^ 64 →
      (entries.foldl (log_online_setup_bitmap_file_range_pass1 range_start range_end)
        st).count < 2 ^ 64 := by
  induction entries with
  | nil => intro st h; exact h
  | cons e rest ih =>
    intro st h
    rw [List.foldl_cons]
    apply ih
    unfold log_online_setup_bitmap_file_range_pass1
    split
    · exact h
    · split_ifs <;> first | exact h | exact Nat.mod_lt _ (by norm_num)

theorem setup_pass2_none (env : Env) (range_end first_seq first_lsn : Nat)
    (entries : List os_file_stat_t) :
    entries.foldl (log_online_setup_bitmap_file_range_pass2 env range_end first_seq first_lsn)
      none = none := by
  induction entries with
  | nil => rfl
  | cons e rest ih =>
    rw [List.foldl_cons]
    exact ih

theorem setup_pass2_length (env : Env) (range_end first_seq first_lsn : Nat)
    (entries : List os_file_stat_t) :
    ∀ files files' : List log_online_bitmap_file_range_entry,
      entries.foldl (log_online_setup_bitmap_file_range_pass2 env range_end first_seq
        first_lsn) (some files) = some files' → files'.length = files.length := by
  induction entries with
  | nil =>
    intro files files' h
    simp only [List.foldl_nil, Option.some.injEq] at h
    rw [h]
  | cons e rest ih =>
    intro files files' h
    rw [List.foldl_cons] at h
    cases hstep : log_online_setup_bitmap_file_range_pass2 env range_end first_seq first_lsn
        (some files) e with
    | none =>
      rw [hstep, setup_pass2_none] at h
      exact Option.noConfusion h
    | some files1 =>
      rw [hstep] at h
      have h1 := ih files1 files' h
      have h2 : files1.length = files.length := by
        unfold log_online_setup_bitmap_file_range_pass2 at hstep
        simp only [] at hstep
        split at hstep
        · simp only [Option.some.injEq] at hstep
          rw [← hstep]
        · split_ifs at hstep
          · simp only [Option.some.injEq] at hstep
            rw [← hstep]
          · split at hstep
            · exact Option.noConfusion hstep
            · split_ifs at hstep
              · simp only [Option.some.injEq] at hstep
                rw [← hstep, List.length_set]
              · simp only [Option.some.injEq] at hstep
                rw [← hstep]
      rw [h1, h2]

/-- The range that `log_online_setup_bitmap_file_range` returns with `TRUE`: the array has
`count` slots and `count` is a 64-bit value; the directory is as it was. -/
theorem setup_bitmap_file_range_true (env : Env) (os os1 : os_state)
    (range_start range_end : Nat) (r : log_online_bitmap_file_range_t)
    (h : log_online_setup_bitmap_file_range env os range_start range_end
      = some (true, os1, r)) :
    os1.files = os.files ∧ r.files.length = r.count ∧ r.count < 2 ^ 64 := by
  unfold log_online_setup_bitmap_file_range at h
  simp only [] at h
  have hf1 := os_file_opendir_files os
  rcases h1 : os_file_opendir os with ⟨opened, osa⟩
  rw [h1] at hf1 h
  have hf2 := os_file_closedir_files osa
  rcases h2 : os_file_closedir osa with ⟨failed, osb⟩
  rw [h2] at hf2 h
  have hf3 := os_file_opendir_files osb
  rcases h3 : os_file_opendir osb with ⟨opened2, osc⟩
  rw [h3] at hf3 h
  have hf4 := os_file_closedir_files osc
  rcases h4 : os_file_closedir osc with ⟨failed2, osd⟩
  rw [h4] at hf4 h
  simp only [] at hf1 hf2 hf3 hf4 h
  have hcnt := setup_pass1_count_lt range_start range_end (os_file_readdir osa)
    ⟨0, 2 ^ 64 - 1, 2 ^ 64 - 1⟩ (by norm_num)
  generalize (os_file_readdir osa).foldl
    (log_online_setup_bitmap_file_range_pass1 range_start range_end)
    ⟨0, 2 ^ 64 - 1, 2 ^ 64 - 1⟩ = st at h hcnt
  cases opened
  · simp at h
  · cases failed
    · simp only [Bool.not_true, Bool.false_eq_true, if_false] at h
      by_cases hassert : st.first_file_seq_num ≠ 2 ^ 64 - 1 ∨ st.count = 0
      · rw [if_neg (not_not.mpr hassert)] at h
        by_cases hzero : st.count = 0
        · rw [if_pos hzero] at h
          simp only [Option.some.injEq, Prod.mk.injEq, true_and] at h
          obtain ⟨rfl, rfl⟩ := h
          exact ⟨hf2.trans hf1, rfl, by norm_num⟩
        · rw [if_neg hzero] at h
          cases opened2
          · simp at h
          · simp only [Bool.not_true, Bool.false_eq_true, if_false] at h
            split at h
            · exact Option.noConfusion h
            · rename_i files hfiles
              have hlen := setup_pass2_length env range_end _ _ _ _ files hfiles
              cases failed2
              · simp only [Bool.false_eq_true, if_false, Option.some.injEq, Prod.mk.injEq,
                  true_and] at h
                obtain ⟨rfl, rfl⟩ := h
                refine ⟨hf4.trans (hf3.trans (hf2.trans hf1)), ?_, hcnt⟩
                simp only []
                rw [hlen, List.length_replicate]
              · simp at h
      · rw [if_pos hassert] at h
        exact Option.noConfusion h
    · simp at h

/-- An iterator that `log_online_bitmap_iterator_init` has initialised is in order. -/
theorem bitmap_iterator_init_ok_state (env : Env) (os os' : os_state)
    (i it : log_bitmap_iterator_t) (min_lsn max_lsn : Nat)
    (hsizes : ∀ e ∈ os.files, e.data.length < 2 ^ 64)
    (h : log_online_bitmap_iterator_init env os i min_lsn max_lsn = some (true, os', it)) :
    os'.files = os.files ∧ bitmap_iterator_ok os' it := by
  unfold log_online_bitmap_iterator_init at h
  split at h
  · exact Option.noConfusion h
  · simp at h
  · rename_i os1 in_files hsetup
    obtain ⟨hf1, hlen, hcnt⟩ := setup_bitmap_file_range_true env os os1 min_lsn max_lsn
      in_files hsetup
    simp only [] at h
    split_ifs at h with hpos
    split at h
    · exact Option.noConfusion h
    · rename_i file hfile
      obtain ⟨os2, hf2, hopen | hopen⟩ := open_bitmap_file_read_only_cases env os1 file.name
        i.in_file
      · rw [hopen] at h
        simp at h
      · rw [hopen] at h
        simp only [Bool.not_true, Bool.false_eq_true, if_false, Option.some.injEq,
          Prod.mk.injEq, true_and] at h
        obtain ⟨rfl, rfl⟩ := h
        have hs2 : ∀ e ∈ os2.files, e.data.length < 2 ^ 64 := by
          rw [hf2, hf1]
          exact hsizes
        exact ⟨hf2.trans hf1, rfl, os_file_get_size_lt env os2 _ (2 ^ 64) (by norm_num) hs2,
          hlen, hpos, hcnt, hs2⟩

/-! ## The preconditions of the block reads -/

/-- The iterator stays in order along a row of calls of `log_online_bitmap_iterator_next`
that return `TRUE`. -/
theorem bitmap_iterator_nth_ok_state (env : Env) (os : os_state) (i : log_bitmap_iterator_t)
    (hok : bitmap_iterator_ok os i) :
    ∀ (n : Nat) (os_n : os_state) (i_n : log_bitmap_iterator_t),
      log_online_bitmap_iterator_nth env os i n = some (true, os_n, i_n) →
      bitmap_iterator_ok os_n i_n := by
  intro n
  induction n with
  | zero =>
    intro os_n i_n h
    rw [log_online_bitmap_iterator_nth] at h
    simp only [Option.some.injEq, Prod.mk.injEq, true_and] at h
    obtain ⟨rfl, rfl⟩ := h
    exact hok
  | succ n ih =>
    intro os_n i_n h
    rw [log_online_bitmap_iterator_nth] at h
    split at h
    · rename_i os_m i_m hm
      obtain ⟨b, os2, i2, hnext, _, hb⟩ := bitmap_iterator_next_returns env os_m i_m
        (ih os_m i_m hm)
      rw [hnext] at h
      simp only [Option.some.injEq, Prod.mk.injEq] at h
      obtain ⟨rfl, rfl, rfl⟩ := h
      exact hb rfl
    · exact Option.noConfusion h

/-- The first part of `log_online_read_init` on a data directory whose last bitmap file of a
non-zero size can be opened. -/
theorem read_init_open_of_last_file (env : Env) (os : os_state) (s : log_bitmap_struct)
    (seq lsn0 : Nat) (name : List Char) (data : List byte) (hfault : os.faults = [])
    (hscan : (os_file_readdir os).foldl (log_online_read_init_scan env)
      (0, MIN_TRACKED_LSN env, []) = (seq, lsn0, name))
    (hseq : seq ≠ 0) (hdata : os_file_data env os name = some data) :
    log_online_read_init_open env os s
      = some (true, os,
          { s with
            out := ⟨name, name, data.length, data.length - data.length % 4096⟩
            out_seq_num := seq
            modified_pages := []
            page_free_list := [] }, lsn0) := by
  unfold log_online_read_init_open
  rw [os_file_opendir_ok os hfault]
  simp only [Bool.not_true, Bool.false_eq_true, if_false]
  rw [os_file_closedir_ok os hfault]
  simp only [Bool.false_eq_true, if_false, hscan, if_neg hseq]
  rw [os_file_open_ok env os name data hfault hdata]
  simp only [Bool.not_true, Bool.false_eq_true, if_false, os_file_get_size, hdata,
    Option.getD_some, MODIFIED_PAGE_BLOCK_SIZE]
  split_ifs with h
  · rfl
  · rw [not_not] at h
    rw [h, Nat.sub_zero]

/-- C33: the preconditions of the block reads hold.  `log_online_read_bitmap_page` returns
exactly when its three assertions hold, `size ≥ 4096`, `offset ≤ size - 4096` and
`offset % 4096 = 0`; a failed assertion ends the process, and so does every function that makes
the call.  In a data directory whose files are shorter than `2 ^ 64` bytes:
`log_online_read_init` is its first part `log_online_read_init_open`, which reads no block,
followed either by the start of a new file or by the call of
`log_online_read_last_tracked_lsn` in the state that the first part has left; in this state,
whatever the size of the file, the offset is a whole number of blocks within the size, the
call returns, so that every read it makes satisfies the assertions, and its backward loop ends
within `size / 4096 + 1` evaluations of the loop condition, that is after at most `size / 4096`
reads, one for each round.  And once `log_online_bitmap_iterator_init` has returned `TRUE`,
every call of `log_online_bitmap_iterator_next` in a row of calls that returned `TRUE` before it
returns, so that every read it makes satisfies the assertions, whatever the sizes of the
files. -/
theorem C33_read_preconditions_hold (env : Env) (os : os_state)
    (hsizes : ∀ e ∈ os.files, e.data.length < 2 ^ 64) :
    (∀ (bitmap_file : log_online_bitmap_file_t) (page : Page) (checksum_ok : Bool),
        (∃ r, log_online_read_bitmap_page env os bitmap_file page checksum_ok = some r)
          ↔ bitmap_file.size ≥ MODIFIED_PAGE_BLOCK_SIZE
            ∧ bitmap_file.offset ≤ bitmap_file.size - MODIFIED_PAGE_BLOCK_SIZE
            ∧ bitmap_file.offset % MODIFIED_PAGE_BLOCK_SIZE = 0)
      ∧ (∀ (log_sys : log_t) (s : log_bitmap_struct),
        log_online_read_init env os log_sys s
          = (log_online_read_init_open env os s).bind (fun p =>
              if p.1 then
                (log_online_read_last_tracked_lsn env p.2.1 p.2.2.1).bind
                  (fun r => log_online_read_init_track env r.2.1 log_sys r.2.2
                    (if r.1 = 0 then p.2.2.2 else r.1)
                    (max log_sys.last_checkpoint_lsn (MIN_TRACKED_LSN env)))
              else
                (log_online_start_bitmap_file env p.2.1 p.2.2.1).map
                  (fun r => log_online_read_init_finish r.1 log_sys r.2
                    (max log_sys.last_checkpoint_lsn (MIN_TRACKED_LSN env)))))
      ∧ (∀ (s : log_bitmap_struct),
        log_online_read_init_open env os s = none
          ↔ (os_file_opendir os).1 = false
            ∨ (os_file_closedir (os_file_opendir os).2).1 = true)
      ∧ (∀ (s s1 : log_bitmap_struct) (os1 : os_state) (lsn0 : Nat),
        log_online_read_init_open env os s = some (true, os1, s1, lsn0) →
        s1.out.offset % MODIFIED_PAGE_BLOCK_SIZE = 0
          ∧ s1.out.offset ≤ s1.out.size
          ∧ s1.out.size - s1.out.offset < MODIFIED_PAGE_BLOCK_SIZE
          ∧ (∃ st, log_online_read_last_tracked_lsn_loop env
              (s1.out.size / MODIFIED_PAGE_BLOCK_SIZE + 1)
              ⟨os1, s1, Page.zero, 0, false, s1.out.offset⟩ = some st)
          ∧ ∃ r, log_online_read_last_tracked_lsn env os1 s1 = some r
            ∧ ∀ log_sys : log_t, log_online_read_init env os log_sys s
              = log_online_read_init_track env r.2.1 log_sys r.2.2
                (if r.1 = 0 then lsn0 else r.1)
                (max log_sys.last_checkpoint_lsn (MIN_TRACKED_LSN env)))
      ∧ (∀ (i it : log_bitmap_iterator_t) (min_lsn max_lsn : Nat) (os1 : os_state),
        log_online_bitmap_iterator_init env os i min_lsn max_lsn = some (true, os1, it) →
        ∀ (n : Nat) (os_n : os_state) (i_n : log_bitmap_iterator_t),
          log_online_bitmap_iterator_nth env os1 it n = some (true, os_n, i_n) →
          ∃ r, log_online_bitmap_iterator_next env os_n i_n = some r) := by
  refine ⟨read_bitmap_page_asserts env os, read_init_eq_open env os,
    read_init_open_none_iff env os, ?_, ?_⟩
  · intro s s1 os1 lsn0 hopen
    obtain ⟨_, hoff, hsize⟩ := read_init_open_state env os os1 s s1 lsn0 hsizes hopen
    have halign : s1.out.offset % 4096 = 0 := by
      rw [hoff]
      simp only [ MODIFIED_PAGE_BLOCK_SIZE]
      omega
    have hle : s1.out.offset ≤ s1.out.size := by
      rw [hoff]
      omega
    obtain ⟨r, hr⟩ := read_last_tracked_lsn_returns env os1 s1 halign hle hsize
    refine ⟨halign, hle, ?_,
      read_last_tracked_lsn_loop_returns env
        (s1.out.size / MODIFIED_PAGE_BLOCK_SIZE + 1) ⟨os1, s1, Page.zero, 0, false, s1.out.offset⟩
        halign hle hsize (by simp only [ MODIFIED_PAGE_BLOCK_SIZE]; omega), r, hr, ?_⟩
    · rw [hoff]
      simp only [ MODIFIED_PAGE_BLOCK_SIZE]
      omega
    · intro log_sys
      rw [read_init_eq_open, hopen]
      simp only [Option.some_bind, if_true]
      rw [hr]
      rfl
  · intro i it min_lsn max_lsn os1 hinit n os_n i_n hn
    obtain ⟨_, hok⟩ := bitmap_iterator_init_ok_state env os os1 i it min_lsn max_lsn hsizes hinit
    obtain ⟨b, os2, i2, hnext, _, _⟩ := bitmap_iterator_next_returns env os_n i_n
      (bitmap_iterator_nth_ok_state env os1 it hok n os_n i_n hn)
    exact ⟨_, hnext⟩

/-- Witness of C33: the data directory whose only file holds one block and 2048 more bytes,
6144 bytes in all.  `log_online_read_init` opens the file and calls
`log_online_read_last_tracked_lsn` with the size 6144 and the offset rounded down to 4096, and
the call returns; and the first call of `log_online_bitmap_iterator_next` on the iterator over
this file returns. -/
theorem C33_read_preconditions_hold_witness :
    (∀ e ∈ os_tail_example.files, e.data.length < 2 ^ 64)
      ∧ log_online_read_init_open env_example os_tail_example bmp_sys_fresh_example
        = some (true, os_tail_example,
            { bmp_sys_fresh_example with
              out := ⟨"ib_modified_log_1_0.xdb".toList, "ib_modified_log_1_0.xdb".toList,
                6144, 4096⟩
              out_seq_num := 1
              modified_pages := []
              page_free_list := [] }, 0)
      ∧ (∃ r, log_online_read_last_tracked_lsn env_example os_tail_example
          { bmp_sys_fresh_example with
            out := ⟨"ib_modified_log_1_0.xdb".toList, "ib_modified_log_1_0.xdb".toList,
              6144, 4096⟩
            out_seq_num := 1
            modified_pages := []
            page_free_list := [] } = some r)
      ∧ ∃ os1 it r,
        log_online_bitmap_iterator_init env_example os_tail_example iterator_example 0 10000
          = some (true, os1, it)
        ∧ log_online_bitmap_iterator_next env_example os1 it = some r := by
  have hlen : (terminator_block_example.bytes ++ List.replicate 2048 (255 : byte)).length
      = 6144 := by
    rw [List.length_append, terminator_block_example.size_eq, List.length_replicate]
  have hsizes : ∀ e ∈ os_tail_example.files, e.data.length < 2 ^ 64 := by
    intro e he
    simp only [os_tail_example, List.mem_singleton] at he
    subst he
    simp only []
    rw [hlen]
    norm_num
  have hopen : log_online_read_init_open env_example os_tail_example bmp_sys_fresh_example
      = some (true, os_tail_example,
          { bmp_sys_fresh_example with
            out := ⟨"ib_modified_log_1_0.xdb".toList, "ib_modified_log_1_0.xdb".toList,
              6144, 4096⟩
            out_seq_num := 1
            modified_pages := []
            page_free_list := [] }, 0) := by
    rw [read_init_open_of_last_file env_example os_tail_example bmp_sys_fresh_example
      1 0 "ib_modified_log_1_0.xdb".toList
      (terminator_block_example.bytes ++ List.replicate 2048 255) rfl
      (read_init_scan_1_0 _ (by rw [hlen]; norm_num)) (by decide)
      (os_file_data_single env_example _ _ _ _ _ _ entry_name_1_0), hlen]
  have h := C33_read_preconditions_hold env_example os_tail_example hsizes
  obtain ⟨_, _, _, _, r, hr, _⟩ := h.2.2.2.1 _ _ _ _ hopen
  have hinit := bitmap_iterator_init_1_0
    (terminator_block_example.bytes ++ List.replicate 2048 255) []
  obtain ⟨r2, hr2⟩ := h.2.2.2.2 _ _ _ _ _ hinit 0 _ _ rfl
  exact ⟨hsizes, hopen, ⟨r, hr⟩, _, _, r2, hinit, hr2⟩

/-! ## A second startup directly after the first -/

end Log0Online
